import Mathlib

/-!
# Level Zero command-list encoder (`cmdlist_hw.inl`)

A shallow embedding of `CommandListCoreFamily` from
`level_zero/core/source/cmdlist/cmdlist_hw.inl`, and theorems about it.

Conventions of the embedding:

* `uintptr_t`, `size_t` and `uint64_t` are natural numbers reduced modulo `2 ^ 64`,
  `uint32_t` modulo `2 ^ 32`; every addition and subtraction of the source that can
  leave the range is written with an explicit reduction.
* A pointer that may be null is an `Option`; an array behind a pointer is a `List`.
* A function that reads through a pointer returns `Option`: `none` is the read through
  a null pointer or past the end of the array (no result code is produced).
* The command stream is the list of encoder calls made on it, oldest first.
-/

namespace L0

/-! ## Machine integers -/

/-- Number of values of a 64-bit unsigned integer (`uintptr_t`, `size_t`, `uint64_t`). -/
def UINT64_MOD : Nat := 18446744073709551616

/-- Number of values of a `uint32_t`. -/
def UINT32_MOD : Nat := 4294967296

/-- 64-bit unsigned addition. -/
def add64 (a b : Nat) : Nat := (a + b) % UINT64_MOD

/-- 64-bit unsigned subtraction: `a - b` wraps around when `b` exceeds `a`. -/
def sub64 (a b : Nat) : Nat := (a % UINT64_MOD + UINT64_MOD - b % UINT64_MOD) % UINT64_MOD

/-- The conversion `static_cast<uint32_t>(x)`. -/
def toUint32 (x : Nat) : Nat := x % UINT32_MOD

/-! ## Constants and helpers declared outside `cmdlist_hw.inl` -/

/-- Modelled from the spec: `MemoryConstants::cacheLineSize` is declared outside
`cmdlist_hw.inl`; the spec gives the hardware cache line as 64 bytes. -/
def MemoryConstants.cacheLineSize : Nat := 64

/-- Modelled from the spec: `isAligned<alignment>(ptr)` is declared outside
`cmdlist_hw.inl`; the spec reads `isAligned<4>` as "4-byte aligned". -/
def isAligned (alignment ptr : Nat) : Bool := ptr % alignment == 0

/-! ## `appendMemoryCopy`: the three segments of a linear copy -/

/-- The sizes of the left, middle and right segment of a linear copy. -/
structure CopySegments where
  leftSize : Nat
  middleSizeBytes : Nat
  rightSize : Nat
  deriving DecidableEq, Repr

/-- Lines 736-748 of `appendMemoryCopy`: the split of `[dstptr, dstptr + size)` at cache
lines, before the source pointer is looked at. -/
def appendMemoryCopy.segmentsBeforeCollapse (dstptr size : Nat) : CopySegments :=
  let start := dstptr
  let middleAlignment := MemoryConstants.cacheLineSize
  let leftSize := start % middleAlignment
  let leftSize := if leftSize > 0 then sub64 middleAlignment leftSize else 0
  let leftSize := min leftSize size
  let rightSize := add64 start size % middleAlignment
  let rightSize := min rightSize (sub64 size leftSize)
  let middleSizeBytes := sub64 (sub64 size leftSize) rightSize
  { leftSize := leftSize, middleSizeBytes := middleSizeBytes, rightSize := rightSize }

/-- Lines 736-753 of `appendMemoryCopy`: the segment sizes the copy is issued with. When
`srcptr + leftSize` is not 4-byte aligned the middle segment is folded into the left one. -/
def appendMemoryCopy.segments (dstptr srcptr size : Nat) : CopySegments :=
  let s := appendMemoryCopy.segmentsBeforeCollapse dstptr size
  if !isAligned 4 (add64 srcptr s.leftSize) then
    { leftSize := add64 s.leftSize s.middleSizeBytes, middleSizeBytes := 0, rightSize := s.rightSize }
  else
    s

/-! ## `appendMemoryFill`: the split of a fill into groups -/

/-- Lines 1029-1057 of `appendMemoryFill`: the group width of the fill kernel. A one-byte
pattern uses the SIMD size of the `FillBufferImmediate` kernel, any other pattern its own
length converted to `uint32_t`. -/
def appendMemoryFill.groupSizeX (patternSize simdSize : Nat) : Nat :=
  if patternSize = 1 then simdSize else toUint32 patternSize

/-- Line 1071 of `appendMemoryFill`: the group count of the main dispatch. -/
def appendMemoryFill.groups (size groupSizeX : Nat) : Nat :=
  toUint32 size / groupSizeX

/-- Line 1080 of `appendMemoryFill`: the size handled by the trailing dispatch. -/
def appendMemoryFill.groupRemainderSizeX (size groupSizeX : Nat) : Nat :=
  toUint32 size % groupSizeX

/-! ## Data model -/

/-- The result codes `cmdlist_hw.inl` returns. -/
inductive ze_result_t
  | ZE_RESULT_SUCCESS
  | ZE_RESULT_ERROR_INVALID_ARGUMENT
  | ZE_RESULT_ERROR_UNSUPPORTED_FEATURE
  | ZE_RESULT_ERROR_UNKNOWN
  deriving DecidableEq, Repr

/-- The memory type of a registered allocation; `getAlignedAllocation` and
`appendMemoryFill` test for the host and the shared unified kind. -/
inductive InternalMemoryType
  | NOT_SPECIFIED
  | SVM
  | DEVICE_UNIFIED_MEMORY
  | HOST_UNIFIED_MEMORY
  | SHARED_UNIFIED_MEMORY
  deriving DecidableEq, Repr

/-- The scope of an event's signal or wait; the code only tests for `NONE`. -/
inductive ze_event_scope_flag_t
  | ZE_EVENT_SCOPE_FLAG_NONE
  | ZE_EVENT_SCOPE_FLAG_SUBDEVICE
  | ZE_EVENT_SCOPE_FLAG_DEVICE
  | ZE_EVENT_SCOPE_FLAG_HOST
  deriving DecidableEq, Repr

/-- A `NEO::GraphicsAllocation` object: `id` is the identity of the object (two
allocations are the same object exactly when their ids agree). -/
structure GraphicsAllocation where
  id : Nat
  gpuAddress : Nat
  deriving DecidableEq, Repr

/-- An entry of the driver handle's allocation registry (`NEO::SvmAllocationData`), with
the byte size of the registered range. -/
structure SvmAllocationData where
  gpuAllocation : GraphicsAllocation
  size : Nat
  memoryType : InternalMemoryType
  deriving DecidableEq, Repr

/-- The fields of an `Event` the command list reads. -/
structure Event where
  allocation : GraphicsAllocation
  gpuAddress : Nat
  isTimestampEvent : Bool
  signalScope : ze_event_scope_flag_t
  waitScope : ze_event_scope_flag_t
  deriving DecidableEq, Repr

/-- An event handle; `none` is the null handle. -/
abbrev ze_event_handle_t := Option Event

/-- A kernel handle. -/
abbrev ze_kernel_handle_t := Nat

/-- The three group counts of a dispatch. -/
structure ze_group_count_t where
  groupCountX : Nat
  groupCountY : Nat
  groupCountZ : Nat
  deriving DecidableEq, Repr

/-- A non-null `const ze_group_count_t *`: either a struct on the host, given by its value,
or the address `&buffer[index]` of an element of the caller's argument buffer. -/
inductive GroupCountPtr
  | hostStruct (value : ze_group_count_t)
  | element (buffer : Nat) (index : Nat)
  deriving DecidableEq, Repr

/-- The data written by a post-sync operation: one of the two event states or a plain
value. -/
inductive ImmediateData
  | value (v : Nat)
  | STATE_CLEARED
  | STATE_SIGNALED
  deriving DecidableEq, Repr

/-- The compare operations of `MI_SEMAPHORE_WAIT`. -/
inductive COMPARE_OPERATION
  | COMPARE_OPERATION_SAD_GREATER_THAN_SDD
  | COMPARE_OPERATION_SAD_EQUAL_SDD
  | COMPARE_OPERATION_SAD_NOT_EQUAL_SDD
  deriving DecidableEq, Repr

/-- The post-sync operations of `PIPE_CONTROL`. -/
inductive POST_SYNC_OPERATION
  | POST_SYNC_OPERATION_NO_WRITE
  | POST_SYNC_OPERATION_WRITE_IMMEDIATE_DATA
  | POST_SYNC_OPERATION_WRITE_TIMESTAMP
  deriving DecidableEq, Repr

/-- A `Vec3<T>`. -/
structure Vec3 where
  x : Nat
  y : Nat
  z : Nat
  deriving DecidableEq, Repr

/-- The fields of `NEO::BlitProperties` (`blit_commands_helper.h`) the command list fills. -/
structure BlitProperties where
  dstAllocation : GraphicsAllocation
  srcAllocation : GraphicsAllocation
  dstGpuAddress : Nat
  srcGpuAddress : Nat
  copySize : Vec3
  dstOffset : Vec3
  srcOffset : Vec3
  dstRowPitch : Nat := 0
  dstSlicePitch : Nat := 0
  srcRowPitch : Nat := 0
  srcSlicePitch : Nat := 0
  bytesPerPixel : Nat := 0
  dstSize : Vec3 := { x := 0, y := 0, z := 0 }
  srcSize : Vec3 := { x := 0, y := 0, z := 0 }
  deriving DecidableEq, Repr

/-- One call of a hardware command encoder on the command stream, with the arguments the
command list passes. `walker` is not emitted by `cmdlist_hw.inl` itself: it stands for the
kernel launch of the per-family `appendLaunchKernelWithParams`. -/
inductive Command
  | miFlushDw (immediateDataGpuAddress : Nat) (immediateData : ImmediateData)
      (timeStampOperation : Bool) (commandWithPostSync : Bool)
  | pipeControl (dcFlushEnable : Bool)
  | pipeControlWithPostSync (operation : POST_SYNC_OPERATION) (gpuAddress : Nat)
      (immediateData : ImmediateData) (dcFlushEnable : Bool)
  | miSemaphoreWait (compareAddress : Nat) (compareData : Nat) (compareMode : COMPARE_OPERATION)
  | greaterThanPredicate (address : Nat) (value : Nat)
  | stateBaseAddress
  | batchBufferEnd
  | walker (hKernel : ze_kernel_handle_t) (groupCount : Option GroupCountPtr)
      (isIndirect : Bool) (isPredicate : Bool)
  | blitCommandsForBuffer (blitProperties : BlitProperties)
  | blitCommandsForImages (blitProperties : BlitProperties)
  | blitMemoryColorFill (dstAlloc : GraphicsAllocation) (pattern : List Nat)
      (patternSize : Nat) (size : Nat)
  | reservedSpace (size : Nat)
  deriving DecidableEq, Repr

/-- The state of the `NEO::CommandContainer` the command list owns. `maxAvailableSpace` and
`sizeUsed` are the byte counters of its command stream (a `LinearStream`); the byte sizes
of the encoded commands are hardware specific and not part of the embedding, so `sizeUsed`
moves only where this file asks the stream for raw space. -/
structure CommandContainer where
  commandStream : List Command := []
  residencyContainer : List GraphicsAllocation := []
  deallocationContainer : List GraphicsAllocation := []
  dirtyStateForAllHeaps : Bool := true
  maxAvailableSpace : Nat := 65536
  sizeUsed : Nat := 0
  deriving DecidableEq, Repr

/-- The two kinds of command list. -/
inductive CommandListType
  | TYPE_REGULAR
  | TYPE_IMMEDIATE
  deriving DecidableEq, Repr

/-- The state of a `CommandListCoreFamily` object. -/
structure CommandList where
  commandContainer : CommandContainer := {}
  hostPtrMap : List (Nat × GraphicsAllocation) := []
  printfFunctionContainer : List ze_kernel_handle_t := []
  isCopyOnlyCmdList : Bool := false
  cmdListType : CommandListType := CommandListType.TYPE_REGULAR
  deriving DecidableEq, Repr

/-- The image types `getInputBufferSize` and the pitch computations distinguish; any other
value of `NEO::ImageType` is `Invalid`. -/
inductive ImageType
  | Invalid
  | Image1D
  | Image1DArray
  | Image2D
  | Image2DArray
  | Image3D
  deriving DecidableEq, Repr

/-- A `ze_image_region_t`; all six fields are `uint32_t`. -/
structure ze_image_region_t where
  originX : Nat
  originY : Nat
  originZ : Nat
  width : Nat
  height : Nat
  depth : Nat
  deriving DecidableEq, Repr

/-- A `ze_copy_region_t`; all six fields are `uint32_t`. -/
structure ze_copy_region_t where
  originX : Nat
  originY : Nat
  originZ : Nat
  width : Nat
  height : Nat
  depth : Nat
  deriving DecidableEq, Repr

/-- What the command list reads of an `Image`: its allocation, the element size of its
surface format, the `imgDesc` of `getImageInfo()` (`size_t` extents and the image type) and
the `ze_image_desc_t` of `getImageDesc()` (a `uint64_t` width, `uint32_t` height and
depth). -/
structure Image where
  allocation : GraphicsAllocation
  imageElementSizeInBytes : Nat
  imageWidth : Nat
  imageHeight : Nat
  imageDepth : Nat
  imageType : ImageType
  descWidth : Nat
  descHeight : Nat
  descDepth : Nat
  deriving DecidableEq, Repr

/-- The built-in functions `cmdlist_hw.inl` asks the device for with `getFunction`. -/
inductive Builtin
  | CopyBufferToBufferSide
  | CopyBufferToBufferMiddle
  | CopyBufferRectBytes2d
  | CopyBufferRectBytes3d
  | CopyBufferToImage3dBytes
  | CopyBufferToImage3d2Bytes
  | CopyBufferToImage3d4Bytes
  | CopyBufferToImage3d8Bytes
  | CopyBufferToImage3d16Bytes
  | FillBufferImmediate
  | FillBufferSSHOffset
  deriving DecidableEq, Repr

/-- The built-in functions `cmdlist_hw.inl` asks the device for with `getImageFunction`. -/
inductive ImageBuiltin
  | CopyImage3dToBufferBytes
  | CopyImage3dToBuffer2Bytes
  | CopyImage3dToBuffer4Bytes
  | CopyImage3dToBuffer8Bytes
  | CopyImage3dToBuffer16Bytes
  | CopyImageRegion
  deriving DecidableEq, Repr

/-- A kernel object of the built-in functions library. -/
inductive BuiltinKernelId
  | function (builtin : Builtin)
  | imageFunction (builtin : ImageBuiltin)
  deriving DecidableEq, Repr

/-- A value bound to a kernel argument: a buffer address with its allocation
(`setArgBufferWithAlloc`), a redescribed image (`setArgRedescribedImage`), or plain data
given by its byte size and the values stored there (`setArgumentValue`). -/
inductive KernelArg
  | bufferWithAlloc (address : Nat) (alloc : GraphicsAllocation)
  | redescribedImage (image : Image)
  | value (size : Nat) (data : List Nat)
  deriving DecidableEq, Repr

/-- The state of a kernel object: its handle, the SIMD size of its descriptor, the group
size set on it and the arguments bound to it (index and value, the latest binding of an
index last). -/
structure Kernel where
  handle : ze_kernel_handle_t
  simdSize : Nat
  groupSize : Vec3 := { x := 1, y := 1, z := 1 }
  args : List (Nat × KernelArg) := []
  deriving DecidableEq, Repr

/-- A `const void *` to host memory that is read: the address, the bytes stored from that
address on, as far as they belong to the caller's buffer, and the bytes the host memory
holds past the end of that buffer (`beyond i` is the byte `i` places past the end). -/
structure HostMemory where
  address : Nat
  bytes : List Nat
  beyond : Nat → Nat := fun _ => 0

/-- The byte at the place `i` from the address of a pointer to host memory: a byte of the
buffer, or past its end the byte the host memory holds there. -/
def HostMemory.byte (m : HostMemory) (i : Nat) : Nat :=
  m.bytes.getD i (m.beyond (i - m.bytes.length))

/-- An allocation the memory manager makes with memory of its own: the allocation, the
address and size of its underlying buffer, and the bytes stored in the buffer. -/
structure InternalAllocation where
  allocation : GraphicsAllocation
  underlyingBuffer : Nat
  underlyingBufferSize : Nat
  bytes : List Nat
  deriving DecidableEq, Repr

/-- The state of the device and its driver handle, as far as the command list uses it. -/
structure Device where
  /-- The registry of allocations `findAllocationDataForRange` searches. -/
  svmAllocs : List SvmAllocationData := []
  /-- The GPU address the memory manager gives a shadow allocation made from a host
  pointer and a size. -/
  hostPtrGpuAddress : Nat → Nat → Nat
  /-- The allocations `allocateMemoryFromHostPtr` has created, oldest first. -/
  hostPtrAllocations : List GraphicsAllocation := []
  /-- The id the next created allocation gets. -/
  nextAllocationId : Nat := 0
  /-- The kernel objects of the built-in functions library. -/
  builtinFunctionsLib : BuiltinKernelId → Kernel
  /-- The host address the memory manager gives the buffer of an allocation of a given
  size that it makes with memory of its own. -/
  internalBufferAddress : Nat → Nat
  /-- The allocations the memory manager has made with memory of its own, oldest first. -/
  internalAllocations : List InternalAllocation := []

/-- The byte offsets of the fields of `KernelTimestampEvent` (its `offsetof` values); the
struct is declared outside `cmdlist_hw.inl`. -/
structure KernelTimestampEventLayout where
  contextStart : Nat
  globalStart : Nat
  contextEnd : Nat
  globalEnd : Nat

/-- What `cmdlist_hw.inl` uses and is defined elsewhere: the per-family member functions of
the command list, the immediate command queue, the surface-state alignment of the hardware
family and the layout of `KernelTimestampEvent`. They are parameters of the embedding. -/
structure External where
  /-- `appendLaunchKernelWithParams(hKernel, pThreadGroupDimensions, hEvent, isIndirect,
  isPredicate)`. -/
  appendLaunchKernelWithParams : CommandList → ze_kernel_handle_t → Option GroupCountPtr →
    ze_event_handle_t → Bool → Bool → ze_result_t × CommandList
  /-- `appendEventForProfiling(hEvent, beforeWalker)`. -/
  appendEventForProfiling : CommandList → ze_event_handle_t → Bool → CommandList
  /-- `applyMemoryRangesBarrier(numRanges, pRangeSizes, pRanges)`. -/
  applyMemoryRangesBarrier : CommandList → Nat → Option (List Nat) → Option (List Nat) →
    CommandList
  /-- `cmdQImmediate->executeCommandLists(1, &handle, nullptr, performMigration)`. -/
  executeCommandLists : CommandList → Bool → CommandList
  /-- `cmdQImmediate->synchronize(timeout)`. -/
  synchronize : CommandList → Nat → CommandList
  /-- The alignment `EncodeSurfaceState<GfxFamily>::getSshAlignedPointer` aligns to. -/
  surfaceBaseAddressAlignment : Nat
  /-- The layout of `KernelTimestampEvent`. -/
  timestampLayout : KernelTimestampEventLayout
  /-- `Kernel::suggestGroupSize(globalSizeX, globalSizeY, globalSizeZ, &groupSizeX,
  &groupSizeY, &groupSizeZ)`: the result code and the three suggested sizes. -/
  suggestGroupSize : Kernel → Nat → Nat → Nat → ze_result_t × Vec3
  /-- The result code of `Kernel::setGroupSize(groupSizeX, groupSizeY, groupSizeZ)`. -/
  setGroupSizeResult : Kernel → Nat → Nat → Nat → ze_result_t
  /-- `useMemCopyToBlitFill(patternSize)`. -/
  useMemCopyToBlitFill : Nat → Bool
  /-- `Device::allocateManagedMemoryFromHostPtr(buffer, size, commandList)`: the allocation
  (`none` for `nullptr`) and the device and the command list afterwards. -/
  allocateManagedMemoryFromHostPtr : Device → CommandList → Nat → Nat →
    Option GraphicsAllocation × Device × CommandList

/-! ## Collaborators of the command list -/

/-- Modelled from the spec: `CommandContainer::addToResidencyContainer` is defined outside
`cmdlist_hw.inl`; it registers the allocation in the residency container (duplicates are
removed by `close`). -/
def CommandContainer.addToResidencyContainer (cc : CommandContainer)
    (alloc : GraphicsAllocation) : CommandContainer :=
  { cc with residencyContainer := cc.residencyContainer ++ [alloc] }

/-- One encoder call on the command stream of the container. -/
def CommandContainer.encode (cc : CommandContainer) (cmd : Command) : CommandContainer :=
  { cc with commandStream := cc.commandStream ++ [cmd] }

/-- Modelled from the spec: `CommandContainer::removeDuplicatesFromResidencyContainer` is
defined outside `cmdlist_hw.inl`; `close` "deduplicates the residency set". -/
def CommandContainer.removeDuplicatesFromResidencyContainer (cc : CommandContainer) :
    CommandContainer :=
  { cc with residencyContainer := cc.residencyContainer.dedup }

/-- Modelled from the spec: `CommandContainer::reset` is defined outside `cmdlist_hw.inl`;
`reset` "clears encoded commands and housekeeping lists". -/
def CommandContainer.reset (cc : CommandContainer) : CommandContainer :=
  { cc with commandStream := [], residencyContainer := [], deallocationContainer := [],
            sizeUsed := 0 }

/-- The method `setDirtyStateForAllHeaps` of the container. -/
def CommandContainer.setDirtyStateForAllHeaps (cc : CommandContainer) (dirty : Bool) :
    CommandContainer :=
  { cc with dirtyStateForAllHeaps := dirty }

/-- Modelled from the spec: `DriverHandle::findAllocationDataForRange` is defined outside
`cmdlist_hw.inl`; it "looks up an existing GPU allocation covering
`[devicePtr, devicePtr+size)`". -/
def Device.findAllocationDataForRange (device : Device) (buffer size : Nat) :
    Option SvmAllocationData :=
  device.svmAllocs.find? fun d =>
    decide (d.gpuAllocation.gpuAddress ≤ buffer
      ∧ buffer + size ≤ d.gpuAllocation.gpuAddress + d.size)

/-- Modelled from the spec: `Device::allocateMemoryFromHostPtr` is defined outside
`cmdlist_hw.inl`; it "allocates a new GPU-visible shadow allocation backed by the host pointer" and has
no error path. -/
def Device.allocateMemoryFromHostPtr (device : Device) (buffer size : Nat) :
    GraphicsAllocation × Device :=
  let alloc : GraphicsAllocation :=
    { id := device.nextAllocationId, gpuAddress := device.hostPtrGpuAddress buffer size }
  (alloc, { device with hostPtrAllocations := device.hostPtrAllocations ++ [alloc],
                        nextAllocationId := device.nextAllocationId + 1 })

/-- Modelled from the spec: `hostPtrMap` is declared outside `cmdlist_hw.inl`; the spec
calls it a "host-pointer map keyed by the original pointer". `insert` on a map with unique
keys keeps the entry of a key that is already present. -/
def hostPtrMapInsert (m : List (Nat × GraphicsAllocation)) (buffer : Nat)
    (alloc : GraphicsAllocation) : List (Nat × GraphicsAllocation) :=
  if m.any (fun e => e.1 == buffer) then m else m ++ [(buffer, alloc)]

/-- Modelled from the spec: `EncodeSurfaceState<GfxFamily>::getSshAlignedPointer(ptr,
offset)` is defined outside `cmdlist_hw.inl`; the spec gives the aligned base as
`devicePtr - (devicePtr mod hardwareAlignment)` and the offset as the subtracted
remainder. The result is the new `ptr` and the `offset`. -/
def getSshAlignedPointer (ext : External) (ptr : Nat) : Nat × Nat :=
  let offset := ptr % ext.surfaceBaseAddressAlignment
  (ptr - offset, offset)

/-! ## `getAlignedAllocation` -/

/-- The record `getAlignedAllocation` returns. -/
structure AlignedAllocationData where
  alignedAllocationPtr : Nat
  offset : Nat
  alloc : GraphicsAllocation
  needsFlush : Bool
  deriving DecidableEq, Repr

/-- Lines 1198-1232: `getAlignedAllocation(device, buffer, bufferSize)`. The result comes
with the state of the command list (its `hostPtrMap`) and of the device afterwards. -/
def getAlignedAllocation (ext : External) (cl : CommandList) (device : Device)
    (buffer bufferSize : Nat) : AlignedAllocationData × CommandList × Device :=
  let allocData := device.findAllocationDataForRange buffer bufferSize
  let sourcePtr := buffer
  let offset := (getSshAlignedPointer ext sourcePtr).2
  match allocData with
  | none =>
    let (alloc, device) := device.allocateMemoryFromHostPtr buffer bufferSize
    let cl := { cl with hostPtrMap := hostPtrMapInsert cl.hostPtrMap buffer alloc }
    let alignedPtr := sub64 alloc.gpuAddress offset
    ({ alignedAllocationPtr := alignedPtr, offset := offset, alloc := alloc,
       needsFlush := true }, cl, device)
  | some allocData =>
    let alloc := allocData.gpuAllocation
    let alignedPtr := sub64 buffer offset
    let hostPointerNeedsFlush :=
      allocData.memoryType == InternalMemoryType.HOST_UNIFIED_MEMORY
        || allocData.memoryType == InternalMemoryType.SHARED_UNIFIED_MEMORY
    ({ alignedAllocationPtr := alignedPtr, offset := offset, alloc := alloc,
       needsFlush := hostPointerNeedsFlush }, cl, device)

/-! ## Event synchronisation -/

/-- Lines 1252-1271: `appendSignalEvent(hEvent)`. A null handle is read through. -/
def appendSignalEvent (cl : CommandList) (hEvent : ze_event_handle_t) :
    Option (ze_result_t × CommandList) :=
  match hEvent with
  | none => none
  | some event =>
    let cc := cl.commandContainer.addToResidencyContainer event.allocation
    let cc :=
      if cl.isCopyOnlyCmdList then
        cc.encode (Command.miFlushDw event.gpuAddress ImmediateData.STATE_SIGNALED false true)
      else
        let dcFlushEnable :=
          if event.signalScope = ze_event_scope_flag_t.ZE_EVENT_SCOPE_FLAG_NONE then false
          else true
        cc.encode (Command.pipeControlWithPostSync
          POST_SYNC_OPERATION.POST_SYNC_OPERATION_WRITE_IMMEDIATE_DATA event.gpuAddress
          ImmediateData.STATE_SIGNALED dcFlushEnable)
    some (ze_result_t.ZE_RESULT_SUCCESS, { cl with commandContainer := cc })

/-- Lines 1150-1161: `appendSignalEventPostWalker(hEvent)`. -/
def appendSignalEventPostWalker (ext : External) (cl : CommandList)
    (hEvent : ze_event_handle_t) : Option CommandList :=
  match hEvent with
  | none => some cl
  | some event =>
    if event.isTimestampEvent then
      some (ext.appendEventForProfiling cl hEvent false)
    else
      (appendSignalEvent cl hEvent).map Prod.snd

/-- Lines 1285-1306: the body of the loop of `appendWaitOnEvents` for one event. -/
def appendWaitOnEvents.body (ext : External) (cl : CommandList) (event : Event) :
    CommandList :=
  let cc := cl.commandContainer.addToResidencyContainer event.allocation
  let gpuAddr := event.gpuAddress
  let gpuAddr :=
    if event.isTimestampEvent then add64 gpuAddr ext.timestampLayout.contextEnd else gpuAddr
  let eventStateClear := UINT32_MOD - 1
  let cc := cc.encode (Command.miSemaphoreWait gpuAddr eventStateClear
    COMPARE_OPERATION.COMPARE_OPERATION_SAD_NOT_EQUAL_SDD)
  let dcFlushEnable :=
    if event.waitScope = ze_event_scope_flag_t.ZE_EVENT_SCOPE_FLAG_NONE then false else true
  let cc :=
    if dcFlushEnable then
      if cl.isCopyOnlyCmdList then
        cc.encode (Command.miFlushDw 0 (ImmediateData.value 0) false false)
      else
        cc.encode (Command.pipeControl true)
    else cc
  { cl with commandContainer := cc }

/-- Lines 1284-1307: the loop `for (i = 0; i < numEvents; i++)` of `appendWaitOnEvents`,
from index `i` with `remaining = numEvents - i` rounds to go. Reading `phEvent[i]` through
a null `phEvent` or past the end of the array, and reading through a null handle, give
`none`. -/
def appendWaitOnEvents.loop (ext : External) (phEvent : Option (List ze_event_handle_t)) :
    CommandList → Nat → Nat → Option CommandList
  | cl, _, 0 => some cl
  | cl, i, remaining + 1 =>
    match phEvent with
    | none => none
    | some handles =>
      match handles.get? i with
      | none => none
      | some none => none
      | some (some event) =>
        appendWaitOnEvents.loop ext phEvent (appendWaitOnEvents.body ext cl event) (i + 1)
          remaining

/-- Lines 1273-1310: `appendWaitOnEvents(numEvents, phEvent)`. -/
def appendWaitOnEvents (ext : External) (cl : CommandList) (numEvents : Nat)
    (phEvent : Option (List ze_event_handle_t)) : Option (ze_result_t × CommandList) :=
  (appendWaitOnEvents.loop ext phEvent cl 0 numEvents).map fun cl =>
    (ze_result_t.ZE_RESULT_SUCCESS, cl)

/-- Lines 1234-1250: `addEventsToCmdList(hEvent, numWaitEvents, phWaitEvents)`. -/
def addEventsToCmdList (ext : External) (cl : CommandList) (hEvent : ze_event_handle_t)
    (numWaitEvents : Nat) (phWaitEvents : Option (List ze_event_handle_t)) :
    Option (ze_result_t × CommandList) :=
  if numWaitEvents > 0 then
    match phWaitEvents with
    | some handles =>
      (appendWaitOnEvents ext cl numWaitEvents (some handles)).map fun r =>
        (ze_result_t.ZE_RESULT_SUCCESS, ext.appendEventForProfiling r.2 hEvent true)
    | none => some (ze_result_t.ZE_RESULT_ERROR_INVALID_ARGUMENT, cl)
  else
    some (ze_result_t.ZE_RESULT_SUCCESS, ext.appendEventForProfiling cl hEvent true)

/-! ## Lifecycle -/

/-- Lines 71-79: `close()`. -/
def close (cl : CommandList) : ze_result_t × CommandList :=
  let cc := cl.commandContainer.removeDuplicatesFromResidencyContainer
  let cc := cc.encode Command.batchBufferEnd
  (ze_result_t.ZE_RESULT_SUCCESS, { cl with commandContainer := cc })

/-- Modelled from the spec: `removeDeallocationContainerData` is defined outside
`cmdlist_hw.inl`; `reset` "clears ... the deallocation list". -/
def removeDeallocationContainerData (cl : CommandList) : CommandList :=
  { cl with commandContainer := { cl.commandContainer with deallocationContainer := [] } }

/-- Modelled from the spec: `removeHostPtrAllocations` is defined outside `cmdlist_hw.inl`;
`reset` "clears ... host-pointer shadow allocations". -/
def removeHostPtrAllocations (cl : CommandList) : CommandList :=
  { cl with hostPtrMap := [] }

/-- Lines 1323-1334: `reset()`. -/
def reset (cl : CommandList) : ze_result_t × CommandList :=
  let cl := { cl with printfFunctionContainer := [] }
  let cl := removeDeallocationContainerData cl
  let cl := removeHostPtrAllocations cl
  let cc := cl.commandContainer.reset
  let cc := cc.encode Command.stateBaseAddress
  let cc := cc.setDirtyStateForAllHeaps false
  (ze_result_t.ZE_RESULT_SUCCESS, { cl with commandContainer := cc })

/-- Lines 60-69: `executeCommandListImmediate(performMigration)`. -/
def executeCommandListImmediate (ext : External) (cl : CommandList)
    (performMigration : Bool) : ze_result_t × CommandList :=
  let cl := (close cl).2
  let cl := ext.executeCommandLists cl performMigration
  let cl := ext.synchronize cl (UINT32_MOD - 1)
  let cl := (reset cl).2
  (ze_result_t.ZE_RESULT_SUCCESS, cl)

/-- Modelled from the spec: `LinearStream::getAvailableSpace` is defined outside
`cmdlist_hw.inl`; it is the space that "remains" in the command buffer. -/
def CommandContainer.getAvailableSpace (cc : CommandContainer) : Nat :=
  cc.maxAvailableSpace - cc.sizeUsed

/-- Modelled from the spec: `LinearStream::getSpace(size)` is defined outside
`cmdlist_hw.inl`; it "allocates raw bytes directly in the command buffer". The result is
the pointer to the bytes, given by their offset in the stream, and the container
afterwards. -/
def CommandContainer.getSpace (cc : CommandContainer) (size : Nat) : Nat × CommandContainer :=
  (cc.sizeUsed, { cc with commandStream := cc.commandStream ++ [Command.reservedSpace size],
                          sizeUsed := cc.sizeUsed + size })

/-- Lines 1312-1321: `reserveSpace(size, ptr)`. The second component is the pointer stored
in `*ptr`, `none` for `nullptr`. -/
def reserveSpace (cl : CommandList) (size : Nat) : ze_result_t × Option Nat × CommandList :=
  let availableSpace := cl.commandContainer.getAvailableSpace
  if availableSpace < size then
    (ze_result_t.ZE_RESULT_SUCCESS, none, cl)
  else
    let (ptr, cc) := cl.commandContainer.getSpace size
    (ze_result_t.ZE_RESULT_SUCCESS, some ptr, { cl with commandContainer := cc })

/-! ## Kernel launches and barriers -/

/-- Lines 84-102: `appendLaunchKernel`. -/
def appendLaunchKernel (ext : External) (cl : CommandList) (hKernel : ze_kernel_handle_t)
    (pThreadGroupDimensions : Option GroupCountPtr) (hEvent : ze_event_handle_t)
    (numWaitEvents : Nat) (phWaitEvents : Option (List ze_event_handle_t)) :
    Option (ze_result_t × CommandList) :=
  match addEventsToCmdList ext cl hEvent numWaitEvents phWaitEvents with
  | none => none
  | some (res, cl) =>
    if res = ze_result_t.ZE_RESULT_ERROR_INVALID_ARGUMENT then
      some (ze_result_t.ZE_RESULT_ERROR_INVALID_ARGUMENT, cl)
    else
      some (ext.appendLaunchKernelWithParams cl hKernel pThreadGroupDimensions hEvent false
        false)

/-- Lines 114-131: `appendLaunchKernelIndirect`. -/
def appendLaunchKernelIndirect (ext : External) (cl : CommandList)
    (hKernel : ze_kernel_handle_t) (pDispatchArgumentsBuffer : Option GroupCountPtr)
    (hEvent : ze_event_handle_t) (numWaitEvents : Nat)
    (phWaitEvents : Option (List ze_event_handle_t)) : Option (ze_result_t × CommandList) :=
  match addEventsToCmdList ext cl hEvent numWaitEvents phWaitEvents with
  | none => none
  | some (res, cl) =>
    if res = ze_result_t.ZE_RESULT_ERROR_INVALID_ARGUMENT then
      some (ze_result_t.ZE_RESULT_ERROR_INVALID_ARGUMENT, cl)
    else
      let (ret, cl) :=
        ext.appendLaunchKernelWithParams cl hKernel pDispatchArgumentsBuffer none true false
      (appendSignalEventPostWalker ext cl hEvent).map fun cl => (ret, cl)

/-- Lines 149-159: the loop of `appendLaunchMultipleKernelsIndirect`, from index `i` with
`remaining = numKernels - i` rounds to go. The first component of the result is the result
code of an early `return ret`, or `none` when the loop ran to its end. Reading
`phKernels[i]` through a null pointer or past the end of the array gives `none`. -/
def appendLaunchMultipleKernelsIndirect.loop (ext : External)
    (phKernels : Option (List ze_kernel_handle_t)) (pNumLaunchArguments : Nat)
    (pLaunchArgumentsBuffer : Option Nat) :
    CommandList → Nat → Nat → Option (Option ze_result_t × CommandList)
  | cl, _, 0 => some (none, cl)
  | cl, i, remaining + 1 =>
    let cl := { cl with commandContainer :=
      cl.commandContainer.encode (Command.greaterThanPredicate pNumLaunchArguments i) }
    match phKernels with
    | none => none
    | some kernels =>
      match kernels.get? i with
      | none => none
      | some hKernel =>
        let (ret, cl) := ext.appendLaunchKernelWithParams cl hKernel
          (pLaunchArgumentsBuffer.map fun buffer => GroupCountPtr.element buffer i)
          none true true
        if ret ≠ ze_result_t.ZE_RESULT_SUCCESS then some (some ret, cl)
        else
          appendLaunchMultipleKernelsIndirect.loop ext phKernels pNumLaunchArguments
            pLaunchArgumentsBuffer cl (i + 1) remaining

/-- Lines 133-164: `appendLaunchMultipleKernelsIndirect`. `pNumLaunchArguments` is the
address the predicate reads, `pLaunchArgumentsBuffer` the address of the argument buffer
(`none` when null). -/
def appendLaunchMultipleKernelsIndirect (ext : External) (cl : CommandList)
    (numKernels : Nat) (phKernels : Option (List ze_kernel_handle_t))
    (pNumLaunchArguments : Nat) (pLaunchArgumentsBuffer : Option Nat)
    (hEvent : ze_event_handle_t) (numWaitEvents : Nat)
    (phWaitEvents : Option (List ze_event_handle_t)) : Option (ze_result_t × CommandList) :=
  match addEventsToCmdList ext cl hEvent numWaitEvents phWaitEvents with
  | none => none
  | some (res, cl) =>
    if res = ze_result_t.ZE_RESULT_ERROR_INVALID_ARGUMENT then
      some (ze_result_t.ZE_RESULT_ERROR_INVALID_ARGUMENT, cl)
    else
      match appendLaunchMultipleKernelsIndirect.loop ext phKernels pNumLaunchArguments
          pLaunchArgumentsBuffer cl 0 numKernels with
      | none => none
      | some (some ret, cl) => some (ret, cl)
      | some (none, cl) =>
        (appendSignalEventPostWalker ext cl hEvent).map fun cl =>
          (ze_result_t.ZE_RESULT_SUCCESS, cl)

/-- Lines 187-206: `appendBarrier`. -/
def appendBarrier (ext : External) (cl : CommandList) (hSignalEvent : ze_event_handle_t)
    (numWaitEvents : Nat) (phWaitEvents : Option (List ze_event_handle_t)) :
    Option (ze_result_t × CommandList) :=
  match addEventsToCmdList ext cl hSignalEvent numWaitEvents phWaitEvents with
  | none => none
  | some (res, cl) =>
    if res = ze_result_t.ZE_RESULT_ERROR_INVALID_ARGUMENT then
      some (ze_result_t.ZE_RESULT_ERROR_INVALID_ARGUMENT, cl)
    else
      let cc :=
        if cl.isCopyOnlyCmdList then
          cl.commandContainer.encode (Command.miFlushDw 0 (ImmediateData.value 0) false false)
        else
          cl.commandContainer.encode (Command.pipeControl false)
      let cl := { cl with commandContainer := cc }
      (appendSignalEventPostWalker ext cl hSignalEvent).map fun cl =>
        (ze_result_t.ZE_RESULT_SUCCESS, cl)

/-- Lines 208-229: `appendMemoryRangesBarrier`. -/
def appendMemoryRangesBarrier (ext : External) (cl : CommandList) (numRanges : Nat)
    (pRangeSizes : Option (List Nat)) (pRanges : Option (List Nat))
    (hSignalEvent : ze_event_handle_t) (numWaitEvents : Nat)
    (phWaitEvents : Option (List ze_event_handle_t)) : Option (ze_result_t × CommandList) :=
  match addEventsToCmdList ext cl hSignalEvent numWaitEvents phWaitEvents with
  | none => none
  | some (res, cl) =>
    if res = ze_result_t.ZE_RESULT_ERROR_INVALID_ARGUMENT then
      some (ze_result_t.ZE_RESULT_ERROR_INVALID_ARGUMENT, cl)
    else
      let cl := ext.applyMemoryRangesBarrier cl numRanges pRangeSizes pRanges
      match appendSignalEventPostWalker ext cl hSignalEvent with
      | none => none
      | some cl =>
        let cl :=
          if cl.cmdListType = CommandListType.TYPE_IMMEDIATE then
            (executeCommandListImmediate ext cl true).2
          else cl
        some (ze_result_t.ZE_RESULT_SUCCESS, cl)

/-! ## Kernel objects and blit properties -/

/-- Modelled from the spec: the argument setters of `Kernel` are defined outside
`cmdlist_hw.inl`; `setArgumentValue(index, size, data)` and its siblings bind a value to
the argument `index`, replacing an earlier binding of that index. -/
def Kernel.setArg (k : Kernel) (index : Nat) (arg : KernelArg) : Kernel :=
  { k with args := k.args.filter (fun a => a.1 != index) ++ [(index, arg)] }

/-- The method `setArgBufferWithAlloc(index, address, alloc)`. -/
def Kernel.setArgBufferWithAlloc (k : Kernel) (index address : Nat)
    (alloc : GraphicsAllocation) : Kernel :=
  k.setArg index (KernelArg.bufferWithAlloc address alloc)

/-- The method `setArgRedescribedImage(index, hImage)`. -/
def Kernel.setArgRedescribedImage (k : Kernel) (index : Nat) (image : Image) : Kernel :=
  k.setArg index (KernelArg.redescribedImage image)

/-- The method `setArgumentValue(index, size, &data)`. -/
def Kernel.setArgumentValue (k : Kernel) (index size : Nat) (data : List Nat) : Kernel :=
  k.setArg index (KernelArg.value size data)

/-- Modelled from the spec: `Kernel::setGroupSize` is defined outside `cmdlist_hw.inl`;
`setGroupSize(groupSize) -> ok|fail`. Whether it succeeds is a parameter of the embedding;
when it does, the group size is set on the kernel. -/
def Kernel.setGroupSize (ext : External) (k : Kernel) (x y z : Nat) : ze_result_t × Kernel :=
  let res := ext.setGroupSizeResult k x y z
  (res, if res = ze_result_t.ZE_RESULT_SUCCESS then { k with groupSize := { x := x, y := y, z := z } }
        else k)

/-- The kernel object `getFunction` or `getImageFunction` returns. -/
def Device.getKernel (device : Device) (id : BuiltinKernelId) : Kernel :=
  device.builtinFunctionsLib id

/-- The device after the kernel object `id` has been changed to `k`. -/
def Device.setKernel (device : Device) (id : BuiltinKernelId) (k : Kernel) : Device :=
  { device with builtinFunctionsLib := Function.update device.builtinFunctionsLib id k }

/-- Modelled from the spec: `BlitProperties::constructPropertiesForCopyBuffer` is declared
in `blit_commands_helper.h`, its body is not in the header; a `BlitProperties` is the
"descriptor of a single copy-engine operation: source/destination allocation references,
3D offsets, 3D copy size, row/slice pitches". -/
def BlitProperties.constructPropertiesForCopyBuffer (dstAllocation srcAllocation : GraphicsAllocation)
    (dstOffset srcOffset copySize : Vec3)
    (srcRowPitch srcSlicePitch dstRowPitch dstSlicePitch : Nat) : BlitProperties :=
  { dstAllocation := dstAllocation, srcAllocation := srcAllocation,
    dstGpuAddress := dstAllocation.gpuAddress, srcGpuAddress := srcAllocation.gpuAddress,
    copySize := copySize, dstOffset := dstOffset, srcOffset := srcOffset,
    dstRowPitch := dstRowPitch, dstSlicePitch := dstSlicePitch,
    srcRowPitch := srcRowPitch, srcSlicePitch := srcSlicePitch }

/-- The test `a % gx || b % gy || c % gz` of the region operations, evaluated from left to
right as `||` does; a remainder by zero has no result. -/
def notDivisible3 (a b c gx gy gz : Nat) : Option Bool :=
  if gx = 0 then none
  else if a % gx ≠ 0 then some true
  else if gy = 0 then none
  else if b % gy ≠ 0 then some true
  else if gz = 0 then none
  else some (decide (c % gz ≠ 0))

/-- The test `a % gx || b % gy` of `appendMemoryCopyKernel2d`. -/
def notDivisible2 (a b gx gy : Nat) : Option Bool :=
  if gx = 0 then none
  else if a % gx ≠ 0 then some true
  else if gy = 0 then none
  else some (decide (b % gy ≠ 0))

/-! ## The blit path -/

/-- Lines 617-633: `appendMemoryCopyBlit`. -/
def appendMemoryCopyBlit (ext : External) (cl : CommandList) (dstPtrAlloc : GraphicsAllocation)
    (dstOffset : Nat) (srcPtrAlloc : GraphicsAllocation) (srcOffset : Nat) (size : Nat)
    (hSignalEvent : ze_event_handle_t) : Option (ze_result_t × CommandList) :=
  let blitProperties := BlitProperties.constructPropertiesForCopyBuffer dstPtrAlloc srcPtrAlloc
    { x := dstOffset, y := 0, z := 0 } { x := srcOffset, y := 0, z := 0 }
    { x := size, y := 0, z := 0 } 0 0 0 0
  let cc := cl.commandContainer.addToResidencyContainer dstPtrAlloc
  let cc := cc.addToResidencyContainer srcPtrAlloc
  let cl := ext.appendEventForProfiling { cl with commandContainer := cc } hSignalEvent true
  let cl := { cl with commandContainer :=
    cl.commandContainer.encode (Command.blitCommandsForBuffer blitProperties) }
  (appendSignalEventPostWalker ext cl hSignalEvent).map fun cl =>
    (ze_result_t.ZE_RESULT_SUCCESS, cl)

/-- Lines 635-658: `appendMemoryCopyBlitRegion`. -/
def appendMemoryCopyBlitRegion (ext : External) (cl : CommandList)
    (srcAlloc dstAlloc : GraphicsAllocation) (srcRegion dstRegion : ze_copy_region_t)
    (copySize : Vec3) (srcRowPitch srcSlicePitch dstRowPitch dstSlicePitch : Nat)
    (srcSize dstSize : Nat) (hSignalEvent : ze_event_handle_t) :
    Option (ze_result_t × CommandList) :=
  let srcPtrOffset : Vec3 :=
    { x := srcRegion.originX, y := srcRegion.originY, z := srcRegion.originZ }
  let dstPtrOffset : Vec3 :=
    { x := dstRegion.originX, y := dstRegion.originY, z := dstRegion.originZ }
  let blitProperties := BlitProperties.constructPropertiesForCopyBuffer dstAlloc srcAlloc
    dstPtrOffset srcPtrOffset copySize srcRowPitch srcSlicePitch dstRowPitch dstSlicePitch
  let cc := cl.commandContainer.addToResidencyContainer dstAlloc
  let cc := cc.addToResidencyContainer srcAlloc
  let cl := ext.appendEventForProfiling { cl with commandContainer := cc } hSignalEvent true
  let cl := { cl with commandContainer :=
    cl.commandContainer.encode (Command.blitCommandsForBuffer blitProperties) }
  (appendSignalEventPostWalker ext cl hSignalEvent).map fun cl =>
    (ze_result_t.ZE_RESULT_SUCCESS, cl)

/-- Lines 660-683: `appendCopyImageBlit`. -/
def appendCopyImageBlit (ext : External) (cl : CommandList) (src dst : GraphicsAllocation)
    (srcOffsets dstOffsets : Vec3)
    (srcRowPitch srcSlicePitch dstRowPitch dstSlicePitch bytesPerPixel : Nat)
    (copySize srcSize dstSize : Vec3) (hSignalEvent : ze_event_handle_t) :
    Option (ze_result_t × CommandList) :=
  let blitProperties := BlitProperties.constructPropertiesForCopyBuffer dst src dstOffsets
    srcOffsets copySize srcRowPitch srcSlicePitch dstRowPitch dstSlicePitch
  let blitProperties :=
    { blitProperties with bytesPerPixel := bytesPerPixel, srcSize := srcSize, dstSize := dstSize }
  let cc := cl.commandContainer.addToResidencyContainer dst
  let cc := cc.addToResidencyContainer src
  let cl := ext.appendEventForProfiling { cl with commandContainer := cc } hSignalEvent true
  let cl := { cl with commandContainer :=
    cl.commandContainer.encode (Command.blitCommandsForImages blitProperties) }
  (appendSignalEventPostWalker ext cl hSignalEvent).map fun cl =>
    (ze_result_t.ZE_RESULT_SUCCESS, cl)

/-! ## Linear memory copy -/

/-- Lines 578-615: `appendMemoryCopyKernelWithGA`. `dstPtr` and `srcPtr` are the values
read through the two `void *` arguments. A division by zero has no result. -/
def appendMemoryCopyKernelWithGA (ext : External) (cl : CommandList) (device : Device)
    (dstPtr : Nat) (dstPtrAlloc : GraphicsAllocation) (dstOffset : Nat)
    (srcPtr : Nat) (srcPtrAlloc : GraphicsAllocation) (srcOffset : Nat)
    (size elementSize : Nat) (builtin : Builtin) :
    Option (ze_result_t × CommandList × Device) :=
  let id := BuiltinKernelId.function builtin
  let builtinFunction := device.getKernel id
  let groupSizeX := builtinFunction.simdSize
  let (res, builtinFunction) := builtinFunction.setGroupSize ext groupSizeX 1 1
  if res ≠ ze_result_t.ZE_RESULT_SUCCESS then
    some (ze_result_t.ZE_RESULT_ERROR_UNKNOWN, cl, device.setKernel id builtinFunction)
  else
    let builtinFunction := builtinFunction.setArgBufferWithAlloc 0 dstPtr dstPtrAlloc
    let builtinFunction := builtinFunction.setArgBufferWithAlloc 1 srcPtr srcPtrAlloc
    if elementSize = 0 then none
    else
      let elems := size / elementSize
      let builtinFunction := builtinFunction.setArgumentValue 2 4 [elems]
      let builtinFunction := builtinFunction.setArgumentValue 3 8 [dstOffset]
      let builtinFunction := builtinFunction.setArgumentValue 4 8 [srcOffset]
      let groupBytes := toUint32 (groupSizeX * elementSize)
      if groupBytes = 0 then none
      else
        let groups := toUint32 (size + (groupBytes - 1)) / groupBytes
        let dispatchFuncArgs : ze_group_count_t :=
          { groupCountX := groups, groupCountY := 1, groupCountZ := 1 }
        (appendLaunchKernel ext cl builtinFunction.handle
            (some (GroupCountPtr.hostStruct dispatchFuncArgs)) none 0 none).map fun r =>
          (r.1, r.2, device.setKernel id builtinFunction)

/-- Lines 764-796: one of the three statements
`ret = isCopyOnlyCmdList ? appendMemoryCopyBlit(...) : appendMemoryCopyKernelWithGA(...)`
of `appendMemoryCopy`, for the segment of `size` bytes at the offsets `dstOffset` and
`srcOffset`. -/
def appendMemoryCopy.copySegment (ext : External) (cl : CommandList) (device : Device)
    (dstAllocationStruct srcAllocationStruct : AlignedAllocationData)
    (dstOffset srcOffset size elementSize : Nat) (builtin : Builtin)
    (hSignalEvent : ze_event_handle_t) : Option (ze_result_t × CommandList × Device) :=
  if cl.isCopyOnlyCmdList then
    (appendMemoryCopyBlit ext cl dstAllocationStruct.alloc dstOffset srcAllocationStruct.alloc
      srcOffset (toUint32 size) hSignalEvent).map fun r => (r.1, r.2, device)
  else
    appendMemoryCopyKernelWithGA ext cl device dstAllocationStruct.alignedAllocationPtr
      dstAllocationStruct.alloc dstOffset srcAllocationStruct.alignedAllocationPtr
      srcAllocationStruct.alloc srcOffset (toUint32 size) elementSize builtin

/-- Lines 764-796: a segment is copied `if (ret == ZE_RESULT_SUCCESS && segmentSize)`;
otherwise the result and the state stay as they are. -/
def appendMemoryCopy.guarded (segmentSize : Nat)
    (copy : CommandList → Device → Option (ze_result_t × CommandList × Device))
    (state : ze_result_t × CommandList × Device) :
    Option (ze_result_t × CommandList × Device) :=
  if state.1 = ze_result_t.ZE_RESULT_SUCCESS ∧ segmentSize ≠ 0 then copy state.2.1 state.2.2
  else some state

/-- Lines 727-806: `appendMemoryCopy`. The arguments `numWaitEvents` and `phWaitEvents`
are not used by the function. The debug-only `DEBUG_BREAK_IF` is left out. -/
def appendMemoryCopy (ext : External) (cl : CommandList) (device : Device)
    (dstptr srcptr size : Nat) (hSignalEvent : ze_event_handle_t)
    (numWaitEvents : Nat) (phWaitEvents : Option (List ze_event_handle_t)) :
    Option (ze_result_t × CommandList × Device) :=
  let segments := appendMemoryCopy.segments dstptr srcptr size
  let leftSize := segments.leftSize
  let middleSizeBytes := segments.middleSizeBytes
  let rightSize := segments.rightSize
  let middleElSize := 16
  let (dstAllocationStruct, cl, device) := getAlignedAllocation ext cl device dstptr size
  let (srcAllocationStruct, cl, device) := getAlignedAllocation ext cl device srcptr size
  let ret := ze_result_t.ZE_RESULT_SUCCESS
  let cl := ext.appendEventForProfiling cl hSignalEvent true
  (appendMemoryCopy.guarded leftSize (fun cl device =>
      appendMemoryCopy.copySegment ext cl device dstAllocationStruct srcAllocationStruct
        dstAllocationStruct.offset srcAllocationStruct.offset leftSize 1
        Builtin.CopyBufferToBufferSide hSignalEvent) (ret, cl, device)).bind fun state =>
  (appendMemoryCopy.guarded middleSizeBytes (fun cl device =>
      appendMemoryCopy.copySegment ext cl device dstAllocationStruct srcAllocationStruct
        (add64 leftSize dstAllocationStruct.offset) (add64 leftSize srcAllocationStruct.offset)
        middleSizeBytes middleElSize Builtin.CopyBufferToBufferMiddle hSignalEvent)
      state).bind fun state =>
  (appendMemoryCopy.guarded rightSize (fun cl device =>
      appendMemoryCopy.copySegment ext cl device dstAllocationStruct srcAllocationStruct
        (add64 (add64 leftSize middleSizeBytes) dstAllocationStruct.offset)
        (add64 (add64 leftSize middleSizeBytes) srcAllocationStruct.offset)
        rightSize 1 Builtin.CopyBufferToBufferSide hSignalEvent) state).bind fun state =>
  (appendSignalEventPostWalker ext state.2.1 hSignalEvent).map fun cl =>
    let cl :=
      if dstAllocationStruct.needsFlush && !cl.isCopyOnlyCmdList then
        { cl with commandContainer := cl.commandContainer.encode (Command.pipeControl true) }
      else cl
    (state.1, cl, state.2.2)

/-! ## Region copy -/

/-- Lines 868-926: `appendMemoryCopyKernel3d`. The two regions are valid pointers. -/
def appendMemoryCopyKernel3d (ext : External) (cl : CommandList) (device : Device)
    (dstGA srcGA : GraphicsAllocation) (builtin : Builtin)
    (dstRegion : ze_copy_region_t) (dstPitch dstSlicePitch dstOffset : Nat)
    (srcRegion : ze_copy_region_t) (srcPitch srcSlicePitch srcOffset : Nat)
    (hSignalEvent : ze_event_handle_t) (numWaitEvents : Nat)
    (phWaitEvents : Option (List ze_event_handle_t)) :
    Option (ze_result_t × CommandList × Device) :=
  let id := BuiltinKernelId.function builtin
  let builtinFunction := device.getKernel id
  let suggested := ext.suggestGroupSize builtinFunction srcRegion.width srcRegion.height
    srcRegion.depth
  if suggested.1 ≠ ze_result_t.ZE_RESULT_SUCCESS then
    some (ze_result_t.ZE_RESULT_ERROR_UNKNOWN, cl, device)
  else
    let groupSizeX := suggested.2.x
    let groupSizeY := suggested.2.y
    let groupSizeZ := suggested.2.z
    let (res, builtinFunction) := builtinFunction.setGroupSize ext groupSizeX groupSizeY groupSizeZ
    if res ≠ ze_result_t.ZE_RESULT_SUCCESS then
      some (ze_result_t.ZE_RESULT_ERROR_UNKNOWN, cl, device.setKernel id builtinFunction)
    else
      match notDivisible3 srcRegion.width srcRegion.height srcRegion.depth groupSizeX groupSizeY
          groupSizeZ with
      | none => none
      | some true =>
        some (ze_result_t.ZE_RESULT_ERROR_UNKNOWN, cl, device.setKernel id builtinFunction)
      | some false =>
        let dispatchFuncArgs : ze_group_count_t :=
          { groupCountX := srcRegion.width / groupSizeX,
            groupCountY := srcRegion.height / groupSizeY,
            groupCountZ := srcRegion.depth / groupSizeZ }
        let srcOrigin := [toUint32 (srcRegion.originX + toUint32 srcOffset), srcRegion.originY,
          srcRegion.originZ]
        let dstOrigin := [toUint32 (dstRegion.originX + toUint32 dstOffset), dstRegion.originY,
          srcRegion.originZ]
        let srcPitches := [srcPitch, srcSlicePitch]
        let dstPitches := [dstPitch, dstSlicePitch]
        let dstValPtr := dstGA.gpuAddress
        let srcValPtr := srcGA.gpuAddress
        let builtinFunction := builtinFunction.setArgBufferWithAlloc 0 srcValPtr srcGA
        let builtinFunction := builtinFunction.setArgBufferWithAlloc 1 dstValPtr dstGA
        let builtinFunction := builtinFunction.setArgumentValue 2 12 srcOrigin
        let builtinFunction := builtinFunction.setArgumentValue 3 12 dstOrigin
        let builtinFunction := builtinFunction.setArgumentValue 4 8 srcPitches
        let builtinFunction := builtinFunction.setArgumentValue 5 8 dstPitches
        (appendLaunchKernel ext cl builtinFunction.handle
            (some (GroupCountPtr.hostStruct dispatchFuncArgs)) hSignalEvent numWaitEvents
            phWaitEvents).map fun r =>
          (r.1, r.2, device.setKernel id builtinFunction)

/-- Lines 928-983: `appendMemoryCopyKernel2d`. The two regions are valid pointers. -/
def appendMemoryCopyKernel2d (ext : External) (cl : CommandList) (device : Device)
    (dstGA srcGA : GraphicsAllocation) (builtin : Builtin)
    (dstRegion : ze_copy_region_t) (dstPitch dstOffset : Nat)
    (srcRegion : ze_copy_region_t) (srcPitch srcOffset : Nat)
    (hSignalEvent : ze_event_handle_t) (numWaitEvents : Nat)
    (phWaitEvents : Option (List ze_event_handle_t)) :
    Option (ze_result_t × CommandList × Device) :=
  let id := BuiltinKernelId.function builtin
  let builtinFunction := device.getKernel id
  let suggested := ext.suggestGroupSize builtinFunction srcRegion.width srcRegion.height 1
  if suggested.1 ≠ ze_result_t.ZE_RESULT_SUCCESS then
    some (ze_result_t.ZE_RESULT_ERROR_UNKNOWN, cl, device)
  else
    let groupSizeX := suggested.2.x
    let groupSizeY := suggested.2.y
    let groupSizeZ := suggested.2.z
    let (res, builtinFunction) := builtinFunction.setGroupSize ext groupSizeX groupSizeY groupSizeZ
    if res ≠ ze_result_t.ZE_RESULT_SUCCESS then
      some (ze_result_t.ZE_RESULT_ERROR_UNKNOWN, cl, device.setKernel id builtinFunction)
    else
      match notDivisible2 srcRegion.width srcRegion.height groupSizeX groupSizeY with
      | none => none
      | some true =>
        some (ze_result_t.ZE_RESULT_ERROR_UNKNOWN, cl, device.setKernel id builtinFunction)
      | some false =>
        let dispatchFuncArgs : ze_group_count_t :=
          { groupCountX := srcRegion.width / groupSizeX,
            groupCountY := srcRegion.height / groupSizeY,
            groupCountZ := 1 }
        let srcOrigin := [toUint32 (srcRegion.originX + toUint32 srcOffset), srcRegion.originY]
        let dstOrigin := [toUint32 (dstRegion.originX + toUint32 dstOffset), dstRegion.originY]
        let dstValPtr := dstGA.gpuAddress
        let srcValPtr := srcGA.gpuAddress
        let builtinFunction := builtinFunction.setArgBufferWithAlloc 0 srcValPtr srcGA
        let builtinFunction := builtinFunction.setArgBufferWithAlloc 1 dstValPtr dstGA
        let builtinFunction := builtinFunction.setArgumentValue 2 8 srcOrigin
        let builtinFunction := builtinFunction.setArgumentValue 3 8 dstOrigin
        let builtinFunction := builtinFunction.setArgumentValue 4 4 [srcPitch]
        let builtinFunction := builtinFunction.setArgumentValue 5 4 [dstPitch]
        (appendLaunchKernel ext cl builtinFunction.handle
            (some (GroupCountPtr.hostStruct dispatchFuncArgs)) hSignalEvent numWaitEvents
            phWaitEvents).map fun r =>
          (r.1, r.2, device.setKernel id builtinFunction)

/-- Lines 808-866: `appendMemoryCopyRegion`. The two regions are valid pointers; the sizes
are computed in `uint32_t` arithmetic as in the source. -/
def appendMemoryCopyRegion (ext : External) (cl : CommandList) (device : Device)
    (dstPtr : Nat) (dstRegion : ze_copy_region_t) (dstPitch dstSlicePitch : Nat)
    (srcPtr : Nat) (srcRegion : ze_copy_region_t) (srcPitch srcSlicePitch : Nat)
    (hSignalEvent : ze_event_handle_t) : Option (ze_result_t × CommandList × Device) :=
  let dstSize :=
    if srcRegion.depth > 1 then
      let hostPtrDstOffset := toUint32 (dstRegion.originX + dstRegion.originY * dstPitch
        + dstRegion.originZ * dstSlicePitch)
      toUint32 (dstRegion.width * dstRegion.height * dstRegion.depth + hostPtrDstOffset)
    else
      let hostPtrDstOffset := toUint32 (dstRegion.originX + dstRegion.originY * dstPitch)
      toUint32 (dstRegion.width * dstRegion.height + hostPtrDstOffset)
  let srcSize :=
    if srcRegion.depth > 1 then
      let hostPtrSrcOffset := toUint32 (srcRegion.originX + srcRegion.originY * srcPitch
        + srcRegion.originZ * srcSlicePitch)
      toUint32 (srcRegion.width * srcRegion.height * srcRegion.depth + hostPtrSrcOffset)
    else
      let hostPtrSrcOffset := toUint32 (srcRegion.originX + srcRegion.originY * srcPitch)
      toUint32 (srcRegion.width * srcRegion.height + hostPtrSrcOffset)
  let (dstAllocationStruct, cl, device) := getAlignedAllocation ext cl device dstPtr dstSize
  let (srcAllocationStruct, cl, device) := getAlignedAllocation ext cl device srcPtr srcSize
  let dstSize := add64 dstSize dstAllocationStruct.offset
  let srcSize := add64 srcSize srcAllocationStruct.offset
  let cl := ext.appendEventForProfiling cl hSignalEvent true
  let copySize : Vec3 := { x := srcRegion.width, y := srcRegion.height, z := srcRegion.depth }
  let result :=
    if srcRegion.depth > 1 then
      if cl.isCopyOnlyCmdList then
        (appendMemoryCopyBlitRegion ext cl srcAllocationStruct.alloc dstAllocationStruct.alloc
          srcRegion dstRegion copySize srcPitch srcSlicePitch dstPitch dstSlicePitch srcSize
          dstSize hSignalEvent).map fun r => (r.1, r.2, device)
      else
        appendMemoryCopyKernel3d ext cl device dstAllocationStruct.alloc
          srcAllocationStruct.alloc Builtin.CopyBufferRectBytes3d dstRegion dstPitch
          dstSlicePitch dstAllocationStruct.offset srcRegion srcPitch srcSlicePitch
          srcAllocationStruct.offset hSignalEvent 0 none
    else
      if cl.isCopyOnlyCmdList then
        (appendMemoryCopyBlitRegion ext cl srcAllocationStruct.alloc dstAllocationStruct.alloc
          srcRegion dstRegion copySize srcPitch srcSlicePitch dstPitch dstSlicePitch srcSize
          dstSize hSignalEvent).map fun r => (r.1, r.2, device)
      else
        appendMemoryCopyKernel2d ext cl device dstAllocationStruct.alloc
          srcAllocationStruct.alloc Builtin.CopyBufferRectBytes2d dstRegion dstPitch
          dstAllocationStruct.offset srcRegion srcPitch srcAllocationStruct.offset
          hSignalEvent 0 none
  result.map fun r =>
    if r.1 ≠ ze_result_t.ZE_RESULT_SUCCESS then r
    else
      let cl := r.2.1
      let cl :=
        if dstAllocationStruct.needsFlush && !cl.isCopyOnlyCmdList then
          { cl with commandContainer := cl.commandContainer.encode (Command.pipeControl true) }
        else cl
      (ze_result_t.ZE_RESULT_SUCCESS, cl, r.2.2)

/-! ## Image copies -/

/-- Lines 1179-1196: `getInputBufferSize`, in `uint64_t` arithmetic. An image type outside
the five cases runs into `UNRECOVERABLE_IF(true)`, which ends the program: no result. -/
def getInputBufferSize (imageType : ImageType) (bytesPerPixel : Nat)
    (region : ze_image_region_t) : Option Nat :=
  match imageType with
  | ImageType.Image1D | ImageType.Image1DArray =>
    some ((bytesPerPixel * region.width) % UINT64_MOD)
  | ImageType.Image2D | ImageType.Image2DArray =>
    some ((bytesPerPixel * region.width * region.height) % UINT64_MOD)
  | ImageType.Image3D =>
    some ((bytesPerPixel * region.width * region.height * region.depth) % UINT64_MOD)
  | ImageType.Invalid => none

/-- Lines 273-291: the kernel `appendImageCopyFromMemory` selects by `bytesPerPixel`; any
other width runs into `UNRECOVERABLE_IF(true)`. -/
def appendImageCopyFromMemory.builtin (bytesPerPixel : Nat) : Option Builtin :=
  if bytesPerPixel = 1 then some Builtin.CopyBufferToImage3dBytes
  else if bytesPerPixel = 2 then some Builtin.CopyBufferToImage3d2Bytes
  else if bytesPerPixel = 4 then some Builtin.CopyBufferToImage3d4Bytes
  else if bytesPerPixel = 8 then some Builtin.CopyBufferToImage3d8Bytes
  else if bytesPerPixel = 16 then some Builtin.CopyBufferToImage3d16Bytes
  else none

/-- Lines 379-397: the kernel `appendImageCopyToMemory` selects by `bytesPerPixel`; any
other width runs into `UNRECOVERABLE_IF(true)`. -/
def appendImageCopyToMemory.builtin (bytesPerPixel : Nat) : Option ImageBuiltin :=
  if bytesPerPixel = 1 then some ImageBuiltin.CopyImage3dToBufferBytes
  else if bytesPerPixel = 2 then some ImageBuiltin.CopyImage3dToBuffer2Bytes
  else if bytesPerPixel = 4 then some ImageBuiltin.CopyImage3dToBuffer4Bytes
  else if bytesPerPixel = 8 then some ImageBuiltin.CopyImage3dToBuffer8Bytes
  else if bytesPerPixel = 16 then some ImageBuiltin.CopyImage3dToBuffer16Bytes
  else none

/-- Lines 242-255 and 348-361: the region an image copy from or to memory works on, the
whole image (in `uint32_t` extents) when the region pointer is null. -/
def imageRegionOrWhole (image : Image) (pRegion : Option ze_image_region_t) :
    ze_image_region_t :=
  match pRegion with
  | some region => region
  | none =>
    { originX := 0, originY := 0, originZ := 0, width := toUint32 image.imageWidth,
      height := toUint32 image.imageHeight, depth := toUint32 image.imageDepth }

/-- Lines 231-335: `appendImageCopyFromMemory`. The image handle is valid. -/
def appendImageCopyFromMemory (ext : External) (cl : CommandList) (device : Device)
    (hDstImage : Image) (srcPtr : Nat) (pDstRegion : Option ze_image_region_t)
    (hEvent : ze_event_handle_t) (numWaitEvents : Nat)
    (phWaitEvents : Option (List ze_event_handle_t)) :
    Option (ze_result_t × CommandList × Device) :=
  let image := hDstImage
  let bytesPerPixel := toUint32 image.imageElementSizeInBytes
  let imgSize : Vec3 := { x := toUint32 image.imageWidth, y := toUint32 image.imageHeight,
                          z := toUint32 image.imageDepth }
  let region := imageRegionOrWhole image pDstRegion
  match getInputBufferSize image.imageType bytesPerPixel region with
  | none => none
  | some bufferSize =>
    let (allocationStruct, cl, device) := getAlignedAllocation ext cl device srcPtr bufferSize
    let rowPitch := toUint32 (region.width * bytesPerPixel)
    let slicePitch :=
      if image.imageType = ImageType.Image1DArray then 1 else toUint32 (region.height * rowPitch)
    let regionSize : Vec3 := { x := region.width, y := region.height, z := region.depth }
    if cl.isCopyOnlyCmdList then
      (appendCopyImageBlit ext cl allocationStruct.alloc image.allocation
        { x := 0, y := 0, z := 0 }
        { x := region.originX, y := region.originY, z := region.originZ }
        rowPitch slicePitch rowPitch slicePitch bytesPerPixel regionSize regionSize imgSize
        hEvent).map fun r => (r.1, r.2, device)
    else
      match appendImageCopyFromMemory.builtin bytesPerPixel with
      | none => none
      | some builtin =>
        let id := BuiltinKernelId.function builtin
        let builtinKernel := device.getKernel id
        let builtinKernel := builtinKernel.setArgBufferWithAlloc 0
          allocationStruct.alignedAllocationPtr allocationStruct.alloc
        let builtinKernel := builtinKernel.setArgRedescribedImage 1 hDstImage
        let builtinKernel := builtinKernel.setArgumentValue 2 8 [allocationStruct.offset]
        let origin := [region.originX, region.originY, region.originZ, 0]
        let builtinKernel := builtinKernel.setArgumentValue 3 16 origin
        let pitch := [rowPitch, slicePitch]
        let builtinKernel := builtinKernel.setArgumentValue 4 8 pitch
        let suggested := ext.suggestGroupSize builtinKernel region.width region.height
          region.depth
        if suggested.1 ≠ ze_result_t.ZE_RESULT_SUCCESS then
          some (ze_result_t.ZE_RESULT_ERROR_UNKNOWN, cl, device.setKernel id builtinKernel)
        else
          let groupSizeX := suggested.2.x
          let groupSizeY := suggested.2.y
          let groupSizeZ := suggested.2.z
          let (res, builtinKernel) := builtinKernel.setGroupSize ext groupSizeX groupSizeY
            groupSizeZ
          if res ≠ ze_result_t.ZE_RESULT_SUCCESS then
            some (ze_result_t.ZE_RESULT_ERROR_UNKNOWN, cl, device.setKernel id builtinKernel)
          else
            match notDivisible3 region.width region.height region.depth groupSizeX groupSizeY
                groupSizeZ with
            | none => none
            | some true =>
              some (ze_result_t.ZE_RESULT_ERROR_UNKNOWN, cl, device.setKernel id builtinKernel)
            | some false =>
              let functionArgs : ze_group_count_t :=
                { groupCountX := region.width / groupSizeX,
                  groupCountY := region.height / groupSizeY,
                  groupCountZ := region.depth / groupSizeZ }
              (appendLaunchKernel ext cl builtinKernel.handle
                  (some (GroupCountPtr.hostStruct functionArgs)) hEvent numWaitEvents
                  phWaitEvents).map fun r =>
                (r.1, r.2, device.setKernel id builtinKernel)

/-- Lines 337-449: `appendImageCopyToMemory`. The image handle is valid. -/
def appendImageCopyToMemory (ext : External) (cl : CommandList) (device : Device)
    (dstPtr : Nat) (hSrcImage : Image) (pSrcRegion : Option ze_image_region_t)
    (hEvent : ze_event_handle_t) (numWaitEvents : Nat)
    (phWaitEvents : Option (List ze_event_handle_t)) :
    Option (ze_result_t × CommandList × Device) :=
  let image := hSrcImage
  let bytesPerPixel := toUint32 image.imageElementSizeInBytes
  let imgSize : Vec3 := { x := toUint32 image.imageWidth, y := toUint32 image.imageHeight,
                          z := toUint32 image.imageDepth }
  let region := imageRegionOrWhole image pSrcRegion
  match getInputBufferSize image.imageType bytesPerPixel region with
  | none => none
  | some bufferSize =>
    let (allocationStruct, cl, device) := getAlignedAllocation ext cl device dstPtr bufferSize
    let rowPitch := toUint32 (region.width * bytesPerPixel)
    let slicePitch := toUint32
      ((if image.imageType = ImageType.Image1DArray then 1 else region.height) * rowPitch)
    let regionSize : Vec3 := { x := region.width, y := region.height, z := region.depth }
    if cl.isCopyOnlyCmdList then
      (appendCopyImageBlit ext cl image.allocation allocationStruct.alloc
        { x := region.originX, y := region.originY, z := region.originZ }
        { x := 0, y := 0, z := 0 }
        rowPitch slicePitch rowPitch slicePitch bytesPerPixel regionSize imgSize regionSize
        hEvent).map fun r => (r.1, r.2, device)
    else
      match appendImageCopyToMemory.builtin bytesPerPixel with
      | none => none
      | some builtin =>
        let id := BuiltinKernelId.imageFunction builtin
        let builtinKernel := device.getKernel id
        let builtinKernel := builtinKernel.setArgRedescribedImage 0 hSrcImage
        let builtinKernel := builtinKernel.setArgBufferWithAlloc 1
          allocationStruct.alignedAllocationPtr allocationStruct.alloc
        let origin := [region.originX, region.originY, region.originZ, 0]
        let builtinKernel := builtinKernel.setArgumentValue 2 16 origin
        let builtinKernel := builtinKernel.setArgumentValue 3 8 [allocationStruct.offset]
        let pitch := [rowPitch, slicePitch]
        let builtinKernel := builtinKernel.setArgumentValue 4 8 pitch
        let suggested := ext.suggestGroupSize builtinKernel region.width region.height
          region.depth
        if suggested.1 ≠ ze_result_t.ZE_RESULT_SUCCESS then
          some (ze_result_t.ZE_RESULT_ERROR_UNKNOWN, cl, device.setKernel id builtinKernel)
        else
          let groupSizeX := suggested.2.x
          let groupSizeY := suggested.2.y
          let groupSizeZ := suggested.2.z
          let (res, builtinKernel) := builtinKernel.setGroupSize ext groupSizeX groupSizeY
            groupSizeZ
          if res ≠ ze_result_t.ZE_RESULT_SUCCESS then
            some (ze_result_t.ZE_RESULT_ERROR_UNKNOWN, cl, device.setKernel id builtinKernel)
          else
            match notDivisible3 region.width region.height region.depth groupSizeX groupSizeY
                groupSizeZ with
            | none => none
            | some true =>
              some (ze_result_t.ZE_RESULT_ERROR_UNKNOWN, cl, device.setKernel id builtinKernel)
            | some false =>
              let functionArgs : ze_group_count_t :=
                { groupCountX := region.width / groupSizeX,
                  groupCountY := region.height / groupSizeY,
                  groupCountZ := region.depth / groupSizeZ }
              (appendLaunchKernel ext cl builtinKernel.handle
                  (some (GroupCountPtr.hostStruct functionArgs)) hEvent numWaitEvents
                  phWaitEvents).map fun r =>
                let cl := r.2
                let cl :=
                  if allocationStruct.needsFlush then
                    { cl with commandContainer :=
                        cl.commandContainer.encode (Command.pipeControl true) }
                  else cl
                (r.1, cl, device.setKernel id builtinKernel)

/-- Lines 463-487: the source or destination region of `appendImageCopyRegion`, the whole
image of `getImageDesc()` when the region pointer is null (the `uint64_t` width converted
to `uint32_t`). -/
def appendImageCopyRegion.effectiveRegion (image : Image)
    (pRegion : Option ze_image_region_t) : ze_image_region_t :=
  match pRegion with
  | some region => region
  | none =>
    { originX := 0, originY := 0, originZ := 0, width := toUint32 image.descWidth,
      height := image.descHeight, depth := image.descDepth }

/-- Lines 451-553: `appendImageCopyRegion`. The image handles are valid. -/
def appendImageCopyRegion (ext : External) (cl : CommandList) (device : Device)
    (hDstImage hSrcImage : Image) (pDstRegion pSrcRegion : Option ze_image_region_t)
    (hEvent : ze_event_handle_t) (numWaitEvents : Nat)
    (phWaitEvents : Option (List ze_event_handle_t)) :
    Option (ze_result_t × CommandList × Device) :=
  let dstImage := hDstImage
  let srcImage := hSrcImage
  let srcRegion := appendImageCopyRegion.effectiveRegion srcImage pSrcRegion
  let srcOffset := [toUint32 srcRegion.originX, toUint32 srcRegion.originY,
    toUint32 srcRegion.originZ, 0]
  let dstRegion := appendImageCopyRegion.effectiveRegion dstImage pDstRegion
  let dstOffset := [toUint32 dstRegion.originX, toUint32 dstRegion.originY,
    toUint32 dstRegion.originZ, 0]
  if srcRegion.width ≠ dstRegion.width ∨ srcRegion.height ≠ dstRegion.height
      ∨ srcRegion.depth ≠ dstRegion.depth then
    some (ze_result_t.ZE_RESULT_ERROR_INVALID_ARGUMENT, cl, device)
  else if cl.isCopyOnlyCmdList then
    let bytesPerPixel := toUint32 srcImage.imageElementSizeInBytes
    let srcImgSize : Vec3 := { x := toUint32 srcImage.imageWidth,
                               y := toUint32 srcImage.imageHeight,
                               z := toUint32 srcImage.imageDepth }
    let dstImgSize : Vec3 := { x := toUint32 dstImage.imageWidth,
                               y := toUint32 dstImage.imageHeight,
                               z := toUint32 dstImage.imageDepth }
    let srcRowPitch := toUint32 (srcRegion.width * bytesPerPixel)
    let srcSlicePitch := toUint32
      ((if srcImage.imageType = ImageType.Image1DArray then 1 else srcRegion.height)
        * srcRowPitch)
    let dstRowPitch := toUint32 (dstRegion.width * bytesPerPixel)
    let dstSlicePitch := toUint32
      ((if dstImage.imageType = ImageType.Image1DArray then 1 else dstRegion.height)
        * dstRowPitch)
    (appendCopyImageBlit ext cl srcImage.allocation dstImage.allocation
      { x := srcRegion.originX, y := srcRegion.originY, z := srcRegion.originZ }
      { x := dstRegion.originX, y := dstRegion.originY, z := dstRegion.originZ }
      srcRowPitch srcSlicePitch dstRowPitch dstSlicePitch bytesPerPixel
      { x := srcRegion.width, y := srcRegion.height, z := srcRegion.depth }
      srcImgSize dstImgSize hEvent).map fun r => (r.1, r.2, device)
  else
    let id := BuiltinKernelId.imageFunction ImageBuiltin.CopyImageRegion
    let kernel := device.getKernel id
    let suggested := ext.suggestGroupSize kernel srcRegion.width srcRegion.height
      srcRegion.depth
    if suggested.1 ≠ ze_result_t.ZE_RESULT_SUCCESS then
      some (ze_result_t.ZE_RESULT_ERROR_UNKNOWN, cl, device)
    else
      let groupSizeX := suggested.2.x
      let groupSizeY := suggested.2.y
      let groupSizeZ := suggested.2.z
      let (res, kernel) := kernel.setGroupSize ext groupSizeX groupSizeY groupSizeZ
      if res ≠ ze_result_t.ZE_RESULT_SUCCESS then
        some (ze_result_t.ZE_RESULT_ERROR_UNKNOWN, cl, device.setKernel id kernel)
      else
        match notDivisible3 srcRegion.width srcRegion.height srcRegion.depth groupSizeX
            groupSizeY groupSizeZ with
        | none => none
        | some true =>
          some (ze_result_t.ZE_RESULT_ERROR_UNKNOWN, cl, device.setKernel id kernel)
        | some false =>
          let functionArgs : ze_group_count_t :=
            { groupCountX := srcRegion.width / groupSizeX,
              groupCountY := srcRegion.height / groupSizeY,
              groupCountZ := srcRegion.depth / groupSizeZ }
          let kernel := kernel.setArgRedescribedImage 0 hSrcImage
          let kernel := kernel.setArgRedescribedImage 1 hDstImage
          let kernel := kernel.setArgumentValue 2 16 srcOffset
          let kernel := kernel.setArgumentValue 3 16 dstOffset
          let cl := ext.appendEventForProfiling cl hEvent true
          (appendLaunchKernel ext cl kernel.handle
              (some (GroupCountPtr.hostStruct functionArgs)) hEvent numWaitEvents
              phWaitEvents).map fun r =>
            (r.1, r.2, device.setKernel id kernel)

/-! ## Memory fill -/

/-- Modelled from the spec: `MemoryManager::allocateGraphicsMemoryWithProperties` is
defined outside `cmdlist_hw.inl`; it gives the "temporary host-visible allocation" of a
blit fill, of the requested size. The new allocation is not yet listed among
`internalAllocations`: it is stored there with its content by
`Device.storeInternalAllocation`. -/
def Device.allocateGraphicsMemoryWithProperties (device : Device) (size : Nat) :
    InternalAllocation × Device :=
  let buffer := device.internalBufferAddress size
  ({ allocation := { id := device.nextAllocationId,
                     gpuAddress := device.hostPtrGpuAddress buffer size },
     underlyingBuffer := buffer, underlyingBufferSize := size,
     bytes := List.replicate size 0 },
   { device with nextAllocationId := device.nextAllocationId + 1 })

/-- The device after the content of an internal allocation has been written. -/
def Device.storeInternalAllocation (device : Device) (alloc : InternalAllocation) : Device :=
  { device with internalAllocations := device.internalAllocations ++ [alloc] }

/-- The helper `memcpy_s(dst + offset, destSize, src, count)` on a buffer given by its
bytes: nothing is copied when `destSize < count` (the error code is not looked at by the
callers here); reading more bytes than the source holds has no result. -/
def memcpy_s (buffer : List Nat) (offset destSize : Nat) (src : List Nat) (count : Nat) :
    Option (List Nat) :=
  if destSize < count then some buffer
  else if src.length < count then none
  else some (buffer.take offset ++ src.take count ++ buffer.drop (offset + count))

/-- Lines 1126-1129: the loop of `appendBlitFill` that copies the pattern into the
temporary buffer, with `remaining` rounds to go; the result is the buffer and `offset`
afterwards. -/
def appendBlitFill.loop (bufferSize : Nat) (pattern : List Nat) (patternSize : Nat) :
    List Nat → Nat → Nat → Option (List Nat × Nat)
  | buffer, offset, 0 => some (buffer, offset)
  | buffer, offset, remaining + 1 =>
    match memcpy_s buffer offset (sub64 bufferSize offset) pattern patternSize with
    | none => none
    | some buffer =>
      appendBlitFill.loop bufferSize pattern patternSize buffer (add64 offset patternSize)
        remaining

/-- Lines 1110-1148: `appendBlitFill`. A pattern size of zero divides by zero, and a
quotient `size / patternSize` beyond `uint32_t` is never reached by the `uint32_t` loop
counter: both have no result. -/
def appendBlitFill (ext : External) (cl : CommandList) (device : Device) (ptr : Nat)
    (pattern : HostMemory) (patternSize size : Nat) (hEvent : ze_event_handle_t) :
    Option (ze_result_t × CommandList × Device) :=
  if ext.useMemCopyToBlitFill patternSize then
    let (internalAlloc, device) := device.allocateGraphicsMemoryWithProperties size
    if patternSize = 0 then none
    else if UINT32_MOD ≤ size / patternSize then none
    else
      match appendBlitFill.loop internalAlloc.underlyingBufferSize pattern.bytes patternSize
          internalAlloc.bytes 0 (size / patternSize) with
      | none => none
      | some (buffer, offset) =>
        match memcpy_s buffer offset (sub64 internalAlloc.underlyingBufferSize offset)
            pattern.bytes (sub64 size offset) with
        | none => none
        | some buffer =>
          let internalAlloc := { internalAlloc with bytes := buffer }
          let device := device.storeInternalAllocation internalAlloc
          (appendMemoryCopy ext cl device ptr internalAlloc.underlyingBuffer size hEvent 0
              none).map fun r =>
            let cl := r.2.1
            let cc := { cl.commandContainer with
              deallocationContainer :=
                cl.commandContainer.deallocationContainer ++ [internalAlloc.allocation] }
            (r.1, { cl with commandContainer := cc }, r.2.2)
  else
    let cl := ext.appendEventForProfiling cl hEvent true
    match device.findAllocationDataForRange ptr size with
    | none => some (ze_result_t.ZE_RESULT_ERROR_INVALID_ARGUMENT, cl, device)
    | some allocData =>
      let cc := cl.commandContainer.addToResidencyContainer allocData.gpuAllocation
      match memcpy_s (List.replicate 16 0) 0 16 pattern.bytes patternSize with
      | none => none
      | some patternToCommand =>
        let cc := cc.encode (Command.blitMemoryColorFill allocData.gpuAllocation
          patternToCommand patternSize size)
        (appendSignalEventPostWalker ext { cl with commandContainer := cc } hEvent).map
          fun cl => (ze_result_t.ZE_RESULT_SUCCESS, cl, device)

/-- Line 1040: the `uint32_t` read through the pattern pointer (little endian). The read
takes four bytes whatever the pattern size is: with a pattern buffer of fewer than four
bytes it takes the bytes the host memory holds past the end of the buffer. -/
def appendMemoryFill.patternValue (pattern : HostMemory) : Nat :=
  pattern.byte 0 + 256 * pattern.byte 1 + 65536 * pattern.byte 2 + 16777216 * pattern.byte 3

/-- Lines 1069-1107: the second half of `appendMemoryFill`, from the profiling stub to the
end, for the kernel `id` already configured with the group width `groupSizeX`. The first
component of the trailing step tells an early `return`. -/
def appendMemoryFill.dispatch (ext : External) (cl : CommandList) (device : Device)
    (id : BuiltinKernelId) (dstPtr size groupSizeX : Nat) (hostPointerNeedsFlush : Bool)
    (hEvent : ze_event_handle_t) : Option (ze_result_t × CommandList × Device) :=
  let builtinFunction := device.getKernel id
  let cl := ext.appendEventForProfiling cl hEvent true
  if groupSizeX = 0 then none
  else
    let groups := appendMemoryFill.groups size groupSizeX
    let dispatchFuncArgs : ze_group_count_t :=
      { groupCountX := groups, groupCountY := 1, groupCountZ := 1 }
    match appendLaunchKernel ext cl builtinFunction.handle
        (some (GroupCountPtr.hostStruct dispatchFuncArgs)) none 0 none with
    | none => none
    | some (res, cl) =>
      if res ≠ ze_result_t.ZE_RESULT_SUCCESS then some (res, cl, device)
      else
        let groupRemainderSizeX := appendMemoryFill.groupRemainderSizeX size groupSizeX
        let trailing : Option (Bool × ze_result_t × CommandList × Device) :=
          if groupRemainderSizeX ≠ 0 then
            let (res, builtinFunction) := builtinFunction.setGroupSize ext groupRemainderSizeX 1 1
            if res ≠ ze_result_t.ZE_RESULT_SUCCESS then
              some (true, ze_result_t.ZE_RESULT_ERROR_UNKNOWN, cl,
                device.setKernel id builtinFunction)
            else
              let dispatchFuncArgs : ze_group_count_t :=
                { groupCountX := 1, groupCountY := 1, groupCountZ := 1 }
              let dstPtr := add64 dstPtr (sub64 size groupRemainderSizeX)
              let aligned := getSshAlignedPointer ext dstPtr
              let dstPtr := aligned.1
              let dstOffset := aligned.2
              let builtinFunction := builtinFunction.setArgumentValue 0 8 [dstPtr]
              let builtinFunction := builtinFunction.setArgumentValue 1 8 [dstOffset]
              (appendLaunchKernel ext cl builtinFunction.handle
                  (some (GroupCountPtr.hostStruct dispatchFuncArgs)) none 0 none).map fun r =>
                (false, r.1, r.2, device.setKernel id builtinFunction)
          else some (false, res, cl, device)
        match trailing with
        | none => none
        | some (true, res, cl, device) => some (res, cl, device)
        | some (false, res, cl, device) =>
          (appendSignalEventPostWalker ext cl hEvent).map fun cl =>
            let cl :=
              if hostPointerNeedsFlush then
                { cl with commandContainer :=
                    cl.commandContainer.encode (Command.pipeControl true) }
              else cl
            (res, cl, device)

/-- Lines 995-1068: `appendMemoryFill`, up to the configuration of the fill kernel; the rest
is `appendMemoryFill.dispatch`. -/
def appendMemoryFill (ext : External) (cl : CommandList) (device : Device) (ptr : Nat)
    (pattern : HostMemory) (patternSize size : Nat) (hEvent : ze_event_handle_t) :
    Option (ze_result_t × CommandList × Device) :=
  if cl.isCopyOnlyCmdList then
    appendBlitFill ext cl device ptr pattern patternSize size hEvent
  else
    match device.findAllocationDataForRange ptr size with
    | none => some (ze_result_t.ZE_RESULT_ERROR_INVALID_ARGUMENT, cl, device)
    | some allocData =>
      let hostPointerNeedsFlush :=
        allocData.memoryType == InternalMemoryType.HOST_UNIFIED_MEMORY
          || allocData.memoryType == InternalMemoryType.SHARED_UNIFIED_MEMORY
      let alignedDst := getSshAlignedPointer ext ptr
      let dstPtr := alignedDst.1
      let dstOffset := alignedDst.2
      let alignedSrc := getSshAlignedPointer ext pattern.address
      let srcPtr := alignedSrc.1
      let srcOffset := alignedSrc.2
      if patternSize = 1 then
        let id := BuiltinKernelId.function Builtin.FillBufferImmediate
        let builtinFunction := device.getKernel id
        let groupSizeX := appendMemoryFill.groupSizeX patternSize builtinFunction.simdSize
        let (res, builtinFunction) := builtinFunction.setGroupSize ext groupSizeX 1 1
        if res ≠ ze_result_t.ZE_RESULT_SUCCESS then
          some (ze_result_t.ZE_RESULT_ERROR_UNKNOWN, cl, device.setKernel id builtinFunction)
        else
          let value := appendMemoryFill.patternValue pattern
          let builtinFunction := builtinFunction.setArgumentValue 0 8 [dstPtr]
          let builtinFunction := builtinFunction.setArgumentValue 1 8 [dstOffset]
          let builtinFunction := builtinFunction.setArgumentValue 2 4 [value]
          appendMemoryFill.dispatch ext cl (device.setKernel id builtinFunction) id dstPtr
            size groupSizeX hostPointerNeedsFlush hEvent
      else
        let id := BuiltinKernelId.function Builtin.FillBufferSSHOffset
        let builtinFunction := device.getKernel id
        let (patternAlloc, device, cl) :=
          ext.allocateManagedMemoryFromHostPtr device cl srcPtr (add64 srcOffset patternSize)
        match patternAlloc with
        | none => some (ze_result_t.ZE_RESULT_ERROR_UNKNOWN, cl, device)
        | some patternAlloc =>
          let cc := { cl.commandContainer with
            deallocationContainer := cl.commandContainer.deallocationContainer ++ [patternAlloc] }
          let cl := { cl with commandContainer := cc }
          let groupSizeX := appendMemoryFill.groupSizeX patternSize builtinFunction.simdSize
          let (res, builtinFunction) := builtinFunction.setGroupSize ext groupSizeX 1 1
          if res ≠ ze_result_t.ZE_RESULT_SUCCESS then
            some (ze_result_t.ZE_RESULT_ERROR_UNKNOWN, cl, device.setKernel id builtinFunction)
          else
            let builtinFunction := builtinFunction.setArgumentValue 0 8 [dstPtr]
            let builtinFunction := builtinFunction.setArgumentValue 1 8 [dstOffset]
            let builtinFunction := builtinFunction.setArgumentValue 2 8 [srcPtr]
            let builtinFunction := builtinFunction.setArgumentValue 3 8 [srcOffset]
            appendMemoryFill.dispatch ext cl (device.setKernel id builtinFunction) id dstPtr
              size groupSizeX hostPointerNeedsFlush hEvent

/-! ## Expected encodings, in the words of the specification -/

/-- The commands the specification expects `appendWaitOnEvents` to emit for one event:
exactly one semaphore wait on the event's address (moved to `contextEnd` for a timestamp
event) with compare value `0xFFFFFFFF` and the not-equal operation, followed by exactly one
flush command if and only if the event's `waitScope` is not `NONE`. The flush of a
copy-only list is `MI_FLUSH_DW`, that of a compute list a `PIPE_CONTROL` with dc flush. -/
def expectedWaitCommands (ext : External) (copyOnly : Bool) (event : Event) : List Command :=
  [Command.miSemaphoreWait
      (if event.isTimestampEvent then add64 event.gpuAddress ext.timestampLayout.contextEnd
       else event.gpuAddress)
      4294967295 COMPARE_OPERATION.COMPARE_OPERATION_SAD_NOT_EQUAL_SDD]
    ++ (if event.waitScope = ze_event_scope_flag_t.ZE_EVENT_SCOPE_FLAG_NONE then []
        else if copyOnly then [Command.miFlushDw 0 (ImmediateData.value 0) false false]
        else [Command.pipeControl true])

/-- One segment of a linear copy, in the words of the specification: its size in bytes, the
element size and the kernel it is copied with, and the byte at which it starts within the
copy. -/
structure ExpectedSegment where
  size : Nat
  elementSize : Nat
  builtin : Builtin
  start : Nat
  deriving DecidableEq, Repr

/-- The segments the specification expects `appendMemoryCopy` to issue, in their order: the
left one with elements of 1 byte from the start of the copy, the middle one with elements of
16 bytes from `leftSize` on, the right one with elements of 1 byte from
`leftSize + middleSizeBytes` on; a segment of size zero is not issued. -/
def appendMemoryCopy.expectedSegments (dstptr srcptr size : Nat) : List ExpectedSegment :=
  let s := appendMemoryCopy.segments dstptr srcptr size
  [({ size := s.leftSize, elementSize := 1, builtin := Builtin.CopyBufferToBufferSide,
      start := 0 } : ExpectedSegment),
   { size := s.middleSizeBytes, elementSize := 16, builtin := Builtin.CopyBufferToBufferMiddle,
     start := s.leftSize },
   { size := s.rightSize, elementSize := 1, builtin := Builtin.CopyBufferToBufferSide,
     start := s.leftSize + s.middleSizeBytes }].filter fun seg => seg.size != 0

/-- The content the specification expects in the temporary buffer of a blit fill: byte `i`
is byte `i mod patternSize` of the pattern, for every `i < size`. -/
def appendBlitFill.expectedBuffer (pattern : List Nat) (patternSize size : Nat) : List Nat :=
  (List.range size).map fun i => pattern.getD (i % patternSize) 0

/-! ## Conditions on the external functions -/

/-- The kernels of `ext` answer the extent `x`, `y`, `z` with the group size `g`
(`suggestGroupSize` succeeds with `g`), accept `g` (`setGroupSize` succeeds), and `g` is
positive on every axis. -/
def GroupSizeChosen (ext : External) (x y z : Nat) (g : Vec3) : Prop :=
  (∀ k, ext.suggestGroupSize k x y z = (ze_result_t.ZE_RESULT_SUCCESS, g))
    ∧ (∀ k, ext.setGroupSizeResult k g.x g.y g.z = ze_result_t.ZE_RESULT_SUCCESS)
    ∧ 0 < g.x ∧ 0 < g.y ∧ 0 < g.z

/-- The `External` that differs from `ext` in its kernel launch only: `f` takes the place of
`appendLaunchKernelWithParams`. -/
def External.withLaunch (ext : External)
    (f : CommandList → ze_kernel_handle_t → Option GroupCountPtr → ze_event_handle_t → Bool →
      Bool → ze_result_t × CommandList) : External :=
  { ext with appendLaunchKernelWithParams := f }

/-- The commands of the copy engine: the encodings of `BlitCommandsHelper`. -/
def Command.isBlit : Command → Bool
  | Command.blitCommandsForBuffer _ => true
  | Command.blitCommandsForImages _ => true
  | Command.blitMemoryColorFill _ _ _ _ => true
  | _ => false

/-- The blit commands of the command stream of a list, oldest first. -/
def blitCommands (cl : CommandList) : List Command :=
  cl.commandContainer.commandStream.filter Command.isBlit

/-- The destination offset, source offset and size of a linear blit command. -/
def Command.linearBlit : Command → Option (Nat × Nat × Nat)
  | Command.blitCommandsForBuffer p => some (p.dstOffset.x, p.srcOffset.x, p.copySize.x)
  | _ => none

/-- A command that writes the signalled state to the state cell of `event`: what
`appendSignalEvent` (lines 1252-1271) encodes, the `MI_FLUSH_DW` of a copy-only list or the
`PIPE_CONTROL` with a post-sync write of a compute list. -/
def Command.signals (event : Event) : Command → Bool
  | Command.miFlushDw address ImmediateData.STATE_SIGNALED _ _ => address == event.gpuAddress
  | Command.pipeControlWithPostSync POST_SYNC_OPERATION.POST_SYNC_OPERATION_WRITE_IMMEDIATE_DATA
      address ImmediateData.STATE_SIGNALED _ => address == event.gpuAddress
  | _ => false

/-- A copy command of a segment: a blit, or the walker of a copy kernel. -/
def Command.isCopy : Command → Bool
  | Command.walker _ _ _ _ => true
  | c => c.isBlit

/-- The kernel handle and the group count of a walker command launched with a group count
held in host memory. -/
def Command.launch : Command → Option (ze_kernel_handle_t × ze_group_count_t)
  | Command.walker hKernel (some (GroupCountPtr.hostStruct groupCount)) _ _ =>
    some (hKernel, groupCount)
  | _ => none

/-- The kernel launches recorded in the command stream of a list, oldest first. -/
def launches (cl : CommandList) : List (ze_kernel_handle_t × ze_group_count_t) :=
  cl.commandContainer.commandStream.filterMap Command.launch

/-- A launch function that records every launch as a walker command and succeeds. -/
def recordingLaunch : CommandList → ze_kernel_handle_t → Option GroupCountPtr →
    ze_event_handle_t → Bool → Bool → ze_result_t × CommandList :=
  fun cl hKernel pThreadGroupDimensions _ isIndirect isPredicate =>
    let cmd := Command.walker hKernel pThreadGroupDimensions isIndirect isPredicate
    (ze_result_t.ZE_RESULT_SUCCESS,
      { cl with commandContainer := cl.commandContainer.encode cmd })

/-- The profiling stub and the allocation of managed memory of `ext` record no launch: they
leave the launches of the command stream as they are. -/
structure ExternalKeepsLaunches (ext : External) : Prop where
  profiling : ∀ cl hEvent beforeWalker,
    launches (ext.appendEventForProfiling cl hEvent beforeWalker) = launches cl
  managed : ∀ device cl buffer size,
    launches (ext.allocateManagedMemoryFromHostPtr device cl buffer size).2.2 = launches cl

/-- The value bound to the argument `index` of a kernel object, if any. -/
def Kernel.getArg (k : Kernel) (index : Nat) : Option KernelArg :=
  (k.args.find? fun a => a.1 == index).map Prod.snd

/-- The source row pitch, source slice pitch, destination row pitch and destination slice
pitch of an image blit command. -/
def Command.imagePitches : Command → Option (Nat × Nat × Nat × Nat)
  | Command.blitCommandsForImages p =>
    some (p.srcRowPitch, p.srcSlicePitch, p.dstRowPitch, p.dstSlicePitch)
  | _ => none

/-- The mode of a list together with the blit commands of its command stream. -/
def modeAndBlits (cl : CommandList) : Bool × List Command :=
  (cl.isCopyOnlyCmdList, blitCommands cl)

/-- The external functions of `ext` that work on the command list leave its mode alone and
add no blit command to its stream. -/
structure ExternalKeepsModeAndBlits (ext : External) : Prop where
  launch : ∀ cl hKernel pThreadGroupDimensions hEvent isIndirect isPredicate,
    modeAndBlits (ext.appendLaunchKernelWithParams cl hKernel pThreadGroupDimensions hEvent
      isIndirect isPredicate).2 = modeAndBlits cl
  profiling : ∀ cl hEvent beforeWalker,
    modeAndBlits (ext.appendEventForProfiling cl hEvent beforeWalker) = modeAndBlits cl
  managed : ∀ device cl buffer size,
    modeAndBlits (ext.allocateManagedMemoryFromHostPtr device cl buffer size).2.2
      = modeAndBlits cl

/-! ## Example values -/

/-- An `External` for examples: the kernel launch emits one walker command, profiling and
range barriers emit nothing, the immediate queue leaves the list alone; surface states
are aligned to 4 bytes, and `KernelTimestampEvent` holds four 32-bit fields. -/
def exampleExternal : External where
  appendLaunchKernelWithParams := fun cl hKernel pThreadGroupDimensions _ isIndirect
      isPredicate =>
    let cmd := Command.walker hKernel pThreadGroupDimensions isIndirect isPredicate
    (ze_result_t.ZE_RESULT_SUCCESS,
      { cl with commandContainer := cl.commandContainer.encode cmd })
  appendEventForProfiling := fun cl _ _ => cl
  applyMemoryRangesBarrier := fun cl _ _ _ => cl
  executeCommandLists := fun cl _ => cl
  synchronize := fun cl _ => cl
  surfaceBaseAddressAlignment := 4
  timestampLayout := { contextStart := 0, globalStart := 4, contextEnd := 8, globalEnd := 12 }
  suggestGroupSize := fun _ x _ _ =>
    (ze_result_t.ZE_RESULT_SUCCESS, { x := if x % 16 = 0 then 16 else 1, y := 1, z := 1 })
  setGroupSizeResult := fun _ x y z =>
    if x = 0 ∨ y = 0 ∨ z = 0 then ze_result_t.ZE_RESULT_ERROR_INVALID_ARGUMENT
    else ze_result_t.ZE_RESULT_SUCCESS
  useMemCopyToBlitFill := fun patternSize => decide (16 < patternSize)
  allocateManagedMemoryFromHostPtr := fun device cl buffer size =>
    (some { id := device.nextAllocationId, gpuAddress := device.hostPtrGpuAddress buffer size },
     { device with nextAllocationId := device.nextAllocationId + 1 }, cl)

/-- An `External` like `exampleExternal` whose kernels always suggest the group size
`16 x 1 x 1`, whatever the extent. -/
def exampleExternalFixedGroupSize : External :=
  { exampleExternal with
      suggestGroupSize := fun _ _ _ _ =>
        (ze_result_t.ZE_RESULT_SUCCESS, { x := 16, y := 1, z := 1 }) }

/-- A built-in functions library for examples: SIMD-32 kernels, the two linear copy
kernels with the handles 1 and 2, every other kernel with the handle 3. -/
def exampleBuiltinFunctionsLib : BuiltinKernelId → Kernel := fun id =>
  { handle :=
      if id = BuiltinKernelId.function Builtin.CopyBufferToBufferSide then 1
      else if id = BuiltinKernelId.function Builtin.CopyBufferToBufferMiddle then 2
      else 3
    simdSize := 32 }

/-- A compute command list that has recorded one barrier. -/
def exampleCommandList : CommandList :=
  { commandContainer := { commandStream := [Command.stateBaseAddress, Command.pipeControl false],
                          dirtyStateForAllHeaps := false } }

/-- The list `exampleCommandList` in copy-only mode. -/
def exampleCopyOnlyCommandList : CommandList :=
  { exampleCommandList with isCopyOnlyCmdList := true }

/-- A launch function unlike that of `exampleExternal`: it fails and empties the list. -/
def exampleFailingLaunch : CommandList → ze_kernel_handle_t → Option GroupCountPtr →
    ze_event_handle_t → Bool → Bool → ze_result_t × CommandList :=
  fun _ _ _ _ _ _ => (ze_result_t.ZE_RESULT_ERROR_UNKNOWN, {})

/-- A pattern of four bytes at the host address `0x3000`. -/
def examplePattern : HostMemory :=
  { address := 12288, bytes := [7, 0, 0, 0] }

/-- A pattern of one byte in a buffer of one byte at the host address `0x3000`; the three
bytes past its end hold 1, 2 and 3. -/
def examplePatternByte : HostMemory :=
  { address := 12288, bytes := [7], beyond := fun i => i + 1 }

/-- An ordinary event with device wait scope, its state cell at GPU address `0x20000`. -/
def exampleEvent : Event :=
  { allocation := { id := 100, gpuAddress := 131072 }
    gpuAddress := 131072
    isTimestampEvent := false
    signalScope := ze_event_scope_flag_t.ZE_EVENT_SCOPE_FLAG_NONE
    waitScope := ze_event_scope_flag_t.ZE_EVENT_SCOPE_FLAG_DEVICE }

/-- A device with one registered host allocation of 4096 bytes at `0x10000`; shadow
allocations of host pointers are placed `0x100000000` above the host address. -/
def exampleDevice : Device :=
  { svmAllocs := [{ gpuAllocation := { id := 0, gpuAddress := 65536 }, size := 4096,
                    memoryType := InternalMemoryType.HOST_UNIFIED_MEMORY }]
    hostPtrGpuAddress := fun buffer _ => buffer + 4294967296
    nextAllocationId := 1
    builtinFunctionsLib := exampleBuiltinFunctionsLib
    internalBufferAddress := fun _ => 1048576 }

/-- A device like `exampleDevice` whose registered allocation is device memory. -/
def exampleDeviceLocal : Device :=
  { svmAllocs := [{ gpuAllocation := { id := 0, gpuAddress := 65536 }, size := 4096,
                    memoryType := InternalMemoryType.DEVICE_UNIFIED_MEMORY }]
    hostPtrGpuAddress := fun buffer _ => buffer + 4294967296
    nextAllocationId := 1
    builtinFunctionsLib := exampleBuiltinFunctionsLib
    internalBufferAddress := fun _ => 1048576 }

/-- A 2D image of 32 x 4 pixels with 4 bytes per pixel. -/
def exampleImage : Image :=
  { allocation := { id := 50, gpuAddress := 262144 }
    imageElementSizeInBytes := 4
    imageWidth := 32
    imageHeight := 4
    imageDepth := 1
    imageType := ImageType.Image2D
    descWidth := 32
    descHeight := 4
    descDepth := 1 }

/-- A region of 20 x 4 x 1 pixels at the origin. -/
def exampleRegion : ze_image_region_t :=
  { originX := 0, originY := 0, originZ := 0, width := 20, height := 4, depth := 1 }

/-- A copy region of 20 x 4 x 1 bytes at the origin. -/
def exampleCopyRegion : ze_copy_region_t :=
  { originX := 0, originY := 0, originZ := 0, width := 20, height := 4, depth := 1 }

/-- A copy region of 32 x 4 x 1 bytes at the origin. -/
def exampleCopyRegionWide : ze_copy_region_t :=
  { originX := 0, originY := 0, originZ := 0, width := 32, height := 4, depth := 1 }

/-- A pattern of 17 bytes, the values 1 to 17, at the host address `0x3000`. -/
def examplePatternLong : HostMemory :=
  { address := 12288, bytes := [1, 2, 3, 4, 5, 6, 7, 8, 9, 10, 11, 12, 13, 14, 15, 16, 17] }

/-- A 1D image array of 4 layers of 32 pixels, with 4 bytes per pixel. -/
def exampleImageArray : Image :=
  { exampleImage with imageType := ImageType.Image1DArray }

/-! ## Theorems: the segments of `appendMemoryCopy` -/

/-- The split before the collapse covers the copy exactly. -/
theorem segmentsBeforeCollapse_sum (dstptr size : Nat) (hsize : size < UINT64_MOD) :
    (appendMemoryCopy.segmentsBeforeCollapse dstptr size).leftSize
      + (appendMemoryCopy.segmentsBeforeCollapse dstptr size).middleSizeBytes
      + (appendMemoryCopy.segmentsBeforeCollapse dstptr size).rightSize = size := by
  simp only [appendMemoryCopy.segmentsBeforeCollapse, MemoryConstants.cacheLineSize, sub64,
    add64, UINT64_MOD] at *
  split <;> omega

/-- The left prefix computed from the destination address is shorter than a cache line. -/
theorem segmentsBeforeCollapse_leftSize_lt (dstptr size : Nat) :
    (appendMemoryCopy.segmentsBeforeCollapse dstptr size).leftSize
      < MemoryConstants.cacheLineSize := by
  simp only [appendMemoryCopy.segmentsBeforeCollapse, MemoryConstants.cacheLineSize, sub64,
    add64, UINT64_MOD] at *
  split <;> omega

/-- The alignment test on the wrapped sum `srcptr + leftSize` is the test on the sum. -/
theorem isAligned_four_add64 (a b : Nat) : isAligned 4 (add64 a b) = decide ((a + b) % 4 = 0) := by
  simp only [isAligned, add64, UINT64_MOD]
  have h : (a + b) % 18446744073709551616 % 4 = (a + b) % 4 := by omega
  rw [h]
  by_cases h0 : (a + b) % 4 = 0 <;> simp [h0]

/-- C1: for every destination address, source address and size `n` (a `size_t`), the
three segment sizes of `appendMemoryCopy` add up to `n`, before the source-misalignment
collapse and after it. -/
theorem appendMemoryCopy_segments_sum (dstptr srcptr size : Nat) (hsize : size < UINT64_MOD) :
    (appendMemoryCopy.segmentsBeforeCollapse dstptr size).leftSize
        + (appendMemoryCopy.segmentsBeforeCollapse dstptr size).middleSizeBytes
        + (appendMemoryCopy.segmentsBeforeCollapse dstptr size).rightSize = size
      ∧ (appendMemoryCopy.segments dstptr srcptr size).leftSize
        + (appendMemoryCopy.segments dstptr srcptr size).middleSizeBytes
        + (appendMemoryCopy.segments dstptr srcptr size).rightSize = size := by
  have hpre := segmentsBeforeCollapse_sum dstptr size hsize
  refine ⟨hpre, ?_⟩
  unfold appendMemoryCopy.segments
  generalize appendMemoryCopy.segmentsBeforeCollapse dstptr size = s at hpre ⊢
  by_cases hal : isAligned 4 (add64 srcptr s.leftSize) = true
  · simpa [hal] using hpre
  · simp only [hal, Bool.not_false, Bool.not_true, if_true, Bool.false_eq_true, if_false]
    simp only [add64, UINT64_MOD] at *
    omega

/-- Witness of C1: a copy of 5000 bytes to address 3 from address 8. -/
theorem appendMemoryCopy_segments_sum_witness :
    5000 < UINT64_MOD
      ∧ (appendMemoryCopy.segmentsBeforeCollapse 3 5000).leftSize
        + (appendMemoryCopy.segmentsBeforeCollapse 3 5000).middleSizeBytes
        + (appendMemoryCopy.segmentsBeforeCollapse 3 5000).rightSize = 5000
      ∧ (appendMemoryCopy.segments 3 8 5000).leftSize
        + (appendMemoryCopy.segments 3 8 5000).middleSizeBytes
        + (appendMemoryCopy.segments 3 8 5000).rightSize = 5000 :=
  ⟨by decide, appendMemoryCopy_segments_sum 3 8 5000 (by decide)⟩

/-- C2, as stated, fails: copying 128 bytes to the cache-line aligned address 0 from the
odd address 1 collapses the split, and the left segment is the whole copy, 128 bytes. -/
theorem appendMemoryCopy_leftSize_not_lt_cacheLine :
    ¬ (appendMemoryCopy.segments 0 1 128).leftSize < MemoryConstants.cacheLineSize := by
  decide

/-- C2, amended: the left prefix computed from `dstptr` is always shorter than a cache
line, and so is the `leftSize` finally used whenever `srcptr` plus that prefix is 4-byte
aligned (the split is not collapsed). -/
theorem appendMemoryCopy_leftSize_lt_cacheLine (dstptr srcptr size : Nat) :
    (appendMemoryCopy.segmentsBeforeCollapse dstptr size).leftSize
        < MemoryConstants.cacheLineSize
      ∧ ((srcptr + (appendMemoryCopy.segmentsBeforeCollapse dstptr size).leftSize) % 4 = 0 →
          (appendMemoryCopy.segments dstptr srcptr size).leftSize
            < MemoryConstants.cacheLineSize) := by
  refine ⟨segmentsBeforeCollapse_leftSize_lt dstptr size, fun hal => ?_⟩
  have hlt := segmentsBeforeCollapse_leftSize_lt dstptr size
  unfold appendMemoryCopy.segments
  simp only [isAligned_four_add64, hal, decide_True, Bool.not_true, Bool.false_eq_true, if_false]
  exact hlt

/-- Witness of C2 (amended): 5000 bytes to address 3 from address 3; the prefix is 61 bytes
and `3 + 61` is 4-byte aligned. -/
theorem appendMemoryCopy_leftSize_lt_cacheLine_witness :
    (3 + (appendMemoryCopy.segmentsBeforeCollapse 3 5000).leftSize) % 4 = 0
      ∧ (appendMemoryCopy.segments 3 3 5000).leftSize < MemoryConstants.cacheLineSize :=
  ⟨by decide, (appendMemoryCopy_leftSize_lt_cacheLine 3 3 5000).2 (by decide)⟩

/-- C3: when `srcptr + leftSize` (with `leftSize` the cache-line prefix computed from
`dstptr`) is not 4-byte aligned, the final `middleSizeBytes` is 0 and the final `leftSize`
is the prefix plus the original middle size; when it is 4-byte aligned, `leftSize` and
`middleSizeBytes` are the ones computed from `dstptr`. -/
theorem appendMemoryCopy_collapse (dstptr srcptr size : Nat) (hsize : size < UINT64_MOD) :
    ((srcptr + (appendMemoryCopy.segmentsBeforeCollapse dstptr size).leftSize) % 4 ≠ 0 →
        (appendMemoryCopy.segments dstptr srcptr size).middleSizeBytes = 0
        ∧ (appendMemoryCopy.segments dstptr srcptr size).leftSize
            = (appendMemoryCopy.segmentsBeforeCollapse dstptr size).leftSize
              + (appendMemoryCopy.segmentsBeforeCollapse dstptr size).middleSizeBytes)
      ∧ ((srcptr + (appendMemoryCopy.segmentsBeforeCollapse dstptr size).leftSize) % 4 = 0 →
        (appendMemoryCopy.segments dstptr srcptr size).leftSize
            = (appendMemoryCopy.segmentsBeforeCollapse dstptr size).leftSize
        ∧ (appendMemoryCopy.segments dstptr srcptr size).middleSizeBytes
            = (appendMemoryCopy.segmentsBeforeCollapse dstptr size).middleSizeBytes) := by
  have hpre := segmentsBeforeCollapse_sum dstptr size hsize
  unfold appendMemoryCopy.segments
  generalize appendMemoryCopy.segmentsBeforeCollapse dstptr size = s at hpre ⊢
  refine ⟨fun hal => ?_, fun hal => ?_⟩
  · simp only [isAligned_four_add64, hal, decide_False, Bool.not_false, if_true, true_and]
    simp only [add64, UINT64_MOD] at *
    omega
  · simp only [isAligned_four_add64, hal, decide_True, Bool.not_true, Bool.false_eq_true,
      if_false, and_self]

/-- Witness of C3: 5000 bytes to address 3 from address 8; the prefix is 61 bytes and
`8 + 61` is not 4-byte aligned, so the split collapses. -/
theorem appendMemoryCopy_collapse_witness :
    5000 < UINT64_MOD
      ∧ (8 + (appendMemoryCopy.segmentsBeforeCollapse 3 5000).leftSize) % 4 ≠ 0
      ∧ (appendMemoryCopy.segments 3 8 5000).middleSizeBytes = 0
      ∧ (appendMemoryCopy.segments 3 8 5000).leftSize
          = (appendMemoryCopy.segmentsBeforeCollapse 3 5000).leftSize
            + (appendMemoryCopy.segmentsBeforeCollapse 3 5000).middleSizeBytes :=
  ⟨by decide, by decide, (appendMemoryCopy_collapse 3 8 5000 (by decide)).1 (by decide)⟩

/-- C4, as stated, fails: for 5000 bytes, the 8-byte aligned source address 8 and the
destination address 3 (3 bytes past a cache line) the split is not 61 / 4864 / 75. -/
theorem appendMemoryCopy_scenario_5000_not_61_4864_75 :
    appendMemoryCopy.segments 3 8 5000
      ≠ { leftSize := 61, middleSizeBytes := 4864, rightSize := 75 } := by
  decide

/-- C4, amended: for a copy of 5000 bytes whose source pointer is 8-byte aligned and whose
destination pointer lies 3 bytes past a 64-byte cache-line boundary, the split computed
from the destination is 61 / 4928 / 11, and as `srcptr + 61` is not 4-byte aligned the
split is collapsed: `leftSize = 4989`, `middleSizeBytes = 0`, `rightSize = 11`. -/
theorem appendMemoryCopy_scenario_5000 (dstptr srcptr : Nat)
    (hdst : dstptr % MemoryConstants.cacheLineSize = 3) (hsrc : srcptr % 8 = 0) :
    appendMemoryCopy.segmentsBeforeCollapse dstptr 5000
        = { leftSize := 61, middleSizeBytes := 4928, rightSize := 11 }
      ∧ appendMemoryCopy.segments dstptr srcptr 5000
        = { leftSize := 4989, middleSizeBytes := 0, rightSize := 11 } := by
  have hpre : appendMemoryCopy.segmentsBeforeCollapse dstptr 5000
      = { leftSize := 61, middleSizeBytes := 4928, rightSize := 11 } := by
    simp only [MemoryConstants.cacheLineSize] at hdst
    have h1 : (dstptr + 5000) % 18446744073709551616 % 64 = 11 := by omega
    simp [appendMemoryCopy.segmentsBeforeCollapse, MemoryConstants.cacheLineSize, sub64,
      add64, UINT64_MOD, hdst, h1]
  refine ⟨hpre, ?_⟩
  unfold appendMemoryCopy.segments
  rw [hpre]
  have h2 : (srcptr + 61) % 4 ≠ 0 := by omega
  simp only [isAligned_four_add64, h2, decide_False, Bool.not_false, if_true]
  simp [add64, UINT64_MOD]

/-- Witness of C4 (amended): destination `64 * 16 + 3`, source 4096. -/
theorem appendMemoryCopy_scenario_5000_witness :
    1027 % MemoryConstants.cacheLineSize = 3 ∧ 4096 % 8 = 0
      ∧ appendMemoryCopy.segmentsBeforeCollapse 1027 5000
        = { leftSize := 61, middleSizeBytes := 4928, rightSize := 11 }
      ∧ appendMemoryCopy.segments 1027 4096 5000
        = { leftSize := 4989, middleSizeBytes := 0, rightSize := 11 } :=
  ⟨by decide, by decide, appendMemoryCopy_scenario_5000 1027 4096 (by decide) (by decide)⟩

/-! ## Theorems: the split of `appendMemoryFill` -/

/-- C5, as stated, fails: the split is computed on the size converted to `uint32_t`. For a
fill of `2 ^ 32` bytes with a 4-byte pattern the main dispatch has 0 groups and there is
no remainder. -/
theorem appendMemoryFill_split_not_exact :
    0 < appendMemoryFill.groupSizeX 4 16
      ∧ appendMemoryFill.groups 4294967296 (appendMemoryFill.groupSizeX 4 16)
            * appendMemoryFill.groupSizeX 4 16
          + appendMemoryFill.groupRemainderSizeX 4294967296 (appendMemoryFill.groupSizeX 4 16)
        ≠ 4294967296 := by
  decide

/-- C5, amended: for every fill size below `2 ^ 32` and every group width
`groupSizeX > 0`, the group count of the main dispatch and the remainder of the trailing
dispatch satisfy `groups * groupSizeX + remainder = size` and `remainder < groupSizeX`. -/
theorem appendMemoryFill_split (size groupSizeX : Nat) (hsize : size < UINT32_MOD)
    (hgroup : 0 < groupSizeX) :
    appendMemoryFill.groups size groupSizeX * groupSizeX
        + appendMemoryFill.groupRemainderSizeX size groupSizeX = size
      ∧ appendMemoryFill.groupRemainderSizeX size groupSizeX < groupSizeX := by
  unfold appendMemoryFill.groups appendMemoryFill.groupRemainderSizeX toUint32
  rw [Nat.mod_eq_of_lt hsize]
  exact ⟨Nat.div_add_mod' size groupSizeX, Nat.mod_lt size hgroup⟩

/-- Witness of C5 (amended): 5000 bytes filled with a one-byte pattern by a SIMD-16 kernel. -/
theorem appendMemoryFill_split_witness :
    5000 < UINT32_MOD ∧ 0 < appendMemoryFill.groupSizeX 1 16
      ∧ appendMemoryFill.groups 5000 (appendMemoryFill.groupSizeX 1 16)
            * appendMemoryFill.groupSizeX 1 16
          + appendMemoryFill.groupRemainderSizeX 5000 (appendMemoryFill.groupSizeX 1 16) = 5000
      ∧ appendMemoryFill.groupRemainderSizeX 5000 (appendMemoryFill.groupSizeX 1 16)
          < appendMemoryFill.groupSizeX 1 16 :=
  ⟨by decide, by decide,
    appendMemoryFill_split 5000 (appendMemoryFill.groupSizeX 1 16) (by decide) (by decide)⟩

/-! ## Theorems: `getAlignedAllocation` -/

/-- The offset `getAlignedAllocation` returns is the remainder of the pointer. -/
theorem getAlignedAllocation_offset_eq (ext : External) (cl : CommandList) (device : Device)
    (buffer bufferSize : Nat) :
    (getAlignedAllocation ext cl device buffer bufferSize).1.offset
      = buffer % ext.surfaceBaseAddressAlignment := by
  unfold getAlignedAllocation
  cases device.findAllocationDataForRange buffer bufferSize <;> rfl

/-- The remainder of a 64-bit pointer can be subtracted and added back without loss. -/
theorem sub64_add64_cancel (a offset : Nat) (hoffset : offset < UINT64_MOD) :
    add64 (sub64 a offset) offset = a % UINT64_MOD := by
  simp only [add64, sub64, UINT64_MOD] at *
  omega

/-- When no registered allocation covers the range, the aligned pointer is derived from the
GPU address of the shadow allocation: on `exampleDevice`, which places the shadow allocation
of the host pointer 101 at the GPU address `101 + 2 ^ 32`, the aligned pointer plus the
offset is not 101. -/
theorem getAlignedAllocation_not_found_base_differs :
    exampleDevice.findAllocationDataForRange 101 16 = none
      ∧ (getAlignedAllocation exampleExternal exampleCommandList exampleDevice 101 16).1.alignedAllocationPtr
          + (getAlignedAllocation exampleExternal exampleCommandList exampleDevice 101 16).1.offset
        ≠ 101 := by
  decide

/-- For every pointer `p` (a 64-bit address) and size `n`, the offset `getAlignedAllocation`
returns is smaller than the surface-base alignment; when an existing allocation covers
`[p, p+n)`, `alignedAllocationPtr + offset = p`; when none does, the returned allocation is
the shadow allocation the device creates and `alignedAllocationPtr + offset` is, in 64-bit
arithmetic, the GPU address of that allocation. -/
theorem getAlignedAllocation_offset (ext : External) (cl : CommandList) (device : Device)
    (buffer bufferSize : Nat) (halign : 0 < ext.surfaceBaseAddressAlignment)
    (hbuffer : buffer < UINT64_MOD) :
    (getAlignedAllocation ext cl device buffer bufferSize).1.offset
        < ext.surfaceBaseAddressAlignment
      ∧ match device.findAllocationDataForRange buffer bufferSize with
        | some _ =>
          (getAlignedAllocation ext cl device buffer bufferSize).1.alignedAllocationPtr
            + (getAlignedAllocation ext cl device buffer bufferSize).1.offset = buffer
        | none =>
          (getAlignedAllocation ext cl device buffer bufferSize).1.alloc
              = (device.allocateMemoryFromHostPtr buffer bufferSize).1
            ∧ add64 (getAlignedAllocation ext cl device buffer bufferSize).1.alignedAllocationPtr
                (getAlignedAllocation ext cl device buffer bufferSize).1.offset
              = (getAlignedAllocation ext cl device buffer bufferSize).1.alloc.gpuAddress
                  % UINT64_MOD := by
  have hmod : buffer % ext.surfaceBaseAddressAlignment ≤ buffer := Nat.mod_le _ _
  refine ⟨?_, ?_⟩
  · rw [getAlignedAllocation_offset_eq]
    exact Nat.mod_lt _ halign
  · unfold getAlignedAllocation getSshAlignedPointer
    cases hfind : device.findAllocationDataForRange buffer bufferSize with
    | none =>
      refine ⟨rfl, ?_⟩
      exact sub64_add64_cancel _ _ (lt_of_le_of_lt hmod hbuffer)
    | some allocData =>
      simp only [sub64, UINT64_MOD] at *
      omega

/-- The two branches of `getAlignedAllocation_offset` on examples: the pointer `0x10003`
inside the registered allocation of `exampleDevice`, and the host pointer 101 that no
registered allocation covers. -/
theorem getAlignedAllocation_offset_witness :
    (0 < exampleExternal.surfaceBaseAddressAlignment ∧ 65539 < UINT64_MOD ∧ 101 < UINT64_MOD)
      ∧ ((getAlignedAllocation exampleExternal exampleCommandList exampleDevice 65539 16).1.offset
            < exampleExternal.surfaceBaseAddressAlignment
          ∧ (getAlignedAllocation exampleExternal exampleCommandList exampleDevice 65539 16).1.alignedAllocationPtr
              + (getAlignedAllocation exampleExternal exampleCommandList exampleDevice 65539 16).1.offset
            = 65539)
      ∧ ((getAlignedAllocation exampleExternal exampleCommandList exampleDevice 101 16).1.offset
            < exampleExternal.surfaceBaseAddressAlignment
          ∧ (getAlignedAllocation exampleExternal exampleCommandList exampleDevice 101 16).1.alloc
              = (exampleDevice.allocateMemoryFromHostPtr 101 16).1
          ∧ add64 (getAlignedAllocation exampleExternal exampleCommandList exampleDevice 101 16).1.alignedAllocationPtr
                (getAlignedAllocation exampleExternal exampleCommandList exampleDevice 101 16).1.offset
              = (getAlignedAllocation exampleExternal exampleCommandList exampleDevice 101 16).1.alloc.gpuAddress
                  % UINT64_MOD) :=
  ⟨by decide,
   getAlignedAllocation_offset exampleExternal exampleCommandList exampleDevice 65539 16
    (by decide) (by decide),
   getAlignedAllocation_offset exampleExternal exampleCommandList exampleDevice 101 16
    (by decide) (by decide)⟩

/-- C7: when an existing allocation covers the range, `needsFlush` is true if and only if
its memory type is `HOST_UNIFIED_MEMORY` or `SHARED_UNIFIED_MEMORY`; when none is found,
`needsFlush` is true. -/
theorem getAlignedAllocation_needsFlush (ext : External) (cl : CommandList) (device : Device)
    (buffer bufferSize : Nat) :
    match device.findAllocationDataForRange buffer bufferSize with
    | some allocData =>
      ((getAlignedAllocation ext cl device buffer bufferSize).1.needsFlush = true ↔
        (allocData.memoryType = InternalMemoryType.HOST_UNIFIED_MEMORY
          ∨ allocData.memoryType = InternalMemoryType.SHARED_UNIFIED_MEMORY))
    | none => (getAlignedAllocation ext cl device buffer bufferSize).1.needsFlush = true := by
  unfold getAlignedAllocation
  cases hfind : device.findAllocationDataForRange buffer bufferSize with
  | none => rfl
  | some allocData => simp

/-- The three cases of `needsFlush` on concrete devices: a registered host allocation, a
registered device allocation, and a pointer that is not registered. -/
theorem getAlignedAllocation_needsFlush_examples :
    (getAlignedAllocation exampleExternal exampleCommandList exampleDevice 65539 16).1.needsFlush
        = true
      ∧ (getAlignedAllocation exampleExternal exampleCommandList exampleDeviceLocal 65539 16).1.needsFlush
        = false
      ∧ (getAlignedAllocation exampleExternal exampleCommandList exampleDevice 101 16).1.needsFlush
        = true := by
  decide

/-- A lookup that fails before a shadow allocation is created fails after it as well: the
registry of the driver handle is not touched. -/
theorem findAllocationDataForRange_after_allocate (device : Device)
    (buffer bufferSize p n : Nat) :
    (device.allocateMemoryFromHostPtr buffer bufferSize).2.findAllocationDataForRange p n
      = device.findAllocationDataForRange p n := rfl

/-- When the lookup fails, `getAlignedAllocation` returns the allocation the device
creates and leaves the device in the state after that creation. -/
theorem getAlignedAllocation_of_not_found (ext : External) (cl : CommandList)
    (device : Device) (buffer bufferSize : Nat)
    (hfind : device.findAllocationDataForRange buffer bufferSize = none) :
    (getAlignedAllocation ext cl device buffer bufferSize).1.alloc
        = (device.allocateMemoryFromHostPtr buffer bufferSize).1
      ∧ (getAlignedAllocation ext cl device buffer bufferSize).2.2
        = (device.allocateMemoryFromHostPtr buffer bufferSize).2 := by
  unfold getAlignedAllocation
  rw [hfind]
  exact ⟨rfl, rfl⟩

/-- C8, as stated, fails: two calls of `getAlignedAllocation` with the host pointer 101,
which the device lookup does not find, create two shadow allocations and return different
ones. -/
theorem getAlignedAllocation_second_call_allocates_again :
    exampleDevice.findAllocationDataForRange 101 16 = none
      ∧ (getAlignedAllocation exampleExternal
            (getAlignedAllocation exampleExternal exampleCommandList exampleDevice 101 16).2.1
            (getAlignedAllocation exampleExternal exampleCommandList exampleDevice 101 16).2.2
            101 16).1.alloc
          ≠ (getAlignedAllocation exampleExternal exampleCommandList exampleDevice 101 16).1.alloc
      ∧ (getAlignedAllocation exampleExternal
            (getAlignedAllocation exampleExternal exampleCommandList exampleDevice 101 16).2.1
            (getAlignedAllocation exampleExternal exampleCommandList exampleDevice 101 16).2.2
            101 16).2.2.hostPtrAllocations.length
          = exampleDevice.hostPtrAllocations.length + 2 := by
  decide

/-- C8, amended: `getAlignedAllocation` never consults the host-pointer map. Called with a
host pointer the device lookup does not find, it asks the device for a new shadow
allocation and returns that one; a second call with the same pointer does the same, so the
device has created two allocations and the second call returns the second one, which is
not the allocation of the first call. -/
theorem getAlignedAllocation_allocates_each_call (ext : External) (cl : CommandList)
    (device : Device) (buffer bufferSize : Nat)
    (hfind : device.findAllocationDataForRange buffer bufferSize = none) :
    (getAlignedAllocation ext cl device buffer bufferSize).1.alloc
        = (device.allocateMemoryFromHostPtr buffer bufferSize).1
      ∧ (getAlignedAllocation ext
            (getAlignedAllocation ext cl device buffer bufferSize).2.1
            (getAlignedAllocation ext cl device buffer bufferSize).2.2
            buffer bufferSize).2.2.hostPtrAllocations
          = device.hostPtrAllocations
            ++ [(getAlignedAllocation ext cl device buffer bufferSize).1.alloc,
                (getAlignedAllocation ext
                  (getAlignedAllocation ext cl device buffer bufferSize).2.1
                  (getAlignedAllocation ext cl device buffer bufferSize).2.2
                  buffer bufferSize).1.alloc]
      ∧ (getAlignedAllocation ext
            (getAlignedAllocation ext cl device buffer bufferSize).2.1
            (getAlignedAllocation ext cl device buffer bufferSize).2.2
            buffer bufferSize).1.alloc
          ≠ (getAlignedAllocation ext cl device buffer bufferSize).1.alloc := by
  obtain ⟨halloc1, hdevice1⟩ := getAlignedAllocation_of_not_found ext cl device buffer
    bufferSize hfind
  have hfind2 : (getAlignedAllocation ext cl device buffer bufferSize).2.2.findAllocationDataForRange
      buffer bufferSize = none := by
    rw [hdevice1, findAllocationDataForRange_after_allocate]; exact hfind
  obtain ⟨halloc2, hdevice2⟩ := getAlignedAllocation_of_not_found ext
    (getAlignedAllocation ext cl device buffer bufferSize).2.1
    (getAlignedAllocation ext cl device buffer bufferSize).2.2 buffer bufferSize hfind2
  rw [hdevice2, halloc2, halloc1, hdevice1]
  refine ⟨rfl, ?_, ?_⟩
  · simp [Device.allocateMemoryFromHostPtr]
  · simp [Device.allocateMemoryFromHostPtr]

/-- Witness of C8 (amended): the host pointer 101 on `exampleDevice`, whose next
allocation id is 1. -/
theorem getAlignedAllocation_allocates_each_call_witness :
    exampleDevice.findAllocationDataForRange 101 16 = none
      ∧ ((getAlignedAllocation exampleExternal exampleCommandList exampleDevice 101 16).1.alloc
          = { id := 1, gpuAddress := 4294967397 }
        ∧ (getAlignedAllocation exampleExternal
              (getAlignedAllocation exampleExternal exampleCommandList exampleDevice 101 16).2.1
              (getAlignedAllocation exampleExternal exampleCommandList exampleDevice 101 16).2.2
              101 16).2.2.hostPtrAllocations
            = [{ id := 1, gpuAddress := 4294967397 }, { id := 2, gpuAddress := 4294967397 }]
        ∧ (getAlignedAllocation exampleExternal
              (getAlignedAllocation exampleExternal exampleCommandList exampleDevice 101 16).2.1
              (getAlignedAllocation exampleExternal exampleCommandList exampleDevice 101 16).2.2
              101 16).1.alloc
            ≠ (getAlignedAllocation exampleExternal exampleCommandList exampleDevice 101 16).1.alloc) :=
  ⟨by decide,
   getAlignedAllocation_allocates_each_call exampleExternal exampleCommandList exampleDevice
      101 16 (by decide)⟩

/-! ## Theorems: validation of the wait events -/

/-- With a positive count and a null array `addEventsToCmdList` returns
`ZE_RESULT_ERROR_INVALID_ARGUMENT` and changes nothing. -/
theorem addEventsToCmdList_null_array (ext : External) (cl : CommandList)
    (hEvent : ze_event_handle_t) (numWaitEvents : Nat) (hcount : 0 < numWaitEvents) :
    addEventsToCmdList ext cl hEvent numWaitEvents none
      = some (ze_result_t.ZE_RESULT_ERROR_INVALID_ARGUMENT, cl) := by
  unfold addEventsToCmdList
  rw [if_pos hcount]

/-- C9: for each of `appendLaunchKernel`, `appendLaunchKernelIndirect`,
`appendLaunchMultipleKernelsIndirect`, `appendBarrier` and `appendMemoryRangesBarrier`: if
`numWaitEvents > 0` and `phWaitEvents` is null, the operation returns
`ZE_RESULT_ERROR_INVALID_ARGUMENT` and leaves the command list, with its command stream and
its residency set, unchanged. -/
theorem append_null_wait_events_invalid_argument (ext : External) (cl : CommandList)
    (hKernel : ze_kernel_handle_t) (pThreadGroupDimensions : Option GroupCountPtr)
    (numKernels : Nat) (phKernels : Option (List ze_kernel_handle_t))
    (pNumLaunchArguments : Nat) (pLaunchArgumentsBuffer : Option Nat)
    (numRanges : Nat) (pRangeSizes pRanges : Option (List Nat))
    (hEvent : ze_event_handle_t) (numWaitEvents : Nat) (hcount : 0 < numWaitEvents) :
    appendLaunchKernel ext cl hKernel pThreadGroupDimensions hEvent numWaitEvents none
        = some (ze_result_t.ZE_RESULT_ERROR_INVALID_ARGUMENT, cl)
      ∧ appendLaunchKernelIndirect ext cl hKernel pThreadGroupDimensions hEvent numWaitEvents
          none
        = some (ze_result_t.ZE_RESULT_ERROR_INVALID_ARGUMENT, cl)
      ∧ appendLaunchMultipleKernelsIndirect ext cl numKernels phKernels pNumLaunchArguments
          pLaunchArgumentsBuffer hEvent numWaitEvents none
        = some (ze_result_t.ZE_RESULT_ERROR_INVALID_ARGUMENT, cl)
      ∧ appendBarrier ext cl hEvent numWaitEvents none
        = some (ze_result_t.ZE_RESULT_ERROR_INVALID_ARGUMENT, cl)
      ∧ appendMemoryRangesBarrier ext cl numRanges pRangeSizes pRanges hEvent numWaitEvents
          none
        = some (ze_result_t.ZE_RESULT_ERROR_INVALID_ARGUMENT, cl) := by
  have hadd := addEventsToCmdList_null_array ext cl hEvent numWaitEvents hcount
  refine ⟨?_, ?_, ?_, ?_, ?_⟩
  · unfold appendLaunchKernel
    rw [hadd]
    rfl
  · unfold appendLaunchKernelIndirect
    rw [hadd]
    rfl
  · unfold appendLaunchMultipleKernelsIndirect
    rw [hadd]
    rfl
  · unfold appendBarrier
    rw [hadd]
    rfl
  · unfold appendMemoryRangesBarrier
    rw [hadd]
    rfl

/-- Witness of C9: two wait events requested through a null array on `exampleCommandList`,
with a signal event given. -/
theorem append_null_wait_events_invalid_argument_witness :
    0 < 2
      ∧ appendLaunchKernel exampleExternal exampleCommandList 7
          (some (GroupCountPtr.hostStruct { groupCountX := 4, groupCountY := 1, groupCountZ := 1 }))
          (some exampleEvent) 2 none
        = some (ze_result_t.ZE_RESULT_ERROR_INVALID_ARGUMENT, exampleCommandList)
      ∧ appendLaunchKernelIndirect exampleExternal exampleCommandList 7
          (some (GroupCountPtr.hostStruct { groupCountX := 4, groupCountY := 1, groupCountZ := 1 }))
          (some exampleEvent) 2 none
        = some (ze_result_t.ZE_RESULT_ERROR_INVALID_ARGUMENT, exampleCommandList)
      ∧ appendLaunchMultipleKernelsIndirect exampleExternal exampleCommandList 2 (some [7, 8])
          4096 (some 8192) (some exampleEvent) 2 none
        = some (ze_result_t.ZE_RESULT_ERROR_INVALID_ARGUMENT, exampleCommandList)
      ∧ appendBarrier exampleExternal exampleCommandList (some exampleEvent) 2 none
        = some (ze_result_t.ZE_RESULT_ERROR_INVALID_ARGUMENT, exampleCommandList)
      ∧ appendMemoryRangesBarrier exampleExternal exampleCommandList 1 (some [64])
          (some [65536]) (some exampleEvent) 2 none
        = some (ze_result_t.ZE_RESULT_ERROR_INVALID_ARGUMENT, exampleCommandList) :=
  ⟨by decide,
   append_null_wait_events_invalid_argument exampleExternal exampleCommandList 7
    (some (GroupCountPtr.hostStruct { groupCountX := 4, groupCountY := 1, groupCountZ := 1 }))
    2 (some [7, 8]) 4096 (some 8192) 1 (some [64]) (some [65536]) (some exampleEvent) 2
    (by decide)⟩

/-- With a valid array of one wait event `appendBarrier` succeeds and records the wait,
its flush and the barrier: the error result is tied to the null array. -/
theorem appendBarrier_valid_wait_events_example :
    appendBarrier exampleExternal exampleCommandList none 1 (some [some exampleEvent])
      = some (ze_result_t.ZE_RESULT_SUCCESS,
          { exampleCommandList with commandContainer :=
              { exampleCommandList.commandContainer with
                  commandStream := [Command.stateBaseAddress, Command.pipeControl false,
                    Command.miSemaphoreWait 131072 4294967295
                      COMPARE_OPERATION.COMPARE_OPERATION_SAD_NOT_EQUAL_SDD,
                    Command.pipeControl true, Command.pipeControl false]
                  residencyContainer := [exampleEvent.allocation] } }) := by
  decide

/-- C10, at the failing input: `appendWaitOnEvents` has no check of its array pointer. With
a positive count and a null array its loop reads `phEvent[0]` through the null pointer, so
no result code is produced; in particular it does not return
`ZE_RESULT_ERROR_INVALID_ARGUMENT`. -/
theorem appendWaitOnEvents_null_array_reads_null (ext : External) (cl : CommandList)
    (numEvents : Nat) (hcount : 0 < numEvents) :
    appendWaitOnEvents ext cl numEvents none = none
      ∧ ∀ cl', appendWaitOnEvents ext cl numEvents none
          ≠ some (ze_result_t.ZE_RESULT_ERROR_INVALID_ARGUMENT, cl') := by
  have hnone : appendWaitOnEvents ext cl numEvents none = none := by
    obtain ⟨n, rfl⟩ := Nat.exists_eq_succ_of_ne_zero (Nat.pos_iff_ne_zero.mp hcount)
    simp [appendWaitOnEvents, appendWaitOnEvents.loop]
  refine ⟨hnone, fun cl' h => ?_⟩
  rw [hnone] at h
  exact Option.noConfusion h

/-- Witness of C10's theorem: one event requested through a null array. -/
theorem appendWaitOnEvents_null_array_reads_null_witness :
    0 < 1 ∧ appendWaitOnEvents exampleExternal exampleCommandList 1 none = none :=
  ⟨by decide,
   (appendWaitOnEvents_null_array_reads_null exampleExternal exampleCommandList 1
      (by decide)).1⟩

/-! ## Theorems: lifecycle -/

/-- C14: `close()` returns success, leaves the residency set with the same members and
without duplicates, and appends exactly one batch-buffer-end marker at the end of the
command stream; a second `close()` appends a second marker. -/
theorem close_spec (cl : CommandList) :
    (close cl).1 = ze_result_t.ZE_RESULT_SUCCESS
      ∧ (∀ alloc, alloc ∈ (close cl).2.commandContainer.residencyContainer
          ↔ alloc ∈ cl.commandContainer.residencyContainer)
      ∧ (close cl).2.commandContainer.residencyContainer.Nodup
      ∧ (close cl).2.commandContainer.commandStream
          = cl.commandContainer.commandStream ++ [Command.batchBufferEnd]
      ∧ (close (close cl).2).2.commandContainer.commandStream
          = cl.commandContainer.commandStream
            ++ [Command.batchBufferEnd, Command.batchBufferEnd] := by
  refine ⟨rfl, fun alloc => ?_, ?_, rfl, ?_⟩
  · simp [close, CommandContainer.removeDuplicatesFromResidencyContainer,
      CommandContainer.encode]
  · simp [close, CommandContainer.removeDuplicatesFromResidencyContainer,
      CommandContainer.encode, List.nodup_dedup]
  · simp [close, CommandContainer.removeDuplicatesFromResidencyContainer,
      CommandContainer.encode]

/-- An evaluation of `close` for C14: a residency container with a repeated allocation. -/
theorem close_example :
    (close { exampleCommandList with commandContainer :=
        { exampleCommandList.commandContainer with
            residencyContainer := [{ id := 1, gpuAddress := 4096 }, { id := 2, gpuAddress := 8192 },
              { id := 1, gpuAddress := 4096 }] } }).2.commandContainer
      = { commandStream := [Command.stateBaseAddress, Command.pipeControl false,
            Command.batchBufferEnd]
          residencyContainer := [{ id := 2, gpuAddress := 8192 }, { id := 1, gpuAddress := 4096 }]
          dirtyStateForAllHeaps := false } := by
  decide

/-- C15, as stated, fails on the compute example list: `reset()` encodes the state base
address into the command stream it has just emptied, so a `close()` right after the reset
yields a stream of two commands, not the terminal marker alone. -/
theorem reset_then_close_not_only_terminal_marker :
    exampleCommandList.isCopyOnlyCmdList = false
      ∧ (reset exampleCommandList).2.commandContainer.commandStream ≠ []
      ∧ (close (reset exampleCommandList).2).2.commandContainer.commandStream
        ≠ [Command.batchBufferEnd] := by
  decide

/-- C15, amended: on a compute list (one that is not copy-only), whatever has been
recorded, `reset()` discards the recorded commands and encodes the state base address anew,
so the command stream holds exactly that encoding (no raw space is in use), and a `close()`
issued right after the reset yields the state base address followed by the terminal
batch-buffer-end marker. -/
theorem reset_then_close (cl : CommandList) (hcompute : cl.isCopyOnlyCmdList = false) :
    (reset cl).2.isCopyOnlyCmdList = false
      ∧ (reset cl).2.commandContainer.commandStream = [Command.stateBaseAddress]
      ∧ (reset cl).2.commandContainer.sizeUsed = 0
      ∧ (close (reset cl).2).2.commandContainer.commandStream
        = [Command.stateBaseAddress, Command.batchBufferEnd] := by
  refine ⟨hcompute, rfl, rfl, rfl⟩

/-- Witness of C15 (amended): the compute example list, which has recorded a barrier. -/
theorem reset_then_close_witness :
    exampleCommandList.isCopyOnlyCmdList = false
      ∧ (reset exampleCommandList).2.isCopyOnlyCmdList = false
      ∧ (reset exampleCommandList).2.commandContainer.commandStream = [Command.stateBaseAddress]
      ∧ (reset exampleCommandList).2.commandContainer.sizeUsed = 0
      ∧ (close (reset exampleCommandList).2).2.commandContainer.commandStream
        = [Command.stateBaseAddress, Command.batchBufferEnd] :=
  ⟨rfl, reset_then_close exampleCommandList rfl⟩

/-- C16: after `reset()`, whatever was recorded before, `printfFunctionContainer`, the
deallocation list and the host-pointer map are empty, and `reset` returns success. -/
theorem reset_clears_side_tables (cl : CommandList) :
    (reset cl).1 = ze_result_t.ZE_RESULT_SUCCESS
      ∧ (reset cl).2.printfFunctionContainer = []
      ∧ (reset cl).2.commandContainer.deallocationContainer = []
      ∧ (reset cl).2.hostPtrMap = [] := by
  refine ⟨rfl, rfl, rfl, rfl⟩

/-- An evaluation of `reset` for C15 and C16: a list with entries in every side table. -/
theorem reset_example :
    (reset { commandContainer :=
               { commandStream := [Command.stateBaseAddress, Command.pipeControl false]
                 residencyContainer := [{ id := 1, gpuAddress := 4096 }]
                 deallocationContainer := [{ id := 5, gpuAddress := 12288 }]
                 sizeUsed := 64 }
             hostPtrMap := [(101, { id := 1, gpuAddress := 4096 })]
             printfFunctionContainer := [7] }).2
      = { commandContainer := { commandStream := [Command.stateBaseAddress]
                                dirtyStateForAllHeaps := false } } := by
  decide

/-! ## Theorems: event synchronisation -/

/-- C17: `appendSignalEvent` adds the event's allocation to the residency set and emits
exactly one command, a write of the `SIGNALED` state to the event's GPU address. On a
compute list that command is a pipe control with post-sync write whose dc-flush flag is off
exactly when the event's `signalScope` is `ZE_EVENT_SCOPE_FLAG_NONE` and on for every other
scope; on a copy-only list it is an `MI_FLUSH_DW` with post-sync write. Nothing else is
emitted and nothing else changes. -/
theorem appendSignalEvent_spec (cl : CommandList) (event : Event) :
    appendSignalEvent cl (some event)
      = some (ze_result_t.ZE_RESULT_SUCCESS,
          { cl with commandContainer :=
              { cl.commandContainer with
                  residencyContainer :=
                    cl.commandContainer.residencyContainer ++ [event.allocation]
                  commandStream := cl.commandContainer.commandStream
                    ++ [if cl.isCopyOnlyCmdList then
                          Command.miFlushDw event.gpuAddress ImmediateData.STATE_SIGNALED
                            false true
                        else
                          Command.pipeControlWithPostSync
                            POST_SYNC_OPERATION.POST_SYNC_OPERATION_WRITE_IMMEDIATE_DATA
                            event.gpuAddress ImmediateData.STATE_SIGNALED
                            (decide (event.signalScope
                              ≠ ze_event_scope_flag_t.ZE_EVENT_SCOPE_FLAG_NONE))] } }) := by
  unfold appendSignalEvent
  by_cases hcopy : cl.isCopyOnlyCmdList = true <;>
  by_cases hscope : event.signalScope = ze_event_scope_flag_t.ZE_EVENT_SCOPE_FLAG_NONE <;>
    simp [hcopy, hscope, CommandContainer.addToResidencyContainer, CommandContainer.encode]

/-- Evaluations of `appendSignalEvent` for C17 on a compute list: an event with scope `NONE`
and one with scope `HOST`. -/
theorem appendSignalEvent_examples :
    (appendSignalEvent exampleCommandList (some exampleEvent)).map
        (fun r => r.2.commandContainer.commandStream)
      = some [Command.stateBaseAddress, Command.pipeControl false,
          Command.pipeControlWithPostSync
            POST_SYNC_OPERATION.POST_SYNC_OPERATION_WRITE_IMMEDIATE_DATA 131072
            ImmediateData.STATE_SIGNALED false]
      ∧ (appendSignalEvent exampleCommandList
          (some { exampleEvent with
            signalScope := ze_event_scope_flag_t.ZE_EVENT_SCOPE_FLAG_HOST })).map
        (fun r => r.2.commandContainer.commandStream)
      = some [Command.stateBaseAddress, Command.pipeControl false,
          Command.pipeControlWithPostSync
            POST_SYNC_OPERATION.POST_SYNC_OPERATION_WRITE_IMMEDIATE_DATA 131072
            ImmediateData.STATE_SIGNALED true] := by
  decide

/-- The loop of `appendWaitOnEvents` over the tail `rest` of a valid array runs the loop
body on each event of `rest`, in order. -/
theorem appendWaitOnEvents_loop_valid (ext : External) (rest pre : List Event)
    (cl : CommandList) :
    appendWaitOnEvents.loop ext (some ((pre ++ rest).map some)) cl pre.length rest.length
      = some (rest.foldl (appendWaitOnEvents.body ext) cl) := by
  induction rest generalizing pre cl with
  | nil => simp [appendWaitOnEvents.loop]
  | cons event rest ih =>
    have hget : ((pre ++ event :: rest).map some).get? pre.length = some (some event) := by
      rw [List.get?_eq_getElem?, List.getElem?_map,
        List.getElem?_append_right (le_refl _)]
      simp
    have hih := ih (pre ++ [event]) (appendWaitOnEvents.body ext cl event)
    simp only [List.append_assoc, List.singleton_append, List.length_append,
      List.length_singleton] at hih
    simp only [List.length_cons, appendWaitOnEvents.loop, hget, List.foldl_cons]
    exact hih

/-- The loop body of `appendWaitOnEvents`, run over a list of events, appends the expected
commands of each event to the stream and the allocation of each event to the residency
container, and touches nothing else. -/
theorem appendWaitOnEvents_body_foldl (ext : External) (events : List Event)
    (cl : CommandList) :
    events.foldl (appendWaitOnEvents.body ext) cl
      = { cl with commandContainer :=
            { cl.commandContainer with
                commandStream := cl.commandContainer.commandStream
                  ++ events.flatMap (expectedWaitCommands ext cl.isCopyOnlyCmdList)
                residencyContainer := cl.commandContainer.residencyContainer
                  ++ events.map (fun event => event.allocation) } } := by
  induction events generalizing cl with
  | nil => simp
  | cons event events ih =>
    rw [List.foldl_cons, ih]
    by_cases hts : event.isTimestampEvent = true <;>
    by_cases hscope : event.waitScope = ze_event_scope_flag_t.ZE_EVENT_SCOPE_FLAG_NONE <;>
    by_cases hcopy : cl.isCopyOnlyCmdList = true <;>
      simp [appendWaitOnEvents.body, expectedWaitCommands, hts, hscope, hcopy,
        CommandContainer.addToResidencyContainer, CommandContainer.encode, UINT32_MOD]

/-- C18: for every array of `n` valid wait events, `appendWaitOnEvents` returns success
and processes the events in array order: the residency container gains the allocation of
each event, and the command stream gains, for each event in turn, exactly one semaphore
wait on the event's address (moved to `contextEnd` for a timestamp event) with compare value
`0xFFFFFFFF` and the not-equal operation, followed by exactly one flush command if and only
if the event's `waitScope` is not `NONE`. Nothing else changes. -/
theorem appendWaitOnEvents_spec (ext : External) (cl : CommandList) (events : List Event) :
    appendWaitOnEvents ext cl events.length (some (events.map some))
      = some (ze_result_t.ZE_RESULT_SUCCESS,
          { cl with commandContainer :=
              { cl.commandContainer with
                  commandStream := cl.commandContainer.commandStream
                    ++ events.flatMap (expectedWaitCommands ext cl.isCopyOnlyCmdList)
                  residencyContainer := cl.commandContainer.residencyContainer
                    ++ events.map (fun event => event.allocation) } }) := by
  have hloop := appendWaitOnEvents_loop_valid ext events [] cl
  simp only [List.nil_append, List.length_nil] at hloop
  unfold appendWaitOnEvents
  rw [hloop, appendWaitOnEvents_body_foldl]
  rfl

/-- An evaluation of `appendWaitOnEvents` for C18: a timestamp event with scope `NONE`
followed by an ordinary event with device scope, on a compute list. -/
theorem appendWaitOnEvents_example :
    (appendWaitOnEvents exampleExternal exampleCommandList 2
        (some [some { exampleEvent with
                        allocation := { id := 101, gpuAddress := 196608 }
                        gpuAddress := 196608
                        isTimestampEvent := true
                        waitScope := ze_event_scope_flag_t.ZE_EVENT_SCOPE_FLAG_NONE },
               some exampleEvent])).map
        (fun r => (r.1, r.2.commandContainer.commandStream,
          r.2.commandContainer.residencyContainer))
      = some (ze_result_t.ZE_RESULT_SUCCESS,
          [Command.stateBaseAddress, Command.pipeControl false,
           Command.miSemaphoreWait 196616 4294967295
             COMPARE_OPERATION.COMPARE_OPERATION_SAD_NOT_EQUAL_SDD,
           Command.miSemaphoreWait 131072 4294967295
             COMPARE_OPERATION.COMPARE_OPERATION_SAD_NOT_EQUAL_SDD,
           Command.pipeControl true],
          [{ id := 101, gpuAddress := 196608 }, { id := 100, gpuAddress := 131072 }]) := by
  decide

/-! ## Theorems: `reserveSpace` -/

/-- C19: `reserveSpace(size, ptr)` always returns success; it stores a null pointer if and
only if `size` is greater than the available space of the command stream, and then the
command list is unchanged; otherwise (also when `size` equals the available space) the
available space shrinks by exactly `size` bytes. -/
theorem reserveSpace_spec (cl : CommandList) (size : Nat) :
    (reserveSpace cl size).1 = ze_result_t.ZE_RESULT_SUCCESS
      ∧ ((reserveSpace cl size).2.1 = none ↔ cl.commandContainer.getAvailableSpace < size)
      ∧ ((reserveSpace cl size).2.1 = none → (reserveSpace cl size).2.2 = cl)
      ∧ ((reserveSpace cl size).2.1 ≠ none →
          (reserveSpace cl size).2.2.commandContainer.getAvailableSpace + size
            = cl.commandContainer.getAvailableSpace) := by
  unfold reserveSpace
  by_cases h : cl.commandContainer.getAvailableSpace < size
  · simp [h]
  · simp only [h, if_false, CommandContainer.getSpace]
    refine ⟨trivial, by simp, by simp, fun _ => ?_⟩
    simp only [CommandContainer.getAvailableSpace] at *
    omega

/-- Witness of C19: on a stream with 65536 bytes available, 65537 bytes are refused and
leave the list as it is; 64 bytes are granted and leave 64 bytes less. -/
theorem reserveSpace_spec_witness :
    ((reserveSpace exampleCommandList 65537).2.1 = none
        ∧ (reserveSpace exampleCommandList 65537).2.2 = exampleCommandList)
      ∧ ((reserveSpace exampleCommandList 64).2.1 ≠ none
        ∧ (reserveSpace exampleCommandList 64).2.2.commandContainer.getAvailableSpace + 64
          = exampleCommandList.commandContainer.getAvailableSpace) :=
  ⟨⟨by decide, (reserveSpace_spec exampleCommandList 65537).2.2.1 (by decide)⟩,
   ⟨by decide, (reserveSpace_spec exampleCommandList 64).2.2.2 (by decide)⟩⟩

/-- Evaluations of `reserveSpace` for C19: exactly the available space is granted and
leaves no space; 64 bytes are granted and leave `65536 - 64`. -/
theorem reserveSpace_examples :
    exampleCommandList.commandContainer.getAvailableSpace = 65536
      ∧ (reserveSpace exampleCommandList 65536).2.1 = some 0
      ∧ (reserveSpace exampleCommandList 65536).2.2.commandContainer.getAvailableSpace = 0
      ∧ (reserveSpace exampleCommandList 64).2.1 = some 0
      ∧ (reserveSpace exampleCommandList 64).2.2.commandContainer.getAvailableSpace = 65472
      ∧ (reserveSpace (reserveSpace exampleCommandList 64).2.2 65473).2.1 = none := by
  decide

/-! ## Theorems: validation in the copy operations -/

/-- The wait-event arguments of `appendMemoryCopy` have no effect on what it does. -/
theorem appendMemoryCopy_ignores_wait_events (ext : External) (cl : CommandList)
    (device : Device) (dstptr srcptr size : Nat) (hSignalEvent : ze_event_handle_t)
    (numWaitEvents : Nat) (phWaitEvents : Option (List ze_event_handle_t)) :
    appendMemoryCopy ext cl device dstptr srcptr size hSignalEvent numWaitEvents phWaitEvents
      = appendMemoryCopy ext cl device dstptr srcptr size hSignalEvent 0 none := rfl

/-- C11, at the failing input: `appendMemoryCopy` of 300 bytes with one wait event
requested through a null array does not fail with `ZE_RESULT_ERROR_INVALID_ARGUMENT`. On a
compute list it returns success and records two kernel launches and a flush; on a copy-only
list it returns success and records blit commands. -/
theorem appendMemoryCopy_null_wait_events_copies :
    (appendMemoryCopy exampleExternal exampleCommandList exampleDevice 65539 66000 300 none 1
        none).map (fun r => (r.1, r.2.1.commandContainer.commandStream))
      = some (ze_result_t.ZE_RESULT_SUCCESS,
          [Command.stateBaseAddress, Command.pipeControl false,
           Command.walker 1 (some (GroupCountPtr.hostStruct
             { groupCountX := 8, groupCountY := 1, groupCountZ := 1 })) false false,
           Command.walker 1 (some (GroupCountPtr.hostStruct
             { groupCountX := 2, groupCountY := 1, groupCountZ := 1 })) false false,
           Command.pipeControl true])
      ∧ (appendMemoryCopy exampleExternal { exampleCommandList with isCopyOnlyCmdList := true }
          exampleDevice 65539 66000 300 none 1 none).map
          (fun r => (r.1, r.2.1.commandContainer.commandStream.length))
        = some (ze_result_t.ZE_RESULT_SUCCESS, 4) := by
  decide

/-- The mismatch test of `appendImageCopyRegion` comes before everything else. -/
theorem appendImageCopyRegion_mismatch (ext : External) (cl : CommandList) (device : Device)
    (hDstImage hSrcImage : Image) (pDstRegion pSrcRegion : Option ze_image_region_t)
    (hEvent : ze_event_handle_t) (numWaitEvents : Nat)
    (phWaitEvents : Option (List ze_event_handle_t))
    (hmismatch :
      (appendImageCopyRegion.effectiveRegion hSrcImage pSrcRegion).width
          ≠ (appendImageCopyRegion.effectiveRegion hDstImage pDstRegion).width
        ∨ (appendImageCopyRegion.effectiveRegion hSrcImage pSrcRegion).height
          ≠ (appendImageCopyRegion.effectiveRegion hDstImage pDstRegion).height
        ∨ (appendImageCopyRegion.effectiveRegion hSrcImage pSrcRegion).depth
          ≠ (appendImageCopyRegion.effectiveRegion hDstImage pDstRegion).depth) :
    appendImageCopyRegion ext cl device hDstImage hSrcImage pDstRegion pSrcRegion hEvent
        numWaitEvents phWaitEvents
      = some (ze_result_t.ZE_RESULT_ERROR_INVALID_ARGUMENT, cl, device) := by
  unfold appendImageCopyRegion
  simp only [if_pos hmismatch]

/-- C13: `appendImageCopyRegion` returns `ZE_RESULT_ERROR_INVALID_ARGUMENT`, and leaves the
command list (so also its command stream) and the device as they are, whenever the
effective source and destination regions (a null region standing for the whole image)
differ in width, height or depth; on a copy-only list and on a compute list alike. -/
theorem appendImageCopyRegion_invalid_argument (ext : External) (cl : CommandList)
    (device : Device) (hDstImage hSrcImage : Image)
    (pDstRegion pSrcRegion : Option ze_image_region_t) (hEvent : ze_event_handle_t)
    (numWaitEvents : Nat) (phWaitEvents : Option (List ze_event_handle_t))
    (hmismatch :
      (appendImageCopyRegion.effectiveRegion hSrcImage pSrcRegion).width
          ≠ (appendImageCopyRegion.effectiveRegion hDstImage pDstRegion).width
        ∨ (appendImageCopyRegion.effectiveRegion hSrcImage pSrcRegion).height
          ≠ (appendImageCopyRegion.effectiveRegion hDstImage pDstRegion).height
        ∨ (appendImageCopyRegion.effectiveRegion hSrcImage pSrcRegion).depth
          ≠ (appendImageCopyRegion.effectiveRegion hDstImage pDstRegion).depth) :
    appendImageCopyRegion ext { cl with isCopyOnlyCmdList := true } device hDstImage hSrcImage
        pDstRegion pSrcRegion hEvent numWaitEvents phWaitEvents
      = some (ze_result_t.ZE_RESULT_ERROR_INVALID_ARGUMENT,
          { cl with isCopyOnlyCmdList := true }, device)
    ∧ appendImageCopyRegion ext { cl with isCopyOnlyCmdList := false } device hDstImage
        hSrcImage pDstRegion pSrcRegion hEvent numWaitEvents phWaitEvents
      = some (ze_result_t.ZE_RESULT_ERROR_INVALID_ARGUMENT,
          { cl with isCopyOnlyCmdList := false }, device) :=
  ⟨appendImageCopyRegion_mismatch ext _ device hDstImage hSrcImage pDstRegion pSrcRegion
      hEvent numWaitEvents phWaitEvents hmismatch,
   appendImageCopyRegion_mismatch ext _ device hDstImage hSrcImage pDstRegion pSrcRegion
      hEvent numWaitEvents phWaitEvents hmismatch⟩

/-- Witness of C13: the whole 32 x 4 destination image against a 20 x 4 source region. -/
theorem appendImageCopyRegion_invalid_argument_witness :
    (appendImageCopyRegion.effectiveRegion exampleImage (some exampleRegion)).width
        ≠ (appendImageCopyRegion.effectiveRegion exampleImage none).width
      ∧ (appendImageCopyRegion exampleExternal
            { exampleCommandList with isCopyOnlyCmdList := true } exampleDevice exampleImage
            exampleImage none (some exampleRegion) (some exampleEvent) 0 none).map
            (fun r => (r.1, r.2.1))
          = some (ze_result_t.ZE_RESULT_ERROR_INVALID_ARGUMENT,
              { exampleCommandList with isCopyOnlyCmdList := true })
      ∧ (appendImageCopyRegion exampleExternal
            { exampleCommandList with isCopyOnlyCmdList := false } exampleDevice exampleImage
            exampleImage none (some exampleRegion) (some exampleEvent) 0 none).map
            (fun r => (r.1, r.2.1))
          = some (ze_result_t.ZE_RESULT_ERROR_INVALID_ARGUMENT,
              { exampleCommandList with isCopyOnlyCmdList := false }) :=
  ⟨by decide,
   congrArg (Option.map fun r => (r.1, r.2.1))
    (appendImageCopyRegion_invalid_argument exampleExternal exampleCommandList exampleDevice
      exampleImage exampleImage none (some exampleRegion) (some exampleEvent) 0 none
      (Or.inl (by decide))).1,
   congrArg (Option.map fun r => (r.1, r.2.1))
    (appendImageCopyRegion_invalid_argument exampleExternal exampleCommandList exampleDevice
      exampleImage exampleImage none (some exampleRegion) (some exampleEvent) 0 none
      (Or.inl (by decide))).2⟩

/-! ## Theorems: divisibility of the region by the group size -/

/-- The three-axis test finds an extent that is not a multiple of a positive group size. -/
theorem notDivisible3_eq_true (a b c gx gy gz : Nat) (hx : 0 < gx) (hy : 0 < gy)
    (hz : 0 < gz) (hnd : a % gx ≠ 0 ∨ b % gy ≠ 0 ∨ c % gz ≠ 0) :
    notDivisible3 a b c gx gy gz = some true := by
  unfold notDivisible3
  have hx' : gx ≠ 0 := Nat.pos_iff_ne_zero.mp hx
  have hy' : gy ≠ 0 := Nat.pos_iff_ne_zero.mp hy
  have hz' : gz ≠ 0 := Nat.pos_iff_ne_zero.mp hz
  by_cases ha : a % gx = 0
  · by_cases hb : b % gy = 0
    · have hc : c % gz ≠ 0 := by
        rcases hnd with h | h | h
        · exact absurd ha h
        · exact absurd hb h
        · exact h
      simp [hx', hy', hz', ha, hb, hc]
    · simp [hx', hy', ha, hb]
  · simp [hx', ha]

/-- The two-axis test finds an extent that is not a multiple of a positive group size. -/
theorem notDivisible2_eq_true (a b gx gy : Nat) (hx : 0 < gx) (hy : 0 < gy)
    (hnd : a % gx ≠ 0 ∨ b % gy ≠ 0) :
    notDivisible2 a b gx gy = some true := by
  unfold notDivisible2
  have hx' : gx ≠ 0 := Nat.pos_iff_ne_zero.mp hx
  have hy' : gy ≠ 0 := Nat.pos_iff_ne_zero.mp hy
  by_cases ha : a % gx = 0
  · have hb : b % gy ≠ 0 := by
      rcases hnd with h | h
      · exact absurd ha h
      · exact h
    simp [hx', hy', ha, hb]
  · simp [hx', ha]

/-- `getAlignedAllocation` leaves the command container and the mode of the list alone. -/
theorem getAlignedAllocation_commandContainer (ext : External) (cl : CommandList)
    (device : Device) (buffer bufferSize : Nat) :
    (getAlignedAllocation ext cl device buffer bufferSize).2.1.commandContainer
        = cl.commandContainer
      ∧ (getAlignedAllocation ext cl device buffer bufferSize).2.1.isCopyOnlyCmdList
        = cl.isCopyOnlyCmdList := by
  unfold getAlignedAllocation
  cases device.findAllocationDataForRange buffer bufferSize <;> exact ⟨rfl, rfl⟩

/-- `appendMemoryCopyKernel3d` with an extent that the chosen group size does not divide. -/
theorem appendMemoryCopyKernel3d_not_divisible (ext : External) (cl : CommandList)
    (device : Device) (dstGA srcGA : GraphicsAllocation) (builtin : Builtin)
    (dstRegion : ze_copy_region_t) (dstPitch dstSlicePitch dstOffset : Nat)
    (srcRegion : ze_copy_region_t) (srcPitch srcSlicePitch srcOffset : Nat)
    (hSignalEvent : ze_event_handle_t) (numWaitEvents : Nat)
    (phWaitEvents : Option (List ze_event_handle_t)) (g : Vec3)
    (hchosen : GroupSizeChosen ext srcRegion.width srcRegion.height srcRegion.depth g)
    (hnd : srcRegion.width % g.x ≠ 0 ∨ srcRegion.height % g.y ≠ 0
      ∨ srcRegion.depth % g.z ≠ 0) :
    ∃ r, appendMemoryCopyKernel3d ext cl device dstGA srcGA builtin dstRegion dstPitch
          dstSlicePitch dstOffset srcRegion srcPitch srcSlicePitch srcOffset hSignalEvent
          numWaitEvents phWaitEvents = some r
      ∧ r.1 = ze_result_t.ZE_RESULT_ERROR_UNKNOWN ∧ r.2.1 = cl := by
  obtain ⟨hsuggest, hset, hx, hy, hz⟩ := hchosen
  have hdiv := notDivisible3_eq_true _ _ _ _ _ _ hx hy hz hnd
  unfold appendMemoryCopyKernel3d
  simp [hsuggest, hset, hdiv, Kernel.setGroupSize]

/-- `appendMemoryCopyKernel2d` with an extent that the chosen group size does not divide
on one of the two axes it checks. -/
theorem appendMemoryCopyKernel2d_not_divisible (ext : External) (cl : CommandList)
    (device : Device) (dstGA srcGA : GraphicsAllocation) (builtin : Builtin)
    (dstRegion : ze_copy_region_t) (dstPitch dstOffset : Nat)
    (srcRegion : ze_copy_region_t) (srcPitch srcOffset : Nat)
    (hSignalEvent : ze_event_handle_t) (numWaitEvents : Nat)
    (phWaitEvents : Option (List ze_event_handle_t)) (g : Vec3)
    (hchosen : GroupSizeChosen ext srcRegion.width srcRegion.height 1 g)
    (hnd : srcRegion.width % g.x ≠ 0 ∨ srcRegion.height % g.y ≠ 0) :
    ∃ r, appendMemoryCopyKernel2d ext cl device dstGA srcGA builtin dstRegion dstPitch
          dstOffset srcRegion srcPitch srcOffset hSignalEvent numWaitEvents phWaitEvents
          = some r
      ∧ r.1 = ze_result_t.ZE_RESULT_ERROR_UNKNOWN ∧ r.2.1 = cl := by
  obtain ⟨hsuggest, hset, hx, hy, _⟩ := hchosen
  have hdiv := notDivisible2_eq_true _ _ _ _ hx hy hnd
  unfold appendMemoryCopyKernel2d
  simp [hsuggest, hset, hdiv, Kernel.setGroupSize]

/-- `appendImageCopyRegion` on a compute list with matching regions whose extent the chosen
group size does not divide. -/
theorem appendImageCopyRegion_not_divisible (ext : External) (cl : CommandList)
    (device : Device) (hDstImage hSrcImage : Image)
    (pDstRegion pSrcRegion : Option ze_image_region_t) (hEvent : ze_event_handle_t)
    (numWaitEvents : Nat) (phWaitEvents : Option (List ze_event_handle_t)) (g : Vec3)
    (hcompute : cl.isCopyOnlyCmdList = false)
    (hmatch :
      (appendImageCopyRegion.effectiveRegion hSrcImage pSrcRegion).width
          = (appendImageCopyRegion.effectiveRegion hDstImage pDstRegion).width
        ∧ (appendImageCopyRegion.effectiveRegion hSrcImage pSrcRegion).height
          = (appendImageCopyRegion.effectiveRegion hDstImage pDstRegion).height
        ∧ (appendImageCopyRegion.effectiveRegion hSrcImage pSrcRegion).depth
          = (appendImageCopyRegion.effectiveRegion hDstImage pDstRegion).depth)
    (hchosen : GroupSizeChosen ext
      (appendImageCopyRegion.effectiveRegion hSrcImage pSrcRegion).width
      (appendImageCopyRegion.effectiveRegion hSrcImage pSrcRegion).height
      (appendImageCopyRegion.effectiveRegion hSrcImage pSrcRegion).depth g)
    (hnd : (appendImageCopyRegion.effectiveRegion hSrcImage pSrcRegion).width % g.x ≠ 0
      ∨ (appendImageCopyRegion.effectiveRegion hSrcImage pSrcRegion).height % g.y ≠ 0
      ∨ (appendImageCopyRegion.effectiveRegion hSrcImage pSrcRegion).depth % g.z ≠ 0) :
    ∃ r, appendImageCopyRegion ext cl device hDstImage hSrcImage pDstRegion pSrcRegion hEvent
          numWaitEvents phWaitEvents = some r
      ∧ r.1 = ze_result_t.ZE_RESULT_ERROR_UNKNOWN ∧ r.2.1 = cl := by
  obtain ⟨hsuggest, hset, hx, hy, hz⟩ := hchosen
  have hdiv := notDivisible3_eq_true _ _ _ _ _ _ hx hy hz hnd
  have hnm : ¬ ((appendImageCopyRegion.effectiveRegion hSrcImage pSrcRegion).width
          ≠ (appendImageCopyRegion.effectiveRegion hDstImage pDstRegion).width
        ∨ (appendImageCopyRegion.effectiveRegion hSrcImage pSrcRegion).height
          ≠ (appendImageCopyRegion.effectiveRegion hDstImage pDstRegion).height
        ∨ (appendImageCopyRegion.effectiveRegion hSrcImage pSrcRegion).depth
          ≠ (appendImageCopyRegion.effectiveRegion hDstImage pDstRegion).depth) := by
    rintro (h | h | h)
    · exact h hmatch.1
    · exact h hmatch.2.1
    · exact h hmatch.2.2
  unfold appendImageCopyRegion
  simp only [if_neg hnm]
  simp [hsuggest, hset, hdiv, Kernel.setGroupSize, hcompute]

/-- The buffer size of a valid image type exists. -/
theorem getInputBufferSize_isSome (imageType : ImageType) (bytesPerPixel : Nat)
    (region : ze_image_region_t) (htype : imageType ≠ ImageType.Invalid) :
    ∃ bufferSize, getInputBufferSize imageType bytesPerPixel region = some bufferSize := by
  cases imageType <;> first | exact absurd rfl htype | exact ⟨_, rfl⟩

/-- `appendImageCopyFromMemory` on a compute list with an extent that the chosen group
size does not divide. -/
theorem appendImageCopyFromMemory_not_divisible (ext : External) (cl : CommandList)
    (device : Device) (hDstImage : Image) (srcPtr : Nat)
    (pDstRegion : Option ze_image_region_t) (hEvent : ze_event_handle_t)
    (numWaitEvents : Nat) (phWaitEvents : Option (List ze_event_handle_t)) (g : Vec3)
    (builtin : Builtin)
    (hcompute : cl.isCopyOnlyCmdList = false)
    (htype : hDstImage.imageType ≠ ImageType.Invalid)
    (hbuiltin : appendImageCopyFromMemory.builtin (toUint32 hDstImage.imageElementSizeInBytes)
      = some builtin)
    (hchosen : GroupSizeChosen ext (imageRegionOrWhole hDstImage pDstRegion).width
      (imageRegionOrWhole hDstImage pDstRegion).height
      (imageRegionOrWhole hDstImage pDstRegion).depth g)
    (hnd : (imageRegionOrWhole hDstImage pDstRegion).width % g.x ≠ 0
      ∨ (imageRegionOrWhole hDstImage pDstRegion).height % g.y ≠ 0
      ∨ (imageRegionOrWhole hDstImage pDstRegion).depth % g.z ≠ 0) :
    ∃ r, appendImageCopyFromMemory ext cl device hDstImage srcPtr pDstRegion hEvent
          numWaitEvents phWaitEvents = some r
      ∧ r.1 = ze_result_t.ZE_RESULT_ERROR_UNKNOWN
      ∧ r.2.1.commandContainer = cl.commandContainer := by
  obtain ⟨hsuggest, hset, hx, hy, hz⟩ := hchosen
  have hdiv := notDivisible3_eq_true _ _ _ _ _ _ hx hy hz hnd
  obtain ⟨bufferSize, hsize⟩ := getInputBufferSize_isSome hDstImage.imageType
    (toUint32 hDstImage.imageElementSizeInBytes) (imageRegionOrWhole hDstImage pDstRegion) htype
  have hga := getAlignedAllocation_commandContainer ext cl device srcPtr bufferSize
  unfold appendImageCopyFromMemory
  simp only [hsize]
  rcases hres : getAlignedAllocation ext cl device srcPtr bufferSize with ⟨alloc, cl1, device1⟩
  rw [hres] at hga
  simp only at hga
  have hmode : cl1.isCopyOnlyCmdList = false := by rw [hga.2]; exact hcompute
  simp [hmode, hbuiltin, hsuggest, hset, hdiv, Kernel.setGroupSize, hga.1]

/-- `appendImageCopyToMemory` on a compute list with an extent that the chosen group size
does not divide. -/
theorem appendImageCopyToMemory_not_divisible (ext : External) (cl : CommandList)
    (device : Device) (dstPtr : Nat) (hSrcImage : Image)
    (pSrcRegion : Option ze_image_region_t) (hEvent : ze_event_handle_t)
    (numWaitEvents : Nat) (phWaitEvents : Option (List ze_event_handle_t)) (g : Vec3)
    (builtin : ImageBuiltin)
    (hcompute : cl.isCopyOnlyCmdList = false)
    (htype : hSrcImage.imageType ≠ ImageType.Invalid)
    (hbuiltin : appendImageCopyToMemory.builtin (toUint32 hSrcImage.imageElementSizeInBytes)
      = some builtin)
    (hchosen : GroupSizeChosen ext (imageRegionOrWhole hSrcImage pSrcRegion).width
      (imageRegionOrWhole hSrcImage pSrcRegion).height
      (imageRegionOrWhole hSrcImage pSrcRegion).depth g)
    (hnd : (imageRegionOrWhole hSrcImage pSrcRegion).width % g.x ≠ 0
      ∨ (imageRegionOrWhole hSrcImage pSrcRegion).height % g.y ≠ 0
      ∨ (imageRegionOrWhole hSrcImage pSrcRegion).depth % g.z ≠ 0) :
    ∃ r, appendImageCopyToMemory ext cl device dstPtr hSrcImage pSrcRegion hEvent
          numWaitEvents phWaitEvents = some r
      ∧ r.1 = ze_result_t.ZE_RESULT_ERROR_UNKNOWN
      ∧ r.2.1.commandContainer = cl.commandContainer := by
  obtain ⟨hsuggest, hset, hx, hy, hz⟩ := hchosen
  have hdiv := notDivisible3_eq_true _ _ _ _ _ _ hx hy hz hnd
  obtain ⟨bufferSize, hsize⟩ := getInputBufferSize_isSome hSrcImage.imageType
    (toUint32 hSrcImage.imageElementSizeInBytes) (imageRegionOrWhole hSrcImage pSrcRegion) htype
  have hga := getAlignedAllocation_commandContainer ext cl device dstPtr bufferSize
  unfold appendImageCopyToMemory
  simp only [hsize]
  rcases hres : getAlignedAllocation ext cl device dstPtr bufferSize with ⟨alloc, cl1, device1⟩
  rw [hres] at hga
  simp only at hga
  have hmode : cl1.isCopyOnlyCmdList = false := by rw [hga.2]; exact hcompute
  simp [hmode, hbuiltin, hsuggest, hset, hdiv, Kernel.setGroupSize, hga.1]

/-- C12: for every region operation on a non-copy-only list (`appendImageCopyFromMemory`,
`appendImageCopyToMemory`, `appendImageCopyRegion`, `appendMemoryCopyKernel3d`,
`appendMemoryCopyKernel2d`): if the group-size suggestion and `setGroupSize` succeed with a
group size `g` (positive on every axis, so that the remainders exist) but the extent of the
region is not a multiple of `g` on some checked axis, the operation returns
`ZE_RESULT_ERROR_UNKNOWN` and the command container, with its command stream, is as before:
no kernel launch is appended. The image operations are taken with a valid image type and
pixel width, `appendImageCopyRegion` with matching regions. -/
theorem region_operations_not_divisible (ext : External) (cl : CommandList) (device : Device)
    (g : Vec3) (hEvent : ze_event_handle_t) (numWaitEvents : Nat)
    (phWaitEvents : Option (List ze_event_handle_t))
    (hcompute : cl.isCopyOnlyCmdList = false) :
    (∀ (hDstImage : Image) (srcPtr : Nat) (pDstRegion : Option ze_image_region_t)
        (builtin : Builtin),
        hDstImage.imageType ≠ ImageType.Invalid →
        appendImageCopyFromMemory.builtin (toUint32 hDstImage.imageElementSizeInBytes)
          = some builtin →
        GroupSizeChosen ext (imageRegionOrWhole hDstImage pDstRegion).width
          (imageRegionOrWhole hDstImage pDstRegion).height
          (imageRegionOrWhole hDstImage pDstRegion).depth g →
        ((imageRegionOrWhole hDstImage pDstRegion).width % g.x ≠ 0
          ∨ (imageRegionOrWhole hDstImage pDstRegion).height % g.y ≠ 0
          ∨ (imageRegionOrWhole hDstImage pDstRegion).depth % g.z ≠ 0) →
        ∃ r, appendImageCopyFromMemory ext cl device hDstImage srcPtr pDstRegion hEvent
              numWaitEvents phWaitEvents = some r
          ∧ r.1 = ze_result_t.ZE_RESULT_ERROR_UNKNOWN
          ∧ r.2.1.commandContainer = cl.commandContainer)
    ∧ (∀ (dstPtr : Nat) (hSrcImage : Image) (pSrcRegion : Option ze_image_region_t)
        (builtin : ImageBuiltin),
        hSrcImage.imageType ≠ ImageType.Invalid →
        appendImageCopyToMemory.builtin (toUint32 hSrcImage.imageElementSizeInBytes)
          = some builtin →
        GroupSizeChosen ext (imageRegionOrWhole hSrcImage pSrcRegion).width
          (imageRegionOrWhole hSrcImage pSrcRegion).height
          (imageRegionOrWhole hSrcImage pSrcRegion).depth g →
        ((imageRegionOrWhole hSrcImage pSrcRegion).width % g.x ≠ 0
          ∨ (imageRegionOrWhole hSrcImage pSrcRegion).height % g.y ≠ 0
          ∨ (imageRegionOrWhole hSrcImage pSrcRegion).depth % g.z ≠ 0) →
        ∃ r, appendImageCopyToMemory ext cl device dstPtr hSrcImage pSrcRegion hEvent
              numWaitEvents phWaitEvents = some r
          ∧ r.1 = ze_result_t.ZE_RESULT_ERROR_UNKNOWN
          ∧ r.2.1.commandContainer = cl.commandContainer)
    ∧ (∀ (hDstImage hSrcImage : Image) (pDstRegion pSrcRegion : Option ze_image_region_t),
        ((appendImageCopyRegion.effectiveRegion hSrcImage pSrcRegion).width
            = (appendImageCopyRegion.effectiveRegion hDstImage pDstRegion).width
          ∧ (appendImageCopyRegion.effectiveRegion hSrcImage pSrcRegion).height
            = (appendImageCopyRegion.effectiveRegion hDstImage pDstRegion).height
          ∧ (appendImageCopyRegion.effectiveRegion hSrcImage pSrcRegion).depth
            = (appendImageCopyRegion.effectiveRegion hDstImage pDstRegion).depth) →
        GroupSizeChosen ext (appendImageCopyRegion.effectiveRegion hSrcImage pSrcRegion).width
          (appendImageCopyRegion.effectiveRegion hSrcImage pSrcRegion).height
          (appendImageCopyRegion.effectiveRegion hSrcImage pSrcRegion).depth g →
        ((appendImageCopyRegion.effectiveRegion hSrcImage pSrcRegion).width % g.x ≠ 0
          ∨ (appendImageCopyRegion.effectiveRegion hSrcImage pSrcRegion).height % g.y ≠ 0
          ∨ (appendImageCopyRegion.effectiveRegion hSrcImage pSrcRegion).depth % g.z ≠ 0) →
        ∃ r, appendImageCopyRegion ext cl device hDstImage hSrcImage pDstRegion pSrcRegion
              hEvent numWaitEvents phWaitEvents = some r
          ∧ r.1 = ze_result_t.ZE_RESULT_ERROR_UNKNOWN
          ∧ r.2.1.commandContainer = cl.commandContainer)
    ∧ (∀ (dstGA srcGA : GraphicsAllocation) (builtin : Builtin)
        (dstRegion srcRegion : ze_copy_region_t)
        (dstPitch dstSlicePitch dstOffset srcPitch srcSlicePitch srcOffset : Nat),
        GroupSizeChosen ext srcRegion.width srcRegion.height srcRegion.depth g →
        (srcRegion.width % g.x ≠ 0 ∨ srcRegion.height % g.y ≠ 0
          ∨ srcRegion.depth % g.z ≠ 0) →
        ∃ r, appendMemoryCopyKernel3d ext cl device dstGA srcGA builtin dstRegion dstPitch
              dstSlicePitch dstOffset srcRegion srcPitch srcSlicePitch srcOffset hEvent
              numWaitEvents phWaitEvents = some r
          ∧ r.1 = ze_result_t.ZE_RESULT_ERROR_UNKNOWN
          ∧ r.2.1.commandContainer = cl.commandContainer)
    ∧ (∀ (dstGA srcGA : GraphicsAllocation) (builtin : Builtin)
        (dstRegion srcRegion : ze_copy_region_t)
        (dstPitch dstOffset srcPitch srcOffset : Nat),
        GroupSizeChosen ext srcRegion.width srcRegion.height 1 g →
        (srcRegion.width % g.x ≠ 0 ∨ srcRegion.height % g.y ≠ 0) →
        ∃ r, appendMemoryCopyKernel2d ext cl device dstGA srcGA builtin dstRegion dstPitch
              dstOffset srcRegion srcPitch srcOffset hEvent numWaitEvents phWaitEvents
              = some r
          ∧ r.1 = ze_result_t.ZE_RESULT_ERROR_UNKNOWN
          ∧ r.2.1.commandContainer = cl.commandContainer) := by
  refine ⟨?_, ?_, ?_, ?_, ?_⟩
  · intro hDstImage srcPtr pDstRegion builtin htype hbuiltin hchosen hnd
    exact appendImageCopyFromMemory_not_divisible ext cl device hDstImage srcPtr pDstRegion
      hEvent numWaitEvents phWaitEvents g builtin hcompute htype hbuiltin hchosen hnd
  · intro dstPtr hSrcImage pSrcRegion builtin htype hbuiltin hchosen hnd
    exact appendImageCopyToMemory_not_divisible ext cl device dstPtr hSrcImage pSrcRegion
      hEvent numWaitEvents phWaitEvents g builtin hcompute htype hbuiltin hchosen hnd
  · intro hDstImage hSrcImage pDstRegion pSrcRegion hmatch hchosen hnd
    obtain ⟨r, hr, hres, hcl⟩ := appendImageCopyRegion_not_divisible ext cl device hDstImage
      hSrcImage pDstRegion pSrcRegion hEvent numWaitEvents phWaitEvents g hcompute hmatch
      hchosen hnd
    exact ⟨r, hr, hres, by rw [hcl]⟩
  · intro dstGA srcGA builtin dstRegion srcRegion dstPitch dstSlicePitch dstOffset srcPitch
      srcSlicePitch srcOffset hchosen hnd
    obtain ⟨r, hr, hres, hcl⟩ := appendMemoryCopyKernel3d_not_divisible ext cl device dstGA
      srcGA builtin dstRegion dstPitch dstSlicePitch dstOffset srcRegion srcPitch
      srcSlicePitch srcOffset hEvent numWaitEvents phWaitEvents g hchosen hnd
    exact ⟨r, hr, hres, by rw [hcl]⟩
  · intro dstGA srcGA builtin dstRegion srcRegion dstPitch dstOffset srcPitch srcOffset
      hchosen hnd
    obtain ⟨r, hr, hres, hcl⟩ := appendMemoryCopyKernel2d_not_divisible ext cl device dstGA
      srcGA builtin dstRegion dstPitch dstOffset srcRegion srcPitch srcOffset hEvent
      numWaitEvents phWaitEvents g hchosen hnd
    exact ⟨r, hr, hres, by rw [hcl]⟩

/-- The kernels of `exampleExternalFixedGroupSize` choose `16 x 1 x 1` for every extent. -/
theorem exampleExternalFixedGroupSize_chosen (x y z : Nat) :
    GroupSizeChosen exampleExternalFixedGroupSize x y z { x := 16, y := 1, z := 1 } :=
  ⟨fun _ => rfl, fun _ => rfl, by decide, by decide, by decide⟩

/-- Witness of C12: the region of 20 x 4 x 1 against the group size 16 x 1 x 1, on the
compute list `exampleCommandList`, for each of the five operations. -/
theorem region_operations_not_divisible_witness :
    exampleCommandList.isCopyOnlyCmdList = false
      ∧ (20 % 16 ≠ 0)
      ∧ (∃ r, appendImageCopyFromMemory exampleExternalFixedGroupSize exampleCommandList
            exampleDevice exampleImage 65536 (some exampleRegion) none 0 none = some r
          ∧ r.1 = ze_result_t.ZE_RESULT_ERROR_UNKNOWN
          ∧ r.2.1.commandContainer = exampleCommandList.commandContainer)
      ∧ (∃ r, appendImageCopyToMemory exampleExternalFixedGroupSize exampleCommandList
            exampleDevice 65536 exampleImage (some exampleRegion) none 0 none = some r
          ∧ r.1 = ze_result_t.ZE_RESULT_ERROR_UNKNOWN
          ∧ r.2.1.commandContainer = exampleCommandList.commandContainer)
      ∧ (∃ r, appendImageCopyRegion exampleExternalFixedGroupSize exampleCommandList
            exampleDevice exampleImage exampleImage (some exampleRegion) (some exampleRegion)
            none 0 none = some r
          ∧ r.1 = ze_result_t.ZE_RESULT_ERROR_UNKNOWN
          ∧ r.2.1.commandContainer = exampleCommandList.commandContainer)
      ∧ (∃ r, appendMemoryCopyKernel3d exampleExternalFixedGroupSize exampleCommandList
            exampleDevice { id := 1, gpuAddress := 4096 } { id := 2, gpuAddress := 8192 }
            Builtin.CopyBufferRectBytes3d exampleCopyRegion 32 128 0 exampleCopyRegion 32 128 0
            none 0 none = some r
          ∧ r.1 = ze_result_t.ZE_RESULT_ERROR_UNKNOWN
          ∧ r.2.1.commandContainer = exampleCommandList.commandContainer)
      ∧ (∃ r, appendMemoryCopyKernel2d exampleExternalFixedGroupSize exampleCommandList
            exampleDevice { id := 1, gpuAddress := 4096 } { id := 2, gpuAddress := 8192 }
            Builtin.CopyBufferRectBytes2d exampleCopyRegion 32 0 exampleCopyRegion 32 0
            none 0 none = some r
          ∧ r.1 = ze_result_t.ZE_RESULT_ERROR_UNKNOWN
          ∧ r.2.1.commandContainer = exampleCommandList.commandContainer) :=
  ⟨rfl, by decide,
   (region_operations_not_divisible exampleExternalFixedGroupSize exampleCommandList
      exampleDevice { x := 16, y := 1, z := 1 } none 0 none rfl).1
      exampleImage 65536 (some exampleRegion) Builtin.CopyBufferToImage3d4Bytes (by decide)
      (by decide) (exampleExternalFixedGroupSize_chosen _ _ _) (Or.inl (by decide)),
   (region_operations_not_divisible exampleExternalFixedGroupSize exampleCommandList
      exampleDevice { x := 16, y := 1, z := 1 } none 0 none rfl).2.1
      65536 exampleImage (some exampleRegion) ImageBuiltin.CopyImage3dToBuffer4Bytes
      (by decide) (by decide) (exampleExternalFixedGroupSize_chosen _ _ _)
      (Or.inl (by decide)),
   (region_operations_not_divisible exampleExternalFixedGroupSize exampleCommandList
      exampleDevice { x := 16, y := 1, z := 1 } none 0 none rfl).2.2.1
      exampleImage exampleImage (some exampleRegion) (some exampleRegion) ⟨rfl, rfl, rfl⟩
      (exampleExternalFixedGroupSize_chosen _ _ _) (Or.inl (by decide)),
   (region_operations_not_divisible exampleExternalFixedGroupSize exampleCommandList
      exampleDevice { x := 16, y := 1, z := 1 } none 0 none rfl).2.2.2.1
      { id := 1, gpuAddress := 4096 } { id := 2, gpuAddress := 8192 }
      Builtin.CopyBufferRectBytes3d exampleCopyRegion exampleCopyRegion 32 128 0 32 128 0
      (exampleExternalFixedGroupSize_chosen _ _ _) (Or.inl (by decide)),
   (region_operations_not_divisible exampleExternalFixedGroupSize exampleCommandList
      exampleDevice { x := 16, y := 1, z := 1 } none 0 none rfl).2.2.2.2
      { id := 1, gpuAddress := 4096 } { id := 2, gpuAddress := 8192 }
      Builtin.CopyBufferRectBytes2d exampleCopyRegion exampleCopyRegion 32 0 32 0
      (exampleExternalFixedGroupSize_chosen _ _ _) (Or.inl (by decide))⟩

/-- Evaluations for C12: with the group size `16 x 1 x 1` the region of 20 pixels is
refused and the stream stays as it was; a region of 32 pixels is launched. -/
theorem region_operations_examples :
    (appendImageCopyFromMemory exampleExternalFixedGroupSize exampleCommandList exampleDevice
        exampleImage 65536 (some exampleRegion) none 0 none).map
        (fun r => (r.1, r.2.1.commandContainer.commandStream))
      = some (ze_result_t.ZE_RESULT_ERROR_UNKNOWN,
          [Command.stateBaseAddress, Command.pipeControl false])
      ∧ (appendImageCopyFromMemory exampleExternalFixedGroupSize exampleCommandList
          exampleDevice exampleImage 65536 none none 0 none).map
          (fun r => (r.1, r.2.1.commandContainer.commandStream))
        = some (ze_result_t.ZE_RESULT_SUCCESS,
            [Command.stateBaseAddress, Command.pipeControl false,
             Command.walker 3 (some (GroupCountPtr.hostStruct
               { groupCountX := 2, groupCountY := 4, groupCountZ := 1 })) false false]) := by
  decide

/-! ## Theorems: the copy-only mode never launches a kernel -/

/-- Two chains of steps that agree after every outcome of their common first step agree. -/
theorem bind_congr_some {α β : Type} {a : Option α} {k k' : α → Option β}
    (h : ∀ s, a = some s → k s = k' s) : a.bind k = a.bind k' := by
  cases a with
  | none => rfl
  | some s => exact h s rfl

/-- `appendSignalEvent` leaves the mode of the list alone. -/
theorem appendSignalEvent_mode (cl : CommandList) (hEvent : ze_event_handle_t)
    (r : ze_result_t × CommandList) (h : appendSignalEvent cl hEvent = some r) :
    r.2.isCopyOnlyCmdList = cl.isCopyOnlyCmdList := by
  cases hEvent with
  | none => simp [appendSignalEvent] at h
  | some event =>
    unfold appendSignalEvent at h
    simp only [Option.some.injEq] at h
    rw [← h]

/-- `appendSignalEventPostWalker` leaves the mode of the list alone when profiling does. -/
theorem appendSignalEventPostWalker_mode (ext : External)
    (hmode : ∀ cl hEvent beforeWalker,
      (ext.appendEventForProfiling cl hEvent beforeWalker).isCopyOnlyCmdList
        = cl.isCopyOnlyCmdList)
    (cl : CommandList) (hEvent : ze_event_handle_t) (cl' : CommandList)
    (h : appendSignalEventPostWalker ext cl hEvent = some cl') :
    cl'.isCopyOnlyCmdList = cl.isCopyOnlyCmdList := by
  unfold appendSignalEventPostWalker at h
  cases hEvent with
  | none =>
    simp only [Option.some.injEq] at h
    rw [← h]
  | some event =>
    simp only at h
    split at h
    · simp only [Option.some.injEq] at h
      rw [← h, hmode]
    · rw [Option.map_eq_some'] at h
      obtain ⟨r, hr, hcl⟩ := h
      rw [← hcl]
      exact appendSignalEvent_mode cl (some event) r hr

/-- `appendMemoryCopyBlit` leaves the mode of the list alone when profiling does. -/
theorem appendMemoryCopyBlit_mode (ext : External)
    (hmode : ∀ cl hEvent beforeWalker,
      (ext.appendEventForProfiling cl hEvent beforeWalker).isCopyOnlyCmdList
        = cl.isCopyOnlyCmdList)
    (cl : CommandList) (dstPtrAlloc : GraphicsAllocation) (dstOffset : Nat)
    (srcPtrAlloc : GraphicsAllocation) (srcOffset size : Nat)
    (hSignalEvent : ze_event_handle_t) (r : ze_result_t × CommandList)
    (h : appendMemoryCopyBlit ext cl dstPtrAlloc dstOffset srcPtrAlloc srcOffset size
      hSignalEvent = some r) :
    r.2.isCopyOnlyCmdList = cl.isCopyOnlyCmdList := by
  unfold appendMemoryCopyBlit at h
  rw [Option.map_eq_some'] at h
  obtain ⟨cl', hcl', hr⟩ := h
  rw [← hr]
  have := appendSignalEventPostWalker_mode ext hmode _ _ _ hcl'
  simpa [hmode] using this

/-- On a copy-only list a segment of `appendMemoryCopy` is copied without the launch
function, and the list stays copy-only. -/
theorem copySegment_copyOnly (ext : External)
    (f : CommandList → ze_kernel_handle_t → Option GroupCountPtr → ze_event_handle_t → Bool →
      Bool → ze_result_t × CommandList)
    (hmode : ∀ cl hEvent beforeWalker,
      (ext.appendEventForProfiling cl hEvent beforeWalker).isCopyOnlyCmdList
        = cl.isCopyOnlyCmdList)
    (cl : CommandList) (device : Device)
    (dstAllocationStruct srcAllocationStruct : AlignedAllocationData)
    (dstOffset srcOffset size elementSize : Nat) (builtin : Builtin)
    (hSignalEvent : ze_event_handle_t) (hcopy : cl.isCopyOnlyCmdList = true) :
    appendMemoryCopy.copySegment (ext.withLaunch f) cl device dstAllocationStruct
        srcAllocationStruct dstOffset srcOffset size elementSize builtin hSignalEvent
      = appendMemoryCopy.copySegment ext cl device dstAllocationStruct srcAllocationStruct
        dstOffset srcOffset size elementSize builtin hSignalEvent
    ∧ ∀ r, appendMemoryCopy.copySegment ext cl device dstAllocationStruct srcAllocationStruct
        dstOffset srcOffset size elementSize builtin hSignalEvent = some r →
      r.2.1.isCopyOnlyCmdList = true := by
  unfold appendMemoryCopy.copySegment
  simp only [hcopy, if_true]
  refine ⟨rfl, fun r hr => ?_⟩
  rw [Option.map_eq_some'] at hr
  obtain ⟨r', hr', hrr⟩ := hr
  rw [← hrr]
  have := appendMemoryCopyBlit_mode ext hmode _ _ _ _ _ _ _ _ hr'
  simpa [hcopy] using this

/-- On a copy-only list a guarded segment of `appendMemoryCopy` is copied without the launch
function, and the list stays copy-only. -/
theorem guarded_copySegment_copyOnly (ext : External)
    (f : CommandList → ze_kernel_handle_t → Option GroupCountPtr → ze_event_handle_t → Bool →
      Bool → ze_result_t × CommandList)
    (hmode : ∀ cl hEvent beforeWalker,
      (ext.appendEventForProfiling cl hEvent beforeWalker).isCopyOnlyCmdList
        = cl.isCopyOnlyCmdList)
    (dstAllocationStruct srcAllocationStruct : AlignedAllocationData)
    (segmentSize dstOffset srcOffset elementSize : Nat) (builtin : Builtin)
    (hSignalEvent : ze_event_handle_t) (state : ze_result_t × CommandList × Device)
    (hcopy : state.2.1.isCopyOnlyCmdList = true) :
    appendMemoryCopy.guarded segmentSize (fun cl device =>
        appendMemoryCopy.copySegment (ext.withLaunch f) cl device dstAllocationStruct
          srcAllocationStruct dstOffset srcOffset segmentSize elementSize builtin hSignalEvent)
        state
      = appendMemoryCopy.guarded segmentSize (fun cl device =>
        appendMemoryCopy.copySegment ext cl device dstAllocationStruct srcAllocationStruct
          dstOffset srcOffset segmentSize elementSize builtin hSignalEvent) state
    ∧ ∀ r, appendMemoryCopy.guarded segmentSize (fun cl device =>
        appendMemoryCopy.copySegment ext cl device dstAllocationStruct srcAllocationStruct
          dstOffset srcOffset segmentSize elementSize builtin hSignalEvent) state = some r →
      r.2.1.isCopyOnlyCmdList = true := by
  have hseg := copySegment_copyOnly ext f hmode state.2.1 state.2.2 dstAllocationStruct
    srcAllocationStruct dstOffset srcOffset segmentSize elementSize builtin hSignalEvent hcopy
  unfold appendMemoryCopy.guarded
  split
  · exact hseg
  · refine ⟨rfl, fun r hr => ?_⟩
    simp only [Option.some.injEq] at hr
    rw [← hr]
    exact hcopy

/-- On a copy-only list `appendMemoryCopy` does not depend on the launch function. -/
theorem appendMemoryCopy_copyOnly (ext : External)
    (f : CommandList → ze_kernel_handle_t → Option GroupCountPtr → ze_event_handle_t → Bool →
      Bool → ze_result_t × CommandList)
    (hmode : ∀ cl hEvent beforeWalker,
      (ext.appendEventForProfiling cl hEvent beforeWalker).isCopyOnlyCmdList
        = cl.isCopyOnlyCmdList)
    (cl : CommandList) (device : Device) (dstptr srcptr size : Nat)
    (hSignalEvent : ze_event_handle_t) (numWaitEvents : Nat)
    (phWaitEvents : Option (List ze_event_handle_t)) (hcopy : cl.isCopyOnlyCmdList = true) :
    appendMemoryCopy (ext.withLaunch f) cl device dstptr srcptr size hSignalEvent
        numWaitEvents phWaitEvents
      = appendMemoryCopy ext cl device dstptr srcptr size hSignalEvent numWaitEvents
        phWaitEvents := by
  have hga1 := getAlignedAllocation_commandContainer ext cl device dstptr size
  rcases hres1 : getAlignedAllocation ext cl device dstptr size with ⟨dstA, cl1, device1⟩
  rw [hres1] at hga1
  have hga2 := getAlignedAllocation_commandContainer ext cl1 device1 srcptr size
  rcases hres2 : getAlignedAllocation ext cl1 device1 srcptr size with ⟨srcA, cl2, device2⟩
  rw [hres2] at hga2
  have hres1' : getAlignedAllocation (ext.withLaunch f) cl device dstptr size
      = (dstA, cl1, device1) := hres1
  have hres2' : getAlignedAllocation (ext.withLaunch f) cl1 device1 srcptr size
      = (srcA, cl2, device2) := hres2
  have hcopy2 : cl2.isCopyOnlyCmdList = true := by
    rw [hga2.2, hga1.2]; exact hcopy
  have hprof : (ext.withLaunch f).appendEventForProfiling = ext.appendEventForProfiling := rfl
  have hstart : (ze_result_t.ZE_RESULT_SUCCESS,
      ext.appendEventForProfiling cl2 hSignalEvent true, device2).2.1.isCopyOnlyCmdList
        = true := by
    simp only [hmode]; exact hcopy2
  unfold appendMemoryCopy
  simp only [hres1, hres2, hres1', hres2', hprof]
  have hleft := guarded_copySegment_copyOnly ext f hmode dstA srcA
    (appendMemoryCopy.segments dstptr srcptr size).leftSize dstA.offset srcA.offset 1
    Builtin.CopyBufferToBufferSide hSignalEvent _ hstart
  rw [hleft.1]
  apply bind_congr_some
  intro state1 hstate1
  have hcopy1 := hleft.2 state1 hstate1
  have hmiddle := guarded_copySegment_copyOnly ext f hmode dstA srcA
    (appendMemoryCopy.segments dstptr srcptr size).middleSizeBytes
    (add64 (appendMemoryCopy.segments dstptr srcptr size).leftSize dstA.offset)
    (add64 (appendMemoryCopy.segments dstptr srcptr size).leftSize srcA.offset) 16
    Builtin.CopyBufferToBufferMiddle hSignalEvent state1 hcopy1
  rw [hmiddle.1]
  apply bind_congr_some
  intro state2 hstate2
  have hcopy2' := hmiddle.2 state2 hstate2
  have hright := guarded_copySegment_copyOnly ext f hmode dstA srcA
    (appendMemoryCopy.segments dstptr srcptr size).rightSize
    (add64 (add64 (appendMemoryCopy.segments dstptr srcptr size).leftSize
      (appendMemoryCopy.segments dstptr srcptr size).middleSizeBytes) dstA.offset)
    (add64 (add64 (appendMemoryCopy.segments dstptr srcptr size).leftSize
      (appendMemoryCopy.segments dstptr srcptr size).middleSizeBytes) srcA.offset) 1
    Builtin.CopyBufferToBufferSide hSignalEvent state2 hcopy2'
  rw [hright.1]
  apply bind_congr_some
  intro state3 _
  rfl

/-- On a copy-only list `appendMemoryCopyRegion` does not depend on the launch function. -/
theorem appendMemoryCopyRegion_copyOnly (ext : External)
    (f : CommandList → ze_kernel_handle_t → Option GroupCountPtr → ze_event_handle_t → Bool →
      Bool → ze_result_t × CommandList)
    (hmode : ∀ cl hEvent beforeWalker,
      (ext.appendEventForProfiling cl hEvent beforeWalker).isCopyOnlyCmdList
        = cl.isCopyOnlyCmdList)
    (cl : CommandList) (device : Device) (dstPtr : Nat) (dstRegion : ze_copy_region_t)
    (dstPitch dstSlicePitch srcPtr : Nat) (srcRegion : ze_copy_region_t)
    (srcPitch srcSlicePitch : Nat) (hSignalEvent : ze_event_handle_t)
    (hcopy : cl.isCopyOnlyCmdList = true) :
    appendMemoryCopyRegion (ext.withLaunch f) cl device dstPtr dstRegion dstPitch
        dstSlicePitch srcPtr srcRegion srcPitch srcSlicePitch hSignalEvent
      = appendMemoryCopyRegion ext cl device dstPtr dstRegion dstPitch dstSlicePitch srcPtr
        srcRegion srcPitch srcSlicePitch hSignalEvent := by
  have hga : ∀ cl device buffer bufferSize,
      getAlignedAllocation (ext.withLaunch f) cl device buffer bufferSize
        = getAlignedAllocation ext cl device buffer bufferSize := fun _ _ _ _ => rfl
  have hprof : (ext.withLaunch f).appendEventForProfiling = ext.appendEventForProfiling := rfl
  have hblit : ∀ cl srcAlloc dstAlloc srcRegion dstRegion copySize a b c d e g h,
      appendMemoryCopyBlitRegion (ext.withLaunch f) cl srcAlloc dstAlloc srcRegion dstRegion
          copySize a b c d e g h
        = appendMemoryCopyBlitRegion ext cl srcAlloc dstAlloc srcRegion dstRegion copySize
          a b c d e g h := fun _ _ _ _ _ _ _ _ _ _ _ _ _ => rfl
  unfold appendMemoryCopyRegion
  simp only [hga, hprof, hblit, hmode, getAlignedAllocation_commandContainer, hcopy, if_true]

/-- On a copy-only list `appendBlitFill` does not depend on the launch function. -/
theorem appendBlitFill_copyOnly (ext : External)
    (f : CommandList → ze_kernel_handle_t → Option GroupCountPtr → ze_event_handle_t → Bool →
      Bool → ze_result_t × CommandList)
    (hmode : ∀ cl hEvent beforeWalker,
      (ext.appendEventForProfiling cl hEvent beforeWalker).isCopyOnlyCmdList
        = cl.isCopyOnlyCmdList)
    (cl : CommandList) (device : Device) (ptr : Nat) (pattern : HostMemory)
    (patternSize size : Nat) (hEvent : ze_event_handle_t)
    (hcopy : cl.isCopyOnlyCmdList = true) :
    appendBlitFill (ext.withLaunch f) cl device ptr pattern patternSize size hEvent
      = appendBlitFill ext cl device ptr pattern patternSize size hEvent := by
  have hprof : (ext.withLaunch f).appendEventForProfiling = ext.appendEventForProfiling := rfl
  have huse : (ext.withLaunch f).useMemCopyToBlitFill = ext.useMemCopyToBlitFill := rfl
  have hpost : ∀ cl hEvent, appendSignalEventPostWalker (ext.withLaunch f) cl hEvent
      = appendSignalEventPostWalker ext cl hEvent := fun _ _ => rfl
  unfold appendBlitFill
  simp only [hprof, huse, hpost, appendMemoryCopy_copyOnly ext f hmode cl _ _ _ _ _ _ _ hcopy]

/-- On a copy-only list `appendMemoryFill` does not depend on the launch function. -/
theorem appendMemoryFill_copyOnly (ext : External)
    (f : CommandList → ze_kernel_handle_t → Option GroupCountPtr → ze_event_handle_t → Bool →
      Bool → ze_result_t × CommandList)
    (hmode : ∀ cl hEvent beforeWalker,
      (ext.appendEventForProfiling cl hEvent beforeWalker).isCopyOnlyCmdList
        = cl.isCopyOnlyCmdList)
    (cl : CommandList) (device : Device) (ptr : Nat) (pattern : HostMemory)
    (patternSize size : Nat) (hEvent : ze_event_handle_t)
    (hcopy : cl.isCopyOnlyCmdList = true) :
    appendMemoryFill (ext.withLaunch f) cl device ptr pattern patternSize size hEvent
      = appendMemoryFill ext cl device ptr pattern patternSize size hEvent := by
  unfold appendMemoryFill
  simp only [hcopy, if_true]
  exact appendBlitFill_copyOnly ext f hmode cl device ptr pattern patternSize size hEvent hcopy

/-- On a copy-only list the three image copies do not depend on the launch function. -/
theorem appendImageCopy_copyOnly (ext : External)
    (f : CommandList → ze_kernel_handle_t → Option GroupCountPtr → ze_event_handle_t → Bool →
      Bool → ze_result_t × CommandList)
    (cl : CommandList) (device : Device) (hDstImage hSrcImage : Image) (ptr : Nat)
    (pDstRegion pSrcRegion : Option ze_image_region_t) (hEvent : ze_event_handle_t)
    (numWaitEvents : Nat) (phWaitEvents : Option (List ze_event_handle_t))
    (hcopy : cl.isCopyOnlyCmdList = true) :
    appendImageCopyFromMemory (ext.withLaunch f) cl device hDstImage ptr pDstRegion hEvent
        numWaitEvents phWaitEvents
      = appendImageCopyFromMemory ext cl device hDstImage ptr pDstRegion hEvent numWaitEvents
        phWaitEvents
    ∧ appendImageCopyToMemory (ext.withLaunch f) cl device ptr hSrcImage pSrcRegion hEvent
        numWaitEvents phWaitEvents
      = appendImageCopyToMemory ext cl device ptr hSrcImage pSrcRegion hEvent numWaitEvents
        phWaitEvents
    ∧ appendImageCopyRegion (ext.withLaunch f) cl device hDstImage hSrcImage pDstRegion
        pSrcRegion hEvent numWaitEvents phWaitEvents
      = appendImageCopyRegion ext cl device hDstImage hSrcImage pDstRegion pSrcRegion hEvent
        numWaitEvents phWaitEvents := by
  have hga : ∀ cl device buffer bufferSize,
      getAlignedAllocation (ext.withLaunch f) cl device buffer bufferSize
        = getAlignedAllocation ext cl device buffer bufferSize := fun _ _ _ _ => rfl
  have hblit : ∀ cl src dst srcOffsets dstOffsets a b c d e copySize srcSize dstSize h,
      appendCopyImageBlit (ext.withLaunch f) cl src dst srcOffsets dstOffsets a b c d e
          copySize srcSize dstSize h
        = appendCopyImageBlit ext cl src dst srcOffsets dstOffsets a b c d e copySize srcSize
          dstSize h := fun _ _ _ _ _ _ _ _ _ _ _ _ _ _ => rfl
  refine ⟨?_, ?_, ?_⟩
  · unfold appendImageCopyFromMemory
    simp only [hga, hblit, getAlignedAllocation_commandContainer, hcopy, if_true]
  · unfold appendImageCopyToMemory
    simp only [hga, hblit, getAlignedAllocation_commandContainer, hcopy, if_true]
  · unfold appendImageCopyRegion
    simp only [hblit, hcopy, if_true]

/-! ## Theorems: the compute mode never takes the blit path -/

/-- Encoding a command that is not a blit command keeps the mode and the blit commands. -/
theorem modeAndBlits_encode (cl : CommandList) (cc : CommandContainer) (cmd : Command)
    (hcmd : cmd.isBlit = false) :
    modeAndBlits { cl with commandContainer := cc.encode cmd }
      = modeAndBlits { cl with commandContainer := cc } := by
  simp [modeAndBlits, blitCommands, CommandContainer.encode, List.filter_append, hcmd]

/-- A new residency entry keeps the mode and the blit commands. -/
theorem modeAndBlits_addToResidencyContainer (cl : CommandList) (cc : CommandContainer)
    (alloc : GraphicsAllocation) :
    modeAndBlits { cl with commandContainer := cc.addToResidencyContainer alloc }
      = modeAndBlits { cl with commandContainer := cc } := rfl

/-- A new entry of the deallocation list keeps the mode and the blit commands. -/
theorem modeAndBlits_deallocationContainer (cl : CommandList)
    (deallocations : List GraphicsAllocation) :
    modeAndBlits { cl with commandContainer :=
        { cl.commandContainer with deallocationContainer := deallocations } }
      = modeAndBlits cl := rfl

/-- The flush after an operation, a pipe control emitted under a condition, keeps the mode
and the blit commands. -/
theorem modeAndBlits_flush (c : Prop) [Decidable c] (cl : CommandList) :
    modeAndBlits (if c then
        { cl with commandContainer := cl.commandContainer.encode (Command.pipeControl true) }
      else cl) = modeAndBlits cl := by
  split
  · exact modeAndBlits_encode cl cl.commandContainer (Command.pipeControl true) rfl
  · rfl

/-- `getAlignedAllocation` keeps the mode and the blit commands. -/
theorem getAlignedAllocation_modeAndBlits (ext : External) (cl : CommandList)
    (device : Device) (buffer bufferSize : Nat) :
    modeAndBlits (getAlignedAllocation ext cl device buffer bufferSize).2.1
      = modeAndBlits cl := by
  have h := getAlignedAllocation_commandContainer ext cl device buffer bufferSize
  simp [modeAndBlits, blitCommands, h.1, h.2]

/-- `appendSignalEvent` keeps the mode and the blit commands. -/
theorem appendSignalEvent_modeAndBlits (cl : CommandList) (hEvent : ze_event_handle_t)
    (r : ze_result_t × CommandList) (h : appendSignalEvent cl hEvent = some r) :
    modeAndBlits r.2 = modeAndBlits cl := by
  cases hEvent with
  | none => simp [appendSignalEvent] at h
  | some event =>
    unfold appendSignalEvent at h
    simp only [Option.some.injEq] at h
    rw [← h]
    by_cases hcopy : cl.isCopyOnlyCmdList = true <;>
      simp [modeAndBlits, blitCommands, List.filter_append, hcopy, Command.isBlit,
        CommandContainer.addToResidencyContainer, CommandContainer.encode]

/-- `appendSignalEventPostWalker` keeps the mode and the blit commands. -/
theorem appendSignalEventPostWalker_modeAndBlits (ext : External)
    (hext : ExternalKeepsModeAndBlits ext) (cl : CommandList) (hEvent : ze_event_handle_t)
    (cl' : CommandList) (h : appendSignalEventPostWalker ext cl hEvent = some cl') :
    modeAndBlits cl' = modeAndBlits cl := by
  unfold appendSignalEventPostWalker at h
  cases hEvent with
  | none =>
    simp only [Option.some.injEq] at h
    rw [← h]
  | some event =>
    simp only at h
    split at h
    · simp only [Option.some.injEq] at h
      rw [← h, hext.profiling]
    · rw [Option.map_eq_some'] at h
      obtain ⟨r, hr, hcl⟩ := h
      rw [← hcl]
      exact appendSignalEvent_modeAndBlits cl (some event) r hr

/-- The loop body of `appendWaitOnEvents` keeps the mode and the blit commands. -/
theorem appendWaitOnEvents_body_modeAndBlits (ext : External) (cl : CommandList)
    (event : Event) :
    modeAndBlits (appendWaitOnEvents.body ext cl event) = modeAndBlits cl := by
  have h := appendWaitOnEvents_body_foldl ext [event] cl
  simp only [List.foldl_cons, List.foldl_nil] at h
  rw [h]
  by_cases hscope : event.waitScope = ze_event_scope_flag_t.ZE_EVENT_SCOPE_FLAG_NONE <;>
  by_cases hcopy : cl.isCopyOnlyCmdList = true <;>
    simp [modeAndBlits, blitCommands, List.filter_append, expectedWaitCommands, hscope, hcopy,
      Command.isBlit]

/-- The loop of `appendWaitOnEvents` keeps the mode and the blit commands. -/
theorem appendWaitOnEvents_loop_modeAndBlits (ext : External)
    (phEvent : Option (List ze_event_handle_t)) (remaining : Nat) :
    ∀ (cl : CommandList) (i : Nat) (cl' : CommandList),
      appendWaitOnEvents.loop ext phEvent cl i remaining = some cl' →
      modeAndBlits cl' = modeAndBlits cl := by
  induction remaining with
  | zero =>
    intro cl i cl' h
    simp only [appendWaitOnEvents.loop, Option.some.injEq] at h
    rw [← h]
  | succ n ih =>
    intro cl i cl' h
    unfold appendWaitOnEvents.loop at h
    split at h
    · simp at h
    · split at h
      · simp at h
      · simp at h
      · rw [ih _ _ _ h, appendWaitOnEvents_body_modeAndBlits]

/-- `addEventsToCmdList` keeps the mode and the blit commands. -/
theorem addEventsToCmdList_modeAndBlits (ext : External)
    (hext : ExternalKeepsModeAndBlits ext) (cl : CommandList) (hEvent : ze_event_handle_t)
    (numWaitEvents : Nat) (phWaitEvents : Option (List ze_event_handle_t))
    (r : ze_result_t × CommandList)
    (h : addEventsToCmdList ext cl hEvent numWaitEvents phWaitEvents = some r) :
    modeAndBlits r.2 = modeAndBlits cl := by
  unfold addEventsToCmdList at h
  split at h
  · split at h
    · rw [Option.map_eq_some'] at h
      obtain ⟨r', hr', hr⟩ := h
      unfold appendWaitOnEvents at hr'
      rw [Option.map_eq_some'] at hr'
      obtain ⟨cl', hcl', hr''⟩ := hr'
      rw [← hr, hext.profiling, ← hr'']
      exact appendWaitOnEvents_loop_modeAndBlits ext _ _ _ _ _ hcl'
    · simp only [Option.some.injEq] at h
      rw [← h]
  · simp only [Option.some.injEq] at h
    rw [← h, hext.profiling]

/-- `appendLaunchKernel` keeps the mode and the blit commands. -/
theorem appendLaunchKernel_modeAndBlits (ext : External)
    (hext : ExternalKeepsModeAndBlits ext) (cl : CommandList) (hKernel : ze_kernel_handle_t)
    (pThreadGroupDimensions : Option GroupCountPtr) (hEvent : ze_event_handle_t)
    (numWaitEvents : Nat) (phWaitEvents : Option (List ze_event_handle_t))
    (r : ze_result_t × CommandList)
    (h : appendLaunchKernel ext cl hKernel pThreadGroupDimensions hEvent numWaitEvents
      phWaitEvents = some r) :
    modeAndBlits r.2 = modeAndBlits cl := by
  unfold appendLaunchKernel at h
  split at h
  · simp at h
  · rename_i res cl1 hadd
    have h1 := addEventsToCmdList_modeAndBlits ext hext cl hEvent numWaitEvents phWaitEvents
      _ hadd
    split at h
    · simp only [Option.some.injEq] at h
      rw [← h]; exact h1
    · simp only [Option.some.injEq] at h
      rw [← h, hext.launch]; exact h1

/-- `appendMemoryCopyKernelWithGA` keeps the mode and the blit commands. -/
theorem appendMemoryCopyKernelWithGA_modeAndBlits (ext : External)
    (hext : ExternalKeepsModeAndBlits ext) (cl : CommandList) (device : Device)
    (dstPtr : Nat) (dstPtrAlloc : GraphicsAllocation) (dstOffset srcPtr : Nat)
    (srcPtrAlloc : GraphicsAllocation) (srcOffset size elementSize : Nat) (builtin : Builtin)
    (r : ze_result_t × CommandList × Device)
    (h : appendMemoryCopyKernelWithGA ext cl device dstPtr dstPtrAlloc dstOffset srcPtr
      srcPtrAlloc srcOffset size elementSize builtin = some r) :
    modeAndBlits r.2.1 = modeAndBlits cl := by
  unfold appendMemoryCopyKernelWithGA at h
  simp only at h
  split at h
  · simp only [Option.some.injEq] at h
    rw [← h]
  · split at h
    · simp at h
    · split at h
      · simp at h
      · rw [Option.map_eq_some'] at h
        obtain ⟨r', hr', hr⟩ := h
        rw [← hr]
        exact appendLaunchKernel_modeAndBlits ext hext cl _ _ _ _ _ r' hr'

/-- On a compute list a guarded segment of `appendMemoryCopy` keeps the mode and the blit
commands. -/
theorem guarded_copySegment_modeAndBlits (ext : External)
    (hext : ExternalKeepsModeAndBlits ext)
    (dstAllocationStruct srcAllocationStruct : AlignedAllocationData)
    (segmentSize dstOffset srcOffset elementSize : Nat) (builtin : Builtin)
    (hSignalEvent : ze_event_handle_t) (state : ze_result_t × CommandList × Device)
    (hcompute : state.2.1.isCopyOnlyCmdList = false)
    (r : ze_result_t × CommandList × Device)
    (h : appendMemoryCopy.guarded segmentSize (fun cl device =>
        appendMemoryCopy.copySegment ext cl device dstAllocationStruct srcAllocationStruct
          dstOffset srcOffset segmentSize elementSize builtin hSignalEvent) state = some r) :
    modeAndBlits r.2.1 = modeAndBlits state.2.1 := by
  unfold appendMemoryCopy.guarded at h
  split at h
  · unfold appendMemoryCopy.copySegment at h
    simp only [hcompute, Bool.false_eq_true, if_false] at h
    exact appendMemoryCopyKernelWithGA_modeAndBlits ext hext _ _ _ _ _ _ _ _ _ _ _ r h
  · simp only [Option.some.injEq] at h
    rw [← h]

/-- The mode of a list is part of `modeAndBlits`. -/
theorem mode_of_modeAndBlits (cl cl' : CommandList)
    (h : modeAndBlits cl' = modeAndBlits cl) :
    cl'.isCopyOnlyCmdList = cl.isCopyOnlyCmdList :=
  congrArg Prod.fst h

/-- On a compute list `appendMemoryCopy` keeps the mode and the blit commands. -/
theorem appendMemoryCopy_modeAndBlits (ext : External)
    (hext : ExternalKeepsModeAndBlits ext) (cl : CommandList) (device : Device)
    (dstptr srcptr size : Nat) (hSignalEvent : ze_event_handle_t) (numWaitEvents : Nat)
    (phWaitEvents : Option (List ze_event_handle_t))
    (hcompute : cl.isCopyOnlyCmdList = false) (r : ze_result_t × CommandList × Device)
    (h : appendMemoryCopy ext cl device dstptr srcptr size hSignalEvent numWaitEvents
      phWaitEvents = some r) :
    modeAndBlits r.2.1 = modeAndBlits cl := by
  have hga1 := getAlignedAllocation_modeAndBlits ext cl device dstptr size
  rcases hres1 : getAlignedAllocation ext cl device dstptr size with ⟨dstA, cl1, device1⟩
  rw [hres1] at hga1
  have hga2 := getAlignedAllocation_modeAndBlits ext cl1 device1 srcptr size
  rcases hres2 : getAlignedAllocation ext cl1 device1 srcptr size with ⟨srcA, cl2, device2⟩
  rw [hres2] at hga2
  simp only at hga1 hga2
  have h0 : modeAndBlits (ext.appendEventForProfiling cl2 hSignalEvent true)
      = modeAndBlits cl := by
    rw [hext.profiling, hga2, hga1]
  unfold appendMemoryCopy at h
  simp only [hres1, hres2] at h
  rw [Option.bind_eq_some] at h
  obtain ⟨state1, hstate1, h⟩ := h
  have h1 := guarded_copySegment_modeAndBlits ext hext _ _ _ _ _ _ _ _ _
    (by rw [mode_of_modeAndBlits _ _ h0]; exact hcompute) state1 hstate1
  rw [Option.bind_eq_some] at h
  obtain ⟨state2, hstate2, h⟩ := h
  have h2 := guarded_copySegment_modeAndBlits ext hext _ _ _ _ _ _ _ _ _
    (by rw [mode_of_modeAndBlits _ _ (h1.trans h0)]; exact hcompute) state2 hstate2
  rw [Option.bind_eq_some] at h
  obtain ⟨state3, hstate3, h⟩ := h
  have h3 := guarded_copySegment_modeAndBlits ext hext _ _ _ _ _ _ _ _ _
    (by rw [mode_of_modeAndBlits _ _ (h2.trans (h1.trans h0))]; exact hcompute) state3 hstate3
  rw [Option.map_eq_some'] at h
  obtain ⟨cl4, hcl4, hr⟩ := h
  have h4 := appendSignalEventPostWalker_modeAndBlits ext hext _ _ _ hcl4
  have hall : modeAndBlits cl4 = modeAndBlits cl :=
    h4.trans (h3.trans (h2.trans (h1.trans h0)))
  rw [← hr]
  exact (modeAndBlits_flush _ cl4).trans hall

/-- `appendMemoryCopyKernel3d` keeps the mode and the blit commands. -/
theorem appendMemoryCopyKernel3d_modeAndBlits (ext : External)
    (hext : ExternalKeepsModeAndBlits ext) (cl : CommandList) (device : Device)
    (dstGA srcGA : GraphicsAllocation) (builtin : Builtin)
    (dstRegion : ze_copy_region_t) (dstPitch dstSlicePitch dstOffset : Nat)
    (srcRegion : ze_copy_region_t) (srcPitch srcSlicePitch srcOffset : Nat)
    (hSignalEvent : ze_event_handle_t) (numWaitEvents : Nat)
    (phWaitEvents : Option (List ze_event_handle_t)) (r : ze_result_t × CommandList × Device)
    (h : appendMemoryCopyKernel3d ext cl device dstGA srcGA builtin dstRegion dstPitch
      dstSlicePitch dstOffset srcRegion srcPitch srcSlicePitch srcOffset hSignalEvent
      numWaitEvents phWaitEvents = some r) :
    modeAndBlits r.2.1 = modeAndBlits cl := by
  unfold appendMemoryCopyKernel3d at h
  simp only at h
  split at h
  · simp only [Option.some.injEq] at h
    rw [← h]
  · split at h
    · simp only [Option.some.injEq] at h
      rw [← h]
    · split at h
      · simp at h
      · simp only [Option.some.injEq] at h
        rw [← h]
      · rw [Option.map_eq_some'] at h
        obtain ⟨r', hr', hr⟩ := h
        rw [← hr]
        exact appendLaunchKernel_modeAndBlits ext hext cl _ _ _ _ _ r' hr'

/-- `appendMemoryCopyKernel2d` keeps the mode and the blit commands. -/
theorem appendMemoryCopyKernel2d_modeAndBlits (ext : External)
    (hext : ExternalKeepsModeAndBlits ext) (cl : CommandList) (device : Device)
    (dstGA srcGA : GraphicsAllocation) (builtin : Builtin)
    (dstRegion : ze_copy_region_t) (dstPitch dstOffset : Nat)
    (srcRegion : ze_copy_region_t) (srcPitch srcOffset : Nat)
    (hSignalEvent : ze_event_handle_t) (numWaitEvents : Nat)
    (phWaitEvents : Option (List ze_event_handle_t)) (r : ze_result_t × CommandList × Device)
    (h : appendMemoryCopyKernel2d ext cl device dstGA srcGA builtin dstRegion dstPitch
      dstOffset srcRegion srcPitch srcOffset hSignalEvent numWaitEvents phWaitEvents
      = some r) :
    modeAndBlits r.2.1 = modeAndBlits cl := by
  unfold appendMemoryCopyKernel2d at h
  simp only at h
  split at h
  · simp only [Option.some.injEq] at h
    rw [← h]
  · split at h
    · simp only [Option.some.injEq] at h
      rw [← h]
    · split at h
      · simp at h
      · simp only [Option.some.injEq] at h
        rw [← h]
      · rw [Option.map_eq_some'] at h
        obtain ⟨r', hr', hr⟩ := h
        rw [← hr]
        exact appendLaunchKernel_modeAndBlits ext hext cl _ _ _ _ _ r' hr'

/-- On a compute list `appendMemoryCopyRegion` keeps the mode and the blit commands. -/
theorem appendMemoryCopyRegion_modeAndBlits (ext : External)
    (hext : ExternalKeepsModeAndBlits ext) (cl : CommandList) (device : Device)
    (dstPtr : Nat) (dstRegion : ze_copy_region_t) (dstPitch dstSlicePitch srcPtr : Nat)
    (srcRegion : ze_copy_region_t) (srcPitch srcSlicePitch : Nat)
    (hSignalEvent : ze_event_handle_t) (hcompute : cl.isCopyOnlyCmdList = false)
    (r : ze_result_t × CommandList × Device)
    (h : appendMemoryCopyRegion ext cl device dstPtr dstRegion dstPitch dstSlicePitch srcPtr
      srcRegion srcPitch srcSlicePitch hSignalEvent = some r) :
    modeAndBlits r.2.1 = modeAndBlits cl := by
  have hmodeprof : ∀ cl hEvent beforeWalker,
      (ext.appendEventForProfiling cl hEvent beforeWalker).isCopyOnlyCmdList
        = cl.isCopyOnlyCmdList :=
    fun cl hEvent beforeWalker => mode_of_modeAndBlits _ _ (hext.profiling cl hEvent beforeWalker)
  unfold appendMemoryCopyRegion at h
  simp only [hmodeprof, getAlignedAllocation_commandContainer, hcompute, Bool.false_eq_true,
    if_false] at h
  rw [Option.map_eq_some'] at h
  obtain ⟨r', hr', hr⟩ := h
  have hr'' : modeAndBlits r'.2.1 = modeAndBlits cl := by
    split at hr'
    · rw [appendMemoryCopyKernel3d_modeAndBlits ext hext _ _ _ _ _ _ _ _ _ _ _ _ _ _ _ _
        r' hr', hext.profiling, getAlignedAllocation_modeAndBlits,
        getAlignedAllocation_modeAndBlits]
    · rw [appendMemoryCopyKernel2d_modeAndBlits ext hext _ _ _ _ _ _ _ _ _ _ _ _ _ _ r'
        hr', hext.profiling, getAlignedAllocation_modeAndBlits,
        getAlignedAllocation_modeAndBlits]
  rw [← hr]
  split
  · exact hr''
  · exact (modeAndBlits_flush _ r'.2.1).trans hr''

/-- The second half of `appendMemoryFill` keeps the mode and the blit commands. -/
theorem appendMemoryFill_dispatch_modeAndBlits (ext : External)
    (hext : ExternalKeepsModeAndBlits ext) (cl : CommandList) (device : Device)
    (id : BuiltinKernelId) (dstPtr size groupSizeX : Nat) (hostPointerNeedsFlush : Bool)
    (hEvent : ze_event_handle_t) (r : ze_result_t × CommandList × Device)
    (h : appendMemoryFill.dispatch ext cl device id dstPtr size groupSizeX
      hostPointerNeedsFlush hEvent = some r) :
    modeAndBlits r.2.1 = modeAndBlits cl := by
  unfold appendMemoryFill.dispatch at h
  simp only at h
  split at h
  · simp at h
  · split at h
    · simp at h
    · rename_i res cl1 hlaunch
      have h1 : modeAndBlits cl1 = modeAndBlits cl := by
        rw [appendLaunchKernel_modeAndBlits ext hext _ _ _ _ _ _ _ hlaunch, hext.profiling]
      split at h
      · simp only [Option.some.injEq] at h
        rw [← h]; exact h1
      · split at h
        · simp at h
        · rename_i res2 cl2 device2 htrailing
          have h2 : modeAndBlits cl2 = modeAndBlits cl := by
            split at htrailing
            · split at htrailing
              · simp only [Option.some.injEq, Prod.mk.injEq] at htrailing
                rw [← htrailing.2.2.1]; exact h1
              · rw [Option.map_eq_some'] at htrailing
                obtain ⟨r', hr', hr⟩ := htrailing
                simp only [Prod.mk.injEq] at hr
                rw [← hr.2.2.1,
                  appendLaunchKernel_modeAndBlits ext hext _ _ _ _ _ _ _ hr']
                exact h1
            · simp only [Option.some.injEq, Prod.mk.injEq] at htrailing
              rw [← htrailing.2.2.1]; exact h1
          simp only [Option.some.injEq] at h
          rw [← h]; exact h2
        · rename_i res2 cl2 device2 htrailing
          have h2 : modeAndBlits cl2 = modeAndBlits cl := by
            split at htrailing
            · split at htrailing
              · simp only [Option.some.injEq, Prod.mk.injEq] at htrailing
                rw [← htrailing.2.2.1]; exact h1
              · rw [Option.map_eq_some'] at htrailing
                obtain ⟨r', hr', hr⟩ := htrailing
                simp only [Prod.mk.injEq] at hr
                rw [← hr.2.2.1,
                  appendLaunchKernel_modeAndBlits ext hext _ _ _ _ _ _ _ hr']
                exact h1
            · simp only [Option.some.injEq, Prod.mk.injEq] at htrailing
              rw [← htrailing.2.2.1]; exact h1
          rw [Option.map_eq_some'] at h
          obtain ⟨cl3, hcl3, hr⟩ := h
          have h3 := appendSignalEventPostWalker_modeAndBlits ext hext _ _ _ hcl3
          rw [← hr]
          exact (modeAndBlits_flush _ cl3).trans (h3.trans h2)

/-- On a compute list `appendMemoryFill` keeps the mode and the blit commands. -/
theorem appendMemoryFill_modeAndBlits (ext : External)
    (hext : ExternalKeepsModeAndBlits ext) (cl : CommandList) (device : Device) (ptr : Nat)
    (pattern : HostMemory) (patternSize size : Nat) (hEvent : ze_event_handle_t)
    (hcompute : cl.isCopyOnlyCmdList = false) (r : ze_result_t × CommandList × Device)
    (h : appendMemoryFill ext cl device ptr pattern patternSize size hEvent = some r) :
    modeAndBlits r.2.1 = modeAndBlits cl := by
  unfold appendMemoryFill at h
  simp only [hcompute, Bool.false_eq_true, if_false] at h
  split at h
  · simp only [Option.some.injEq] at h
    rw [← h]
  · split at h
    · split at h
      · simp only [Option.some.injEq] at h
        rw [← h]
      · exact appendMemoryFill_dispatch_modeAndBlits ext hext _ _ _ _ _ _ _ _ r h
    · have hmanaged := hext.managed device cl (getSshAlignedPointer ext pattern.address).1
        (add64 (getSshAlignedPointer ext pattern.address).2 patternSize)
      split at h
      · simp only [Option.some.injEq] at h
        rw [← h]; exact hmanaged
      · split at h
        · simp only [Option.some.injEq] at h
          rw [← h]
          exact (modeAndBlits_deallocationContainer _ _).trans hmanaged
        · rw [appendMemoryFill_dispatch_modeAndBlits ext hext _ _ _ _ _ _ _ _ r h]
          exact (modeAndBlits_deallocationContainer _ _).trans hmanaged

/-- On a compute list `appendImageCopyFromMemory` keeps the mode and the blit commands. -/
theorem appendImageCopyFromMemory_modeAndBlits (ext : External)
    (hext : ExternalKeepsModeAndBlits ext) (cl : CommandList) (device : Device)
    (hDstImage : Image) (srcPtr : Nat) (pDstRegion : Option ze_image_region_t)
    (hEvent : ze_event_handle_t) (numWaitEvents : Nat)
    (phWaitEvents : Option (List ze_event_handle_t))
    (hcompute : cl.isCopyOnlyCmdList = false) (r : ze_result_t × CommandList × Device)
    (h : appendImageCopyFromMemory ext cl device hDstImage srcPtr pDstRegion hEvent
      numWaitEvents phWaitEvents = some r) :
    modeAndBlits r.2.1 = modeAndBlits cl := by
  unfold appendImageCopyFromMemory at h
  simp only [getAlignedAllocation_commandContainer, hcompute, Bool.false_eq_true,
    if_false] at h
  repeat' split at h
  all_goals first
    | (simp at h; done)
    | (simp only [Option.some.injEq] at h
       rw [← h]
       exact getAlignedAllocation_modeAndBlits _ _ _ _ _)
    | (rw [Option.map_eq_some'] at h
       obtain ⟨r', hr', hr⟩ := h
       rw [← hr]
       exact (appendLaunchKernel_modeAndBlits ext hext _ _ _ _ _ _ r' hr').trans
         (getAlignedAllocation_modeAndBlits _ _ _ _ _))

/-- On a compute list `appendImageCopyToMemory` keeps the mode and the blit commands. -/
theorem appendImageCopyToMemory_modeAndBlits (ext : External)
    (hext : ExternalKeepsModeAndBlits ext) (cl : CommandList) (device : Device)
    (dstPtr : Nat) (hSrcImage : Image) (pSrcRegion : Option ze_image_region_t)
    (hEvent : ze_event_handle_t) (numWaitEvents : Nat)
    (phWaitEvents : Option (List ze_event_handle_t))
    (hcompute : cl.isCopyOnlyCmdList = false) (r : ze_result_t × CommandList × Device)
    (h : appendImageCopyToMemory ext cl device dstPtr hSrcImage pSrcRegion hEvent
      numWaitEvents phWaitEvents = some r) :
    modeAndBlits r.2.1 = modeAndBlits cl := by
  unfold appendImageCopyToMemory at h
  simp only [getAlignedAllocation_commandContainer, hcompute, Bool.false_eq_true,
    if_false] at h
  repeat' split at h
  all_goals first
    | (simp at h; done)
    | (simp only [Option.some.injEq] at h
       rw [← h]
       exact getAlignedAllocation_modeAndBlits _ _ _ _ _)
    | (rw [Option.map_eq_some'] at h
       obtain ⟨r', hr', hr⟩ := h
       rw [← hr]
       have hk := (appendLaunchKernel_modeAndBlits ext hext _ _ _ _ _ _ r' hr').trans
         (getAlignedAllocation_modeAndBlits _ _ _ _ _)
       first
         | exact hk
         | exact (modeAndBlits_encode r'.2 r'.2.commandContainer (Command.pipeControl true)
             rfl).trans hk)

/-- On a compute list `appendImageCopyRegion` keeps the mode and the blit commands. -/
theorem appendImageCopyRegion_modeAndBlits (ext : External)
    (hext : ExternalKeepsModeAndBlits ext) (cl : CommandList) (device : Device)
    (hDstImage hSrcImage : Image) (pDstRegion pSrcRegion : Option ze_image_region_t)
    (hEvent : ze_event_handle_t) (numWaitEvents : Nat)
    (phWaitEvents : Option (List ze_event_handle_t))
    (hcompute : cl.isCopyOnlyCmdList = false) (r : ze_result_t × CommandList × Device)
    (h : appendImageCopyRegion ext cl device hDstImage hSrcImage pDstRegion pSrcRegion hEvent
      numWaitEvents phWaitEvents = some r) :
    modeAndBlits r.2.1 = modeAndBlits cl := by
  unfold appendImageCopyRegion at h
  simp only [hcompute, Bool.false_eq_true, if_false] at h
  repeat' split at h
  all_goals first
    | (simp at h; done)
    | (simp only [Option.some.injEq] at h
       rw [← h])
    | (rw [Option.map_eq_some'] at h
       obtain ⟨r', hr', hr⟩ := h
       rw [← hr]
       exact (appendLaunchKernel_modeAndBlits ext hext _ _ _ _ _ _ r' hr').trans
         (hext.profiling _ _ _))

/-! ## Theorems: the six copy operations follow the mode of the list -/

/-- The external functions of `exampleExternal` keep the mode and add no blit command. -/
theorem exampleExternal_keepsModeAndBlits : ExternalKeepsModeAndBlits exampleExternal where
  launch := fun cl hKernel pThreadGroupDimensions _ isIndirect isPredicate =>
    modeAndBlits_encode _ cl.commandContainer
      (Command.walker hKernel pThreadGroupDimensions isIndirect isPredicate) rfl
  profiling := fun _ _ _ => rfl
  managed := fun _ _ _ _ => rfl

/-- C20: let the external functions keep the mode of the list and add no blit command of
their own. On a copy-only list the six operations `appendMemoryCopy`,
`appendMemoryCopyRegion`, `appendMemoryFill`, `appendImageCopyFromMemory`,
`appendImageCopyToMemory` and `appendImageCopyRegion` never reach the kernel launch: with
any function `f` in the place of `appendLaunchKernelWithParams` their outcome (result code,
command list and device, or the fault) is the same. On a list that is not copy-only, every
outcome of the six operations has the blit commands the stream had before: none is added,
the blit path is not taken. -/
theorem copy_operations_follow_mode (ext : External) (hext : ExternalKeepsModeAndBlits ext)
    (cl : CommandList) (device : Device) (hEvent : ze_event_handle_t) (numWaitEvents : Nat)
    (phWaitEvents : Option (List ze_event_handle_t)) :
    (cl.isCopyOnlyCmdList = true →
      ∀ f : CommandList → ze_kernel_handle_t → Option GroupCountPtr → ze_event_handle_t →
          Bool → Bool → ze_result_t × CommandList,
        (∀ dstptr srcptr size,
          appendMemoryCopy (ext.withLaunch f) cl device dstptr srcptr size hEvent
              numWaitEvents phWaitEvents
            = appendMemoryCopy ext cl device dstptr srcptr size hEvent numWaitEvents
              phWaitEvents)
        ∧ (∀ dstPtr dstRegion dstPitch dstSlicePitch srcPtr srcRegion srcPitch srcSlicePitch,
          appendMemoryCopyRegion (ext.withLaunch f) cl device dstPtr dstRegion dstPitch
              dstSlicePitch srcPtr srcRegion srcPitch srcSlicePitch hEvent
            = appendMemoryCopyRegion ext cl device dstPtr dstRegion dstPitch dstSlicePitch
              srcPtr srcRegion srcPitch srcSlicePitch hEvent)
        ∧ (∀ ptr pattern patternSize size,
          appendMemoryFill (ext.withLaunch f) cl device ptr pattern patternSize size hEvent
            = appendMemoryFill ext cl device ptr pattern patternSize size hEvent)
        ∧ (∀ hDstImage srcPtr pDstRegion,
          appendImageCopyFromMemory (ext.withLaunch f) cl device hDstImage srcPtr pDstRegion
              hEvent numWaitEvents phWaitEvents
            = appendImageCopyFromMemory ext cl device hDstImage srcPtr pDstRegion hEvent
              numWaitEvents phWaitEvents)
        ∧ (∀ dstPtr hSrcImage pSrcRegion,
          appendImageCopyToMemory (ext.withLaunch f) cl device dstPtr hSrcImage pSrcRegion
              hEvent numWaitEvents phWaitEvents
            = appendImageCopyToMemory ext cl device dstPtr hSrcImage pSrcRegion hEvent
              numWaitEvents phWaitEvents)
        ∧ (∀ hDstImage hSrcImage pDstRegion pSrcRegion,
          appendImageCopyRegion (ext.withLaunch f) cl device hDstImage hSrcImage pDstRegion
              pSrcRegion hEvent numWaitEvents phWaitEvents
            = appendImageCopyRegion ext cl device hDstImage hSrcImage pDstRegion pSrcRegion
              hEvent numWaitEvents phWaitEvents))
    ∧ (cl.isCopyOnlyCmdList = false →
        (∀ dstptr srcptr size r,
          appendMemoryCopy ext cl device dstptr srcptr size hEvent numWaitEvents phWaitEvents
            = some r → blitCommands r.2.1 = blitCommands cl)
        ∧ (∀ dstPtr dstRegion dstPitch dstSlicePitch srcPtr srcRegion srcPitch srcSlicePitch r,
          appendMemoryCopyRegion ext cl device dstPtr dstRegion dstPitch dstSlicePitch srcPtr
            srcRegion srcPitch srcSlicePitch hEvent = some r →
          blitCommands r.2.1 = blitCommands cl)
        ∧ (∀ ptr pattern patternSize size r,
          appendMemoryFill ext cl device ptr pattern patternSize size hEvent = some r →
          blitCommands r.2.1 = blitCommands cl)
        ∧ (∀ hDstImage srcPtr pDstRegion r,
          appendImageCopyFromMemory ext cl device hDstImage srcPtr pDstRegion hEvent
            numWaitEvents phWaitEvents = some r →
          blitCommands r.2.1 = blitCommands cl)
        ∧ (∀ dstPtr hSrcImage pSrcRegion r,
          appendImageCopyToMemory ext cl device dstPtr hSrcImage pSrcRegion hEvent
            numWaitEvents phWaitEvents = some r →
          blitCommands r.2.1 = blitCommands cl)
        ∧ (∀ hDstImage hSrcImage pDstRegion pSrcRegion r,
          appendImageCopyRegion ext cl device hDstImage hSrcImage pDstRegion pSrcRegion
            hEvent numWaitEvents phWaitEvents = some r →
          blitCommands r.2.1 = blitCommands cl)) := by
  have hmode : ∀ cl hEvent beforeWalker,
      (ext.appendEventForProfiling cl hEvent beforeWalker).isCopyOnlyCmdList
        = cl.isCopyOnlyCmdList :=
    fun cl hEvent beforeWalker => mode_of_modeAndBlits _ _ (hext.profiling cl hEvent beforeWalker)
  refine ⟨fun hcopy f => ⟨?_, ?_, ?_, ?_, ?_, ?_⟩, fun hcompute => ⟨?_, ?_, ?_, ?_, ?_, ?_⟩⟩
  · intro dstptr srcptr size
    exact appendMemoryCopy_copyOnly ext f hmode cl device dstptr srcptr size hEvent
      numWaitEvents phWaitEvents hcopy
  · intro dstPtr dstRegion dstPitch dstSlicePitch srcPtr srcRegion srcPitch srcSlicePitch
    exact appendMemoryCopyRegion_copyOnly ext f hmode cl device dstPtr dstRegion dstPitch
      dstSlicePitch srcPtr srcRegion srcPitch srcSlicePitch hEvent hcopy
  · intro ptr pattern patternSize size
    exact appendMemoryFill_copyOnly ext f hmode cl device ptr pattern patternSize size hEvent
      hcopy
  · intro hDstImage srcPtr pDstRegion
    exact (appendImageCopy_copyOnly ext f cl device hDstImage hDstImage srcPtr pDstRegion
      pDstRegion hEvent numWaitEvents phWaitEvents hcopy).1
  · intro dstPtr hSrcImage pSrcRegion
    exact (appendImageCopy_copyOnly ext f cl device hSrcImage hSrcImage dstPtr pSrcRegion
      pSrcRegion hEvent numWaitEvents phWaitEvents hcopy).2.1
  · intro hDstImage hSrcImage pDstRegion pSrcRegion
    exact (appendImageCopy_copyOnly ext f cl device hDstImage hSrcImage 0 pDstRegion
      pSrcRegion hEvent numWaitEvents phWaitEvents hcopy).2.2
  · intro dstptr srcptr size r h
    exact congrArg Prod.snd (appendMemoryCopy_modeAndBlits ext hext cl device dstptr srcptr
      size hEvent numWaitEvents phWaitEvents hcompute r h)
  · intro dstPtr dstRegion dstPitch dstSlicePitch srcPtr srcRegion srcPitch srcSlicePitch r h
    exact congrArg Prod.snd (appendMemoryCopyRegion_modeAndBlits ext hext cl device dstPtr
      dstRegion dstPitch dstSlicePitch srcPtr srcRegion srcPitch srcSlicePitch hEvent
      hcompute r h)
  · intro ptr pattern patternSize size r h
    exact congrArg Prod.snd (appendMemoryFill_modeAndBlits ext hext cl device ptr pattern
      patternSize size hEvent hcompute r h)
  · intro hDstImage srcPtr pDstRegion r h
    exact congrArg Prod.snd (appendImageCopyFromMemory_modeAndBlits ext hext cl device
      hDstImage srcPtr pDstRegion hEvent numWaitEvents phWaitEvents hcompute r h)
  · intro dstPtr hSrcImage pSrcRegion r h
    exact congrArg Prod.snd (appendImageCopyToMemory_modeAndBlits ext hext cl device dstPtr
      hSrcImage pSrcRegion hEvent numWaitEvents phWaitEvents hcompute r h)
  · intro hDstImage hSrcImage pDstRegion pSrcRegion r h
    exact congrArg Prod.snd (appendImageCopyRegion_modeAndBlits ext hext cl device hDstImage
      hSrcImage pDstRegion pSrcRegion hEvent numWaitEvents phWaitEvents hcompute r h)


/-- Witness of C20: `exampleExternal` on the copy-only list `exampleCopyOnlyCommandList`
with the launch function replaced by `exampleFailingLaunch`, and on the compute list
`exampleCommandList`, for each of the six operations. -/
theorem copy_operations_follow_mode_witness :
    ExternalKeepsModeAndBlits exampleExternal
      ∧ exampleCopyOnlyCommandList.isCopyOnlyCmdList = true
      ∧ exampleCommandList.isCopyOnlyCmdList = false
      ∧ (appendMemoryCopy (exampleExternal.withLaunch exampleFailingLaunch)
            exampleCopyOnlyCommandList exampleDevice 65536 66000 200 none 0 none
          = appendMemoryCopy exampleExternal exampleCopyOnlyCommandList exampleDevice 65536
            66000 200 none 0 none
        ∧ appendMemoryCopyRegion (exampleExternal.withLaunch exampleFailingLaunch)
            exampleCopyOnlyCommandList exampleDevice 65536 exampleCopyRegion 32 128 67000
            exampleCopyRegion 32 128 none
          = appendMemoryCopyRegion exampleExternal exampleCopyOnlyCommandList exampleDevice
            65536 exampleCopyRegion 32 128 67000 exampleCopyRegion 32 128 none
        ∧ appendMemoryFill (exampleExternal.withLaunch exampleFailingLaunch)
            exampleCopyOnlyCommandList exampleDevice 65536 examplePattern 4 100 none
          = appendMemoryFill exampleExternal exampleCopyOnlyCommandList exampleDevice 65536
            examplePattern 4 100 none
        ∧ appendImageCopyFromMemory (exampleExternal.withLaunch exampleFailingLaunch)
            exampleCopyOnlyCommandList exampleDevice exampleImage 65536 none none 0 none
          = appendImageCopyFromMemory exampleExternal exampleCopyOnlyCommandList
            exampleDevice exampleImage 65536 none none 0 none
        ∧ appendImageCopyToMemory (exampleExternal.withLaunch exampleFailingLaunch)
            exampleCopyOnlyCommandList exampleDevice 65536 exampleImage none none 0 none
          = appendImageCopyToMemory exampleExternal exampleCopyOnlyCommandList exampleDevice
            65536 exampleImage none none 0 none
        ∧ appendImageCopyRegion (exampleExternal.withLaunch exampleFailingLaunch)
            exampleCopyOnlyCommandList exampleDevice exampleImage exampleImage none none none
            0 none
          = appendImageCopyRegion exampleExternal exampleCopyOnlyCommandList exampleDevice
            exampleImage exampleImage none none none 0 none)
      ∧ ((∃ r, appendMemoryCopy exampleExternal exampleCommandList exampleDevice 65536 66000
              200 none 0 none = some r
            ∧ blitCommands r.2.1 = blitCommands exampleCommandList)
        ∧ (∃ r, appendMemoryCopyRegion exampleExternal exampleCommandList exampleDevice 65536
              exampleCopyRegion 32 128 67000 exampleCopyRegion 32 128 none = some r
            ∧ blitCommands r.2.1 = blitCommands exampleCommandList)
        ∧ (∃ r, appendMemoryFill exampleExternal exampleCommandList exampleDevice 65536
              examplePattern 4 100 none = some r
            ∧ blitCommands r.2.1 = blitCommands exampleCommandList)
        ∧ (∃ r, appendImageCopyFromMemory exampleExternal exampleCommandList exampleDevice
              exampleImage 65536 none none 0 none = some r
            ∧ blitCommands r.2.1 = blitCommands exampleCommandList)
        ∧ (∃ r, appendImageCopyToMemory exampleExternal exampleCommandList exampleDevice 65536
              exampleImage none none 0 none = some r
            ∧ blitCommands r.2.1 = blitCommands exampleCommandList)
        ∧ (∃ r, appendImageCopyRegion exampleExternal exampleCommandList exampleDevice
              exampleImage exampleImage none none none 0 none = some r
            ∧ blitCommands r.2.1 = blitCommands exampleCommandList)) := by
  have hcopy := (copy_operations_follow_mode exampleExternal exampleExternal_keepsModeAndBlits
    exampleCopyOnlyCommandList exampleDevice none 0 none).1 rfl exampleFailingLaunch
  have hcompute := (copy_operations_follow_mode exampleExternal
    exampleExternal_keepsModeAndBlits exampleCommandList exampleDevice none 0 none).2 rfl
  refine ⟨exampleExternal_keepsModeAndBlits, rfl, rfl,
    ⟨hcopy.1 _ _ _, hcopy.2.1 _ _ _ _ _ _ _ _, hcopy.2.2.1 _ _ _ _, hcopy.2.2.2.1 _ _ _,
      hcopy.2.2.2.2.1 _ _ _, hcopy.2.2.2.2.2 _ _ _ _⟩, ?_, ?_, ?_, ?_, ?_, ?_⟩
  · obtain ⟨r, hr⟩ := Option.isSome_iff_exists.mp (by decide :
      (appendMemoryCopy exampleExternal exampleCommandList exampleDevice 65536 66000 200 none
        0 none).isSome = true)
    exact ⟨r, hr, hcompute.1 _ _ _ r hr⟩
  · obtain ⟨r, hr⟩ := Option.isSome_iff_exists.mp (by decide :
      (appendMemoryCopyRegion exampleExternal exampleCommandList exampleDevice 65536
        exampleCopyRegion 32 128 67000 exampleCopyRegion 32 128 none).isSome = true)
    exact ⟨r, hr, hcompute.2.1 _ _ _ _ _ _ _ _ r hr⟩
  · obtain ⟨r, hr⟩ := Option.isSome_iff_exists.mp (by decide :
      (appendMemoryFill exampleExternal exampleCommandList exampleDevice 65536 examplePattern
        4 100 none).isSome = true)
    exact ⟨r, hr, hcompute.2.2.1 _ _ _ _ r hr⟩
  · obtain ⟨r, hr⟩ := Option.isSome_iff_exists.mp (by decide :
      (appendImageCopyFromMemory exampleExternal exampleCommandList exampleDevice exampleImage
        65536 none none 0 none).isSome = true)
    exact ⟨r, hr, hcompute.2.2.2.1 _ _ _ r hr⟩
  · obtain ⟨r, hr⟩ := Option.isSome_iff_exists.mp (by decide :
      (appendImageCopyToMemory exampleExternal exampleCommandList exampleDevice 65536
        exampleImage none none 0 none).isSome = true)
    exact ⟨r, hr, hcompute.2.2.2.2.1 _ _ _ r hr⟩
  · obtain ⟨r, hr⟩ := Option.isSome_iff_exists.mp (by decide :
      (appendImageCopyRegion exampleExternal exampleCommandList exampleDevice exampleImage
        exampleImage none none none 0 none).isSome = true)
    exact ⟨r, hr, hcompute.2.2.2.2.2 _ _ _ _ r hr⟩

/-- Evaluations for C20: what each of the six operations appends to the two commands of
the example lists, told as blit command or not. The copy-only list receives blit commands
only, the compute list none; and on the compute list the launch function is reached, the
failing one changes the result code. -/
theorem copy_operations_examples :
    ((appendMemoryCopy exampleExternal exampleCopyOnlyCommandList exampleDevice 65536 66000
        200 none 0 none).map
        (fun r => (r.2.1.commandContainer.commandStream.drop 2).map Command.isBlit)
      = some [true, true]
      ∧ (appendMemoryCopyRegion exampleExternal exampleCopyOnlyCommandList exampleDevice 65536
          exampleCopyRegion 32 128 67000 exampleCopyRegion 32 128 none).map
          (fun r => (r.2.1.commandContainer.commandStream.drop 2).map Command.isBlit)
        = some [true]
      ∧ (appendMemoryFill exampleExternal exampleCopyOnlyCommandList exampleDevice 65536
          examplePattern 4 100 none).map
          (fun r => (r.2.1.commandContainer.commandStream.drop 2).map Command.isBlit)
        = some [true]
      ∧ (appendImageCopyFromMemory exampleExternal exampleCopyOnlyCommandList exampleDevice
          exampleImage 65536 none none 0 none).map
          (fun r => (r.2.1.commandContainer.commandStream.drop 2).map Command.isBlit)
        = some [true]
      ∧ (appendImageCopyToMemory exampleExternal exampleCopyOnlyCommandList exampleDevice
          65536 exampleImage none none 0 none).map
          (fun r => (r.2.1.commandContainer.commandStream.drop 2).map Command.isBlit)
        = some [true]
      ∧ (appendImageCopyRegion exampleExternal exampleCopyOnlyCommandList exampleDevice
          exampleImage exampleImage none none none 0 none).map
          (fun r => (r.2.1.commandContainer.commandStream.drop 2).map Command.isBlit)
        = some [true])
    ∧ ((appendMemoryCopy exampleExternal exampleCommandList exampleDevice 65536 66000 200
          none 0 none).map
          (fun r => (r.2.1.commandContainer.commandStream.drop 2).map Command.isBlit)
        = some [false, false, false]
      ∧ (appendMemoryCopyRegion exampleExternal exampleCommandList exampleDevice 65536
          exampleCopyRegion 32 128 67000 exampleCopyRegion 32 128 none).map
          (fun r => (r.2.1.commandContainer.commandStream.drop 2).map Command.isBlit)
        = some [false, false]
      ∧ (appendMemoryFill exampleExternal exampleCommandList exampleDevice 65536
          examplePattern 4 100 none).map
          (fun r => (r.2.1.commandContainer.commandStream.drop 2).map Command.isBlit)
        = some [false, false]
      ∧ (appendImageCopyFromMemory exampleExternal exampleCommandList exampleDevice
          exampleImage 65536 none none 0 none).map
          (fun r => (r.2.1.commandContainer.commandStream.drop 2).map Command.isBlit)
        = some [false]
      ∧ (appendImageCopyToMemory exampleExternal exampleCommandList exampleDevice 65536
          exampleImage none none 0 none).map
          (fun r => (r.2.1.commandContainer.commandStream.drop 2).map Command.isBlit)
        = some [false, false]
      ∧ (appendImageCopyRegion exampleExternal exampleCommandList exampleDevice exampleImage
          exampleImage none none none 0 none).map
          (fun r => (r.2.1.commandContainer.commandStream.drop 2).map Command.isBlit)
        = some [false])
    ∧ ((appendMemoryCopy (exampleExternal.withLaunch exampleFailingLaunch) exampleCommandList
          exampleDevice 65536 66000 200 none 0 none).map (fun r => r.1)
        = some ze_result_t.ZE_RESULT_ERROR_UNKNOWN
      ∧ (appendMemoryCopy exampleExternal exampleCommandList exampleDevice 65536 66000 200
          none 0 none).map (fun r => r.1)
        = some ze_result_t.ZE_RESULT_SUCCESS) := by
  decide


/-! ## Theorems: the blit path registers its allocations first -/

/-- The post-walker signal always has a result: it reads through no pointer that can be
null. -/
theorem appendSignalEventPostWalker_isSome (ext : External) (cl : CommandList)
    (hEvent : ze_event_handle_t) :
    (appendSignalEventPostWalker ext cl hEvent).isSome = true := by
  unfold appendSignalEventPostWalker
  cases hEvent with
  | none => rfl
  | some event =>
    by_cases hts : event.isTimestampEvent = true
    · simp [hts]
    · simp [hts, appendSignalEvent]

/-- C21: each of `appendMemoryCopyBlit`, `appendMemoryCopyBlitRegion` and
`appendCopyImageBlit` returns `ZE_RESULT_SUCCESS`, whatever its arguments, and works in this
order: first the destination and the source allocation are added to the residency
container, the command stream still being as before (`cl1`); on that list the profiling
stub runs (`cl2`); then the one blit command is encoded, and last comes the signal of the
event. -/
theorem blit_operations_register_residency (ext : External) (cl : CommandList)
    (dst src : GraphicsAllocation) (hSignalEvent : ze_event_handle_t) :
    (∀ dstOffset srcOffset size, ∃ cl1 cl2 cl3 blitProperties,
      cl1 = { cl with commandContainer := { cl.commandContainer with
                residencyContainer := cl.commandContainer.residencyContainer ++ [dst, src] } }
      ∧ cl2 = ext.appendEventForProfiling cl1 hSignalEvent true
      ∧ appendSignalEventPostWalker ext
          { cl2 with commandContainer :=
              cl2.commandContainer.encode (Command.blitCommandsForBuffer blitProperties) }
          hSignalEvent = some cl3
      ∧ appendMemoryCopyBlit ext cl dst dstOffset src srcOffset size hSignalEvent
        = some (ze_result_t.ZE_RESULT_SUCCESS, cl3))
    ∧ (∀ srcRegion dstRegion copySize srcRowPitch srcSlicePitch dstRowPitch dstSlicePitch
        srcSize dstSize, ∃ cl1 cl2 cl3 blitProperties,
      cl1 = { cl with commandContainer := { cl.commandContainer with
                residencyContainer := cl.commandContainer.residencyContainer ++ [dst, src] } }
      ∧ cl2 = ext.appendEventForProfiling cl1 hSignalEvent true
      ∧ appendSignalEventPostWalker ext
          { cl2 with commandContainer :=
              cl2.commandContainer.encode (Command.blitCommandsForBuffer blitProperties) }
          hSignalEvent = some cl3
      ∧ appendMemoryCopyBlitRegion ext cl src dst srcRegion dstRegion copySize srcRowPitch
          srcSlicePitch dstRowPitch dstSlicePitch srcSize dstSize hSignalEvent
        = some (ze_result_t.ZE_RESULT_SUCCESS, cl3))
    ∧ (∀ srcOffsets dstOffsets srcRowPitch srcSlicePitch dstRowPitch dstSlicePitch
        bytesPerPixel copySize srcSize dstSize, ∃ cl1 cl2 cl3 blitProperties,
      cl1 = { cl with commandContainer := { cl.commandContainer with
                residencyContainer := cl.commandContainer.residencyContainer ++ [dst, src] } }
      ∧ cl2 = ext.appendEventForProfiling cl1 hSignalEvent true
      ∧ appendSignalEventPostWalker ext
          { cl2 with commandContainer :=
              cl2.commandContainer.encode (Command.blitCommandsForImages blitProperties) }
          hSignalEvent = some cl3
      ∧ appendCopyImageBlit ext cl src dst srcOffsets dstOffsets srcRowPitch srcSlicePitch
          dstRowPitch dstSlicePitch bytesPerPixel copySize srcSize dstSize hSignalEvent
        = some (ze_result_t.ZE_RESULT_SUCCESS, cl3)) := by
  have key : ∀ (blit : Command) (o : Option (ze_result_t × CommandList)),
      o = (appendSignalEventPostWalker ext
            { ext.appendEventForProfiling
                { cl with commandContainer := { cl.commandContainer with
                    residencyContainer := cl.commandContainer.residencyContainer ++ [dst, src] } }
                hSignalEvent true with
              commandContainer :=
                (ext.appendEventForProfiling
                  { cl with commandContainer := { cl.commandContainer with
                      residencyContainer :=
                        cl.commandContainer.residencyContainer ++ [dst, src] } }
                  hSignalEvent true).commandContainer.encode blit }
            hSignalEvent).map (fun c => (ze_result_t.ZE_RESULT_SUCCESS, c)) →
      ∃ cl3, appendSignalEventPostWalker ext
            { ext.appendEventForProfiling
                { cl with commandContainer := { cl.commandContainer with
                    residencyContainer := cl.commandContainer.residencyContainer ++ [dst, src] } }
                hSignalEvent true with
              commandContainer :=
                (ext.appendEventForProfiling
                  { cl with commandContainer := { cl.commandContainer with
                      residencyContainer :=
                        cl.commandContainer.residencyContainer ++ [dst, src] } }
                  hSignalEvent true).commandContainer.encode blit }
            hSignalEvent = some cl3
        ∧ o = some (ze_result_t.ZE_RESULT_SUCCESS, cl3) := by
    intro blit o ho
    obtain ⟨cl3, h3⟩ := Option.isSome_iff_exists.mp
      (appendSignalEventPostWalker_isSome ext
        { ext.appendEventForProfiling
            { cl with commandContainer := { cl.commandContainer with
                residencyContainer := cl.commandContainer.residencyContainer ++ [dst, src] } }
            hSignalEvent true with
          commandContainer :=
            (ext.appendEventForProfiling
              { cl with commandContainer := { cl.commandContainer with
                  residencyContainer := cl.commandContainer.residencyContainer ++ [dst, src] } }
              hSignalEvent true).commandContainer.encode blit }
        hSignalEvent)
    exact ⟨cl3, h3, by rw [ho, h3]; rfl⟩
  refine ⟨?_, ?_, ?_⟩
  · intro dstOffset srcOffset size
    obtain ⟨cl3, h3, hop⟩ := key
      (Command.blitCommandsForBuffer (BlitProperties.constructPropertiesForCopyBuffer dst src
        { x := dstOffset, y := 0, z := 0 } { x := srcOffset, y := 0, z := 0 }
        { x := size, y := 0, z := 0 } 0 0 0 0))
      (appendMemoryCopyBlit ext cl dst dstOffset src srcOffset size hSignalEvent)
      (by
        unfold appendMemoryCopyBlit
        simp only [CommandContainer.addToResidencyContainer, List.append_assoc,
          List.singleton_append])
    exact ⟨_, _, cl3, _, rfl, rfl, h3, hop⟩
  · intro srcRegion dstRegion copySize srcRowPitch srcSlicePitch dstRowPitch dstSlicePitch
      srcSize dstSize
    obtain ⟨cl3, h3, hop⟩ := key
      (Command.blitCommandsForBuffer (BlitProperties.constructPropertiesForCopyBuffer dst src
        { x := dstRegion.originX, y := dstRegion.originY, z := dstRegion.originZ }
        { x := srcRegion.originX, y := srcRegion.originY, z := srcRegion.originZ }
        copySize srcRowPitch srcSlicePitch dstRowPitch dstSlicePitch))
      (appendMemoryCopyBlitRegion ext cl src dst srcRegion dstRegion copySize srcRowPitch
        srcSlicePitch dstRowPitch dstSlicePitch srcSize dstSize hSignalEvent)
      (by
        unfold appendMemoryCopyBlitRegion
        simp only [CommandContainer.addToResidencyContainer, List.append_assoc,
          List.singleton_append])
    exact ⟨_, _, cl3, _, rfl, rfl, h3, hop⟩
  · intro srcOffsets dstOffsets srcRowPitch srcSlicePitch dstRowPitch dstSlicePitch
      bytesPerPixel copySize srcSize dstSize
    obtain ⟨cl3, h3, hop⟩ := key
      (Command.blitCommandsForImages
        { BlitProperties.constructPropertiesForCopyBuffer dst src dstOffsets srcOffsets
            copySize srcRowPitch srcSlicePitch dstRowPitch dstSlicePitch with
          bytesPerPixel := bytesPerPixel, srcSize := srcSize, dstSize := dstSize })
      (appendCopyImageBlit ext cl src dst srcOffsets dstOffsets srcRowPitch srcSlicePitch
        dstRowPitch dstSlicePitch bytesPerPixel copySize srcSize dstSize hSignalEvent)
      (by
        unfold appendCopyImageBlit
        simp only [CommandContainer.addToResidencyContainer, List.append_assoc,
          List.singleton_append])
    exact ⟨_, _, cl3, _, rfl, rfl, h3, hop⟩

/-- Evaluation for C21: a blit of 16 bytes on the copy-only example list, without event. The
two allocations, the destination first, are in the residency container and the blit command
is the only new command. -/
theorem blit_operations_example :
    (appendMemoryCopyBlit exampleExternal exampleCopyOnlyCommandList
        { id := 1, gpuAddress := 4096 } 0 { id := 2, gpuAddress := 8192 } 0 16 none).map
        (fun r => (r.1, r.2.commandContainer.residencyContainer,
          r.2.commandContainer.commandStream.map Command.isBlit))
      = some (ze_result_t.ZE_RESULT_SUCCESS,
          [{ id := 1, gpuAddress := 4096 }, { id := 2, gpuAddress := 8192 }],
          [false, false, true]) := by
  decide

/-! ## Theorems: the middle segment of `appendMemoryCopy` is aligned -/

/-- C22: for every destination address, source address and size `n` (a `size_t`), the
`middleSizeBytes` of `appendMemoryCopy` is a multiple of the cache-line size, hence of the
16 bytes of a middle element; and whenever `middleSizeBytes > 0`, the address
`dstptr + leftSize` is a multiple of the cache-line size and `srcptr + leftSize` is a
multiple of 4, also as the 64-bit sum the code tests with `isAligned<4>`. -/
theorem appendMemoryCopy_middle_aligned (dstptr srcptr size : Nat)
    (hsize : size < UINT64_MOD) :
    (appendMemoryCopy.segments dstptr srcptr size).middleSizeBytes
        % MemoryConstants.cacheLineSize = 0
      ∧ (appendMemoryCopy.segments dstptr srcptr size).middleSizeBytes % 16 = 0
      ∧ (0 < (appendMemoryCopy.segments dstptr srcptr size).middleSizeBytes →
          (dstptr + (appendMemoryCopy.segments dstptr srcptr size).leftSize)
              % MemoryConstants.cacheLineSize = 0
          ∧ (srcptr + (appendMemoryCopy.segments dstptr srcptr size).leftSize) % 4 = 0
          ∧ isAligned 4 (add64 srcptr (appendMemoryCopy.segments dstptr srcptr size).leftSize)
              = true) := by
  unfold appendMemoryCopy.segments
  by_cases hal : (srcptr + (appendMemoryCopy.segmentsBeforeCollapse dstptr size).leftSize) % 4
      = 0
  · simp only [isAligned_four_add64, hal, decide_True, Bool.not_true, Bool.false_eq_true,
      if_false, true_and, and_true]
    simp only [appendMemoryCopy.segmentsBeforeCollapse, MemoryConstants.cacheLineSize, sub64,
      add64, UINT64_MOD] at *
    split <;> omega
  · simp only [isAligned_four_add64, hal, decide_False, Bool.not_false, if_true,
      Nat.zero_mod, lt_irrefl, false_implies, and_self]

/-- Witness of C22: 5000 bytes to address 3 from address 3; the middle segment of 4928
bytes starts at `3 + 61 = 64`. -/
theorem appendMemoryCopy_middle_aligned_witness :
    5000 < UINT64_MOD
      ∧ 0 < (appendMemoryCopy.segments 3 3 5000).middleSizeBytes
      ∧ (appendMemoryCopy.segments 3 3 5000).middleSizeBytes
          % MemoryConstants.cacheLineSize = 0
      ∧ (3 + (appendMemoryCopy.segments 3 3 5000).leftSize) % MemoryConstants.cacheLineSize = 0
      ∧ (3 + (appendMemoryCopy.segments 3 3 5000).leftSize) % 4 = 0 :=
  ⟨by decide, by decide, (appendMemoryCopy_middle_aligned 3 3 5000 (by decide)).1,
    ((appendMemoryCopy_middle_aligned 3 3 5000 (by decide)).2.2 (by decide)).1,
    ((appendMemoryCopy_middle_aligned 3 3 5000 (by decide)).2.2 (by decide)).2.1⟩


/-! ## Theorems: the segments `appendMemoryCopy` issues -/

/-- The three segment sizes of `appendMemoryCopy` add up to the size of the copy. -/
theorem appendMemoryCopy_segments_total (dstptr srcptr size : Nat) (hsize : size < UINT64_MOD) :
    (appendMemoryCopy.segments dstptr srcptr size).leftSize
      + (appendMemoryCopy.segments dstptr srcptr size).middleSizeBytes
      + (appendMemoryCopy.segments dstptr srcptr size).rightSize = size := by
  have hpre := segmentsBeforeCollapse_sum dstptr size hsize
  unfold appendMemoryCopy.segments
  generalize appendMemoryCopy.segmentsBeforeCollapse dstptr size = s at hpre ⊢
  by_cases hal : isAligned 4 (add64 srcptr s.leftSize) = true
  · simpa [hal] using hpre
  · simp only [hal, Bool.not_false, Bool.not_true, if_true, Bool.false_eq_true, if_false]
    simp only [add64, UINT64_MOD] at *
    omega


/-- The three guarded statements of `appendMemoryCopy` (lines 764-796) run over the segments
that are not empty, for buffers within the 64-bit address space: `dstA` and `srcA` are the
two records `getAlignedAllocation` returns. -/
theorem appendMemoryCopy_eq_foldl (ext : External) (cl : CommandList)
    (device : Device) (dstptr srcptr size : Nat) (hSignalEvent : ze_event_handle_t)
    (numWaitEvents : Nat) (phWaitEvents : Option (List ze_event_handle_t))
    (dstA srcA : AlignedAllocationData) (cl1 cl2 : CommandList) (device1 device2 : Device)
    (hres1 : getAlignedAllocation ext cl device dstptr size = (dstA, cl1, device1))
    (hres2 : getAlignedAllocation ext cl1 device1 srcptr size = (srcA, cl2, device2))
    (hdst : dstptr + size < UINT64_MOD) (hsrc : srcptr + size < UINT64_MOD) :
    appendMemoryCopy ext cl device dstptr srcptr size hSignalEvent numWaitEvents phWaitEvents
        = (((appendMemoryCopy.expectedSegments dstptr srcptr size).foldl
              (fun (state : Option (ze_result_t × CommandList × Device))
                  (seg : ExpectedSegment) =>
                state.bind fun st =>
                  if st.1 = ze_result_t.ZE_RESULT_SUCCESS then
                    appendMemoryCopy.copySegment ext st.2.1 st.2.2 dstA srcA
                      (dstA.offset + seg.start) (srcA.offset + seg.start) seg.size
                      seg.elementSize seg.builtin hSignalEvent
                  else some st)
              (some (ze_result_t.ZE_RESULT_SUCCESS,
                ext.appendEventForProfiling cl2 hSignalEvent true, device2))).bind
            fun state =>
              (appendSignalEventPostWalker ext state.2.1 hSignalEvent).map fun cl3 =>
                (state.1,
                  if dstA.needsFlush && !cl3.isCopyOnlyCmdList then
                    { cl3 with
                      commandContainer := cl3.commandContainer.encode (Command.pipeControl true) }
                  else cl3,
                  state.2.2)) := by
  have htot := appendMemoryCopy_segments_total dstptr srcptr size (by omega)
  have hoffd : dstA.offset ≤ dstptr := by
    have h := getAlignedAllocation_offset_eq ext cl device dstptr size
    rw [hres1] at h
    rw [h]
    exact Nat.mod_le _ _
  have hoffs : srcA.offset ≤ srcptr := by
    have h := getAlignedAllocation_offset_eq ext cl1 device1 srcptr size
    rw [hres2] at h
    rw [h]
    exact Nat.mod_le _ _
  unfold appendMemoryCopy appendMemoryCopy.expectedSegments
  generalize appendMemoryCopy.segments dstptr srcptr size = s at htot ⊢
  rw [hres1]
  simp only
  rw [hres2]
  simp only
  have e1 : add64 s.leftSize dstA.offset = dstA.offset + s.leftSize := by
    simp only [add64, UINT64_MOD] at *
    omega
  have e2 : add64 s.leftSize srcA.offset = srcA.offset + s.leftSize := by
    simp only [add64, UINT64_MOD] at *
    omega
  have e3 : add64 (add64 s.leftSize s.middleSizeBytes) dstA.offset
      = dstA.offset + (s.leftSize + s.middleSizeBytes) := by
    simp only [add64, UINT64_MOD] at *
    omega
  have e4 : add64 (add64 s.leftSize s.middleSizeBytes) srcA.offset
      = srcA.offset + (s.leftSize + s.middleSizeBytes) := by
    simp only [add64, UINT64_MOD] at *
    omega
  rw [e1, e2, e3, e4]
  by_cases hl : s.leftSize = 0 <;> by_cases hm : s.middleSizeBytes = 0 <;>
    by_cases hr : s.rightSize = 0 <;>
    simp [appendMemoryCopy.guarded, hl, hm, hr, Option.bind_assoc]

/-- Evaluations for C23: the copy of 300 bytes to `0x10003` from `0x101d3`. On the copy-only
list three blits are encoded, at the offsets 3, 64 and 256 of both allocations and of 61,
192 and 47 bytes; on the compute list three kernels are launched, `Side` (handle 1),
`Middle` (handle 2) and `Side`. A copy of 64 bytes to the aligned address `0x10040` has a
middle segment only and issues one operation. -/
theorem appendMemoryCopy_segments_examples :
    (appendMemoryCopy exampleExternal exampleCopyOnlyCommandList exampleDevice 65539 66003
        300 none 0 none).map
        (fun r => (r.1, r.2.1.commandContainer.commandStream.filterMap Command.linearBlit))
      = some (ze_result_t.ZE_RESULT_SUCCESS, [(3, 3, 61), (64, 64, 192), (256, 256, 47)])
    ∧ (appendMemoryCopy exampleExternal exampleCommandList exampleDevice 65539 66003 300 none
        0 none).map
        (fun r => (r.1, (r.2.1.commandContainer.commandStream.filterMap Command.launch).map
          Prod.fst))
      = some (ze_result_t.ZE_RESULT_SUCCESS, [1, 2, 1])
    ∧ (appendMemoryCopy exampleExternal exampleCopyOnlyCommandList exampleDevice 65600 66000
        64 none 0 none).map
        (fun r => (r.1, r.2.1.commandContainer.commandStream.filterMap Command.linearBlit))
      = some (ze_result_t.ZE_RESULT_SUCCESS, [(0, 0, 64)])
    ∧ (appendMemoryCopy exampleExternal exampleCommandList exampleDevice 65600 66000 64 none
        0 none).map
        (fun r => (r.1, (r.2.1.commandContainer.commandStream.filterMap Command.launch).map
          Prod.fst))
      = some (ze_result_t.ZE_RESULT_SUCCESS, [2]) := by
  decide


/-! ## Theorems: the group count of the region operations -/

/-- The three-axis test passes an extent that is a multiple of a positive group size. -/
theorem notDivisible3_eq_false (a b c gx gy gz : Nat) (hx : 0 < gx) (hy : 0 < gy)
    (hz : 0 < gz) (hd : a % gx = 0 ∧ b % gy = 0 ∧ c % gz = 0) :
    notDivisible3 a b c gx gy gz = some false := by
  unfold notDivisible3
  have hx' : gx ≠ 0 := Nat.pos_iff_ne_zero.mp hx
  have hy' : gy ≠ 0 := Nat.pos_iff_ne_zero.mp hy
  have hz' : gz ≠ 0 := Nat.pos_iff_ne_zero.mp hz
  simp [hx', hy', hz', hd.1, hd.2.1, hd.2.2]

/-- The two-axis test passes an extent that is a multiple of a positive group size. -/
theorem notDivisible2_eq_false (a b gx gy : Nat) (hx : 0 < gx) (hy : 0 < gy)
    (hd : a % gx = 0 ∧ b % gy = 0) :
    notDivisible2 a b gx gy = some false := by
  unfold notDivisible2
  have hx' : gx ≠ 0 := Nat.pos_iff_ne_zero.mp hx
  have hy' : gy ≠ 0 := Nat.pos_iff_ne_zero.mp hy
  simp [hx', hy', hd.1, hd.2]

/-- `appendMemoryCopyKernel3d` with an extent the chosen group size divides is the launch of
the kernel with the quotients as group count. -/
theorem appendMemoryCopyKernel3d_launch (ext : External) (cl : CommandList)
    (device : Device) (dstGA srcGA : GraphicsAllocation) (builtin : Builtin)
    (dstRegion : ze_copy_region_t) (dstPitch dstSlicePitch dstOffset : Nat)
    (srcRegion : ze_copy_region_t) (srcPitch srcSlicePitch srcOffset : Nat)
    (hSignalEvent : ze_event_handle_t) (numWaitEvents : Nat)
    (phWaitEvents : Option (List ze_event_handle_t)) (g : Vec3)
    (hchosen : GroupSizeChosen ext srcRegion.width srcRegion.height srcRegion.depth g)
    (hd : srcRegion.width % g.x = 0 ∧ srcRegion.height % g.y = 0
      ∧ srcRegion.depth % g.z = 0) :
    ∃ kernel groupCount,
      appendMemoryCopyKernel3d ext cl device dstGA srcGA builtin dstRegion dstPitch
          dstSlicePitch dstOffset srcRegion srcPitch srcSlicePitch srcOffset hSignalEvent
          numWaitEvents phWaitEvents
        = (appendLaunchKernel ext cl kernel.handle
            (some (GroupCountPtr.hostStruct groupCount)) hSignalEvent numWaitEvents
            phWaitEvents).map
          (fun r => (r.1, r.2, device.setKernel (BuiltinKernelId.function builtin) kernel))
      ∧ kernel.groupSize = g
      ∧ groupCount.groupCountX * g.x = srcRegion.width
      ∧ groupCount.groupCountY * g.y = srcRegion.height
      ∧ groupCount.groupCountZ * g.z = srcRegion.depth := by
  obtain ⟨hsuggest, hset, hx, hy, hz⟩ := hchosen
  have hdiv := notDivisible3_eq_false _ _ _ _ _ _ hx hy hz hd
  unfold appendMemoryCopyKernel3d
  simp only [hsuggest, hset, hdiv, Kernel.setGroupSize, ne_eq, not_true_eq_false, if_false,
    if_true]
  exact ⟨_, _, rfl, rfl, Nat.div_mul_cancel (Nat.dvd_of_mod_eq_zero hd.1),
    Nat.div_mul_cancel (Nat.dvd_of_mod_eq_zero hd.2.1),
    Nat.div_mul_cancel (Nat.dvd_of_mod_eq_zero hd.2.2)⟩

/-- `appendMemoryCopyKernel2d` with an extent the chosen group size divides is the launch of
the kernel with the quotients as group count, and one group on Z. -/
theorem appendMemoryCopyKernel2d_launch (ext : External) (cl : CommandList)
    (device : Device) (dstGA srcGA : GraphicsAllocation) (builtin : Builtin)
    (dstRegion : ze_copy_region_t) (dstPitch dstOffset : Nat)
    (srcRegion : ze_copy_region_t) (srcPitch srcOffset : Nat)
    (hSignalEvent : ze_event_handle_t) (numWaitEvents : Nat)
    (phWaitEvents : Option (List ze_event_handle_t)) (g : Vec3)
    (hchosen : GroupSizeChosen ext srcRegion.width srcRegion.height 1 g)
    (hd : srcRegion.width % g.x = 0 ∧ srcRegion.height % g.y = 0) :
    ∃ kernel groupCount,
      appendMemoryCopyKernel2d ext cl device dstGA srcGA builtin dstRegion dstPitch
          dstOffset srcRegion srcPitch srcOffset hSignalEvent numWaitEvents phWaitEvents
        = (appendLaunchKernel ext cl kernel.handle
            (some (GroupCountPtr.hostStruct groupCount)) hSignalEvent numWaitEvents
            phWaitEvents).map
          (fun r => (r.1, r.2, device.setKernel (BuiltinKernelId.function builtin) kernel))
      ∧ kernel.groupSize = g
      ∧ groupCount.groupCountX * g.x = srcRegion.width
      ∧ groupCount.groupCountY * g.y = srcRegion.height
      ∧ groupCount.groupCountZ = 1 := by
  obtain ⟨hsuggest, hset, hx, hy, _⟩ := hchosen
  have hdiv := notDivisible2_eq_false _ _ _ _ hx hy hd
  unfold appendMemoryCopyKernel2d
  simp only [hsuggest, hset, hdiv, Kernel.setGroupSize, ne_eq, not_true_eq_false, if_false,
    if_true]
  exact ⟨_, _, rfl, rfl, Nat.div_mul_cancel (Nat.dvd_of_mod_eq_zero hd.1),
    Nat.div_mul_cancel (Nat.dvd_of_mod_eq_zero hd.2), rfl⟩

/-- `appendImageCopyRegion` on a compute list with matching regions whose extent the chosen
group size divides is the launch of `CopyImageRegion` with the quotients as group count. -/
theorem appendImageCopyRegion_launch (ext : External) (cl : CommandList)
    (device : Device) (hDstImage hSrcImage : Image)
    (pDstRegion pSrcRegion : Option ze_image_region_t) (hEvent : ze_event_handle_t)
    (numWaitEvents : Nat) (phWaitEvents : Option (List ze_event_handle_t)) (g : Vec3)
    (hcompute : cl.isCopyOnlyCmdList = false)
    (hmatch :
      (appendImageCopyRegion.effectiveRegion hSrcImage pSrcRegion).width
          = (appendImageCopyRegion.effectiveRegion hDstImage pDstRegion).width
        ∧ (appendImageCopyRegion.effectiveRegion hSrcImage pSrcRegion).height
          = (appendImageCopyRegion.effectiveRegion hDstImage pDstRegion).height
        ∧ (appendImageCopyRegion.effectiveRegion hSrcImage pSrcRegion).depth
          = (appendImageCopyRegion.effectiveRegion hDstImage pDstRegion).depth)
    (hchosen : GroupSizeChosen ext
      (appendImageCopyRegion.effectiveRegion hSrcImage pSrcRegion).width
      (appendImageCopyRegion.effectiveRegion hSrcImage pSrcRegion).height
      (appendImageCopyRegion.effectiveRegion hSrcImage pSrcRegion).depth g)
    (hd : (appendImageCopyRegion.effectiveRegion hSrcImage pSrcRegion).width % g.x = 0
      ∧ (appendImageCopyRegion.effectiveRegion hSrcImage pSrcRegion).height % g.y = 0
      ∧ (appendImageCopyRegion.effectiveRegion hSrcImage pSrcRegion).depth % g.z = 0) :
    ∃ kernel groupCount cl1,
      appendImageCopyRegion ext cl device hDstImage hSrcImage pDstRegion pSrcRegion hEvent
          numWaitEvents phWaitEvents
        = (appendLaunchKernel ext cl1 kernel.handle
            (some (GroupCountPtr.hostStruct groupCount)) hEvent numWaitEvents
            phWaitEvents).map
          (fun r => (r.1, r.2,
            device.setKernel (BuiltinKernelId.imageFunction ImageBuiltin.CopyImageRegion)
              kernel))
      ∧ kernel.groupSize = g
      ∧ groupCount.groupCountX * g.x
          = (appendImageCopyRegion.effectiveRegion hSrcImage pSrcRegion).width
      ∧ groupCount.groupCountY * g.y
          = (appendImageCopyRegion.effectiveRegion hSrcImage pSrcRegion).height
      ∧ groupCount.groupCountZ * g.z
          = (appendImageCopyRegion.effectiveRegion hSrcImage pSrcRegion).depth := by
  obtain ⟨hsuggest, hset, hx, hy, hz⟩ := hchosen
  have hdiv := notDivisible3_eq_false _ _ _ _ _ _ hx hy hz hd
  have hnm : ¬ ((appendImageCopyRegion.effectiveRegion hSrcImage pSrcRegion).width
          ≠ (appendImageCopyRegion.effectiveRegion hDstImage pDstRegion).width
        ∨ (appendImageCopyRegion.effectiveRegion hSrcImage pSrcRegion).height
          ≠ (appendImageCopyRegion.effectiveRegion hDstImage pDstRegion).height
        ∨ (appendImageCopyRegion.effectiveRegion hSrcImage pSrcRegion).depth
          ≠ (appendImageCopyRegion.effectiveRegion hDstImage pDstRegion).depth) := by
    rintro (h | h | h)
    · exact h hmatch.1
    · exact h hmatch.2.1
    · exact h hmatch.2.2
  unfold appendImageCopyRegion
  simp only [if_neg hnm]
  simp only [hsuggest, hset, hdiv, Kernel.setGroupSize, hcompute, ne_eq, not_true_eq_false,
    if_false, if_true, Bool.false_eq_true]
  exact ⟨_, _, _, rfl, rfl, Nat.div_mul_cancel (Nat.dvd_of_mod_eq_zero hd.1),
    Nat.div_mul_cancel (Nat.dvd_of_mod_eq_zero hd.2.1),
    Nat.div_mul_cancel (Nat.dvd_of_mod_eq_zero hd.2.2)⟩

/-- `appendImageCopyFromMemory` on a compute list with an extent the chosen group size
divides is the launch of the kernel with the quotients as group count. -/
theorem appendImageCopyFromMemory_launch (ext : External) (cl : CommandList)
    (device : Device) (hDstImage : Image) (srcPtr : Nat)
    (pDstRegion : Option ze_image_region_t) (hEvent : ze_event_handle_t)
    (numWaitEvents : Nat) (phWaitEvents : Option (List ze_event_handle_t)) (g : Vec3)
    (builtin : Builtin)
    (hcompute : cl.isCopyOnlyCmdList = false)
    (htype : hDstImage.imageType ≠ ImageType.Invalid)
    (hbuiltin : appendImageCopyFromMemory.builtin (toUint32 hDstImage.imageElementSizeInBytes)
      = some builtin)
    (hchosen : GroupSizeChosen ext (imageRegionOrWhole hDstImage pDstRegion).width
      (imageRegionOrWhole hDstImage pDstRegion).height
      (imageRegionOrWhole hDstImage pDstRegion).depth g)
    (hd : (imageRegionOrWhole hDstImage pDstRegion).width % g.x = 0
      ∧ (imageRegionOrWhole hDstImage pDstRegion).height % g.y = 0
      ∧ (imageRegionOrWhole hDstImage pDstRegion).depth % g.z = 0) :
    ∃ (kernel : Kernel) (groupCount : ze_group_count_t) (cl1 : CommandList)
        (device1 : Device),
      appendImageCopyFromMemory ext cl device hDstImage srcPtr pDstRegion hEvent
          numWaitEvents phWaitEvents
        = (appendLaunchKernel ext cl1 kernel.handle
            (some (GroupCountPtr.hostStruct groupCount)) hEvent numWaitEvents
            phWaitEvents).map
          (fun r => (r.1, r.2, device1.setKernel (BuiltinKernelId.function builtin) kernel))
      ∧ kernel.groupSize = g
      ∧ groupCount.groupCountX * g.x = (imageRegionOrWhole hDstImage pDstRegion).width
      ∧ groupCount.groupCountY * g.y = (imageRegionOrWhole hDstImage pDstRegion).height
      ∧ groupCount.groupCountZ * g.z = (imageRegionOrWhole hDstImage pDstRegion).depth := by
  obtain ⟨hsuggest, hset, hx, hy, hz⟩ := hchosen
  have hdiv := notDivisible3_eq_false _ _ _ _ _ _ hx hy hz hd
  obtain ⟨bufferSize, hsize⟩ := getInputBufferSize_isSome hDstImage.imageType
    (toUint32 hDstImage.imageElementSizeInBytes) (imageRegionOrWhole hDstImage pDstRegion) htype
  have hga := getAlignedAllocation_commandContainer ext cl device srcPtr bufferSize
  unfold appendImageCopyFromMemory
  simp only [hsize]
  rcases hres : getAlignedAllocation ext cl device srcPtr bufferSize with ⟨alloc, cl1, device1⟩
  rw [hres] at hga
  simp only at hga
  have hmode : cl1.isCopyOnlyCmdList = false := by rw [hga.2]; exact hcompute
  simp only [hmode, hbuiltin, hsuggest, hset, hdiv, Kernel.setGroupSize, ne_eq,
    not_true_eq_false, if_false, if_true, Bool.false_eq_true]
  exact ⟨_, _, _, _, rfl, rfl, Nat.div_mul_cancel (Nat.dvd_of_mod_eq_zero hd.1),
    Nat.div_mul_cancel (Nat.dvd_of_mod_eq_zero hd.2.1),
    Nat.div_mul_cancel (Nat.dvd_of_mod_eq_zero hd.2.2)⟩

/-- `appendImageCopyToMemory` on a compute list with an extent the chosen group size divides
is the launch of the kernel with the quotients as group count, followed by a flush when the
destination needs one. -/
theorem appendImageCopyToMemory_launch (ext : External) (cl : CommandList)
    (device : Device) (dstPtr : Nat) (hSrcImage : Image)
    (pSrcRegion : Option ze_image_region_t) (hEvent : ze_event_handle_t)
    (numWaitEvents : Nat) (phWaitEvents : Option (List ze_event_handle_t)) (g : Vec3)
    (builtin : ImageBuiltin)
    (hcompute : cl.isCopyOnlyCmdList = false)
    (htype : hSrcImage.imageType ≠ ImageType.Invalid)
    (hbuiltin : appendImageCopyToMemory.builtin (toUint32 hSrcImage.imageElementSizeInBytes)
      = some builtin)
    (hchosen : GroupSizeChosen ext (imageRegionOrWhole hSrcImage pSrcRegion).width
      (imageRegionOrWhole hSrcImage pSrcRegion).height
      (imageRegionOrWhole hSrcImage pSrcRegion).depth g)
    (hd : (imageRegionOrWhole hSrcImage pSrcRegion).width % g.x = 0
      ∧ (imageRegionOrWhole hSrcImage pSrcRegion).height % g.y = 0
      ∧ (imageRegionOrWhole hSrcImage pSrcRegion).depth % g.z = 0) :
    ∃ (kernel : Kernel) (groupCount : ze_group_count_t) (cl1 : CommandList)
        (device1 : Device) (needsFlush : Bool),
      appendImageCopyToMemory ext cl device dstPtr hSrcImage pSrcRegion hEvent
          numWaitEvents phWaitEvents
        = (appendLaunchKernel ext cl1 kernel.handle
            (some (GroupCountPtr.hostStruct groupCount)) hEvent numWaitEvents
            phWaitEvents).map
          (fun r => (r.1,
            if needsFlush = true then
              { r.2 with commandContainer :=
                  r.2.commandContainer.encode (Command.pipeControl true) }
            else r.2,
            device1.setKernel (BuiltinKernelId.imageFunction builtin) kernel))
      ∧ kernel.groupSize = g
      ∧ groupCount.groupCountX * g.x = (imageRegionOrWhole hSrcImage pSrcRegion).width
      ∧ groupCount.groupCountY * g.y = (imageRegionOrWhole hSrcImage pSrcRegion).height
      ∧ groupCount.groupCountZ * g.z = (imageRegionOrWhole hSrcImage pSrcRegion).depth := by
  obtain ⟨hsuggest, hset, hx, hy, hz⟩ := hchosen
  have hdiv := notDivisible3_eq_false _ _ _ _ _ _ hx hy hz hd
  obtain ⟨bufferSize, hsize⟩ := getInputBufferSize_isSome hSrcImage.imageType
    (toUint32 hSrcImage.imageElementSizeInBytes) (imageRegionOrWhole hSrcImage pSrcRegion) htype
  have hga := getAlignedAllocation_commandContainer ext cl device dstPtr bufferSize
  unfold appendImageCopyToMemory
  simp only [hsize]
  rcases hres : getAlignedAllocation ext cl device dstPtr bufferSize with ⟨alloc, cl1, device1⟩
  rw [hres] at hga
  simp only at hga
  have hmode : cl1.isCopyOnlyCmdList = false := by rw [hga.2]; exact hcompute
  simp only [hmode, hbuiltin, hsuggest, hset, hdiv, Kernel.setGroupSize, ne_eq,
    not_true_eq_false, if_false, if_true, Bool.false_eq_true]
  exact ⟨_, _, _, _, alloc.needsFlush, rfl, rfl,
    Nat.div_mul_cancel (Nat.dvd_of_mod_eq_zero hd.1),
    Nat.div_mul_cancel (Nat.dvd_of_mod_eq_zero hd.2.1),
    Nat.div_mul_cancel (Nat.dvd_of_mod_eq_zero hd.2.2)⟩


/-- C24: for every region operation on a non-copy-only list (`appendImageCopyFromMemory`,
`appendImageCopyToMemory`, `appendImageCopyRegion`, `appendMemoryCopyKernel3d`,
`appendMemoryCopyKernel2d`) that reaches its kernel launch, that is, the group-size
suggestion and `setGroupSize` succeed with a group size `g` (positive on every axis) and
the extent of the region is a multiple of `g` on every checked axis: the operation is the
launch, by `appendLaunchKernel`, of the kernel object on which the group size `g` is set,
with a group count that times `g` is the width, the height and the depth of the region
(`appendImageCopyToMemory` then flushes when the destination needs it); the 2D rectangle
copy launches one group on Z. The image operations are taken with a valid image type and
pixel width, `appendImageCopyRegion` with matching regions. -/
theorem region_operations_group_count (ext : External) (cl : CommandList) (device : Device)
    (g : Vec3) (hEvent : ze_event_handle_t) (numWaitEvents : Nat)
    (phWaitEvents : Option (List ze_event_handle_t))
    (hcompute : cl.isCopyOnlyCmdList = false) :
    (∀ (hDstImage : Image) (srcPtr : Nat) (pDstRegion : Option ze_image_region_t)
        (builtin : Builtin),
        hDstImage.imageType ≠ ImageType.Invalid →
        appendImageCopyFromMemory.builtin (toUint32 hDstImage.imageElementSizeInBytes)
          = some builtin →
        GroupSizeChosen ext (imageRegionOrWhole hDstImage pDstRegion).width
          (imageRegionOrWhole hDstImage pDstRegion).height
          (imageRegionOrWhole hDstImage pDstRegion).depth g →
        ((imageRegionOrWhole hDstImage pDstRegion).width % g.x = 0
          ∧ (imageRegionOrWhole hDstImage pDstRegion).height % g.y = 0
          ∧ (imageRegionOrWhole hDstImage pDstRegion).depth % g.z = 0) →
        ∃ (kernel : Kernel) (groupCount : ze_group_count_t) (cl1 : CommandList)
            (device1 : Device),
          appendImageCopyFromMemory ext cl device hDstImage srcPtr pDstRegion hEvent
              numWaitEvents phWaitEvents
            = (appendLaunchKernel ext cl1 kernel.handle
                (some (GroupCountPtr.hostStruct groupCount)) hEvent numWaitEvents
                phWaitEvents).map
              (fun r => (r.1, r.2,
                device1.setKernel (BuiltinKernelId.function builtin) kernel))
          ∧ kernel.groupSize = g
          ∧ groupCount.groupCountX * g.x = (imageRegionOrWhole hDstImage pDstRegion).width
          ∧ groupCount.groupCountY * g.y = (imageRegionOrWhole hDstImage pDstRegion).height
          ∧ groupCount.groupCountZ * g.z = (imageRegionOrWhole hDstImage pDstRegion).depth)
    ∧ (∀ (dstPtr : Nat) (hSrcImage : Image) (pSrcRegion : Option ze_image_region_t)
        (builtin : ImageBuiltin),
        hSrcImage.imageType ≠ ImageType.Invalid →
        appendImageCopyToMemory.builtin (toUint32 hSrcImage.imageElementSizeInBytes)
          = some builtin →
        GroupSizeChosen ext (imageRegionOrWhole hSrcImage pSrcRegion).width
          (imageRegionOrWhole hSrcImage pSrcRegion).height
          (imageRegionOrWhole hSrcImage pSrcRegion).depth g →
        ((imageRegionOrWhole hSrcImage pSrcRegion).width % g.x = 0
          ∧ (imageRegionOrWhole hSrcImage pSrcRegion).height % g.y = 0
          ∧ (imageRegionOrWhole hSrcImage pSrcRegion).depth % g.z = 0) →
        ∃ (kernel : Kernel) (groupCount : ze_group_count_t) (cl1 : CommandList)
            (device1 : Device) (needsFlush : Bool),
          appendImageCopyToMemory ext cl device dstPtr hSrcImage pSrcRegion hEvent
              numWaitEvents phWaitEvents
            = (appendLaunchKernel ext cl1 kernel.handle
                (some (GroupCountPtr.hostStruct groupCount)) hEvent numWaitEvents
                phWaitEvents).map
              (fun r => (r.1,
                if needsFlush = true then
                  { r.2 with commandContainer :=
                      r.2.commandContainer.encode (Command.pipeControl true) }
                else r.2,
                device1.setKernel (BuiltinKernelId.imageFunction builtin) kernel))
          ∧ kernel.groupSize = g
          ∧ groupCount.groupCountX * g.x = (imageRegionOrWhole hSrcImage pSrcRegion).width
          ∧ groupCount.groupCountY * g.y = (imageRegionOrWhole hSrcImage pSrcRegion).height
          ∧ groupCount.groupCountZ * g.z = (imageRegionOrWhole hSrcImage pSrcRegion).depth)
    ∧ (∀ (hDstImage hSrcImage : Image) (pDstRegion pSrcRegion : Option ze_image_region_t),
        ((appendImageCopyRegion.effectiveRegion hSrcImage pSrcRegion).width
            = (appendImageCopyRegion.effectiveRegion hDstImage pDstRegion).width
          ∧ (appendImageCopyRegion.effectiveRegion hSrcImage pSrcRegion).height
            = (appendImageCopyRegion.effectiveRegion hDstImage pDstRegion).height
          ∧ (appendImageCopyRegion.effectiveRegion hSrcImage pSrcRegion).depth
            = (appendImageCopyRegion.effectiveRegion hDstImage pDstRegion).depth) →
        GroupSizeChosen ext (appendImageCopyRegion.effectiveRegion hSrcImage pSrcRegion).width
          (appendImageCopyRegion.effectiveRegion hSrcImage pSrcRegion).height
          (appendImageCopyRegion.effectiveRegion hSrcImage pSrcRegion).depth g →
        ((appendImageCopyRegion.effectiveRegion hSrcImage pSrcRegion).width % g.x = 0
          ∧ (appendImageCopyRegion.effectiveRegion hSrcImage pSrcRegion).height % g.y = 0
          ∧ (appendImageCopyRegion.effectiveRegion hSrcImage pSrcRegion).depth % g.z = 0) →
        ∃ (kernel : Kernel) (groupCount : ze_group_count_t) (cl1 : CommandList),
          appendImageCopyRegion ext cl device hDstImage hSrcImage pDstRegion pSrcRegion
              hEvent numWaitEvents phWaitEvents
            = (appendLaunchKernel ext cl1 kernel.handle
                (some (GroupCountPtr.hostStruct groupCount)) hEvent numWaitEvents
                phWaitEvents).map
              (fun r => (r.1, r.2,
                device.setKernel (BuiltinKernelId.imageFunction ImageBuiltin.CopyImageRegion)
                  kernel))
          ∧ kernel.groupSize = g
          ∧ groupCount.groupCountX * g.x
              = (appendImageCopyRegion.effectiveRegion hSrcImage pSrcRegion).width
          ∧ groupCount.groupCountY * g.y
              = (appendImageCopyRegion.effectiveRegion hSrcImage pSrcRegion).height
          ∧ groupCount.groupCountZ * g.z
              = (appendImageCopyRegion.effectiveRegion hSrcImage pSrcRegion).depth)
    ∧ (∀ (dstGA srcGA : GraphicsAllocation) (builtin : Builtin)
        (dstRegion srcRegion : ze_copy_region_t)
        (dstPitch dstSlicePitch dstOffset srcPitch srcSlicePitch srcOffset : Nat),
        GroupSizeChosen ext srcRegion.width srcRegion.height srcRegion.depth g →
        (srcRegion.width % g.x = 0 ∧ srcRegion.height % g.y = 0
          ∧ srcRegion.depth % g.z = 0) →
        ∃ (kernel : Kernel) (groupCount : ze_group_count_t),
          appendMemoryCopyKernel3d ext cl device dstGA srcGA builtin dstRegion dstPitch
              dstSlicePitch dstOffset srcRegion srcPitch srcSlicePitch srcOffset hEvent
              numWaitEvents phWaitEvents
            = (appendLaunchKernel ext cl kernel.handle
                (some (GroupCountPtr.hostStruct groupCount)) hEvent numWaitEvents
                phWaitEvents).map
              (fun r => (r.1, r.2,
                device.setKernel (BuiltinKernelId.function builtin) kernel))
          ∧ kernel.groupSize = g
          ∧ groupCount.groupCountX * g.x = srcRegion.width
          ∧ groupCount.groupCountY * g.y = srcRegion.height
          ∧ groupCount.groupCountZ * g.z = srcRegion.depth)
    ∧ (∀ (dstGA srcGA : GraphicsAllocation) (builtin : Builtin)
        (dstRegion srcRegion : ze_copy_region_t)
        (dstPitch dstOffset srcPitch srcOffset : Nat),
        GroupSizeChosen ext srcRegion.width srcRegion.height 1 g →
        (srcRegion.width % g.x = 0 ∧ srcRegion.height % g.y = 0) →
        ∃ (kernel : Kernel) (groupCount : ze_group_count_t),
          appendMemoryCopyKernel2d ext cl device dstGA srcGA builtin dstRegion dstPitch
              dstOffset srcRegion srcPitch srcOffset hEvent numWaitEvents phWaitEvents
            = (appendLaunchKernel ext cl kernel.handle
                (some (GroupCountPtr.hostStruct groupCount)) hEvent numWaitEvents
                phWaitEvents).map
              (fun r => (r.1, r.2,
                device.setKernel (BuiltinKernelId.function builtin) kernel))
          ∧ kernel.groupSize = g
          ∧ groupCount.groupCountX * g.x = srcRegion.width
          ∧ groupCount.groupCountY * g.y = srcRegion.height
          ∧ groupCount.groupCountZ = 1) := by
  refine ⟨?_, ?_, ?_, ?_, ?_⟩
  · intro hDstImage srcPtr pDstRegion builtin htype hbuiltin hchosen hd
    exact appendImageCopyFromMemory_launch ext cl device hDstImage srcPtr pDstRegion hEvent
      numWaitEvents phWaitEvents g builtin hcompute htype hbuiltin hchosen hd
  · intro dstPtr hSrcImage pSrcRegion builtin htype hbuiltin hchosen hd
    exact appendImageCopyToMemory_launch ext cl device dstPtr hSrcImage pSrcRegion hEvent
      numWaitEvents phWaitEvents g builtin hcompute htype hbuiltin hchosen hd
  · intro hDstImage hSrcImage pDstRegion pSrcRegion hmatch hchosen hd
    exact appendImageCopyRegion_launch ext cl device hDstImage hSrcImage pDstRegion
      pSrcRegion hEvent numWaitEvents phWaitEvents g hcompute hmatch hchosen hd
  · intro dstGA srcGA builtin dstRegion srcRegion dstPitch dstSlicePitch dstOffset srcPitch
      srcSlicePitch srcOffset hchosen hd
    exact appendMemoryCopyKernel3d_launch ext cl device dstGA srcGA builtin dstRegion
      dstPitch dstSlicePitch dstOffset srcRegion srcPitch srcSlicePitch srcOffset hEvent
      numWaitEvents phWaitEvents g hchosen hd
  · intro dstGA srcGA builtin dstRegion srcRegion dstPitch dstOffset srcPitch srcOffset
      hchosen hd
    exact appendMemoryCopyKernel2d_launch ext cl device dstGA srcGA builtin dstRegion
      dstPitch dstOffset srcRegion srcPitch srcOffset hEvent numWaitEvents phWaitEvents g
      hchosen hd


/-- Witness of C24: the extent 32 x 4 x 1 (the whole of `exampleImage`, the region
`exampleCopyRegionWide`) against the group size 16 x 1 x 1, on the compute list
`exampleCommandList`, for each of the five operations. -/
theorem region_operations_group_count_witness :
    exampleCommandList.isCopyOnlyCmdList = false
      ∧ (32 % 16 = 0)
      ∧ (∃ (kernel : Kernel) (groupCount : ze_group_count_t) (cl1 : CommandList)
            (device1 : Device),
          appendImageCopyFromMemory exampleExternalFixedGroupSize exampleCommandList
              exampleDevice exampleImage 65536 none none 0 none
            = (appendLaunchKernel exampleExternalFixedGroupSize cl1 kernel.handle
                (some (GroupCountPtr.hostStruct groupCount)) none 0 none).map
              (fun r => (r.1, r.2,
                device1.setKernel (BuiltinKernelId.function Builtin.CopyBufferToImage3d4Bytes)
                  kernel))
          ∧ kernel.groupSize = { x := 16, y := 1, z := 1 }
          ∧ groupCount.groupCountX * 16 = (imageRegionOrWhole exampleImage none).width
          ∧ groupCount.groupCountY * 1 = (imageRegionOrWhole exampleImage none).height
          ∧ groupCount.groupCountZ * 1 = (imageRegionOrWhole exampleImage none).depth)
      ∧ (∃ (kernel : Kernel) (groupCount : ze_group_count_t) (cl1 : CommandList)
            (device1 : Device) (needsFlush : Bool),
          appendImageCopyToMemory exampleExternalFixedGroupSize exampleCommandList
              exampleDevice 65536 exampleImage none none 0 none
            = (appendLaunchKernel exampleExternalFixedGroupSize cl1 kernel.handle
                (some (GroupCountPtr.hostStruct groupCount)) none 0 none).map
              (fun r => (r.1,
                if needsFlush = true then
                  { r.2 with commandContainer :=
                      r.2.commandContainer.encode (Command.pipeControl true) }
                else r.2,
                device1.setKernel
                  (BuiltinKernelId.imageFunction ImageBuiltin.CopyImage3dToBuffer4Bytes)
                  kernel))
          ∧ kernel.groupSize = { x := 16, y := 1, z := 1 }
          ∧ groupCount.groupCountX * 16 = (imageRegionOrWhole exampleImage none).width
          ∧ groupCount.groupCountY * 1 = (imageRegionOrWhole exampleImage none).height
          ∧ groupCount.groupCountZ * 1 = (imageRegionOrWhole exampleImage none).depth)
      ∧ (∃ (kernel : Kernel) (groupCount : ze_group_count_t) (cl1 : CommandList),
          appendImageCopyRegion exampleExternalFixedGroupSize exampleCommandList
              exampleDevice exampleImage exampleImage none none none 0 none
            = (appendLaunchKernel exampleExternalFixedGroupSize cl1 kernel.handle
                (some (GroupCountPtr.hostStruct groupCount)) none 0 none).map
              (fun r => (r.1, r.2,
                exampleDevice.setKernel
                  (BuiltinKernelId.imageFunction ImageBuiltin.CopyImageRegion) kernel))
          ∧ kernel.groupSize = { x := 16, y := 1, z := 1 }
          ∧ groupCount.groupCountX * 16
              = (appendImageCopyRegion.effectiveRegion exampleImage none).width
          ∧ groupCount.groupCountY * 1
              = (appendImageCopyRegion.effectiveRegion exampleImage none).height
          ∧ groupCount.groupCountZ * 1
              = (appendImageCopyRegion.effectiveRegion exampleImage none).depth)
      ∧ (∃ (kernel : Kernel) (groupCount : ze_group_count_t),
          appendMemoryCopyKernel3d exampleExternalFixedGroupSize exampleCommandList
              exampleDevice { id := 1, gpuAddress := 4096 } { id := 2, gpuAddress := 8192 }
              Builtin.CopyBufferRectBytes3d exampleCopyRegionWide 32 128 0
              exampleCopyRegionWide 32 128 0 none 0 none
            = (appendLaunchKernel exampleExternalFixedGroupSize exampleCommandList
                kernel.handle (some (GroupCountPtr.hostStruct groupCount)) none 0 none).map
              (fun r => (r.1, r.2,
                exampleDevice.setKernel
                  (BuiltinKernelId.function Builtin.CopyBufferRectBytes3d) kernel))
          ∧ kernel.groupSize = { x := 16, y := 1, z := 1 }
          ∧ groupCount.groupCountX * 16 = exampleCopyRegionWide.width
          ∧ groupCount.groupCountY * 1 = exampleCopyRegionWide.height
          ∧ groupCount.groupCountZ * 1 = exampleCopyRegionWide.depth)
      ∧ (∃ (kernel : Kernel) (groupCount : ze_group_count_t),
          appendMemoryCopyKernel2d exampleExternalFixedGroupSize exampleCommandList
              exampleDevice { id := 1, gpuAddress := 4096 } { id := 2, gpuAddress := 8192 }
              Builtin.CopyBufferRectBytes2d exampleCopyRegionWide 32 0 exampleCopyRegionWide
              32 0 none 0 none
            = (appendLaunchKernel exampleExternalFixedGroupSize exampleCommandList
                kernel.handle (some (GroupCountPtr.hostStruct groupCount)) none 0 none).map
              (fun r => (r.1, r.2,
                exampleDevice.setKernel
                  (BuiltinKernelId.function Builtin.CopyBufferRectBytes2d) kernel))
          ∧ kernel.groupSize = { x := 16, y := 1, z := 1 }
          ∧ groupCount.groupCountX * 16 = exampleCopyRegionWide.width
          ∧ groupCount.groupCountY * 1 = exampleCopyRegionWide.height
          ∧ groupCount.groupCountZ = 1) :=
  ⟨rfl, by decide,
   (region_operations_group_count exampleExternalFixedGroupSize exampleCommandList
      exampleDevice { x := 16, y := 1, z := 1 } none 0 none rfl).1
      exampleImage 65536 none Builtin.CopyBufferToImage3d4Bytes (by decide) (by decide)
      (exampleExternalFixedGroupSize_chosen _ _ _) (by decide),
   (region_operations_group_count exampleExternalFixedGroupSize exampleCommandList
      exampleDevice { x := 16, y := 1, z := 1 } none 0 none rfl).2.1
      65536 exampleImage none ImageBuiltin.CopyImage3dToBuffer4Bytes (by decide) (by decide)
      (exampleExternalFixedGroupSize_chosen _ _ _) (by decide),
   (region_operations_group_count exampleExternalFixedGroupSize exampleCommandList
      exampleDevice { x := 16, y := 1, z := 1 } none 0 none rfl).2.2.1
      exampleImage exampleImage none none ⟨rfl, rfl, rfl⟩
      (exampleExternalFixedGroupSize_chosen _ _ _) (by decide),
   (region_operations_group_count exampleExternalFixedGroupSize exampleCommandList
      exampleDevice { x := 16, y := 1, z := 1 } none 0 none rfl).2.2.2.1
      { id := 1, gpuAddress := 4096 } { id := 2, gpuAddress := 8192 }
      Builtin.CopyBufferRectBytes3d exampleCopyRegionWide exampleCopyRegionWide 32 128 0 32
      128 0 (exampleExternalFixedGroupSize_chosen _ _ _) (by decide),
   (region_operations_group_count exampleExternalFixedGroupSize exampleCommandList
      exampleDevice { x := 16, y := 1, z := 1 } none 0 none rfl).2.2.2.2
      { id := 1, gpuAddress := 4096 } { id := 2, gpuAddress := 8192 }
      Builtin.CopyBufferRectBytes2d exampleCopyRegionWide exampleCopyRegionWide 32 0 32 0
      (exampleExternalFixedGroupSize_chosen _ _ _) (by decide)⟩

/-- Evaluations for C24: with the group size `16 x 1 x 1` the operations on the extent
32 x 4 x 1 launch the group count `2 x 4 x 1`, and the kernel object holds the group size
afterwards. -/
theorem region_operations_group_count_examples :
    (appendImageCopyFromMemory exampleExternalFixedGroupSize exampleCommandList exampleDevice
        exampleImage 65536 none none 0 none).map
        (fun r => (r.1, r.2.1.commandContainer.commandStream.filterMap Command.launch,
          (r.2.2.getKernel
            (BuiltinKernelId.function Builtin.CopyBufferToImage3d4Bytes)).groupSize))
      = some (ze_result_t.ZE_RESULT_SUCCESS,
          [(3, { groupCountX := 2, groupCountY := 4, groupCountZ := 1 })],
          { x := 16, y := 1, z := 1 })
    ∧ (appendMemoryCopyKernel2d exampleExternalFixedGroupSize exampleCommandList exampleDevice
        { id := 1, gpuAddress := 4096 } { id := 2, gpuAddress := 8192 }
        Builtin.CopyBufferRectBytes2d exampleCopyRegionWide 32 0 exampleCopyRegionWide 32 0
        none 0 none).map
        (fun r => (r.1, r.2.1.commandContainer.commandStream.filterMap Command.launch,
          (r.2.2.getKernel (BuiltinKernelId.function Builtin.CopyBufferRectBytes2d)).groupSize))
      = some (ze_result_t.ZE_RESULT_SUCCESS,
          [(3, { groupCountX := 2, groupCountY := 4, groupCountZ := 1 })],
          { x := 16, y := 1, z := 1 }) := by
  decide


/-! ## Theorems: the arguments bound to the kernels -/

/-- A binding is found under its index. -/
theorem getArg_setArg_same (k : Kernel) (index : Nat) (arg : KernelArg) :
    (k.setArg index arg).getArg index = some arg := by
  have hnone : (k.args.filter fun a => a.1 != index).find? (fun a => a.1 == index) = none := by
    rw [List.find?_eq_none]
    intro x hx
    rw [List.mem_filter] at hx
    simpa using hx.2
  simp [Kernel.getArg, Kernel.setArg, List.find?_append, hnone]

/-- A binding of another index changes nothing under this index. -/
theorem getArg_setArg_ne (k : Kernel) (index other : Nat) (arg : KernelArg)
    (h : index ≠ other) : (k.setArg other arg).getArg index = k.getArg index := by
  have hfilter : ∀ l : List (Nat × KernelArg),
      (l.filter fun a => a.1 != other).find? (fun a => a.1 == index)
        = l.find? (fun a => a.1 == index) := by
    intro l
    induction l with
    | nil => rfl
    | cons x xs ih =>
      by_cases hx : x.1 = other
      · have hxi : ¬ x.1 = index := fun hxi => h (hxi.symm.trans hx)
        rw [List.filter_cons_of_neg (by simp [hx]), List.find?_cons_of_neg _ (by simp [hxi])]
        exact ih
      · rw [List.filter_cons_of_pos (by simp [hx])]
        by_cases hxi : x.1 = index
        · rw [List.find?_cons_of_pos _ (by simp [hxi]), List.find?_cons_of_pos _ (by simp [hxi])]
        · rw [List.find?_cons_of_neg _ (by simp [hxi]), List.find?_cons_of_neg _ (by simp [hxi])]
          exact ih
  have hne : ¬ other = index := fun h' => h h'.symm
  simp [Kernel.getArg, Kernel.setArg, List.find?_append, hfilter, hne]

/-- The kernel object stored for `id` is the one `getKernel` returns. -/
theorem getKernel_setKernel (device : Device) (id : BuiltinKernelId) (k : Kernel) :
    (device.setKernel id k).getKernel id = k := by
  simp [Device.getKernel, Device.setKernel]

/-- Binding an argument leaves the handle of the kernel object alone. -/
theorem setArg_handle (k : Kernel) (index : Nat) (arg : KernelArg) :
    (k.setArg index arg).handle = k.handle := rfl

/-! ## Theorems: the dispatches of `appendMemoryFill` -/

/-- Encoding a command adds the launch it records, if any. -/
theorem launches_encode (cl : CommandList) (cc : CommandContainer) (cmd : Command) :
    launches { cl with commandContainer := cc.encode cmd }
      = launches { cl with commandContainer := cc } ++ cmd.launch.toList := by
  simp only [launches, CommandContainer.encode, List.filterMap_append]
  cases h : cmd.launch <;> simp [List.filterMap, h]

/-- The flush after an operation records no launch. -/
theorem launches_flush (c : Prop) [Decidable c] (cl : CommandList) :
    launches (if c then
        { cl with commandContainer := cl.commandContainer.encode (Command.pipeControl true) }
      else cl) = launches cl := by
  split
  · rw [launches_encode]
    simp [Command.launch]
  · rfl

/-- `appendSignalEventPostWalker` records no launch. -/
theorem appendSignalEventPostWalker_launches (ext : External)
    (hext : ExternalKeepsLaunches ext) (cl : CommandList) (hEvent : ze_event_handle_t)
    (cl' : CommandList) (h : appendSignalEventPostWalker ext cl hEvent = some cl') :
    launches cl' = launches cl := by
  unfold appendSignalEventPostWalker at h
  cases hEvent with
  | none =>
    simp only [Option.some.injEq] at h
    rw [← h]
  | some event =>
    simp only at h
    split at h
    · simp only [Option.some.injEq] at h
      rw [← h, hext.profiling]
    · unfold appendSignalEvent at h
      simp only [Option.map_some', Option.some.injEq] at h
      rw [← h]
      by_cases hcopy : cl.isCopyOnlyCmdList = true <;>
        simp [launches, hcopy, CommandContainer.addToResidencyContainer,
          CommandContainer.encode, List.filterMap_append, Command.launch]

/-- The recording launch function adds one launch. -/
theorem recordingLaunch_launches (cl : CommandList) (hKernel : ze_kernel_handle_t)
    (groupCount : ze_group_count_t) (hEvent : ze_event_handle_t)
    (isIndirect isPredicate : Bool) :
    (recordingLaunch cl hKernel (some (GroupCountPtr.hostStruct groupCount)) hEvent isIndirect
        isPredicate).1 = ze_result_t.ZE_RESULT_SUCCESS
      ∧ launches (recordingLaunch cl hKernel (some (GroupCountPtr.hostStruct groupCount))
          hEvent isIndirect isPredicate).2 = launches cl ++ [(hKernel, groupCount)] := by
  refine ⟨rfl, ?_⟩
  unfold recordingLaunch
  simp only
  rw [launches_encode]
  rfl

/-- A launch without events, with the recording launch function, is that function after the
profiling stub. -/
theorem appendLaunchKernel_recording (ext : External)
    (cl : CommandList) (hKernel : ze_kernel_handle_t)
    (pThreadGroupDimensions : Option GroupCountPtr) :
    appendLaunchKernel (ext.withLaunch recordingLaunch) cl hKernel pThreadGroupDimensions
        none 0 none
      = some (recordingLaunch (ext.appendEventForProfiling cl none true) hKernel
          pThreadGroupDimensions none false false) := by
  unfold appendLaunchKernel addEventsToCmdList
  simp [External.withLaunch]

/-- With the recording launch function, the second half of `appendMemoryFill` launches the
main dispatch of `size / groupSizeX` groups and, when the remainder is not zero, a trailing
dispatch of one group. -/
theorem appendMemoryFill_dispatch_launches (ext : External) (hext : ExternalKeepsLaunches ext)
    (cl : CommandList) (device : Device) (id : BuiltinKernelId)
    (dstPtr size groupSizeX : Nat) (hostPointerNeedsFlush : Bool) (hEvent : ze_event_handle_t)
    (hset : ∀ k x, 0 < x → ext.setGroupSizeResult k x 1 1 = ze_result_t.ZE_RESULT_SUCCESS)
    (hwidth : 0 < groupSizeX) :
    ∃ r, appendMemoryFill.dispatch (ext.withLaunch recordingLaunch) cl device id dstPtr size
          groupSizeX hostPointerNeedsFlush hEvent = some r
      ∧ r.1 = ze_result_t.ZE_RESULT_SUCCESS
      ∧ launches r.2.1
        = launches cl
          ++ [((device.getKernel id).handle,
              { groupCountX := toUint32 size / groupSizeX, groupCountY := 1,
                groupCountZ := 1 })]
          ++ (if toUint32 size % groupSizeX ≠ 0 then
                [((device.getKernel id).handle,
                  { groupCountX := 1, groupCountY := 1, groupCountZ := 1 })]
              else [])
      ∧ (toUint32 size % groupSizeX ≠ 0 →
          (r.2.2.getKernel id).getArg 0
            = some (KernelArg.value 8
                [(getSshAlignedPointer ext
                  (add64 dstPtr (sub64 size (toUint32 size % groupSizeX)))).1])
          ∧ (r.2.2.getKernel id).getArg 1
            = some (KernelArg.value 8
                [(getSshAlignedPointer ext
                  (add64 dstPtr (sub64 size (toUint32 size % groupSizeX)))).2])) := by
  have hw : groupSizeX ≠ 0 := Nat.pos_iff_ne_zero.mp hwidth
  have hprof : ∀ cl hEvent b, (ext.withLaunch recordingLaunch).appendEventForProfiling cl hEvent b
      = ext.appendEventForProfiling cl hEvent b := fun _ _ _ => rfl
  have hset' : ∀ k x, 0 < x → (ext.withLaunch recordingLaunch).setGroupSizeResult k x 1 1
      = ze_result_t.ZE_RESULT_SUCCESS := hset
  have hkeeps : ExternalKeepsLaunches (ext.withLaunch recordingLaunch) :=
    ⟨hext.profiling, hext.managed⟩
  unfold appendMemoryFill.dispatch
  simp only [appendLaunchKernel_recording, hw, if_false, hprof, appendMemoryFill.groups,
    appendMemoryFill.groupRemainderSizeX]
  obtain ⟨L, hL⟩ : ∃ L, L = recordingLaunch
      (ext.appendEventForProfiling (ext.appendEventForProfiling cl hEvent true) none true)
      (device.getKernel id).handle
      (some (GroupCountPtr.hostStruct
        { groupCountX := toUint32 size / groupSizeX, groupCountY := 1, groupCountZ := 1 }))
      none false false := ⟨_, rfl⟩
  have hl := recordingLaunch_launches
    (ext.appendEventForProfiling (ext.appendEventForProfiling cl hEvent true) none true)
    (device.getKernel id).handle
    { groupCountX := toUint32 size / groupSizeX, groupCountY := 1, groupCountZ := 1 }
    none false false
  rw [← hL] at hl ⊢
  rw [hext.profiling, hext.profiling] at hl
  obtain ⟨hl1, hl2⟩ := hl
  simp only [hl1, ne_eq, not_true_eq_false, if_false]
  by_cases hrem : toUint32 size % groupSizeX = 0
  · simp only [hrem, not_true_eq_false, if_false]
    obtain ⟨cl3, h3⟩ := Option.isSome_iff_exists.mp
      (appendSignalEventPostWalker_isSome (ext.withLaunch recordingLaunch) L.2 hEvent)
    rw [h3]
    refine ⟨_, rfl, rfl, ?_, fun h => h.elim⟩
    simp only [Option.map_some']
    rw [launches_flush, appendSignalEventPostWalker_launches _ hkeeps _ _ _ h3, hl2]
    simp
  · have hssh : ∀ ptr, getSshAlignedPointer (ext.withLaunch recordingLaunch) ptr
        = getSshAlignedPointer ext ptr := fun _ => rfl
    simp only [hrem, not_false_eq_true, if_true, Kernel.setGroupSize,
      hset' _ _ (Nat.pos_of_ne_zero hrem), appendLaunchKernel_recording, hprof,
      not_true_eq_false, if_false, Option.map_some', Kernel.setArgumentValue, setArg_handle,
      hssh]
    have hl' := recordingLaunch_launches (ext.appendEventForProfiling L.2 none true)
      (device.getKernel id).handle
      { groupCountX := 1, groupCountY := 1, groupCountZ := 1 } none false false
    rw [hext.profiling, hl2] at hl'
    obtain ⟨L', hL'⟩ : ∃ L', L' = recordingLaunch (ext.appendEventForProfiling L.2 none true)
        (device.getKernel id).handle
        (some (GroupCountPtr.hostStruct
          { groupCountX := 1, groupCountY := 1, groupCountZ := 1 }))
        none false false := ⟨_, rfl⟩
    rw [← hL'] at hl' ⊢
    obtain ⟨hl1', hl2'⟩ := hl'
    obtain ⟨cl3, h3⟩ := Option.isSome_iff_exists.mp
      (appendSignalEventPostWalker_isSome (ext.withLaunch recordingLaunch) L'.2 hEvent)
    rw [h3]
    refine ⟨_, rfl, hl1', ?_, fun _ => ?_⟩
    · simp only [Option.map_some']
      rw [launches_flush, appendSignalEventPostWalker_launches _ hkeeps _ _ _ h3, hl2']
    · simp only [Option.map_some', getKernel_setKernel]
      rw [getArg_setArg_ne _ 0 1 _ (by decide), getArg_setArg_same, getArg_setArg_same]
      exact ⟨rfl, rfl⟩

/-- The external functions of `exampleExternal` record no launch outside the launch
function. -/
theorem exampleExternal_keepsLaunches : ExternalKeepsLaunches exampleExternal where
  profiling := fun _ _ _ => rfl
  managed := fun _ _ _ _ => rfl

/-- The kernel path of `appendMemoryFill` for a pattern of 1 byte, with the recording launch
function: the launches, and the two destination arguments bound for the trailing
dispatch. -/
theorem appendMemoryFill_immediate_recording (ext : External)
    (hext : ExternalKeepsLaunches ext) (cl : CommandList) (device : Device) (ptr : Nat)
    (pattern : HostMemory) (size : Nat) (hEvent : ze_event_handle_t)
    (allocData : SvmAllocationData)
    (hcompute : cl.isCopyOnlyCmdList = false)
    (hfound : device.findAllocationDataForRange ptr size = some allocData)
    (hset : ∀ k x, 0 < x → ext.setGroupSizeResult k x 1 1 = ze_result_t.ZE_RESULT_SUCCESS)
    (hwidth : 0 < (device.getKernel
      (BuiltinKernelId.function Builtin.FillBufferImmediate)).simdSize) :
    ∃ r, appendMemoryFill (ext.withLaunch recordingLaunch) cl device ptr pattern 1 size hEvent
          = some r
      ∧ r.1 = ze_result_t.ZE_RESULT_SUCCESS
      ∧ launches r.2.1
        = launches cl
          ++ [((device.getKernel (BuiltinKernelId.function Builtin.FillBufferImmediate)).handle,
              { groupCountX := toUint32 size
                  / (device.getKernel
                      (BuiltinKernelId.function Builtin.FillBufferImmediate)).simdSize,
                groupCountY := 1, groupCountZ := 1 })]
          ++ (if toUint32 size
                % (device.getKernel
                    (BuiltinKernelId.function Builtin.FillBufferImmediate)).simdSize ≠ 0 then
                [((device.getKernel
                    (BuiltinKernelId.function Builtin.FillBufferImmediate)).handle,
                  { groupCountX := 1, groupCountY := 1, groupCountZ := 1 })]
              else [])
      ∧ (toUint32 size
            % (device.getKernel
                (BuiltinKernelId.function Builtin.FillBufferImmediate)).simdSize ≠ 0 →
          (r.2.2.getKernel (BuiltinKernelId.function Builtin.FillBufferImmediate)).getArg 0
            = some (KernelArg.value 8
                [(getSshAlignedPointer ext
                  (add64 (getSshAlignedPointer ext ptr).1
                    (sub64 size (toUint32 size
                      % (device.getKernel
                          (BuiltinKernelId.function Builtin.FillBufferImmediate)).simdSize)))).1])
          ∧ (r.2.2.getKernel (BuiltinKernelId.function Builtin.FillBufferImmediate)).getArg 1
            = some (KernelArg.value 8
                [(getSshAlignedPointer ext
                  (add64 (getSshAlignedPointer ext ptr).1
                    (sub64 size (toUint32 size
                      % (device.getKernel
                          (BuiltinKernelId.function
                            Builtin.FillBufferImmediate)).simdSize)))).2])) := by
  have hset' : ∀ k x, 0 < x → (ext.withLaunch recordingLaunch).setGroupSizeResult k x 1 1
      = ze_result_t.ZE_RESULT_SUCCESS := hset
  have hssh : ∀ ptr, getSshAlignedPointer (ext.withLaunch recordingLaunch) ptr
      = getSshAlignedPointer ext ptr := fun _ => rfl
  unfold appendMemoryFill
  simp only [hcompute, hfound, Kernel.setGroupSize, hset' _ _ hwidth,
    appendMemoryFill.groupSizeX, if_true, Bool.false_eq_true, if_false, ne_eq,
    not_true_eq_false, hssh]
  obtain ⟨r, hr, hres, hlaunch, hargs⟩ := appendMemoryFill_dispatch_launches ext hext cl _ _
    _ size _ _ hEvent hset hwidth
  refine ⟨r, hr, hres, ?_, hargs⟩
  rw [hlaunch, getKernel_setKernel]
  rfl

/-- The kernel path of `appendMemoryFill` for a pattern that is not 1 byte long, with the
recording launch function: the launches, and the two destination arguments bound for the
trailing dispatch. -/
theorem appendMemoryFill_pattern_recording (ext : External)
    (hext : ExternalKeepsLaunches ext) (cl : CommandList) (device : Device) (ptr : Nat)
    (pattern : HostMemory) (patternSize size : Nat) (hEvent : ze_event_handle_t)
    (allocData : SvmAllocationData)
    (hcompute : cl.isCopyOnlyCmdList = false)
    (hfound : device.findAllocationDataForRange ptr size = some allocData)
    (hset : ∀ k x, 0 < x → ext.setGroupSizeResult k x 1 1 = ze_result_t.ZE_RESULT_SUCCESS)
    (h1 : patternSize ≠ 1)
    (hmanaged : ∀ device cl buffer size,
      (ext.allocateManagedMemoryFromHostPtr device cl buffer size).1 ≠ none)
    (hwidth : 0 < toUint32 patternSize) :
    ∃ r, appendMemoryFill (ext.withLaunch recordingLaunch) cl device ptr pattern patternSize
          size hEvent = some r
      ∧ r.1 = ze_result_t.ZE_RESULT_SUCCESS
      ∧ launches r.2.1
        = launches cl
          ++ [((device.getKernel (BuiltinKernelId.function Builtin.FillBufferSSHOffset)).handle,
              { groupCountX := toUint32 size / toUint32 patternSize,
                groupCountY := 1, groupCountZ := 1 })]
          ++ (if toUint32 size % toUint32 patternSize ≠ 0 then
                [((device.getKernel
                    (BuiltinKernelId.function Builtin.FillBufferSSHOffset)).handle,
                  { groupCountX := 1, groupCountY := 1, groupCountZ := 1 })]
              else [])
      ∧ (toUint32 size % toUint32 patternSize ≠ 0 →
          (r.2.2.getKernel (BuiltinKernelId.function Builtin.FillBufferSSHOffset)).getArg 0
            = some (KernelArg.value 8
                [(getSshAlignedPointer ext
                  (add64 (getSshAlignedPointer ext ptr).1
                    (sub64 size (toUint32 size % toUint32 patternSize)))).1])
          ∧ (r.2.2.getKernel (BuiltinKernelId.function Builtin.FillBufferSSHOffset)).getArg 1
            = some (KernelArg.value 8
                [(getSshAlignedPointer ext
                  (add64 (getSshAlignedPointer ext ptr).1
                    (sub64 size (toUint32 size % toUint32 patternSize)))).2])) := by
  have hset' : ∀ k x, 0 < x → (ext.withLaunch recordingLaunch).setGroupSizeResult k x 1 1
      = ze_result_t.ZE_RESULT_SUCCESS := hset
  have hman' : ∀ device cl buffer size,
      (ext.withLaunch recordingLaunch).allocateManagedMemoryFromHostPtr device cl buffer size
        = ext.allocateManagedMemoryFromHostPtr device cl buffer size := fun _ _ _ _ => rfl
  have hssh : ∀ ptr, getSshAlignedPointer (ext.withLaunch recordingLaunch) ptr
      = getSshAlignedPointer ext ptr := fun _ => rfl
  unfold appendMemoryFill
  simp only [hcompute, hfound, h1, hman', Bool.false_eq_true, if_false, hssh]
  have hm1 := hmanaged device cl (getSshAlignedPointer ext pattern.address).1
    (add64 (getSshAlignedPointer ext pattern.address).2 patternSize)
  have hm2 := hext.managed device cl (getSshAlignedPointer ext pattern.address).1
    (add64 (getSshAlignedPointer ext pattern.address).2 patternSize)
  rcases hres : ext.allocateManagedMemoryFromHostPtr device cl
    (getSshAlignedPointer ext pattern.address).1
    (add64 (getSshAlignedPointer ext pattern.address).2 patternSize)
    with ⟨patternAlloc, device2, cl2⟩
  rw [hres] at hm1 hm2
  simp only at hm1 hm2
  cases patternAlloc with
  | none => exact absurd rfl hm1
  | some patternAlloc =>
    simp only [Kernel.setGroupSize, hset' _ _ hwidth, appendMemoryFill.groupSizeX, h1,
      if_false, ne_eq, not_true_eq_false, if_true]
    obtain ⟨r, hr, hres, hlaunch, hargs⟩ := appendMemoryFill_dispatch_launches ext hext
      { cl2 with commandContainer := { cl2.commandContainer with
          deallocationContainer :=
            cl2.commandContainer.deallocationContainer ++ [patternAlloc] } }
      _ _ _ size _ _ hEvent hset hwidth
    refine ⟨r, hr, hres, ?_, hargs⟩
    rw [hlaunch, getKernel_setKernel]
    have hkeep : launches { cl2 with commandContainer := { cl2.commandContainer with
          deallocationContainer :=
            cl2.commandContainer.deallocationContainer ++ [patternAlloc] } }
        = launches cl := hm2
    rw [hkeep]
    rfl

/-- C25, as stated, fails: for a pattern of 1 byte the group width is the SIMD size of the
`FillBufferImmediate` kernel, 32 on the example device, not 1. A fill of 100 bytes launches
a main dispatch of `100 / 32 = 3` groups and a trailing dispatch for the remainder of 4
bytes; with the width 1 it would be 100 groups and no trailing dispatch. -/
theorem appendMemoryFill_width_not_one :
    appendMemoryFill.groupSizeX 1
        (exampleDevice.getKernel (BuiltinKernelId.function Builtin.FillBufferImmediate)).simdSize
      ≠ 1
    ∧ (appendMemoryFill exampleExternal exampleCommandList exampleDevice 65536
        examplePatternByte 1 100 none).map (fun r => (r.1, launches r.2.1))
      = some (ze_result_t.ZE_RESULT_SUCCESS,
          [(3, { groupCountX := 3, groupCountY := 1, groupCountZ := 1 }),
           (3, { groupCountX := 1, groupCountY := 1, groupCountZ := 1 })]) := by
  decide

/-- C25, amended: in the kernel path of `appendMemoryFill` (a compute list, a destination
that a registered allocation covers, `setGroupSize` succeeding, launches recorded by the
launch function) the group width is the SIMD size of the `FillBufferImmediate` kernel when
the pattern is 1 byte long, and the pattern length as `uint32_t` otherwise. The fill
succeeds and launches the main dispatch of `floor(size / groupSizeX)` groups, `size` taken
as `uint32_t`, and after it a trailing dispatch of one group exactly when the remainder
`size mod groupSizeX` is not zero; nothing else is launched. The group width is not zero,
and for a pattern longer than 1 byte the managed allocation of the pattern succeeds. -/
theorem appendMemoryFill_dispatches (ext : External) (hext : ExternalKeepsLaunches ext)
    (cl : CommandList) (device : Device) (ptr : Nat) (pattern : HostMemory)
    (patternSize size : Nat) (hEvent : ze_event_handle_t) (allocData : SvmAllocationData)
    (hcompute : cl.isCopyOnlyCmdList = false)
    (hfound : device.findAllocationDataForRange ptr size = some allocData)
    (hset : ∀ k x, 0 < x → ext.setGroupSizeResult k x 1 1 = ze_result_t.ZE_RESULT_SUCCESS) :
    (patternSize = 1 →
      0 < (device.getKernel (BuiltinKernelId.function Builtin.FillBufferImmediate)).simdSize →
      ∃ r, appendMemoryFill (ext.withLaunch recordingLaunch) cl device ptr pattern patternSize
            size hEvent = some r
        ∧ r.1 = ze_result_t.ZE_RESULT_SUCCESS
        ∧ launches r.2.1
          = launches cl
            ++ [((device.getKernel (BuiltinKernelId.function Builtin.FillBufferImmediate)).handle,
                { groupCountX := toUint32 size
                    / (device.getKernel
                        (BuiltinKernelId.function Builtin.FillBufferImmediate)).simdSize,
                  groupCountY := 1, groupCountZ := 1 })]
            ++ (if toUint32 size
                  % (device.getKernel
                      (BuiltinKernelId.function Builtin.FillBufferImmediate)).simdSize ≠ 0 then
                  [((device.getKernel
                      (BuiltinKernelId.function Builtin.FillBufferImmediate)).handle,
                    { groupCountX := 1, groupCountY := 1, groupCountZ := 1 })]
                else []))
    ∧ (patternSize ≠ 1 →
      (∀ device cl buffer size,
        (ext.allocateManagedMemoryFromHostPtr device cl buffer size).1 ≠ none) →
      0 < toUint32 patternSize →
      ∃ r, appendMemoryFill (ext.withLaunch recordingLaunch) cl device ptr pattern patternSize
            size hEvent = some r
        ∧ r.1 = ze_result_t.ZE_RESULT_SUCCESS
        ∧ launches r.2.1
          = launches cl
            ++ [((device.getKernel (BuiltinKernelId.function Builtin.FillBufferSSHOffset)).handle,
                { groupCountX := toUint32 size / toUint32 patternSize,
                  groupCountY := 1, groupCountZ := 1 })]
            ++ (if toUint32 size % toUint32 patternSize ≠ 0 then
                  [((device.getKernel
                      (BuiltinKernelId.function Builtin.FillBufferSSHOffset)).handle,
                    { groupCountX := 1, groupCountY := 1, groupCountZ := 1 })]
                else [])) := by
  refine ⟨?_, ?_⟩
  · intro h1 hwidth
    subst h1
    obtain ⟨r, hr, hres, hlaunch, _⟩ := appendMemoryFill_immediate_recording ext hext cl
      device ptr pattern size hEvent allocData hcompute hfound hset hwidth
    exact ⟨r, hr, hres, hlaunch⟩
  · intro h1 hmanaged hwidth
    obtain ⟨r, hr, hres, hlaunch, _⟩ := appendMemoryFill_pattern_recording ext hext cl
      device ptr pattern patternSize size hEvent allocData hcompute hfound hset h1 hmanaged
      hwidth
    exact ⟨r, hr, hres, hlaunch⟩

/-- Witness of C25 (amended): on the compute example list and the example device (SIMD 32),
100 bytes filled with the pattern of 1 byte in a buffer of 1 byte, and 102 bytes filled with
a pattern of 4 bytes. -/
theorem appendMemoryFill_dispatches_witness :
    ExternalKeepsLaunches exampleExternal
      ∧ exampleCommandList.isCopyOnlyCmdList = false
      ∧ (∃ r, appendMemoryFill (exampleExternal.withLaunch recordingLaunch) exampleCommandList
            exampleDevice 65536 examplePatternByte 1 100 none = some r
          ∧ r.1 = ze_result_t.ZE_RESULT_SUCCESS
          ∧ launches r.2.1
            = launches exampleCommandList
              ++ [((exampleDevice.getKernel
                    (BuiltinKernelId.function Builtin.FillBufferImmediate)).handle,
                  { groupCountX := toUint32 100
                      / (exampleDevice.getKernel
                          (BuiltinKernelId.function Builtin.FillBufferImmediate)).simdSize,
                    groupCountY := 1, groupCountZ := 1 })]
              ++ (if toUint32 100
                    % (exampleDevice.getKernel
                        (BuiltinKernelId.function Builtin.FillBufferImmediate)).simdSize ≠ 0
                  then
                    [((exampleDevice.getKernel
                        (BuiltinKernelId.function Builtin.FillBufferImmediate)).handle,
                      { groupCountX := 1, groupCountY := 1, groupCountZ := 1 })]
                  else []))
      ∧ (∃ r, appendMemoryFill (exampleExternal.withLaunch recordingLaunch) exampleCommandList
            exampleDevice 65536 examplePattern 4 102 none = some r
          ∧ r.1 = ze_result_t.ZE_RESULT_SUCCESS
          ∧ launches r.2.1
            = launches exampleCommandList
              ++ [((exampleDevice.getKernel
                    (BuiltinKernelId.function Builtin.FillBufferSSHOffset)).handle,
                  { groupCountX := toUint32 102 / toUint32 4, groupCountY := 1,
                    groupCountZ := 1 })]
              ++ (if toUint32 102 % toUint32 4 ≠ 0 then
                    [((exampleDevice.getKernel
                        (BuiltinKernelId.function Builtin.FillBufferSSHOffset)).handle,
                      { groupCountX := 1, groupCountY := 1, groupCountZ := 1 })]
                  else [])) :=
  ⟨exampleExternal_keepsLaunches, rfl,
   (appendMemoryFill_dispatches exampleExternal exampleExternal_keepsLaunches
      exampleCommandList exampleDevice 65536 examplePatternByte 1 100 none
      { gpuAllocation := { id := 0, gpuAddress := 65536 }, size := 4096,
        memoryType := InternalMemoryType.HOST_UNIFIED_MEMORY }
      rfl (by decide) (fun _ x hx => by simp [exampleExternal, Nat.pos_iff_ne_zero.mp hx])).1
      rfl (by decide),
   (appendMemoryFill_dispatches exampleExternal exampleExternal_keepsLaunches
      exampleCommandList exampleDevice 65536 examplePattern 4 102 none
      { gpuAllocation := { id := 0, gpuAddress := 65536 }, size := 4096,
        memoryType := InternalMemoryType.HOST_UNIFIED_MEMORY }
      rfl (by decide) (fun _ x hx => by simp [exampleExternal, Nat.pos_iff_ne_zero.mp hx])).2
      (by decide) (fun _ _ _ _ => by simp [exampleExternal]) (by decide)⟩

/-- Evaluations for C25: the fills of the witness. The pattern of 4 bytes has the group
width 4: 25 groups and a trailing dispatch for the remainder of 2 bytes, none for 100 bytes.
The pattern of 1 byte in a buffer of 1 byte has the group width 32: 2 groups for 64 bytes,
and the value bound to argument 2 is the `uint32_t` read at the pattern pointer, the pattern
byte 7 and the three bytes past the end of the buffer. -/
theorem appendMemoryFill_dispatches_examples :
    (appendMemoryFill exampleExternal exampleCommandList exampleDevice 65536 examplePattern
        4 102 none).map (fun r => (r.1, launches r.2.1))
      = some (ze_result_t.ZE_RESULT_SUCCESS,
          [(3, { groupCountX := 25, groupCountY := 1, groupCountZ := 1 }),
           (3, { groupCountX := 1, groupCountY := 1, groupCountZ := 1 })])
    ∧ (appendMemoryFill exampleExternal exampleCommandList exampleDevice 65536 examplePattern
        4 100 none).map (fun r => (r.1, launches r.2.1))
      = some (ze_result_t.ZE_RESULT_SUCCESS,
          [(3, { groupCountX := 25, groupCountY := 1, groupCountZ := 1 })])
    ∧ (appendMemoryFill exampleExternal exampleCommandList exampleDevice 65536
        examplePatternByte 1 64 none).map (fun r => (r.1, launches r.2.1,
          (r.2.2.getKernel (BuiltinKernelId.function Builtin.FillBufferImmediate)).getArg 2))
      = some (ze_result_t.ZE_RESULT_SUCCESS,
          [(3, { groupCountX := 2, groupCountY := 1, groupCountZ := 1 })],
          some (KernelArg.value 4 [7 + 256 * 1 + 65536 * 2 + 16777216 * 3])) := by
  refine ⟨?_, ?_, ?_⟩ <;> decide


/-! ## Theorems: the blit fill through a temporary buffer -/

/-- The expected buffer grows by a prefix of the pattern at whole multiples of the pattern
length. -/
theorem expectedBuffer_add (pattern : List Nat) (patternSize k c : Nat)
    (hc : c ≤ patternSize) (hlen : patternSize ≤ pattern.length) :
    appendBlitFill.expectedBuffer pattern patternSize (k * patternSize + c)
      = appendBlitFill.expectedBuffer pattern patternSize (k * patternSize) ++ pattern.take c := by
  unfold appendBlitFill.expectedBuffer
  rw [List.range_add, List.map_append, List.map_map]
  congr 1
  apply List.ext_getElem
  · simp; omega
  · intro i h1 h2
    simp at h1 h2
    simp only [List.getElem_map, List.getElem_range, Function.comp, List.getElem_take]
    have hi : (k * patternSize + i) % patternSize = i := by
      rw [Nat.add_comm, Nat.add_mul_mod_self_right]
      exact Nat.mod_eq_of_lt (by omega)
    rw [hi, List.getD_eq_getElem?_getD, List.getElem?_eq_getElem (by omega)]
    rfl

/-- One `memcpy_s` of `c` pattern bytes behind `k` whole patterns extends the expected
content by these bytes. -/
theorem memcpy_s_expected (pattern : List Nat) (patternSize size k c : Nat)
    (hc : c ≤ patternSize) (hlen : patternSize ≤ pattern.length)
    (hfit : k * patternSize + c ≤ size) (hsize : size < UINT64_MOD) :
    memcpy_s (appendBlitFill.expectedBuffer pattern patternSize (k * patternSize)
          ++ List.replicate (size - k * patternSize) 0)
        (k * patternSize) (sub64 size (k * patternSize)) pattern c
      = some (appendBlitFill.expectedBuffer pattern patternSize (k * patternSize + c)
          ++ List.replicate (size - (k * patternSize + c)) 0) := by
  have hlenE : (appendBlitFill.expectedBuffer pattern patternSize (k * patternSize)).length
      = k * patternSize := by simp [appendBlitFill.expectedBuffer]
  have hsub : sub64 size (k * patternSize) = size - k * patternSize := by
    simp only [sub64, UINT64_MOD] at *
    omega
  unfold memcpy_s
  rw [hsub, if_neg (by omega), if_neg (by omega), expectedBuffer_add _ _ _ _ hc hlen]
  congr 1
  have h1 : List.take (k * patternSize) (appendBlitFill.expectedBuffer pattern patternSize (k * patternSize)
      ++ List.replicate (size - k * patternSize) 0)
      = appendBlitFill.expectedBuffer pattern patternSize (k * patternSize) := by
    rw [List.take_append_of_le_length (by omega), List.take_of_length_le (by omega)]
  have h2 : List.drop (k * patternSize + c) (appendBlitFill.expectedBuffer pattern patternSize (k * patternSize)
      ++ List.replicate (size - k * patternSize) 0)
      = List.replicate (size - (k * patternSize + c)) 0 := by
    rw [List.drop_append_eq_append_drop, List.drop_of_length_le (by omega), hlenE]
    simp
    omega
  rw [h1, h2]

/-- The loop of `appendBlitFill` writes one whole pattern per round. -/
theorem loop_expected (pattern : List Nat) (patternSize size : Nat)
    (hlen : patternSize ≤ pattern.length) (hsize : size < UINT64_MOD) (remaining : Nat) :
    ∀ k, (k + remaining) * patternSize ≤ size →
      appendBlitFill.loop size pattern patternSize
          (appendBlitFill.expectedBuffer pattern patternSize (k * patternSize)
            ++ List.replicate (size - k * patternSize) 0)
          (k * patternSize) remaining
        = some (appendBlitFill.expectedBuffer pattern patternSize ((k + remaining) * patternSize)
            ++ List.replicate (size - (k + remaining) * patternSize) 0,
          (k + remaining) * patternSize) := by
  induction remaining with
  | zero => intro k _; rfl
  | succ n ih =>
    intro k hfit
    have hfit' : k * patternSize + patternSize ≤ size := by
      have : (k + (n + 1)) * patternSize = k * patternSize + patternSize + n * patternSize := by
        ring
      omega
    unfold appendBlitFill.loop
    rw [memcpy_s_expected pattern patternSize size k patternSize (le_refl _) hlen hfit' hsize]
    have hadd : add64 (k * patternSize) patternSize = (k + 1) * patternSize := by
      simp only [add64, UINT64_MOD] at *
      rw [Nat.mod_eq_of_lt (by omega)]
      ring
    have hk : k * patternSize + patternSize = (k + 1) * patternSize := by ring
    simp only [hadd, hk]
    rw [ih (k + 1) (by rw [show k + 1 + n = k + (n + 1) by omega]; exact hfit)]
    rw [show k + 1 + n = k + (n + 1) by omega]

/-- C26, as stated, fails for a fill of `2 ^ 32` patterns or more: the loop counter of
`appendBlitFill` is a `uint32_t` and never reaches `size / patternSize`, so the buffer is
never handed to `appendMemoryCopy`. Here the pattern has 17 bytes and the fill
`17 * 2 ^ 32` bytes. -/
theorem appendBlitFill_counter_too_narrow :
    exampleExternal.useMemCopyToBlitFill 17 = true ∧ 0 < 17
      ∧ (appendBlitFill exampleExternal exampleCopyOnlyCommandList exampleDevice 65536
          examplePatternLong 17 73014444032 none).isSome = false := by
  decide

/-- C26, amended: when `useMemCopyToBlitFill(patternSize)` holds, `patternSize > 0`, the
pattern buffer holds `patternSize` bytes and the fill has fewer than `2 ^ 32` whole patterns
(`size / patternSize` is within the `uint32_t` loop counter), `appendBlitFill` fills the
temporary allocation of `size` bytes so that byte `i` is byte `i mod patternSize` of the
pattern for every `i < size`, issues `appendMemoryCopy` of `size` bytes from that buffer to
the destination, returns the result of that copy, and pushes the temporary allocation onto
the deallocation list. -/
theorem appendBlitFill_fills_temporary_buffer (ext : External) (cl : CommandList) (device : Device)
    (ptr : Nat) (pattern : HostMemory) (patternSize size : Nat) (hEvent : ze_event_handle_t)
    (huse : ext.useMemCopyToBlitFill patternSize = true) (hpos : 0 < patternSize)
    (hlen : patternSize ≤ pattern.bytes.length) (hcount : size / patternSize < UINT32_MOD)
    (hsize : size < UINT64_MOD) :
    appendBlitFill ext cl device ptr pattern patternSize size hEvent
        = (appendMemoryCopy ext cl
            ((device.allocateGraphicsMemoryWithProperties size).2.storeInternalAllocation
              { (device.allocateGraphicsMemoryWithProperties size).1 with
                bytes := appendBlitFill.expectedBuffer pattern.bytes patternSize size })
            ptr (device.allocateGraphicsMemoryWithProperties size).1.underlyingBuffer size
            hEvent 0 none).map
          (fun r => (r.1,
            { r.2.1 with commandContainer := { r.2.1.commandContainer with
                deallocationContainer := r.2.1.commandContainer.deallocationContainer
                  ++ [(device.allocateGraphicsMemoryWithProperties size).1.allocation] } },
            r.2.2))
      ∧ (appendBlitFill.expectedBuffer pattern.bytes patternSize size).length = size
      ∧ ∀ i, i < size →
          (appendBlitFill.expectedBuffer pattern.bytes patternSize size)[i]?
            = pattern.bytes[i % patternSize]? := by
  refine ⟨?_, by simp [appendBlitFill.expectedBuffer], ?_⟩
  · have hdm : size / patternSize * patternSize ≤ size := Nat.div_mul_le_self _ _
    have hmod : size - size / patternSize * patternSize = size % patternSize := by
      have := Nat.div_add_mod' size patternSize
      omega
    have hloop := loop_expected pattern.bytes patternSize size hlen hsize (size / patternSize) 0
      (by simpa using hdm)
    simp only [Nat.zero_mul, Nat.zero_add, Nat.sub_zero] at hloop
    have hE0 : appendBlitFill.expectedBuffer pattern.bytes patternSize 0 = [] := rfl
    rw [hE0, List.nil_append] at hloop
    have hlast := memcpy_s_expected pattern.bytes patternSize size (size / patternSize)
      (size % patternSize) (Nat.le_of_lt (Nat.mod_lt _ hpos)) hlen
      (by have := Nat.div_add_mod' size patternSize; omega) hsize
    have hsub : sub64 size (size / patternSize * patternSize) = size % patternSize := by
      simp only [sub64, UINT64_MOD] at *
      omega
    rw [Nat.div_add_mod' size patternSize, Nat.sub_self, List.replicate_zero,
      List.append_nil, hsub] at hlast
    unfold appendBlitFill
    simp only [huse, if_true, Device.allocateGraphicsMemoryWithProperties,
      Nat.pos_iff_ne_zero.mp hpos, if_false, not_le.mpr hcount, hloop, hsub, hlast]
  · intro i hi
    have hlt : i % patternSize < pattern.bytes.length :=
      lt_of_lt_of_le (Nat.mod_lt _ hpos) hlen
    simp [appendBlitFill.expectedBuffer, hi, List.getD_eq_getElem?_getD,
      List.getElem?_eq_getElem hlt]

/-- Witness of C26 (amended): 40 bytes filled with the pattern of 17 bytes on the copy-only
example list. -/
theorem appendBlitFill_fills_temporary_buffer_witness :
    exampleExternal.useMemCopyToBlitFill 17 = true ∧ 0 < 17
      ∧ 17 ≤ examplePatternLong.bytes.length ∧ 40 / 17 < UINT32_MOD ∧ 40 < UINT64_MOD
      ∧ appendBlitFill exampleExternal exampleCopyOnlyCommandList exampleDevice 65536
          examplePatternLong 17 40 none
        = (appendMemoryCopy exampleExternal exampleCopyOnlyCommandList
            ((exampleDevice.allocateGraphicsMemoryWithProperties 40).2.storeInternalAllocation
              { (exampleDevice.allocateGraphicsMemoryWithProperties 40).1 with
                bytes := appendBlitFill.expectedBuffer examplePatternLong.bytes 17 40 })
            65536 (exampleDevice.allocateGraphicsMemoryWithProperties 40).1.underlyingBuffer 40
            none 0 none).map
          (fun r => (r.1,
            { r.2.1 with commandContainer := { r.2.1.commandContainer with
                deallocationContainer := r.2.1.commandContainer.deallocationContainer
                  ++ [(exampleDevice.allocateGraphicsMemoryWithProperties 40).1.allocation] } },
            r.2.2))
      ∧ (appendBlitFill.expectedBuffer examplePatternLong.bytes 17 40)[39]?
        = examplePatternLong.bytes[39 % 17]? :=
  ⟨by decide, by decide, by decide, by decide, by decide,
    (appendBlitFill_fills_temporary_buffer exampleExternal exampleCopyOnlyCommandList
      exampleDevice 65536 examplePatternLong 17 40 none (by decide) (by decide) (by decide)
      (by decide) (by decide)).1,
    (appendBlitFill_fills_temporary_buffer exampleExternal exampleCopyOnlyCommandList
      exampleDevice 65536 examplePatternLong 17 40 none (by decide) (by decide) (by decide)
      (by decide) (by decide)).2.2 39 (by decide)⟩

/-- Evaluation for C26: the fill of 40 bytes with the pattern of 17 bytes. The temporary
buffer holds the pattern twice and its first 6 bytes, one blit copies the 40 bytes, and the
temporary allocation (id 1) is on the deallocation list. -/
theorem appendBlitFill_example :
    (appendBlitFill exampleExternal exampleCopyOnlyCommandList exampleDevice 65536
        examplePatternLong 17 40 none).map
        (fun r => r.2.2.internalAllocations.map InternalAllocation.bytes)
      = some [examplePatternLong.bytes ++ examplePatternLong.bytes
          ++ examplePatternLong.bytes.take 6]
    ∧ (appendBlitFill exampleExternal exampleCopyOnlyCommandList exampleDevice 65536
        examplePatternLong 17 40 none).map
        (fun r => (r.1, r.2.1.commandContainer.commandStream.filterMap Command.linearBlit,
          r.2.1.commandContainer.deallocationContainer.map GraphicsAllocation.id))
      = some (ze_result_t.ZE_RESULT_SUCCESS, [(0, 0, 40)], [1]) := by
  decide


/-! ## Theorems: the origins `appendMemoryCopyKernel3d` binds -/

/-- C27: `appendMemoryCopyKernel3d`, when it reaches its launch (the group size `g` is
chosen and divides the extent), launches the kernel with the source origin bound to
argument 2 as the claim says, `(srcRegion.originX + srcOffset, srcRegion.originY,
srcRegion.originZ)` in `uint32_t` arithmetic; but the destination origin bound to argument 3
is `(dstRegion.originX + dstOffset, dstRegion.originY, srcRegion.originZ)`: its third
component is the `originZ` of the source region. So for regions whose `originZ` differ the
destination origin is not the triple of the claim. -/
theorem appendMemoryCopyKernel3d_dstOrigin_uses_srcRegion (ext : External) (cl : CommandList)
    (device : Device) (dstGA srcGA : GraphicsAllocation) (builtin : Builtin)
    (dstRegion : ze_copy_region_t) (dstPitch dstSlicePitch dstOffset : Nat)
    (srcRegion : ze_copy_region_t) (srcPitch srcSlicePitch srcOffset : Nat)
    (hSignalEvent : ze_event_handle_t) (numWaitEvents : Nat)
    (phWaitEvents : Option (List ze_event_handle_t)) (g : Vec3)
    (hchosen : GroupSizeChosen ext srcRegion.width srcRegion.height srcRegion.depth g)
    (hd : srcRegion.width % g.x = 0 ∧ srcRegion.height % g.y = 0
      ∧ srcRegion.depth % g.z = 0) :
    ∃ (kernel : Kernel) (groupCount : ze_group_count_t),
      appendMemoryCopyKernel3d ext cl device dstGA srcGA builtin dstRegion dstPitch
          dstSlicePitch dstOffset srcRegion srcPitch srcSlicePitch srcOffset hSignalEvent
          numWaitEvents phWaitEvents
        = (appendLaunchKernel ext cl kernel.handle
            (some (GroupCountPtr.hostStruct groupCount)) hSignalEvent numWaitEvents
            phWaitEvents).map
          (fun r => (r.1, r.2, device.setKernel (BuiltinKernelId.function builtin) kernel))
      ∧ kernel.getArg 2
        = some (KernelArg.value 12
            [toUint32 (srcRegion.originX + toUint32 srcOffset), srcRegion.originY,
             srcRegion.originZ])
      ∧ kernel.getArg 3
        = some (KernelArg.value 12
            [toUint32 (dstRegion.originX + toUint32 dstOffset), dstRegion.originY,
             srcRegion.originZ])
      ∧ (dstRegion.originZ ≠ srcRegion.originZ →
          kernel.getArg 3
            ≠ some (KernelArg.value 12
                [toUint32 (dstRegion.originX + toUint32 dstOffset), dstRegion.originY,
                 dstRegion.originZ])) := by
  obtain ⟨hsuggest, hset, hx, hy, hz⟩ := hchosen
  have hdiv := notDivisible3_eq_false _ _ _ _ _ _ hx hy hz hd
  unfold appendMemoryCopyKernel3d
  simp only [hsuggest, hset, hdiv, Kernel.setGroupSize, ne_eq, not_true_eq_false, if_false,
    if_true]
  refine ⟨_, _, rfl, ?_, ?_, ?_⟩
  · simp only [Kernel.setArgumentValue]
    rw [getArg_setArg_ne _ 2 5 _ (by decide), getArg_setArg_ne _ 2 4 _ (by decide),
      getArg_setArg_ne _ 2 3 _ (by decide), getArg_setArg_same]
  · simp only [Kernel.setArgumentValue]
    rw [getArg_setArg_ne _ 3 5 _ (by decide), getArg_setArg_ne _ 3 4 _ (by decide),
      getArg_setArg_same]
  · intro hz'
    simp only [Kernel.setArgumentValue]
    rw [getArg_setArg_ne _ 3 5 _ (by decide), getArg_setArg_ne _ 3 4 _ (by decide),
      getArg_setArg_same]
    intro heq
    simp only [Option.some.injEq, KernelArg.value.injEq, List.cons.injEq, and_true,
      true_and] at heq
    exact hz' heq.symm

/-- Witness of C27: a destination region at `originZ = 5` and the source region
`exampleCopyRegionWide` at `originZ = 0`, with the group size 16 x 1 x 1. Argument 3 holds
the `originZ` of the source, 0, not 5. -/
theorem appendMemoryCopyKernel3d_dstOrigin_uses_srcRegion_witness :
    (5 : Nat) ≠ exampleCopyRegionWide.originZ
      ∧ ∃ (kernel : Kernel) (groupCount : ze_group_count_t),
        appendMemoryCopyKernel3d exampleExternalFixedGroupSize exampleCommandList
            exampleDevice { id := 1, gpuAddress := 4096 } { id := 2, gpuAddress := 8192 }
            Builtin.CopyBufferRectBytes3d
            { originX := 0, originY := 0, originZ := 5, width := 32, height := 4, depth := 1 }
            32 128 0 exampleCopyRegionWide 32 128 0 none 0 none
          = (appendLaunchKernel exampleExternalFixedGroupSize exampleCommandList
              kernel.handle (some (GroupCountPtr.hostStruct groupCount)) none 0 none).map
            (fun r => (r.1, r.2,
              exampleDevice.setKernel (BuiltinKernelId.function Builtin.CopyBufferRectBytes3d)
                kernel))
        ∧ kernel.getArg 3 = some (KernelArg.value 12 [toUint32 (0 + toUint32 0), 0, 0])
        ∧ kernel.getArg 3 ≠ some (KernelArg.value 12 [toUint32 (0 + toUint32 0), 0, 5]) := by
  obtain ⟨kernel, groupCount, hop, _, h3, hne⟩ :=
    appendMemoryCopyKernel3d_dstOrigin_uses_srcRegion exampleExternalFixedGroupSize
      exampleCommandList exampleDevice { id := 1, gpuAddress := 4096 }
      { id := 2, gpuAddress := 8192 } Builtin.CopyBufferRectBytes3d
      { originX := 0, originY := 0, originZ := 5, width := 32, height := 4, depth := 1 }
      32 128 0 exampleCopyRegionWide 32 128 0 none 0 none { x := 16, y := 1, z := 1 }
      (exampleExternalFixedGroupSize_chosen _ _ _) (by decide)
  exact ⟨by decide, kernel, groupCount, hop, h3, hne (by decide)⟩

/-- Evaluation for C27: after the copy of the witness the kernel `CopyBufferRectBytes3d`
holds the source origin `(0, 0, 0)` and, as destination origin, `(0, 0, 0)` as well. -/
theorem appendMemoryCopyKernel3d_origins_example :
    (appendMemoryCopyKernel3d exampleExternalFixedGroupSize exampleCommandList exampleDevice
        { id := 1, gpuAddress := 4096 } { id := 2, gpuAddress := 8192 }
        Builtin.CopyBufferRectBytes3d
        { originX := 0, originY := 0, originZ := 5, width := 32, height := 4, depth := 1 }
        32 128 0 exampleCopyRegionWide 32 128 0 none 0 none).map
        (fun r => (r.1,
          (r.2.2.getKernel (BuiltinKernelId.function Builtin.CopyBufferRectBytes3d)).getArg 2,
          (r.2.2.getKernel (BuiltinKernelId.function Builtin.CopyBufferRectBytes3d)).getArg 3))
      = some (ze_result_t.ZE_RESULT_SUCCESS, some (KernelArg.value 12 [0, 0, 0]),
          some (KernelArg.value 12 [0, 0, 0])) := by
  decide


/-! ## Theorems: the destination of the trailing dispatch of `appendMemoryFill` -/

/-- The aligned pointer and the offset computed for the trailing dispatch add up to the
destination pointer plus the filled size, less the misalignment of the pointer. -/
theorem trailing_address (ext : External) (ptr size rem : Nat) (hrem : rem ≤ size)
    (haddr : ptr + size < UINT64_MOD) :
    (getSshAlignedPointer ext
        (add64 (getSshAlignedPointer ext ptr).1 (sub64 size rem))).1
      + (getSshAlignedPointer ext
        (add64 (getSshAlignedPointer ext ptr).1 (sub64 size rem))).2
      + ptr % ext.surfaceBaseAddressAlignment
      = ptr + (size - rem) := by
  have hm : ptr % ext.surfaceBaseAddressAlignment ≤ ptr := Nat.mod_le _ _
  simp only [getSshAlignedPointer]
  generalize ptr % ext.surfaceBaseAddressAlignment = m at hm ⊢
  have hx : add64 (ptr - m) (sub64 size rem) = ptr - m + (size - rem) := by
    simp only [add64, sub64, UINT64_MOD] at *
    omega
  rw [hx]
  have ho : (ptr - m + (size - rem)) % ext.surfaceBaseAddressAlignment
      ≤ ptr - m + (size - rem) := Nat.mod_le _ _
  generalize (ptr - m + (size - rem)) % ext.surfaceBaseAddressAlignment = o at ho ⊢
  omega

/-- The remainder of the fill is not larger than the fill. -/
theorem groupRemainder_le (size groupSizeX : Nat) : toUint32 size % groupSizeX ≤ size :=
  le_trans (Nat.mod_le _ _) (Nat.mod_le _ _)

/-- C28: in the kernel path of `appendMemoryFill` with a remainder `r` that is not zero, the
trailing dispatch is launched with the aligned pointer `p` bound to argument 0 and the
offset `o` bound to argument 1, and `p + o` is `ptr + (size - r)` less the misalignment
`ptr mod alignment` of the destination pointer: the second alignment starts from the
pointer that the first one has already aligned. So for a destination pointer that is not
aligned to the surface-base alignment the effective destination is not `ptr + (size - r)`.
The launches are recorded by the launch function, the fill lies within the 64-bit address
space. -/
theorem appendMemoryFill_trailing_address (ext : External)
    (hext : ExternalKeepsLaunches ext) (cl : CommandList) (device : Device) (ptr : Nat)
    (pattern : HostMemory) (patternSize size : Nat) (hEvent : ze_event_handle_t)
    (allocData : SvmAllocationData)
    (hcompute : cl.isCopyOnlyCmdList = false)
    (hfound : device.findAllocationDataForRange ptr size = some allocData)
    (hset : ∀ k x, 0 < x → ext.setGroupSizeResult k x 1 1 = ze_result_t.ZE_RESULT_SUCCESS)
    (haddr : ptr + size < UINT64_MOD) :
    (patternSize = 1 →
      0 < (device.getKernel (BuiltinKernelId.function Builtin.FillBufferImmediate)).simdSize →
      toUint32 size
        % (device.getKernel (BuiltinKernelId.function Builtin.FillBufferImmediate)).simdSize
        ≠ 0 →
      ∃ r p o, appendMemoryFill (ext.withLaunch recordingLaunch) cl device ptr pattern
            patternSize size hEvent = some r
        ∧ (r.2.2.getKernel (BuiltinKernelId.function Builtin.FillBufferImmediate)).getArg 0
          = some (KernelArg.value 8 [p])
        ∧ (r.2.2.getKernel (BuiltinKernelId.function Builtin.FillBufferImmediate)).getArg 1
          = some (KernelArg.value 8 [o])
        ∧ p + o + ptr % ext.surfaceBaseAddressAlignment
          = ptr + (size - toUint32 size
              % (device.getKernel
                  (BuiltinKernelId.function Builtin.FillBufferImmediate)).simdSize)
        ∧ (ptr % ext.surfaceBaseAddressAlignment ≠ 0 →
            p + o ≠ ptr + (size - toUint32 size
              % (device.getKernel
                  (BuiltinKernelId.function Builtin.FillBufferImmediate)).simdSize)))
    ∧ (patternSize ≠ 1 →
      (∀ device cl buffer size,
        (ext.allocateManagedMemoryFromHostPtr device cl buffer size).1 ≠ none) →
      0 < toUint32 patternSize →
      toUint32 size % toUint32 patternSize ≠ 0 →
      ∃ r p o, appendMemoryFill (ext.withLaunch recordingLaunch) cl device ptr pattern
            patternSize size hEvent = some r
        ∧ (r.2.2.getKernel (BuiltinKernelId.function Builtin.FillBufferSSHOffset)).getArg 0
          = some (KernelArg.value 8 [p])
        ∧ (r.2.2.getKernel (BuiltinKernelId.function Builtin.FillBufferSSHOffset)).getArg 1
          = some (KernelArg.value 8 [o])
        ∧ p + o + ptr % ext.surfaceBaseAddressAlignment
          = ptr + (size - toUint32 size % toUint32 patternSize)
        ∧ (ptr % ext.surfaceBaseAddressAlignment ≠ 0 →
            p + o ≠ ptr + (size - toUint32 size % toUint32 patternSize))) := by
  refine ⟨?_, ?_⟩
  · intro h1 hwidth hrem
    subst h1
    obtain ⟨r, hr, _, _, hargs⟩ := appendMemoryFill_immediate_recording ext hext cl
      device ptr pattern size hEvent allocData hcompute hfound hset hwidth
    have hsum := trailing_address ext ptr size
      (toUint32 size
        % (device.getKernel (BuiltinKernelId.function Builtin.FillBufferImmediate)).simdSize)
      (groupRemainder_le size _) haddr
    refine ⟨r, _, _, hr, (hargs hrem).1, (hargs hrem).2, hsum, fun hmis => ?_⟩
    omega
  · intro h1 hmanaged hwidth hrem
    obtain ⟨r, hr, _, _, hargs⟩ := appendMemoryFill_pattern_recording ext hext cl
      device ptr pattern patternSize size hEvent allocData hcompute hfound hset h1 hmanaged
      hwidth
    have hsum := trailing_address ext ptr size (toUint32 size % toUint32 patternSize)
      (groupRemainder_le size _) haddr
    refine ⟨r, _, _, hr, (hargs hrem).1, (hargs hrem).2, hsum, fun hmis => ?_⟩
    omega

/-- Witness of C28: 102 bytes at the destination `0x10002`, which is 2 bytes past the
alignment of 4, filled with a pattern of 4 bytes on the compute example list. The remainder
is 2, the trailing dispatch should start at `0x10002 + 100`, and starts 2 bytes before. -/
theorem appendMemoryFill_trailing_address_witness :
    65538 % exampleExternal.surfaceBaseAddressAlignment ≠ 0
      ∧ toUint32 102 % toUint32 4 ≠ 0
      ∧ ∃ r p o, appendMemoryFill (exampleExternal.withLaunch recordingLaunch)
            exampleCommandList exampleDevice 65538 examplePattern 4 102 none = some r
        ∧ (r.2.2.getKernel (BuiltinKernelId.function Builtin.FillBufferSSHOffset)).getArg 0
          = some (KernelArg.value 8 [p])
        ∧ (r.2.2.getKernel (BuiltinKernelId.function Builtin.FillBufferSSHOffset)).getArg 1
          = some (KernelArg.value 8 [o])
        ∧ p + o + 65538 % exampleExternal.surfaceBaseAddressAlignment
          = 65538 + (102 - toUint32 102 % toUint32 4)
        ∧ p + o ≠ 65538 + (102 - toUint32 102 % toUint32 4) := by
  obtain ⟨r, p, o, hr, h0, h1, hsum, hne⟩ :=
    (appendMemoryFill_trailing_address exampleExternal exampleExternal_keepsLaunches
      exampleCommandList exampleDevice 65538 examplePattern 4 102 none
      { gpuAllocation := { id := 0, gpuAddress := 65536 }, size := 4096,
        memoryType := InternalMemoryType.HOST_UNIFIED_MEMORY }
      rfl (by decide) (fun _ x hx => by simp [exampleExternal, Nat.pos_iff_ne_zero.mp hx])
      (by decide)).2
      (by decide) (fun _ _ _ _ => by simp [exampleExternal]) (by decide) (by decide)
  exact ⟨by decide, by decide, r, p, o, hr, h0, h1, hsum, hne (by decide)⟩

/-- Evaluation for C28: the fill of the witness. The main dispatch gets the aligned pointer
`0x10000` with the offset 2; the trailing dispatch gets `0x10064` with the offset 0, that is
the address `0x10000 + 100`, where `0x10002 + 100 = 0x10066` is due. -/
theorem appendMemoryFill_trailing_address_example :
    (appendMemoryFill exampleExternal exampleCommandList exampleDevice 65538 examplePattern 4
        102 none).map
        (fun r => (r.1, launches r.2.1,
          (r.2.2.getKernel (BuiltinKernelId.function Builtin.FillBufferSSHOffset)).getArg 0,
          (r.2.2.getKernel (BuiltinKernelId.function Builtin.FillBufferSSHOffset)).getArg 1))
      = some (ze_result_t.ZE_RESULT_SUCCESS,
          [(3, { groupCountX := 25, groupCountY := 1, groupCountZ := 1 }),
           (3, { groupCountX := 1, groupCountY := 1, groupCountZ := 1 })],
          some (KernelArg.value 8 [65636]), some (KernelArg.value 8 [0])) := by
  decide


/-! ## Theorems: the pitches of the image copies -/

/-- A value converted to `uint32_t` is not changed by a second conversion. -/
theorem toUint32_idem (x : Nat) : toUint32 (toUint32 x) = toUint32 x := by
  simp [toUint32, UINT32_MOD]

/-- C29: for an image of type `Image1DArray` and one region, on a copy-only list, the three
image copies are blits with the row pitch `width * bytesPerPixel` (in `uint32_t`), but not
with the same slice pitch: `appendImageCopyToMemory` and `appendImageCopyRegion` pass the
row pitch as slice pitch, as the claim says, while `appendImageCopyFromMemory` passes the
slice pitch 1. -/
theorem image_copy_slicePitch_from_memory_is_one (ext : External) (cl : CommandList)
    (device : Device) (image : Image) (ptr : Nat) (region : ze_image_region_t)
    (hEvent : ze_event_handle_t) (numWaitEvents : Nat)
    (phWaitEvents : Option (List ze_event_handle_t))
    (hcopy : cl.isCopyOnlyCmdList = true)
    (htype : image.imageType = ImageType.Image1DArray) :
    ∃ (cl1 : CommandList) (device1 : Device) (alloc : GraphicsAllocation),
      appendImageCopyFromMemory ext cl device image ptr (some region) hEvent numWaitEvents
          phWaitEvents
        = (appendCopyImageBlit ext cl1 alloc image.allocation { x := 0, y := 0, z := 0 }
            { x := region.originX, y := region.originY, z := region.originZ }
            (toUint32 (region.width * toUint32 image.imageElementSizeInBytes)) 1
            (toUint32 (region.width * toUint32 image.imageElementSizeInBytes)) 1
            (toUint32 image.imageElementSizeInBytes)
            { x := region.width, y := region.height, z := region.depth }
            { x := region.width, y := region.height, z := region.depth }
            { x := toUint32 image.imageWidth, y := toUint32 image.imageHeight,
              z := toUint32 image.imageDepth }
            hEvent).map (fun r => (r.1, r.2, device1))
      ∧ appendImageCopyToMemory ext cl device ptr image (some region) hEvent numWaitEvents
          phWaitEvents
        = (appendCopyImageBlit ext cl1 image.allocation alloc
            { x := region.originX, y := region.originY, z := region.originZ }
            { x := 0, y := 0, z := 0 }
            (toUint32 (region.width * toUint32 image.imageElementSizeInBytes))
            (toUint32 (region.width * toUint32 image.imageElementSizeInBytes))
            (toUint32 (region.width * toUint32 image.imageElementSizeInBytes))
            (toUint32 (region.width * toUint32 image.imageElementSizeInBytes))
            (toUint32 image.imageElementSizeInBytes)
            { x := region.width, y := region.height, z := region.depth }
            { x := toUint32 image.imageWidth, y := toUint32 image.imageHeight,
              z := toUint32 image.imageDepth }
            { x := region.width, y := region.height, z := region.depth }
            hEvent).map (fun r => (r.1, r.2, device1))
      ∧ appendImageCopyRegion ext cl device image image (some region) (some region) hEvent
          numWaitEvents phWaitEvents
        = (appendCopyImageBlit ext cl image.allocation image.allocation
            { x := region.originX, y := region.originY, z := region.originZ }
            { x := region.originX, y := region.originY, z := region.originZ }
            (toUint32 (region.width * toUint32 image.imageElementSizeInBytes))
            (toUint32 (region.width * toUint32 image.imageElementSizeInBytes))
            (toUint32 (region.width * toUint32 image.imageElementSizeInBytes))
            (toUint32 (region.width * toUint32 image.imageElementSizeInBytes))
            (toUint32 image.imageElementSizeInBytes)
            { x := region.width, y := region.height, z := region.depth }
            { x := toUint32 image.imageWidth, y := toUint32 image.imageHeight,
              z := toUint32 image.imageDepth }
            { x := toUint32 image.imageWidth, y := toUint32 image.imageHeight,
              z := toUint32 image.imageDepth }
            hEvent).map (fun r => (r.1, r.2, device)) := by
  have hga := getAlignedAllocation_commandContainer ext cl device ptr
    ((toUint32 image.imageElementSizeInBytes * region.width) % UINT64_MOD)
  rcases hres : getAlignedAllocation ext cl device ptr
    ((toUint32 image.imageElementSizeInBytes * region.width) % UINT64_MOD)
    with ⟨allocationStruct, cl1, device1⟩
  rw [hres] at hga
  simp only at hga
  have hmode : cl1.isCopyOnlyCmdList = true := by rw [hga.2]; exact hcopy
  refine ⟨cl1, device1, allocationStruct.alloc, ?_, ?_, ?_⟩
  · unfold appendImageCopyFromMemory
    simp only [htype, imageRegionOrWhole, getInputBufferSize, hres, hmode, if_true]
  · unfold appendImageCopyToMemory
    simp only [htype, imageRegionOrWhole, getInputBufferSize, hres, hmode, if_true, Nat.one_mul,
      toUint32_idem]
  · unfold appendImageCopyRegion
    simp only [htype, appendImageCopyRegion.effectiveRegion, hcopy, if_true, Nat.one_mul,
      toUint32_idem, ne_eq, not_true_eq_false, or_self, if_false]

/-- Witness of C29: the region of 20 pixels of the 1D image array `exampleImageArray`, with
4 bytes per pixel, on the copy-only example list. The row pitch is 80; the slice pitch is 1
for `appendImageCopyFromMemory` and 80 for the two other copies. -/
theorem image_copy_slicePitch_from_memory_is_one_witness :
    exampleCopyOnlyCommandList.isCopyOnlyCmdList = true
      ∧ exampleImageArray.imageType = ImageType.Image1DArray
      ∧ toUint32 (exampleRegion.width * toUint32 exampleImageArray.imageElementSizeInBytes) = 80
      ∧ ∃ (cl1 : CommandList) (device1 : Device) (alloc : GraphicsAllocation),
        appendImageCopyFromMemory exampleExternal exampleCopyOnlyCommandList exampleDevice
            exampleImageArray 65536 (some exampleRegion) none 0 none
          = (appendCopyImageBlit exampleExternal cl1 alloc exampleImageArray.allocation
              { x := 0, y := 0, z := 0 }
              { x := exampleRegion.originX, y := exampleRegion.originY,
                z := exampleRegion.originZ }
              (toUint32 (exampleRegion.width
                * toUint32 exampleImageArray.imageElementSizeInBytes)) 1
              (toUint32 (exampleRegion.width
                * toUint32 exampleImageArray.imageElementSizeInBytes)) 1
              (toUint32 exampleImageArray.imageElementSizeInBytes)
              { x := exampleRegion.width, y := exampleRegion.height, z := exampleRegion.depth }
              { x := exampleRegion.width, y := exampleRegion.height, z := exampleRegion.depth }
              { x := toUint32 exampleImageArray.imageWidth,
                y := toUint32 exampleImageArray.imageHeight,
                z := toUint32 exampleImageArray.imageDepth }
              none).map (fun r => (r.1, r.2, device1))
        ∧ appendImageCopyToMemory exampleExternal exampleCopyOnlyCommandList exampleDevice
            65536 exampleImageArray (some exampleRegion) none 0 none
          = (appendCopyImageBlit exampleExternal cl1 exampleImageArray.allocation alloc
              { x := exampleRegion.originX, y := exampleRegion.originY,
                z := exampleRegion.originZ }
              { x := 0, y := 0, z := 0 }
              (toUint32 (exampleRegion.width
                * toUint32 exampleImageArray.imageElementSizeInBytes))
              (toUint32 (exampleRegion.width
                * toUint32 exampleImageArray.imageElementSizeInBytes))
              (toUint32 (exampleRegion.width
                * toUint32 exampleImageArray.imageElementSizeInBytes))
              (toUint32 (exampleRegion.width
                * toUint32 exampleImageArray.imageElementSizeInBytes))
              (toUint32 exampleImageArray.imageElementSizeInBytes)
              { x := exampleRegion.width, y := exampleRegion.height, z := exampleRegion.depth }
              { x := toUint32 exampleImageArray.imageWidth,
                y := toUint32 exampleImageArray.imageHeight,
                z := toUint32 exampleImageArray.imageDepth }
              { x := exampleRegion.width, y := exampleRegion.height, z := exampleRegion.depth }
              none).map (fun r => (r.1, r.2, device1)) := by
  obtain ⟨cl1, device1, alloc, hfrom, hto, _⟩ :=
    image_copy_slicePitch_from_memory_is_one exampleExternal exampleCopyOnlyCommandList
      exampleDevice exampleImageArray 65536 exampleRegion none 0 none rfl rfl
  exact ⟨rfl, rfl, by decide, cl1, device1, alloc, hfrom, hto⟩

/-- Evaluations for C29: the pitches the three copies of the witness pass to the blit
(source row, source slice, destination row, destination slice), the pitches the two copies
from and to memory bind to argument 4 of their kernels on the compute list, and, for
comparison, the blit pitches of the 2D image `exampleImage`, where the copies agree. -/
theorem image_copy_pitches_examples :
    ((appendImageCopyFromMemory exampleExternal exampleCopyOnlyCommandList exampleDevice
        exampleImageArray 65536 (some exampleRegion) none 0 none).map
        (fun r => r.2.1.commandContainer.commandStream.filterMap Command.imagePitches)
      = some [(80, 1, 80, 1)]
      ∧ (appendImageCopyToMemory exampleExternal exampleCopyOnlyCommandList exampleDevice
          65536 exampleImageArray (some exampleRegion) none 0 none).map
          (fun r => r.2.1.commandContainer.commandStream.filterMap Command.imagePitches)
        = some [(80, 80, 80, 80)]
      ∧ (appendImageCopyRegion exampleExternal exampleCopyOnlyCommandList exampleDevice
          exampleImageArray exampleImageArray (some exampleRegion) (some exampleRegion) none
          0 none).map
          (fun r => r.2.1.commandContainer.commandStream.filterMap Command.imagePitches)
        = some [(80, 80, 80, 80)])
    ∧ ((appendImageCopyFromMemory exampleExternal exampleCommandList exampleDevice
        exampleImageArray 65536 (some exampleRegion) none 0 none).map
        (fun r => (r.2.2.getKernel
          (BuiltinKernelId.function Builtin.CopyBufferToImage3d4Bytes)).getArg 4)
      = some (some (KernelArg.value 8 [80, 1]))
      ∧ (appendImageCopyToMemory exampleExternal exampleCommandList exampleDevice 65536
          exampleImageArray (some exampleRegion) none 0 none).map
          (fun r => (r.2.2.getKernel
            (BuiltinKernelId.imageFunction ImageBuiltin.CopyImage3dToBuffer4Bytes)).getArg 4)
        = some (some (KernelArg.value 8 [80, 80])))
    ∧ ((appendImageCopyFromMemory exampleExternal exampleCopyOnlyCommandList exampleDevice
        exampleImage 65536 (some exampleRegion) none 0 none).map
        (fun r => r.2.1.commandContainer.commandStream.filterMap Command.imagePitches)
      = some [(80, 320, 80, 320)]
      ∧ (appendImageCopyToMemory exampleExternal exampleCopyOnlyCommandList exampleDevice
          65536 exampleImage (some exampleRegion) none 0 none).map
          (fun r => r.2.1.commandContainer.commandStream.filterMap Command.imagePitches)
        = some [(80, 320, 80, 320)]) := by
  refine ⟨⟨?_, ?_, ?_⟩, ⟨?_, ?_⟩, ?_, ?_⟩ <;> decide

/-! ## Theorems: one operation for each segment of `appendMemoryCopy` -/

/-- A blit command encoded into the stream is the last blit command of the list. -/
theorem blitCommands_encode_blit (cl : CommandList) (cc : CommandContainer) (cmd : Command)
    (hcmd : cmd.isBlit = true) :
    blitCommands { cl with commandContainer := cc.encode cmd }
      = blitCommands { cl with commandContainer := cc } ++ [cmd] := by
  simp [blitCommands, CommandContainer.encode, List.filter_append, hcmd]

/-- `appendMemoryCopyBlit` succeeds, keeps the mode, adds its one blit command to the blit
commands of the list, and launches nothing. -/
theorem appendMemoryCopyBlit_blits (ext : External) (hmode : ExternalKeepsModeAndBlits ext)
    (hlaunches : ExternalKeepsLaunches ext) (cl : CommandList)
    (dstPtrAlloc : GraphicsAllocation) (dstOffset : Nat) (srcPtrAlloc : GraphicsAllocation)
    (srcOffset size : Nat) (hSignalEvent : ze_event_handle_t) :
    ∃ cl1 : CommandList,
      appendMemoryCopyBlit ext cl dstPtrAlloc dstOffset srcPtrAlloc srcOffset size hSignalEvent
          = some (ze_result_t.ZE_RESULT_SUCCESS, cl1)
        ∧ cl1.isCopyOnlyCmdList = cl.isCopyOnlyCmdList
        ∧ blitCommands cl1
            = blitCommands cl
              ++ [Command.blitCommandsForBuffer
                    (BlitProperties.constructPropertiesForCopyBuffer dstPtrAlloc srcPtrAlloc
                      { x := dstOffset, y := 0, z := 0 } { x := srcOffset, y := 0, z := 0 }
                      { x := size, y := 0, z := 0 } 0 0 0 0)]
        ∧ launches cl1 = launches cl := by
  unfold appendMemoryCopyBlit
  simp only
  obtain ⟨blit, hblit⟩ : ∃ blit : Command, blit = Command.blitCommandsForBuffer
      (BlitProperties.constructPropertiesForCopyBuffer dstPtrAlloc srcPtrAlloc
        { x := dstOffset, y := 0, z := 0 } { x := srcOffset, y := 0, z := 0 }
        { x := size, y := 0, z := 0 } 0 0 0 0) := ⟨_, rfl⟩
  have hisBlit : blit.isBlit = true := by rw [hblit]; rfl
  have hlaunch : blit.launch = none := by rw [hblit]; rfl
  rw [← hblit]
  obtain ⟨cc0, hcc0⟩ : ∃ cc0 : CommandContainer,
      cc0 = (cl.commandContainer.addToResidencyContainer dstPtrAlloc).addToResidencyContainer
        srcPtrAlloc := ⟨_, rfl⟩
  rw [← hcc0]
  obtain ⟨cl0, hcl0⟩ : ∃ cl0 : CommandList, cl0 = { cl with commandContainer := cc0 } :=
    ⟨_, rfl⟩
  rw [← hcl0]
  have hm0 : modeAndBlits cl0 = modeAndBlits cl := by rw [hcl0, hcc0]; rfl
  have hl0 : launches cl0 = launches cl := by rw [hcl0, hcc0]; rfl
  have hmp := hmode.profiling cl0 hSignalEvent true
  have hlp := hlaunches.profiling cl0 hSignalEvent true
  obtain ⟨clp, hclp⟩ : ∃ clp : CommandList,
      clp = ext.appendEventForProfiling cl0 hSignalEvent true := ⟨_, rfl⟩
  rw [← hclp] at hmp hlp ⊢
  obtain ⟨cl1, h1⟩ := Option.isSome_iff_exists.mp
    (appendSignalEventPostWalker_isSome ext
      { clp with commandContainer := clp.commandContainer.encode blit } hSignalEvent)
  have hm1 := appendSignalEventPostWalker_modeAndBlits ext hmode _ _ _ h1
  have hl1 := appendSignalEventPostWalker_launches ext hlaunches _ _ _ h1
  rw [h1]
  refine ⟨cl1, rfl, ?_, ?_, ?_⟩
  · have := congrArg Prod.fst hm1
    have h2 := congrArg Prod.fst (hmp.trans hm0)
    simp only [modeAndBlits] at this h2
    rw [this, ← h2]
  · have := congrArg Prod.snd hm1
    have h2 := congrArg Prod.snd (hmp.trans hm0)
    simp only [modeAndBlits] at this h2
    rw [this, blitCommands_encode_blit _ _ _ hisBlit, ← h2]
  · rw [hl1, launches_encode, hlaunch, ← hl0, ← hlp]
    simp [launches]

/-- On a copy-only list every segment adds its one blit command, at the offsets of the two
allocations plus the start of the segment, and launches nothing. -/
theorem foldl_copySegment_blits (ext : External) (hmode : ExternalKeepsModeAndBlits ext)
    (hlaunches : ExternalKeepsLaunches ext)
    (dstA srcA : AlignedAllocationData) (hSignalEvent : ze_event_handle_t)
    (segs : List ExpectedSegment) :
    ∀ (cl : CommandList) (device : Device), cl.isCopyOnlyCmdList = true →
      ∃ cl1 : CommandList,
        segs.foldl
            (fun (state : Option (ze_result_t × CommandList × Device))
                (seg : ExpectedSegment) =>
              state.bind fun st =>
                if st.1 = ze_result_t.ZE_RESULT_SUCCESS then
                  appendMemoryCopy.copySegment ext st.2.1 st.2.2 dstA srcA
                    (dstA.offset + seg.start) (srcA.offset + seg.start) seg.size
                    seg.elementSize seg.builtin hSignalEvent
                else some st)
            (some (ze_result_t.ZE_RESULT_SUCCESS, cl, device))
          = some (ze_result_t.ZE_RESULT_SUCCESS, cl1, device)
        ∧ cl1.isCopyOnlyCmdList = true
        ∧ blitCommands cl1
            = blitCommands cl
              ++ (segs.map fun seg =>
                  Command.blitCommandsForBuffer
                    (BlitProperties.constructPropertiesForCopyBuffer dstA.alloc srcA.alloc
                      { x := dstA.offset + seg.start, y := 0, z := 0 }
                      { x := srcA.offset + seg.start, y := 0, z := 0 }
                      { x := toUint32 seg.size, y := 0, z := 0 } 0 0 0 0))
        ∧ launches cl1 = launches cl := by
  induction segs with
  | nil => intro cl device hcopy; exact ⟨cl, rfl, hcopy, by simp, rfl⟩
  | cons seg rest ih =>
    intro cl device hcopy
    obtain ⟨cl1, h1, hmode1, hblits1, hlaunch1⟩ := appendMemoryCopyBlit_blits ext hmode
      hlaunches cl dstA.alloc (dstA.offset + seg.start) srcA.alloc (srcA.offset + seg.start)
      (toUint32 seg.size) hSignalEvent
    obtain ⟨cl2, h2, hmode2, hblits2, hlaunch2⟩ := ih cl1 device (hmode1.trans hcopy)
    refine ⟨cl2, ?_, hmode2, ?_, hlaunch2.trans hlaunch1⟩
    · rw [List.foldl_cons]
      simp only [Option.some_bind, if_true, appendMemoryCopy.copySegment, hcopy, h1,
        Option.map_some']
      exact h2
    · rw [hblits2, hblits1]
      simp

/-- Setting the group size changes neither the handle, the SIMD size nor the arguments of a
kernel. -/
theorem setGroupSize_keeps (ext : External) (k : Kernel) (x y z : Nat) :
    (k.setGroupSize ext x y z).2.handle = k.handle
      ∧ (k.setGroupSize ext x y z).2.simdSize = k.simdSize
      ∧ (k.setGroupSize ext x y z).2.args = k.args := by
  unfold Kernel.setGroupSize
  simp only
  split <;> exact ⟨rfl, rfl, rfl⟩

/-- Another kernel object of the device is not touched when one is changed. -/
theorem getKernel_setKernel_ne (device : Device) (id other : BuiltinKernelId) (k : Kernel)
    (h : other ≠ id) : (device.setKernel id k).getKernel other = device.getKernel other := by
  simp [Device.getKernel, Device.setKernel, Function.update_noteq h]

/-- `getAlignedAllocation` leaves the kernel objects of the device alone. -/
theorem getAlignedAllocation_getKernel (ext : External) (cl : CommandList) (device : Device)
    (buffer bufferSize : Nat) (id : BuiltinKernelId) :
    (getAlignedAllocation ext cl device buffer bufferSize).2.2.getKernel id
      = device.getKernel id := by
  unfold getAlignedAllocation
  cases device.findAllocationDataForRange buffer bufferSize <;> rfl

/-- The expected segments have elements of 1 byte or of 16 bytes. -/
theorem expectedSegments_elementSize (dstptr srcptr size : Nat) (seg : ExpectedSegment)
    (hseg : seg ∈ appendMemoryCopy.expectedSegments dstptr srcptr size) :
    seg.elementSize = 1 ∨ seg.elementSize = 16 := by
  unfold appendMemoryCopy.expectedSegments at hseg
  have hmem := (List.mem_filter.mp hseg).1
  simp only [List.mem_cons, List.mem_singleton, List.not_mem_nil, or_false] at hmem
  rcases hmem with h | h | h <;> rw [h] <;> simp

/-- On a compute list, the statement that copies one segment is one call of
`appendLaunchKernel`: the copy kernel, which accepts its SIMD size as group width, is
launched with its five arguments bound, and the device holds the kernel object so
configured. -/
theorem copySegment_compute_launch (ext : External) (cl : CommandList) (device : Device)
    (dstA srcA : AlignedAllocationData) (dstOffset srcOffset size elementSize : Nat)
    (builtin : Builtin) (hSignalEvent : ze_event_handle_t)
    (hcompute : cl.isCopyOnlyCmdList = false)
    (hset : ∀ k x, 0 < x → ext.setGroupSizeResult k x 1 1 = ze_result_t.ZE_RESULT_SUCCESS)
    (hsimd : 0 < (device.getKernel (BuiltinKernelId.function builtin)).simdSize)
    (hel : elementSize ≠ 0)
    (hgb : toUint32 ((device.getKernel (BuiltinKernelId.function builtin)).simdSize
      * elementSize) ≠ 0)
    (k : Kernel)
    (hk : k = ((((((device.getKernel (BuiltinKernelId.function builtin)).setGroupSize ext
        (device.getKernel (BuiltinKernelId.function builtin)).simdSize 1 1).2.setArgBufferWithAlloc
          0 dstA.alignedAllocationPtr dstA.alloc).setArgBufferWithAlloc
          1 srcA.alignedAllocationPtr srcA.alloc).setArgumentValue
          2 4 [toUint32 size / elementSize]).setArgumentValue
          3 8 [dstOffset]).setArgumentValue 4 8 [srcOffset]) :
    appendMemoryCopy.copySegment ext cl device dstA srcA dstOffset srcOffset size elementSize
        builtin hSignalEvent
      = (appendLaunchKernel ext cl k.handle
          (some (GroupCountPtr.hostStruct
            { groupCountX :=
                toUint32 (toUint32 size
                    + (toUint32 ((device.getKernel (BuiltinKernelId.function builtin)).simdSize
                        * elementSize) - 1))
                  / toUint32 ((device.getKernel (BuiltinKernelId.function builtin)).simdSize
                      * elementSize),
              groupCountY := 1, groupCountZ := 1 }))
          none 0 none).map
        fun r => (r.1, r.2, device.setKernel (BuiltinKernelId.function builtin) k) := by
  unfold appendMemoryCopy.copySegment appendMemoryCopyKernelWithGA
  simp only [hcompute, Bool.false_eq_true, if_false, Kernel.setGroupSize, hset _ _ hsimd,
    ne_eq, not_true_eq_false, hel, hgb, if_true] at hk ⊢
  rw [hk]

/-- The arguments of the kernel object a segment is launched with. -/
theorem copySegment_kernel_args (ext : External) (k0 : Kernel) (x : Nat)
    (dstA srcA : AlignedAllocationData) (elems dstOffset srcOffset : Nat) (k : Kernel)
    (hk : k = (((((k0.setGroupSize ext x 1 1).2.setArgBufferWithAlloc
          0 dstA.alignedAllocationPtr dstA.alloc).setArgBufferWithAlloc
          1 srcA.alignedAllocationPtr srcA.alloc).setArgumentValue
          2 4 [elems]).setArgumentValue
          3 8 [dstOffset]).setArgumentValue 4 8 [srcOffset]) :
    k.handle = k0.handle
      ∧ k.simdSize = k0.simdSize
      ∧ k.getArg 0 = some (KernelArg.bufferWithAlloc dstA.alignedAllocationPtr dstA.alloc)
      ∧ k.getArg 1 = some (KernelArg.bufferWithAlloc srcA.alignedAllocationPtr srcA.alloc)
      ∧ k.getArg 2 = some (KernelArg.value 4 [elems])
      ∧ k.getArg 3 = some (KernelArg.value 8 [dstOffset])
      ∧ k.getArg 4 = some (KernelArg.value 8 [srcOffset]) := by
  have hg := setGroupSize_keeps ext k0 x 1 1
  rw [hk]
  simp only [Kernel.setArgBufferWithAlloc, Kernel.setArgumentValue]
  refine ⟨hg.1, hg.2.1, ?_, ?_, ?_, ?_, ?_⟩
  · rw [getArg_setArg_ne _ 0 4 _ (by decide), getArg_setArg_ne _ 0 3 _ (by decide),
      getArg_setArg_ne _ 0 2 _ (by decide), getArg_setArg_ne _ 0 1 _ (by decide),
      getArg_setArg_same]
  · rw [getArg_setArg_ne _ 1 4 _ (by decide), getArg_setArg_ne _ 1 3 _ (by decide),
      getArg_setArg_ne _ 1 2 _ (by decide), getArg_setArg_same]
  · rw [getArg_setArg_ne _ 2 4 _ (by decide), getArg_setArg_ne _ 2 3 _ (by decide),
      getArg_setArg_same]
  · rw [getArg_setArg_ne _ 3 4 _ (by decide), getArg_setArg_same]
  · rw [getArg_setArg_same]

/-- On a compute list the statements that copy the segments are, one after the other, one
call of `appendLaunchKernel` each, as long as every launch keeps the condition `Inv` on the
kernel objects of the device. -/
theorem foldl_copySegment_eq_launch (ext : External) (hmode : ExternalKeepsModeAndBlits ext)
    (dstA srcA : AlignedAllocationData) (hSignalEvent : ze_event_handle_t)
    (kernelOf : ExpectedSegment → Device → Kernel) (G : ExpectedSegment → ze_group_count_t)
    (Inv : Device → Prop) (segs : List ExpectedSegment)
    (hstep : ∀ seg ∈ segs, ∀ (cl : CommandList) (d : Device),
      cl.isCopyOnlyCmdList = false → Inv d →
      appendMemoryCopy.copySegment ext cl d dstA srcA (dstA.offset + seg.start)
          (srcA.offset + seg.start) seg.size seg.elementSize seg.builtin hSignalEvent
        = (appendLaunchKernel ext cl (kernelOf seg d).handle
            (some (GroupCountPtr.hostStruct (G seg))) none 0 none).map
          fun r => (r.1, r.2, d.setKernel (BuiltinKernelId.function seg.builtin)
            (kernelOf seg d)))
    (hinv : ∀ seg ∈ segs, ∀ d : Device, Inv d →
      Inv (d.setKernel (BuiltinKernelId.function seg.builtin) (kernelOf seg d))) :
    ∀ o : Option (ze_result_t × CommandList × Device),
      (∀ st, o = some st → st.1 = ze_result_t.ZE_RESULT_SUCCESS →
        st.2.1.isCopyOnlyCmdList = false ∧ Inv st.2.2) →
      segs.foldl
          (fun (state : Option (ze_result_t × CommandList × Device))
              (seg : ExpectedSegment) =>
            state.bind fun st =>
              if st.1 = ze_result_t.ZE_RESULT_SUCCESS then
                appendMemoryCopy.copySegment ext st.2.1 st.2.2 dstA srcA
                  (dstA.offset + seg.start) (srcA.offset + seg.start) seg.size
                  seg.elementSize seg.builtin hSignalEvent
              else some st) o
        = segs.foldl
          (fun (state : Option (ze_result_t × CommandList × Device))
              (seg : ExpectedSegment) =>
            state.bind fun st =>
              if st.1 = ze_result_t.ZE_RESULT_SUCCESS then
                (appendLaunchKernel ext st.2.1 (kernelOf seg st.2.2).handle
                    (some (GroupCountPtr.hostStruct (G seg))) none 0 none).map
                  fun r => (r.1, r.2, st.2.2.setKernel (BuiltinKernelId.function seg.builtin)
                    (kernelOf seg st.2.2))
              else some st) o := by
  induction segs with
  | nil => intro o _; rfl
  | cons seg rest ih =>
    intro o hgood
    rw [List.foldl_cons, List.foldl_cons]
    have hrest := ih (fun s hs => hstep s (List.mem_cons_of_mem _ hs))
      (fun s hs => hinv s (List.mem_cons_of_mem _ hs))
    cases o with
    | none => exact hrest none (fun st h => by simp at h)
    | some st =>
      by_cases hs : st.1 = ze_result_t.ZE_RESULT_SUCCESS
      · have hg := hgood st rfl hs
        simp only [Option.some_bind, hs, if_true]
        rw [hstep seg (List.mem_cons_self _ _) st.2.1 st.2.2 hg.1 hg.2]
        apply hrest
        intro st1 hst1 _
        rw [Option.map_eq_some'] at hst1
        obtain ⟨r, hr, hst1⟩ := hst1
        have hm := mode_of_modeAndBlits _ _
          (appendLaunchKernel_modeAndBlits ext hmode _ _ _ _ _ _ r hr)
        rw [← hst1]
        exact ⟨hm.trans hg.1, hinv seg (List.mem_cons_self _ _) st.2.2 hg.2⟩
      · simp only [Option.some_bind, hs, if_false]
        apply hrest
        intro st1 hst1 hs1
        simp only [Option.some.injEq] at hst1
        rw [← hst1] at hs1
        exact absurd hs1 hs

/-- With the recording launch function every call of `appendLaunchKernel` of the segments
succeeds and records its launch; no blit command is encoded. -/
theorem foldl_launch_recording (ext : External) (hmode : ExternalKeepsModeAndBlits ext)
    (hlaunches : ExternalKeepsLaunches ext)
    (kernelOf : ExpectedSegment → Device → Kernel) (G : ExpectedSegment → ze_group_count_t)
    (H : ExpectedSegment → ze_kernel_handle_t)
    (Inv : Device → Prop) (segs : List ExpectedSegment)
    (hhandle : ∀ seg ∈ segs, ∀ d : Device, Inv d → (kernelOf seg d).handle = H seg)
    (hinv : ∀ seg ∈ segs, ∀ d : Device, Inv d →
      Inv (d.setKernel (BuiltinKernelId.function seg.builtin) (kernelOf seg d))) :
    ∀ (cl : CommandList) (d : Device), Inv d →
      ∃ (cl1 : CommandList) (d1 : Device),
        segs.foldl
            (fun (state : Option (ze_result_t × CommandList × Device))
                (seg : ExpectedSegment) =>
              state.bind fun st =>
                if st.1 = ze_result_t.ZE_RESULT_SUCCESS then
                  (appendLaunchKernel (ext.withLaunch recordingLaunch) st.2.1
                      (kernelOf seg st.2.2).handle
                      (some (GroupCountPtr.hostStruct (G seg))) none 0 none).map
                    fun r => (r.1, r.2,
                      st.2.2.setKernel (BuiltinKernelId.function seg.builtin)
                        (kernelOf seg st.2.2))
                else some st)
            (some (ze_result_t.ZE_RESULT_SUCCESS, cl, d))
          = some (ze_result_t.ZE_RESULT_SUCCESS, cl1, d1)
        ∧ modeAndBlits cl1 = modeAndBlits cl
        ∧ launches cl1 = launches cl ++ segs.map fun seg => (H seg, G seg) := by
  induction segs with
  | nil => intro cl d _; exact ⟨cl, d, rfl, rfl, by simp⟩
  | cons seg rest ih =>
    intro cl d hd
    have hrest := ih (fun s hs => hhandle s (List.mem_cons_of_mem _ hs))
      (fun s hs => hinv s (List.mem_cons_of_mem _ hs))
    have hrec := recordingLaunch_launches (ext.appendEventForProfiling cl none true)
      (kernelOf seg d).handle (G seg) none false false
    obtain ⟨cl2, hcl2⟩ : ∃ cl2 : CommandList,
        cl2 = (recordingLaunch (ext.appendEventForProfiling cl none true)
          (kernelOf seg d).handle (some (GroupCountPtr.hostStruct (G seg))) none false
          false).2 := ⟨_, rfl⟩
    have hmode2 : modeAndBlits cl2 = modeAndBlits cl := by
      rw [hcl2]
      exact (modeAndBlits_encode (ext.appendEventForProfiling cl none true)
        (ext.appendEventForProfiling cl none true).commandContainer
        (Command.walker (kernelOf seg d).handle (some (GroupCountPtr.hostStruct (G seg)))
          false false) rfl).trans (hmode.profiling cl none true)
    have hlaunch2 : launches cl2 = launches cl ++ [(H seg, G seg)] := by
      rw [hcl2, hrec.2, hlaunches.profiling, hhandle seg (List.mem_cons_self _ _) d hd]
    obtain ⟨cl3, d3, h3, hmode3, hlaunch3⟩ := hrest cl2
      (d.setKernel (BuiltinKernelId.function seg.builtin) (kernelOf seg d))
      (hinv seg (List.mem_cons_self _ _) d hd)
    refine ⟨cl3, d3, ?_, hmode3.trans hmode2, ?_⟩
    · rw [List.foldl_cons]
      simp only [Option.some_bind, if_true, appendLaunchKernel_recording, Option.map_some']
      rw [hrec.1, ← hcl2]
      exact h3
    · rw [hlaunch3, hlaunch2]
      simp

/-- C23: `appendMemoryCopy` issues one operation for each segment that is not empty and none
for an empty one, in the order left, middle, right. The expected segments
(`appendMemoryCopy.expectedSegments`) are not empty, the first starts at 0, each starts
where the one before ends, and together they have the size of the copy; left and right have
elements of 1 byte and the kernel `CopyBufferToBufferSide`, the middle has elements of 16
bytes and the kernel `CopyBufferToBufferMiddle`. With `dstA` and `srcA` the records
`getAlignedAllocation` returns for the two pointers:
on a copy-only list the call succeeds and the blit commands of the list grow by exactly one
blit for each expected segment, in their order, at the offsets `dstA.offset + start` and
`srcA.offset + start` and of the size of the segment as `uint32_t`, and nothing is launched;
on a compute list, with the launches recorded by the launch function, the call succeeds and
exactly one launch is recorded for each expected segment, in their order, of the kernel of
the segment and with the groups that cover the segment in elements of its size, and no blit
command is encoded;
on a compute list, with any launch function, the call is one call of `appendLaunchKernel`
for each expected segment, as long as the launches succeed, with a kernel object that has
the two aligned pointers bound to the arguments 0 and 1, the number of elements to argument
2 and the offsets `dstA.offset + start` and `srcA.offset + start` to the arguments 3 and 4.
The two buffers lie within the 64-bit address space, the external functions keep the mode,
encode no blit and record no launch of their own, `setGroupSize` succeeds, and the SIMD
sizes of the kernels are positive and below `2 ^ 28`. -/
theorem appendMemoryCopy_issues_expected_segments (ext : External) (cl : CommandList)
    (device : Device) (dstptr srcptr size : Nat) (hSignalEvent : ze_event_handle_t)
    (numWaitEvents : Nat) (phWaitEvents : Option (List ze_event_handle_t))
    (dstA srcA : AlignedAllocationData) (cl1 cl2 : CommandList) (device1 device2 : Device)
    (hres1 : getAlignedAllocation ext cl device dstptr size = (dstA, cl1, device1))
    (hres2 : getAlignedAllocation ext cl1 device1 srcptr size = (srcA, cl2, device2))
    (hdst : dstptr + size < UINT64_MOD) (hsrc : srcptr + size < UINT64_MOD)
    (hmode : ExternalKeepsModeAndBlits ext) (hlaunches : ExternalKeepsLaunches ext)
    (hset : ∀ k x, 0 < x → ext.setGroupSizeResult k x 1 1 = ze_result_t.ZE_RESULT_SUCCESS)
    (hsimd : ∀ b : Builtin, 0 < (device.getKernel (BuiltinKernelId.function b)).simdSize
      ∧ (device.getKernel (BuiltinKernelId.function b)).simdSize * 16 < UINT32_MOD) :
    (0 ∉ (appendMemoryCopy.expectedSegments dstptr srcptr size).map ExpectedSegment.size
      ∧ ((appendMemoryCopy.expectedSegments dstptr srcptr size).head?.map
          ExpectedSegment.start).getD 0 = 0
      ∧ List.Chain' (fun a b : ExpectedSegment => a.start + a.size = b.start)
          (appendMemoryCopy.expectedSegments dstptr srcptr size)
      ∧ ((appendMemoryCopy.expectedSegments dstptr srcptr size).map ExpectedSegment.size).sum
          = size
      ∧ (∀ seg ∈ appendMemoryCopy.expectedSegments dstptr srcptr size,
          (seg.elementSize = 1 ∧ seg.builtin = Builtin.CopyBufferToBufferSide)
            ∨ (seg.elementSize = 16 ∧ seg.builtin = Builtin.CopyBufferToBufferMiddle))
      ∧ (size < UINT32_MOD → ∀ seg ∈ appendMemoryCopy.expectedSegments dstptr srcptr size,
          toUint32 seg.size = seg.size))
    ∧ (cl.isCopyOnlyCmdList = true →
        ∃ r, appendMemoryCopy ext cl device dstptr srcptr size hSignalEvent numWaitEvents
              phWaitEvents = some r
          ∧ r.1 = ze_result_t.ZE_RESULT_SUCCESS
          ∧ blitCommands r.2.1
              = blitCommands cl
                ++ ((appendMemoryCopy.expectedSegments dstptr srcptr size).map fun seg =>
                    Command.blitCommandsForBuffer
                      (BlitProperties.constructPropertiesForCopyBuffer dstA.alloc srcA.alloc
                        { x := dstA.offset + seg.start, y := 0, z := 0 }
                        { x := srcA.offset + seg.start, y := 0, z := 0 }
                        { x := toUint32 seg.size, y := 0, z := 0 } 0 0 0 0))
          ∧ launches r.2.1 = launches cl)
    ∧ (cl.isCopyOnlyCmdList = false →
        ∃ r, appendMemoryCopy (ext.withLaunch recordingLaunch) cl device dstptr srcptr size
              hSignalEvent numWaitEvents phWaitEvents = some r
          ∧ r.1 = ze_result_t.ZE_RESULT_SUCCESS
          ∧ launches r.2.1
              = launches cl
                ++ ((appendMemoryCopy.expectedSegments dstptr srcptr size).map fun seg =>
                    ((device.getKernel (BuiltinKernelId.function seg.builtin)).handle,
                      ({ groupCountX :=
                          toUint32 (toUint32 seg.size
                              + (toUint32
                                  ((device.getKernel
                                      (BuiltinKernelId.function seg.builtin)).simdSize
                                    * seg.elementSize) - 1))
                            / toUint32
                                ((device.getKernel
                                    (BuiltinKernelId.function seg.builtin)).simdSize
                                  * seg.elementSize),
                         groupCountY := 1, groupCountZ := 1 } : ze_group_count_t)))
          ∧ blitCommands r.2.1 = blitCommands cl)
    ∧ (cl.isCopyOnlyCmdList = false →
        ∃ kernelOf : ExpectedSegment → Device → Kernel,
          (∀ seg d,
            (kernelOf seg d).handle
                = (d.getKernel (BuiltinKernelId.function seg.builtin)).handle
              ∧ (kernelOf seg d).getArg 0
                = some (KernelArg.bufferWithAlloc dstA.alignedAllocationPtr dstA.alloc)
              ∧ (kernelOf seg d).getArg 1
                = some (KernelArg.bufferWithAlloc srcA.alignedAllocationPtr srcA.alloc)
              ∧ (kernelOf seg d).getArg 2
                = some (KernelArg.value 4 [toUint32 seg.size / seg.elementSize])
              ∧ (kernelOf seg d).getArg 3
                = some (KernelArg.value 8 [dstA.offset + seg.start])
              ∧ (kernelOf seg d).getArg 4
                = some (KernelArg.value 8 [srcA.offset + seg.start]))
          ∧ appendMemoryCopy ext cl device dstptr srcptr size hSignalEvent numWaitEvents
              phWaitEvents
            = (((appendMemoryCopy.expectedSegments dstptr srcptr size).foldl
                  (fun (state : Option (ze_result_t × CommandList × Device))
                      (seg : ExpectedSegment) =>
                    state.bind fun st =>
                      if st.1 = ze_result_t.ZE_RESULT_SUCCESS then
                        (appendLaunchKernel ext st.2.1 (kernelOf seg st.2.2).handle
                            (some (GroupCountPtr.hostStruct
                              { groupCountX :=
                                  toUint32 (toUint32 seg.size
                                      + (toUint32
                                          ((device.getKernel
                                              (BuiltinKernelId.function seg.builtin)).simdSize
                                            * seg.elementSize) - 1))
                                    / toUint32
                                        ((device.getKernel
                                            (BuiltinKernelId.function seg.builtin)).simdSize
                                          * seg.elementSize),
                                groupCountY := 1, groupCountZ := 1 }))
                            none 0 none).map
                          fun r => (r.1, r.2,
                            st.2.2.setKernel (BuiltinKernelId.function seg.builtin)
                              (kernelOf seg st.2.2))
                      else some st)
                  (some (ze_result_t.ZE_RESULT_SUCCESS,
                    ext.appendEventForProfiling cl2 hSignalEvent true, device2))).bind
                fun state =>
                  (appendSignalEventPostWalker ext state.2.1 hSignalEvent).map fun cl3 =>
                    (state.1,
                      if dstA.needsFlush && !cl3.isCopyOnlyCmdList then
                        { cl3 with
                          commandContainer :=
                            cl3.commandContainer.encode (Command.pipeControl true) }
                      else cl3,
                      state.2.2))) := by
  have htot := appendMemoryCopy_segments_total dstptr srcptr size (by omega)
  -- the state after the two pointers are resolved
  have hc1 := getAlignedAllocation_commandContainer ext cl device dstptr size
  have hk1 := getAlignedAllocation_getKernel ext cl device dstptr size
  rw [hres1] at hc1 hk1
  have hc2 := getAlignedAllocation_commandContainer ext cl1 device1 srcptr size
  have hk2 := getAlignedAllocation_getKernel ext cl1 device1 srcptr size
  rw [hres2] at hc2 hk2
  simp only at hc1 hk1 hc2 hk2
  have hmb2 : modeAndBlits cl2 = modeAndBlits cl := by
    simp [modeAndBlits, blitCommands, hc2.1, hc2.2, hc1.1, hc1.2]
  have hl2 : launches cl2 = launches cl := by
    simp [launches, hc2.1, hc1.1]
  have hmbp : modeAndBlits (ext.appendEventForProfiling cl2 hSignalEvent true)
      = modeAndBlits cl := (hmode.profiling _ _ _).trans hmb2
  have hlp : launches (ext.appendEventForProfiling cl2 hSignalEvent true) = launches cl :=
    (hlaunches.profiling _ _ _).trans hl2
  -- the external functions with the recording launch function
  have hmode' : ExternalKeepsModeAndBlits (ext.withLaunch recordingLaunch) :=
    { launch := fun c hKernel p _ isIndirect isPredicate =>
        modeAndBlits_encode c c.commandContainer
          (Command.walker hKernel p isIndirect isPredicate) rfl
      profiling := hmode.profiling
      managed := hmode.managed }
  have hlaunches' : ExternalKeepsLaunches (ext.withLaunch recordingLaunch) :=
    ⟨hlaunches.profiling, hlaunches.managed⟩
  -- the kernel object of a segment
  obtain ⟨K, hK⟩ : ∃ K : External → ExpectedSegment → Device → Kernel,
      ∀ e seg d, K e seg d
        = ((((((d.getKernel (BuiltinKernelId.function seg.builtin)).setGroupSize e
            (d.getKernel (BuiltinKernelId.function seg.builtin)).simdSize 1
            1).2.setArgBufferWithAlloc
              0 dstA.alignedAllocationPtr dstA.alloc).setArgBufferWithAlloc
              1 srcA.alignedAllocationPtr srcA.alloc).setArgumentValue
              2 4 [toUint32 seg.size / seg.elementSize]).setArgumentValue
              3 8 [dstA.offset + seg.start]).setArgumentValue
              4 8 [srcA.offset + seg.start] :=
    ⟨fun e seg d => _, fun _ _ _ => rfl⟩
  obtain ⟨G, hG⟩ : ∃ G : ExpectedSegment → ze_group_count_t,
      ∀ seg, G seg
        = { groupCountX :=
              toUint32 (toUint32 seg.size
                  + (toUint32
                      ((device.getKernel (BuiltinKernelId.function seg.builtin)).simdSize
                        * seg.elementSize) - 1))
                / toUint32
                    ((device.getKernel (BuiltinKernelId.function seg.builtin)).simdSize
                      * seg.elementSize),
            groupCountY := 1, groupCountZ := 1 } :=
    ⟨fun seg => _, fun _ => rfl⟩
  have hargs := fun e seg d =>
    copySegment_kernel_args e (d.getKernel (BuiltinKernelId.function seg.builtin))
      (d.getKernel (BuiltinKernelId.function seg.builtin)).simdSize dstA srcA
      (toUint32 seg.size / seg.elementSize) (dstA.offset + seg.start)
      (srcA.offset + seg.start) (K e seg d) (hK e seg d)
  have hsegs := expectedSegments_elementSize dstptr srcptr size
  have hinv : ∀ (e : External), ∀ seg ∈ appendMemoryCopy.expectedSegments dstptr srcptr size,
      ∀ d : Device,
      (∀ b : Builtin,
        (d.getKernel (BuiltinKernelId.function b)).handle
            = (device.getKernel (BuiltinKernelId.function b)).handle
          ∧ (d.getKernel (BuiltinKernelId.function b)).simdSize
            = (device.getKernel (BuiltinKernelId.function b)).simdSize) →
      ∀ b : Builtin,
        ((d.setKernel (BuiltinKernelId.function seg.builtin) (K e seg d)).getKernel
              (BuiltinKernelId.function b)).handle
            = (device.getKernel (BuiltinKernelId.function b)).handle
          ∧ ((d.setKernel (BuiltinKernelId.function seg.builtin) (K e seg d)).getKernel
              (BuiltinKernelId.function b)).simdSize
            = (device.getKernel (BuiltinKernelId.function b)).simdSize := by
    intro e seg _ d hd b
    by_cases hb : b = seg.builtin
    · subst hb
      rw [getKernel_setKernel, (hargs e seg d).1, (hargs e seg d).2.1]
      exact hd seg.builtin
    · rw [getKernel_setKernel_ne _ _ _ _ (fun h => hb (BuiltinKernelId.function.inj h))]
      exact hd b
  have hstep : ∀ (e : External),
      (∀ k x, 0 < x → e.setGroupSizeResult k x 1 1 = ze_result_t.ZE_RESULT_SUCCESS) →
      ∀ seg ∈ appendMemoryCopy.expectedSegments dstptr srcptr size,
      ∀ (c : CommandList) (d : Device), c.isCopyOnlyCmdList = false →
      (∀ b : Builtin,
        (d.getKernel (BuiltinKernelId.function b)).handle
            = (device.getKernel (BuiltinKernelId.function b)).handle
          ∧ (d.getKernel (BuiltinKernelId.function b)).simdSize
            = (device.getKernel (BuiltinKernelId.function b)).simdSize) →
      appendMemoryCopy.copySegment e c d dstA srcA (dstA.offset + seg.start)
          (srcA.offset + seg.start) seg.size seg.elementSize seg.builtin hSignalEvent
        = (appendLaunchKernel e c (K e seg d).handle
            (some (GroupCountPtr.hostStruct (G seg))) none 0 none).map
          fun r => (r.1, r.2, d.setKernel (BuiltinKernelId.function seg.builtin)
            (K e seg d)) := by
    intro e he seg hseg c d hc hd
    rw [hG]
    have hs := hsimd seg.builtin
    have hsd := (hd seg.builtin).2
    have hel := hsegs seg hseg
    have h := copySegment_compute_launch e c d dstA srcA (dstA.offset + seg.start)
      (srcA.offset + seg.start) seg.size seg.elementSize seg.builtin hSignalEvent hc he
      (by rw [hsd]; exact hs.1) (by rcases hel with h | h <;> rw [h] <;> decide)
      (by
        rw [hsd]
        simp only [toUint32, UINT32_MOD] at hs ⊢
        rcases hel with h | h <;> rw [h] <;> omega)
      (K e seg d) (hK e seg d)
    rw [hsd] at h
    exact h
  have hdevice2 : ∀ b : Builtin,
      (device2.getKernel (BuiltinKernelId.function b)).handle
          = (device.getKernel (BuiltinKernelId.function b)).handle
        ∧ (device2.getKernel (BuiltinKernelId.function b)).simdSize
          = (device.getKernel (BuiltinKernelId.function b)).simdSize := by
    intro b
    rw [hk2, hk1]
    exact ⟨rfl, rfl⟩
  refine ⟨⟨?_, ?_, ?_, ?_, ?_, ?_⟩, ?_, ?_, ?_⟩
  · unfold appendMemoryCopy.expectedSegments
    generalize appendMemoryCopy.segments dstptr srcptr size = s at htot ⊢
    by_cases hl : s.leftSize = 0 <;> by_cases hm : s.middleSizeBytes = 0 <;>
      by_cases hr : s.rightSize = 0 <;>
      simp [hl, hm, hr] <;> try omega
  · unfold appendMemoryCopy.expectedSegments
    generalize appendMemoryCopy.segments dstptr srcptr size = s at htot ⊢
    by_cases hl : s.leftSize = 0 <;> by_cases hm : s.middleSizeBytes = 0 <;>
      by_cases hr : s.rightSize = 0 <;>
      simp [hl, hm, hr]
  · unfold appendMemoryCopy.expectedSegments
    generalize appendMemoryCopy.segments dstptr srcptr size = s at htot ⊢
    by_cases hl : s.leftSize = 0 <;> by_cases hm : s.middleSizeBytes = 0 <;>
      by_cases hr : s.rightSize = 0 <;>
      simp [hl, hm, hr]
  · unfold appendMemoryCopy.expectedSegments
    generalize appendMemoryCopy.segments dstptr srcptr size = s at htot ⊢
    by_cases hl : s.leftSize = 0 <;> by_cases hm : s.middleSizeBytes = 0 <;>
      by_cases hr : s.rightSize = 0 <;>
      simp [hl, hm, hr] <;> try omega
  · intro seg hseg
    unfold appendMemoryCopy.expectedSegments at hseg
    have hmem := (List.mem_filter.mp hseg).1
    simp only [List.mem_cons, List.mem_singleton, List.not_mem_nil, or_false] at hmem
    rcases hmem with h | h | h <;> rw [h] <;> simp
  · intro hsmall seg hseg
    unfold appendMemoryCopy.expectedSegments at hseg
    have hmem := (List.mem_filter.mp hseg).1
    generalize appendMemoryCopy.segments dstptr srcptr size = s at htot hmem
    simp only [List.mem_cons, List.mem_singleton, List.not_mem_nil, or_false] at hmem
    rcases hmem with h | h | h <;> rw [h] <;> simp only [toUint32] <;>
      apply Nat.mod_eq_of_lt <;> omega
  · -- a copy-only list
    intro hcopy
    rw [appendMemoryCopy_eq_foldl ext cl device dstptr srcptr size hSignalEvent numWaitEvents
      phWaitEvents dstA srcA cl1 cl2 device1 device2 hres1 hres2 hdst hsrc]
    have hcopyp : (ext.appendEventForProfiling cl2 hSignalEvent true).isCopyOnlyCmdList
        = true := (mode_of_modeAndBlits _ _ hmbp).trans hcopy
    obtain ⟨cl3, h3, hmode3, hblits3, hlaunch3⟩ := foldl_copySegment_blits ext hmode
      hlaunches dstA srcA hSignalEvent (appendMemoryCopy.expectedSegments dstptr srcptr size)
      (ext.appendEventForProfiling cl2 hSignalEvent true) device2 hcopyp
    rw [h3]
    obtain ⟨cl4, h4⟩ := Option.isSome_iff_exists.mp
      (appendSignalEventPostWalker_isSome ext cl3 hSignalEvent)
    have hm4 := appendSignalEventPostWalker_modeAndBlits ext hmode _ _ _ h4
    have hl4 := appendSignalEventPostWalker_launches ext hlaunches _ _ _ h4
    simp only [Option.some_bind, h4, Option.map_some']
    refine ⟨_, rfl, rfl, ?_, ?_⟩
    · have h := (modeAndBlits_flush ((dstA.needsFlush && !cl4.isCopyOnlyCmdList) = true)
        cl4).trans hm4
      have hb := congrArg Prod.snd h
      have hp := congrArg Prod.snd hmbp
      simp only [modeAndBlits] at hb hp
      refine hb.trans ?_
      rw [hblits3, hp]
    · refine (launches_flush ((dstA.needsFlush && !cl4.isCopyOnlyCmdList) = true)
        cl4).trans ?_
      rw [hl4, hlaunch3, hlp]
  · -- a compute list, the launches recorded
    intro hcompute
    rw [appendMemoryCopy_eq_foldl (ext.withLaunch recordingLaunch) cl device dstptr srcptr
      size hSignalEvent numWaitEvents phWaitEvents dstA srcA cl1 cl2 device1 device2 hres1
      hres2 hdst hsrc]
    have hcomputep : (ext.appendEventForProfiling cl2 hSignalEvent true).isCopyOnlyCmdList
        = false := (mode_of_modeAndBlits _ _ hmbp).trans hcompute
    rw [foldl_copySegment_eq_launch (ext.withLaunch recordingLaunch) hmode' dstA srcA
      hSignalEvent (K (ext.withLaunch recordingLaunch)) G _
      (appendMemoryCopy.expectedSegments dstptr srcptr size)
      (hstep (ext.withLaunch recordingLaunch) hset)
      (hinv (ext.withLaunch recordingLaunch)) _
      (fun st hst _ => by
        simp only [Option.some.injEq] at hst
        rw [← hst]
        exact ⟨hcomputep, hdevice2⟩)]
    obtain ⟨cl3, d3, h3, hmode3, hlaunch3⟩ := foldl_launch_recording ext hmode hlaunches
      (K (ext.withLaunch recordingLaunch)) G
      (fun seg => (device.getKernel (BuiltinKernelId.function seg.builtin)).handle) _
      (appendMemoryCopy.expectedSegments dstptr srcptr size)
      (fun seg _ d hd =>
        ((hargs (ext.withLaunch recordingLaunch) seg d).1).trans (hd seg.builtin).1)
      (hinv (ext.withLaunch recordingLaunch))
      (ext.appendEventForProfiling cl2 hSignalEvent true) device2 hdevice2
    have hprof : (ext.withLaunch recordingLaunch).appendEventForProfiling
        = ext.appendEventForProfiling := rfl
    rw [hprof, h3]
    obtain ⟨cl4, h4⟩ := Option.isSome_iff_exists.mp
      (appendSignalEventPostWalker_isSome (ext.withLaunch recordingLaunch) cl3 hSignalEvent)
    have hm4 := appendSignalEventPostWalker_modeAndBlits _ hmode' _ _ _ h4
    have hl4 := appendSignalEventPostWalker_launches _ hlaunches' _ _ _ h4
    simp only [Option.some_bind, h4, Option.map_some']
    refine ⟨_, rfl, rfl, ?_, ?_⟩
    · refine (launches_flush ((dstA.needsFlush && !cl4.isCopyOnlyCmdList) = true)
        cl4).trans ?_
      rw [hl4, hlaunch3, hlp]
      simp only [hG]
    · have h := ((modeAndBlits_flush ((dstA.needsFlush && !cl4.isCopyOnlyCmdList) = true)
        cl4).trans hm4).trans (hmode3.trans hmbp)
      exact congrArg Prod.snd h
  · -- a compute list, any launch function
    intro hcompute
    have hcomputep : (ext.appendEventForProfiling cl2 hSignalEvent true).isCopyOnlyCmdList
        = false := (mode_of_modeAndBlits _ _ hmbp).trans hcompute
    refine ⟨K ext, fun seg d => ⟨(hargs ext seg d).1, (hargs ext seg d).2.2⟩, ?_⟩
    rw [appendMemoryCopy_eq_foldl ext cl device dstptr srcptr size hSignalEvent numWaitEvents
      phWaitEvents dstA srcA cl1 cl2 device1 device2 hres1 hres2 hdst hsrc]
    rw [foldl_copySegment_eq_launch ext hmode dstA srcA hSignalEvent (K ext) G _
      (appendMemoryCopy.expectedSegments dstptr srcptr size) (hstep ext hset) (hinv ext) _
      (fun st hst _ => by
        simp only [Option.some.injEq] at hst
        rw [← hst]
        exact ⟨hcomputep, hdevice2⟩)]
    simp only [hG]

/-- Witness of C23: 300 bytes to `0x10003` from `0x101d3` on the example device (SIMD 32);
the segments are 61, 192 and 47 bytes long. On the copy-only example list three blits are
encoded, at the offsets 3, 64 and 256 of both allocations; on the compute example list
three launches are recorded, `Side` (handle 1) with 2 groups, `Middle` (handle 2) with 1
group and `Side` with 2 groups. -/
theorem appendMemoryCopy_issues_expected_segments_witness :
    (65539 + 300 < UINT64_MOD ∧ 66003 + 300 < UINT64_MOD
      ∧ ExternalKeepsModeAndBlits exampleExternal ∧ ExternalKeepsLaunches exampleExternal
      ∧ (∀ k x, 0 < x →
          exampleExternal.setGroupSizeResult k x 1 1 = ze_result_t.ZE_RESULT_SUCCESS)
      ∧ (∀ b : Builtin,
          0 < (exampleDevice.getKernel (BuiltinKernelId.function b)).simdSize
            ∧ (exampleDevice.getKernel (BuiltinKernelId.function b)).simdSize * 16
              < UINT32_MOD))
      ∧ appendMemoryCopy.expectedSegments 65539 66003 300
        = [{ size := 61, elementSize := 1, builtin := Builtin.CopyBufferToBufferSide,
             start := 0 },
           { size := 192, elementSize := 16, builtin := Builtin.CopyBufferToBufferMiddle,
             start := 61 },
           { size := 47, elementSize := 1, builtin := Builtin.CopyBufferToBufferSide,
             start := 253 }]
      ∧ (∃ r, appendMemoryCopy exampleExternal exampleCopyOnlyCommandList exampleDevice 65539
              66003 300 none 0 none = some r
          ∧ r.1 = ze_result_t.ZE_RESULT_SUCCESS
          ∧ (blitCommands r.2.1).filterMap Command.linearBlit
            = [(3, 3, 61), (64, 64, 192), (256, 256, 47)]
          ∧ launches r.2.1 = [])
      ∧ (∃ r, appendMemoryCopy (exampleExternal.withLaunch recordingLaunch) exampleCommandList
              exampleDevice 65539 66003 300 none 0 none = some r
          ∧ r.1 = ze_result_t.ZE_RESULT_SUCCESS
          ∧ launches r.2.1
            = [(1, { groupCountX := 2, groupCountY := 1, groupCountZ := 1 }),
               (2, { groupCountX := 1, groupCountY := 1, groupCountZ := 1 }),
               (1, { groupCountX := 2, groupCountY := 1, groupCountZ := 1 })]
          ∧ blitCommands r.2.1 = []) := by
  have hset : ∀ (k : Kernel) (x : Nat), 0 < x →
      exampleExternal.setGroupSizeResult k x 1 1 = ze_result_t.ZE_RESULT_SUCCESS :=
    fun _ x hx => by simp [exampleExternal, Nat.pos_iff_ne_zero.mp hx]
  have hsimd : ∀ b : Builtin,
      0 < (exampleDevice.getKernel (BuiltinKernelId.function b)).simdSize
        ∧ (exampleDevice.getKernel (BuiltinKernelId.function b)).simdSize * 16
          < UINT32_MOD := fun b => by cases b <;> exact ⟨by decide, by decide⟩
  obtain ⟨r1, hr1, hres1, hblits1, hlaunches1⟩ :=
    (appendMemoryCopy_issues_expected_segments exampleExternal exampleCopyOnlyCommandList
      exampleDevice 65539 66003 300 none 0 none
      (getAlignedAllocation exampleExternal exampleCopyOnlyCommandList exampleDevice 65539
        300).1
      (getAlignedAllocation exampleExternal
        (getAlignedAllocation exampleExternal exampleCopyOnlyCommandList exampleDevice 65539
          300).2.1
        (getAlignedAllocation exampleExternal exampleCopyOnlyCommandList exampleDevice 65539
          300).2.2 66003 300).1
      _ _ _ _ rfl rfl (by decide) (by decide) exampleExternal_keepsModeAndBlits
      exampleExternal_keepsLaunches hset hsimd).2.1 rfl
  obtain ⟨r2, hr2, hres2, hlaunches2, hblits2⟩ :=
    (appendMemoryCopy_issues_expected_segments exampleExternal exampleCommandList
      exampleDevice 65539 66003 300 none 0 none
      (getAlignedAllocation exampleExternal exampleCommandList exampleDevice 65539 300).1
      (getAlignedAllocation exampleExternal
        (getAlignedAllocation exampleExternal exampleCommandList exampleDevice 65539 300).2.1
        (getAlignedAllocation exampleExternal exampleCommandList exampleDevice 65539
          300).2.2 66003 300).1
      _ _ _ _ rfl rfl (by decide) (by decide) exampleExternal_keepsModeAndBlits
      exampleExternal_keepsLaunches hset hsimd).2.2.1 rfl
  refine ⟨⟨by decide, by decide, exampleExternal_keepsModeAndBlits,
    exampleExternal_keepsLaunches, hset, hsimd⟩, by decide,
    ⟨r1, hr1, hres1, ?_, ?_⟩, ⟨r2, hr2, hres2, ?_, ?_⟩⟩
  · rw [hblits1]; decide
  · rw [hlaunches1]; decide
  · rw [hlaunches2]; decide
  · rw [hblits2]; decide

/-! ## Theorems: the event signals of `appendMemoryCopy` -/

/-- On a copy-only list, with an ordinary event whose profiling stub does nothing,
`appendMemoryCopyBlit` succeeds and appends the blit and then the signal of the event. -/
theorem appendMemoryCopyBlit_stream (ext : External) (cl : CommandList)
    (dstPtrAlloc : GraphicsAllocation) (dstOffset : Nat) (srcPtrAlloc : GraphicsAllocation)
    (srcOffset size : Nat) (event : Event)
    (hcopy : cl.isCopyOnlyCmdList = true) (hts : event.isTimestampEvent = false)
    (hprofiling : ∀ c beforeWalker, ext.appendEventForProfiling c (some event) beforeWalker = c) :
    ∃ cl1 : CommandList,
      appendMemoryCopyBlit ext cl dstPtrAlloc dstOffset srcPtrAlloc srcOffset size (some event)
          = some (ze_result_t.ZE_RESULT_SUCCESS, cl1)
        ∧ cl1.isCopyOnlyCmdList = true
        ∧ cl1.commandContainer.commandStream
            = cl.commandContainer.commandStream
              ++ [Command.blitCommandsForBuffer
                    (BlitProperties.constructPropertiesForCopyBuffer dstPtrAlloc srcPtrAlloc
                      { x := dstOffset, y := 0, z := 0 } { x := srcOffset, y := 0, z := 0 }
                      { x := size, y := 0, z := 0 } 0 0 0 0),
                  Command.miFlushDw event.gpuAddress ImmediateData.STATE_SIGNALED false true] := by
  unfold appendMemoryCopyBlit
  simp only [hprofiling, appendSignalEventPostWalker, hts, appendSignalEvent, hcopy]
  refine ⟨_, rfl, ?_, ?_⟩
  · simp [hcopy]
  · simp [CommandContainer.encode, CommandContainer.addToResidencyContainer]

/-- On a copy-only list every expected segment appends its blit and then the signal of the
event. -/
theorem foldl_copySegment_stream (ext : External)
    (dstAllocationStruct srcAllocationStruct : AlignedAllocationData) (event : Event)
    (hts : event.isTimestampEvent = false)
    (hprofiling : ∀ c beforeWalker, ext.appendEventForProfiling c (some event) beforeWalker = c)
    (segs : List ExpectedSegment) :
    ∀ (cl : CommandList) (device : Device), cl.isCopyOnlyCmdList = true →
      ∃ cl1 : CommandList,
        segs.foldl
            (fun (state : Option (ze_result_t × CommandList × Device))
                (seg : ExpectedSegment) =>
              state.bind fun st =>
                if st.1 = ze_result_t.ZE_RESULT_SUCCESS then
                  appendMemoryCopy.copySegment ext st.2.1 st.2.2 dstAllocationStruct
                    srcAllocationStruct (dstAllocationStruct.offset + seg.start)
                    (srcAllocationStruct.offset + seg.start) seg.size seg.elementSize
                    seg.builtin (some event)
                else some st)
            (some (ze_result_t.ZE_RESULT_SUCCESS, cl, device))
          = some (ze_result_t.ZE_RESULT_SUCCESS, cl1, device)
        ∧ cl1.isCopyOnlyCmdList = true
        ∧ cl1.commandContainer.commandStream
            = cl.commandContainer.commandStream
              ++ (segs.map fun seg =>
                    [Command.blitCommandsForBuffer
                      (BlitProperties.constructPropertiesForCopyBuffer
                        dstAllocationStruct.alloc srcAllocationStruct.alloc
                        { x := dstAllocationStruct.offset + seg.start, y := 0, z := 0 }
                        { x := srcAllocationStruct.offset + seg.start, y := 0, z := 0 }
                        { x := toUint32 seg.size, y := 0, z := 0 } 0 0 0 0),
                     Command.miFlushDw event.gpuAddress ImmediateData.STATE_SIGNALED false
                       true]).flatten := by
  induction segs with
  | nil => intro cl device hcopy; exact ⟨cl, rfl, hcopy, by simp⟩
  | cons seg rest ih =>
    intro cl device hcopy
    obtain ⟨cl1, h1, hmode1, hstream1⟩ := appendMemoryCopyBlit_stream ext cl
      dstAllocationStruct.alloc (dstAllocationStruct.offset + seg.start)
      srcAllocationStruct.alloc (srcAllocationStruct.offset + seg.start) (toUint32 seg.size)
      event hcopy hts hprofiling
    obtain ⟨cl2, h2, hmode2, hstream2⟩ := ih cl1 device hmode1
    refine ⟨cl2, ?_, hmode2, ?_⟩
    · rw [List.foldl_cons]
      simp only [Option.some_bind, if_true, appendMemoryCopy.copySegment, hcopy, h1,
        Option.map_some']
      exact h2
    · rw [hstream2, hstream1]
      simp

/-- C30: the claim fails on copy-only lists. For every `appendMemoryCopy` on a copy-only list
with an ordinary (non-null, non-timestamp) signal event whose profiling stub does nothing,
and buffers within the 64-bit address space, the call succeeds and appends, for each
non-zero segment in turn, the blit of the segment and then the signal of the event
(`appendMemoryCopyBlit` signals after its blit), and then the signal once more (the call of
`appendSignalEventPostWalker` at the end of `appendMemoryCopy`). The signal is so emitted
once per segment and once at the end, and the blit of every segment but the first follows
a signal of the event. -/
theorem appendMemoryCopy_copy_only_signals_after_each_blit (ext : External)
    (cl : CommandList) (device : Device) (dstptr srcptr size : Nat) (event : Event)
    (numWaitEvents : Nat) (phWaitEvents : Option (List ze_event_handle_t))
    (hcopy : cl.isCopyOnlyCmdList = true) (hts : event.isTimestampEvent = false)
    (hprofiling : ∀ c beforeWalker, ext.appendEventForProfiling c (some event) beforeWalker = c)
    (hdst : dstptr + size < UINT64_MOD) (hsrc : srcptr + size < UINT64_MOD) :
    ∃ (r : ze_result_t × CommandList × Device) (blit : ExpectedSegment → Command),
      appendMemoryCopy ext cl device dstptr srcptr size (some event) numWaitEvents phWaitEvents
          = some r
        ∧ (∀ seg, (blit seg).isBlit = true)
        ∧ r.2.1.commandContainer.commandStream
            = cl.commandContainer.commandStream
              ++ ((appendMemoryCopy.expectedSegments dstptr srcptr size).map fun seg =>
                    [blit seg,
                     Command.miFlushDw event.gpuAddress ImmediateData.STATE_SIGNALED false
                       true]).flatten
              ++ [Command.miFlushDw event.gpuAddress ImmediateData.STATE_SIGNALED false true]
        ∧ (r.2.1.commandContainer.commandStream.drop
              cl.commandContainer.commandStream.length).count
            (Command.miFlushDw event.gpuAddress ImmediateData.STATE_SIGNALED false true)
            = (appendMemoryCopy.expectedSegments dstptr srcptr size).length + 1 := by
  have hc1 := getAlignedAllocation_commandContainer ext cl device dstptr size
  rcases hres1 : getAlignedAllocation ext cl device dstptr size with ⟨dstA, cl1, device1⟩
  rw [hres1] at hc1
  have hc2 := getAlignedAllocation_commandContainer ext cl1 device1 srcptr size
  rcases hres2 : getAlignedAllocation ext cl1 device1 srcptr size with ⟨srcA, cl2, device2⟩
  rw [hres2] at hc2
  simp only at hc1 hc2
  rw [appendMemoryCopy_eq_foldl ext cl device dstptr srcptr size (some event) numWaitEvents
    phWaitEvents dstA srcA cl1 cl2 device1 device2 hres1 hres2 hdst hsrc]
  have hmode2 : cl2.isCopyOnlyCmdList = true := by rw [hc2.2, hc1.2, hcopy]
  obtain ⟨cl3, h3, hmode3, hstream3⟩ := foldl_copySegment_stream ext dstA srcA event hts
    hprofiling (appendMemoryCopy.expectedSegments dstptr srcptr size) cl2 device2 hmode2
  rw [hprofiling, h3]
  have hstream :
      ∀ segs : List (List Command), ∀ pre : List Command, ∀ s : Command,
        (∀ l ∈ segs, l.count s = 1) →
        ((pre ++ segs.flatten ++ [s]).drop pre.length).count s = segs.length + 1 := by
    intro segs pre s hl
    rw [List.append_assoc, List.drop_left, List.count_append]
    simp only [List.count_singleton_self, Nat.add_right_cancel_iff]
    induction segs with
    | nil => rfl
    | cons l rest ih =>
      rw [List.flatten_cons, List.count_append, hl l (List.mem_cons_self _ _),
        ih (fun l' hl' => hl l' (List.mem_cons_of_mem _ hl')), List.length_cons]
      omega
  obtain ⟨cc, hcc⟩ : ∃ cc : CommandContainer,
      cc = (cl3.commandContainer.addToResidencyContainer event.allocation).encode
        (Command.miFlushDw event.gpuAddress ImmediateData.STATE_SIGNALED false true) :=
    ⟨_, rfl⟩
  have hccs : cc.commandStream = cl3.commandContainer.commandStream
      ++ [Command.miFlushDw event.gpuAddress ImmediateData.STATE_SIGNALED false true] := by
    rw [hcc]; rfl
  have hpw : appendSignalEventPostWalker ext cl3 (some event)
      = some { cl3 with commandContainer := cc } := by
    simp [appendSignalEventPostWalker, hts, appendSignalEvent, hmode3, hcc]
  simp only [Option.some_bind, hpw, Option.map_some', hmode3, Bool.not_true, Bool.and_false,
    Bool.false_eq_true, if_false]
  have hfinal : cc.commandStream
      = cl.commandContainer.commandStream
        ++ ((appendMemoryCopy.expectedSegments dstptr srcptr size).map fun seg =>
              [Command.blitCommandsForBuffer
                (BlitProperties.constructPropertiesForCopyBuffer dstA.alloc srcA.alloc
                  { x := dstA.offset + seg.start, y := 0, z := 0 }
                  { x := srcA.offset + seg.start, y := 0, z := 0 }
                  { x := toUint32 seg.size, y := 0, z := 0 } 0 0 0 0),
               Command.miFlushDw event.gpuAddress ImmediateData.STATE_SIGNALED false
                 true]).flatten
        ++ [Command.miFlushDw event.gpuAddress ImmediateData.STATE_SIGNALED false true] := by
    rw [hccs, hstream3, hc2.1, hc1.1]
  refine ⟨_, fun seg => Command.blitCommandsForBuffer
      (BlitProperties.constructPropertiesForCopyBuffer dstA.alloc srcA.alloc
        { x := dstA.offset + seg.start, y := 0, z := 0 }
        { x := srcA.offset + seg.start, y := 0, z := 0 }
        { x := toUint32 seg.size, y := 0, z := 0 } 0 0 0 0), rfl, fun _ => rfl, hfinal, ?_⟩
  show (cc.commandStream.drop cl.commandContainer.commandStream.length).count _ = _
  rw [hfinal, hstream, List.length_map]
  intro l hl
  obtain ⟨seg, _, rfl⟩ := List.mem_map.mp hl
  simp [List.count_cons]

/-- Witness of C30: the copy of 300 bytes from `0x101D3` to `0x10003` on the copy-only
example list, signalling `exampleEvent`; it has three non-zero segments. -/
theorem appendMemoryCopy_copy_only_signals_after_each_blit_witness :
    exampleCopyOnlyCommandList.isCopyOnlyCmdList = true
      ∧ exampleEvent.isTimestampEvent = false
      ∧ (∀ c beforeWalker,
          exampleExternal.appendEventForProfiling c (some exampleEvent) beforeWalker = c)
      ∧ 65539 + 300 < UINT64_MOD ∧ 66003 + 300 < UINT64_MOD
      ∧ ∃ (r : ze_result_t × CommandList × Device) (blit : ExpectedSegment → Command),
          appendMemoryCopy exampleExternal exampleCopyOnlyCommandList exampleDevice 65539 66003
              300 (some exampleEvent) 0 none = some r
            ∧ (∀ seg, (blit seg).isBlit = true)
            ∧ r.2.1.commandContainer.commandStream
                = exampleCopyOnlyCommandList.commandContainer.commandStream
                  ++ ((appendMemoryCopy.expectedSegments 65539 66003 300).map fun seg =>
                        [blit seg,
                         Command.miFlushDw exampleEvent.gpuAddress ImmediateData.STATE_SIGNALED
                           false true]).flatten
                  ++ [Command.miFlushDw exampleEvent.gpuAddress ImmediateData.STATE_SIGNALED
                        false true]
            ∧ (r.2.1.commandContainer.commandStream.drop
                  exampleCopyOnlyCommandList.commandContainer.commandStream.length).count
                (Command.miFlushDw exampleEvent.gpuAddress ImmediateData.STATE_SIGNALED false
                  true)
                = (appendMemoryCopy.expectedSegments 65539 66003 300).length + 1 :=
  ⟨rfl, rfl, fun _ _ => rfl, by decide, by decide,
   appendMemoryCopy_copy_only_signals_after_each_blit exampleExternal
     exampleCopyOnlyCommandList exampleDevice 65539 66003 300 exampleEvent 0 none rfl rfl
     (fun _ _ => rfl) (by decide) (by decide)⟩

/-- Evaluations for C30: the command streams three copies leave, each command shown as the
pair (is a copy command, is a signal of `exampleEvent`); both example lists start with two
commands that are neither. The copy of 300 bytes of the witness on the copy-only list: each
of the three blits is followed by a signal and a fourth signal ends the stream. The same
copy on the compute list: three walkers, one signal, the flush. A copy of one aligned
segment of 64 bytes on the copy-only list: the blit and two signals. -/
theorem appendMemoryCopy_signal_examples :
    (appendMemoryCopy exampleExternal exampleCopyOnlyCommandList exampleDevice 65539 66003 300
        (some exampleEvent) 0 none).map
        (fun r => r.2.1.commandContainer.commandStream.map
          (fun c => (c.isCopy, c.signals exampleEvent)))
      = some [(false, false), (false, false), (true, false), (false, true), (true, false),
              (false, true), (true, false), (false, true), (false, true)]
    ∧ (appendMemoryCopy exampleExternal exampleCommandList exampleDevice 65539 66003 300
        (some exampleEvent) 0 none).map
        (fun r => r.2.1.commandContainer.commandStream.map
          (fun c => (c.isCopy, c.signals exampleEvent)))
      = some [(false, false), (false, false), (true, false), (true, false), (true, false),
              (false, true), (false, false)]
    ∧ (appendMemoryCopy exampleExternal exampleCopyOnlyCommandList exampleDevice 65536 66048 64
        (some exampleEvent) 0 none).map
        (fun r => r.2.1.commandContainer.commandStream.map
          (fun c => (c.isCopy, c.signals exampleEvent)))
      = some [(false, false), (false, false), (true, false), (false, true), (false, true)] := by
  refine ⟨?_, ?_, ?_⟩ <;> decide

end L0
